import Mathlib

/-!
Generated Azure REST clients and the Redis cache data source.

A shallow embedding of the generated preparer / sender / responder triples of
`automation.WebhookClient`, `graphrbac.ObjectsClient`, `sql.ServerUsagesClient`,
`sql.ElasticPoolsClient`, `sql.BackupLongTermRetentionPoliciesClient` and
`sql.SyncMembersClient`, of their long-running operations and `...Complete` iterators,
and of `dataSourceArmRedisCacheRead`.

Go maps are association lists, a nil pointer is `none`, a `(value, error)` pair keeps
its two components, and requests handed to a sender are recorded in a trace.
-/

set_option autoImplicit false
set_option linter.unusedVariables false
set_option linter.dupNamespace false

/-! ## Go values shared by all packages -/

/-- Go `error` values that occur in the clients and in the data source. -/
inductive Error where
  /-- An error produced by a collaborator (transport, marshalling, schema). -/
  | plain (msg : String)
  /-- The `autorest.DetailedError` built by `autorest.NewErrorWithError`. -/
  | detailed (original : Error) (packageType method : String) (statusCode : Option Nat)
      (message : String)
  /-- The `validation.Error` built by `validation.NewError`. -/
  | validation (packageType method message : String)
  /-- The error of `azure.WithErrorUnlessStatusCode`: the actual code and the raw body. -/
  | unexpectedStatus (statusCode : Nat) (body : String)
  /-- The error of `autorest.ByUnmarshallingJSON` on a malformed body. -/
  | decodeError (body : String)
  /-- The value of `fmt.Errorf(format, args...)` whose arguments are strings. -/
  | errorf (format : String) (args : List String)
  /-- The value of `fmt.Errorf(format, args..., err)` whose last argument is an error. -/
  | errorfWrap (format : String) (args : List String) (cause : Error)
  /-- The terminal outcome `OperationFailed` of a long-running operation, with the body of
  the last response. -/
  | operationFailed (body : String)
  /-- The terminal outcome `OperationCanceled` of a long-running operation, with the body
  of the last response. -/
  | operationCanceled (body : String)
  deriving DecidableEq, Repr

namespace Error

/-- The text of `err.Error()`. -/
def Error : Error → String
  | plain msg => msg
  | detailed original packageType method _ message =>
      packageType ++ "#" ++ method ++ ": " ++ message ++ ": " ++ original.Error
  | validation packageType method message =>
      packageType ++ "#" ++ method ++ ": Invalid input: " ++ message
  | unexpectedStatus _ body => "unexpected status: " ++ body
  | decodeError body => "error unmarshalling: " ++ body
  | errorf format args => format ++ String.join args
  | errorfWrap format args cause => format ++ String.join args ++ cause.Error
  | operationFailed body => "OperationFailed: " ++ body
  | operationCanceled body => "OperationCanceled: " ++ body

end Error

namespace reflect

mutual
/-- A Go value as reflection sees it: what `validation.Validate` and `autorest.WithJSON`
receive as `interface{}`. -/
inductive Value where
  | string (s : String)
  | bool (b : Bool)
  | other (rendering : String)
  | nilPtr
  | ptr (elem : Value)
  | struct (fields : Fields)
  deriving DecidableEq, Repr
/-- The named fields of a struct value, in declaration order. -/
inductive Fields where
  | nil
  | cons (name : String) (value : Value) (rest : Fields)
  deriving DecidableEq, Repr
end

/-- The reflective view of a `*string`. -/
def ofStringPtr : Option String → Value
  | none => .nilPtr
  | some s => .ptr (.string s)

/-- The reflective view of a `*bool`. -/
def ofBoolPtr : Option Bool → Value
  | none => .nilPtr
  | some b => .ptr (.bool b)

end reflect

namespace http

abbrev StatusOK : Nat := 200
abbrev StatusCreated : Nat := 201
abbrev StatusAccepted : Nat := 202
abbrev StatusNoContent : Nat := 204
abbrev StatusNotFound : Nat := 404

/-- A prepared `*http.Request`. -/
structure Request where
  Method : String
  URL : String
  ContentType : Option String
  Body : Option String
  deriving DecidableEq, Repr

/-- A `*http.Response`; `Closed` counts how often `Body.Close` has run on its stream. -/
structure Response where
  StatusCode : Nat
  Body : String
  Closed : Nat
  deriving DecidableEq, Repr

end http

/-! ## The go-autorest runtime -/

namespace autorest

/-- Go `autorest.Response`: a wrapper of the `*http.Response` pointer. -/
structure Response where
  Response : Option http.Response
  deriving DecidableEq, Repr

/-- The upper-case hexadecimal digit of `n % 16`. -/
def hexDigit (n : Nat) : Char :=
  if n % 16 < 10 then Char.ofNat (48 + n % 16) else Char.ofNat (55 + n % 16)

/-- The UTF-8 bytes of a character. -/
def utf8Bytes (c : Char) : List Nat :=
  let n := c.toNat
  if n < 128 then [n]
  else if n < 2048 then [192 + n / 64, 128 + n % 64]
  else if n < 65536 then [224 + n / 4096, 128 + n / 64 % 64, 128 + n % 64]
  else [240 + n / 262144, 128 + n / 4096 % 64, 128 + n / 64 % 64, 128 + n % 64]

/-- The characters percent-encoding leaves alone: letters, digits, `-`, `_`, `.`, `~`. -/
def unreserved (c : Char) : Bool :=
  c.isAlphanum || c == '-' || c == '_' || c == '.' || c == '~'

/-- The escape `%XX` of one byte. -/
def percentByte (b : Nat) : List Char :=
  ['%', hexDigit (b / 16), hexDigit b]

/-- Modelled from the spec: the query-position encoding that `autorest.Encode` applies
(the go-autorest runtime is absent): unreserved characters are kept, a space becomes `+`,
every other character is percent-encoded byte by byte. -/
def queryEscapeChar (c : Char) : List Char :=
  if unreserved c then [c]
  else if c == ' ' then ['+']
  else (utf8Bytes c).flatMap percentByte

/-- Modelled from the spec: the query-position encoding of a string (the go-autorest
runtime is absent). -/
def queryEscape (s : List Char) : List Char :=
  s.flatMap queryEscapeChar

/-- Modelled from the spec: the path-position encoding of a string (the go-autorest
runtime is absent): the query encoding with every `+` replaced by `%20`. -/
def pathEscape (s : List Char) : List Char :=
  (queryEscape s).flatMap (fun c => if c == '+' then ['%', '2', '0'] else [c])

/-- Modelled from the spec: `autorest.Encode(location, v)` (the go-autorest runtime is
absent): values are percent-encoded per their position, path segment or query string,
and left as they are for any other location. -/
def Encode (location : String) (v : String) : String :=
  if location = "path" then String.mk (pathEscape v.toList)
  else if location = "query" then String.mk (queryEscape v.toList)
  else v

/-- Modelled from the spec: `to.String` (the go-autorest runtime is absent): the string
a pointer refers to, or the empty string for nil. -/
def to_String (s : Option String) : String :=
  s.getD ""

/-- The prepare decorators the generated preparers pass to `autorest.CreatePreparer`. -/
inductive PrepareDecorator where
  | AsContentType (contentType : String)
  | AsGet
  | AsPut
  | AsPost
  | AsPatch
  | AsDelete
  | WithBaseURL (baseURL : String)
  | WithPathParameters (path : String) (pathParameters : List (String × String))
  | WithJSON (v : reflect.Value)
  | WithQueryParameters (queryParameters : List (String × String))
  deriving DecidableEq, Repr

export PrepareDecorator (AsContentType AsGet AsPut AsPost AsPatch AsDelete WithBaseURL
  WithPathParameters WithJSON WithQueryParameters)

/-- Go `autorest.Preparer` as built by `CreatePreparer`: the decorators in call order. -/
abbrev Preparer := List PrepareDecorator

/-- Go `autorest.CreatePreparer(decorators...)`. -/
def CreatePreparer (decorators : List PrepareDecorator) : Preparer :=
  decorators

end autorest

/-! ## Parameter validation -/

namespace regexp

/-- One item of a bracketed character class. -/
inductive ClassItem where
  | lit (c : Char)
  | word
  deriving DecidableEq, Repr

/-- The characters `\w` stands for. -/
def isWord (c : Char) : Bool :=
  c.isAlphanum || c == '_'

/-- Whether a character belongs to a class item. -/
def ClassItem.accepts : ClassItem → Char → Bool
  | .lit c, x => x == c
  | .word, x => isWord x

/-- Reads the items of a character class up to its closing bracket and returns them with
the rest of the pattern; `escaped` says that the previous character was a backslash. -/
def parseClass : List Char → Bool → Option (List ClassItem × List Char)
  | [], _ => none
  | c :: rest, true =>
    (parseClass rest false).map
      (fun p => ((if c = 'w' then ClassItem.word else ClassItem.lit c) :: p.1, p.2))
  | c :: rest, false =>
    if c = ']' then some ([], rest)
    else if c = '\\' then parseClass rest true
    else (parseClass rest false).map (fun p => (ClassItem.lit c :: p.1, p.2))

/-- Modelled from the spec: Go `regexp.MatchString` (the standard library is absent) for
the one shape of pattern the clients use, `^[class]+$`: a non-empty string all of whose
characters lie in the class. A pattern of any other shape matches nothing. -/
def MatchString (pattern : String) (s : String) : Bool :=
  match pattern.toList with
  | '^' :: '[' :: body =>
    match parseClass body false with
    | some (items, ['+', '$']) =>
      !s.toList.isEmpty && s.toList.all (fun c => items.any (fun i => i.accepts c))
    | _ => false
  | _ => false

end regexp

namespace validation

/-- The constraint names the clients use (`validation.Pattern`, `validation.Null`). -/
inductive ConstraintName where
  | Pattern
  | Null
  deriving DecidableEq, Repr

/-- The `Rule` of a constraint: a regular expression or a boolean. -/
inductive Rule where
  | string (s : String)
  | bool (b : Bool)
  deriving DecidableEq, Repr

/-- Go `validation.Constraint`. -/
inductive Constraint where
  | mk (Target : String) (Name : ConstraintName) (Rule : Rule) (Chain : List Constraint)

/-- Go `validation.Validation`: a value and the constraints it must meet. -/
structure Validation where
  TargetValue : reflect.Value
  Constraints : List Constraint

/-- The text after the last dot of a target such as `parameters.Name`. -/
def lastSegment (target : String) : String :=
  String.mk ((target.toList.reverse.takeWhile (fun c => c != '.')).reverse)

/-- Modelled from the spec: the error `validation.Validate` reports for a constraint that
is not met (the go-autorest runtime is absent). The message names the target, the
constraint and the details; it leaves out the `value=` field, the Go-syntax rendering of
the rejected value, that the message of the library carries between the two. -/
def createError (target : String) (name : ConstraintName) (details : String) : Error :=
  Error.plain ("autorest/validation: validation failed: parameter=" ++ target ++
    " constraint=" ++ (match name with | .Pattern => "Pattern" | .Null => "Null") ++
    " details: " ++ details)

mutual
/-- Modelled from the spec: the check of one constraint against one value that
`validation.Validate` performs (the go-autorest runtime is absent). A string is matched
against a `Pattern`; a nil pointer is an error exactly when `Null` is required (`Rule`
true), and a non-nil pointer passes its referent to the chained constraints; a struct
passes the field named by the last segment of the target to the same constraint. -/
def validateValue : reflect.Value → Constraint → Option Error
  | .string s, .mk target name rule _ =>
    match name, rule with
    | .Pattern, .string pattern =>
      if regexp.MatchString pattern s then none
      else some (createError target name ("value doesn't match pattern " ++ pattern))
    | _, _ => some (createError target name "constraint is not applicable to string type")
  | .bool _, _ => none
  | .other _, _ => none
  | .nilPtr, .mk target name rule _ =>
    match rule with
    | .bool true => some (createError target name "value can not be null; required parameter")
    | .bool false => none
    | .string _ => some (createError target name "rule must be bool value for Null constraint")
  | .ptr elem, .mk _ _ _ chain => chain.findSome? (fun c => validateValue elem c)
  | .struct fields, c => validateField fields c
/-- The struct case of `validateValue`: finds the field the target names. -/
def validateField : reflect.Fields → Constraint → Option Error
  | .nil, .mk target name _ _ => some (createError target name "field doesn't exist")
  | .cons field value rest, .mk target name rule chain =>
    if field = lastSegment target then validateValue value (.mk target name rule chain)
    else validateField rest (.mk target name rule chain)
end

/-- Modelled from the spec: `validation.Validate` (the go-autorest runtime is absent):
the first constraint that is not met, in order, or nil. -/
def Validate (m : List Validation) : Option Error :=
  m.findSome? (fun item => item.Constraints.findSome? (fun c => validateValue item.TargetValue c))

/-- Modelled from the spec: `validation.NewError` (the go-autorest runtime is absent). -/
def NewError (packageType method message : String) : Error :=
  Error.validation packageType method message

end validation

/-! ## Senders, responders and results -/

namespace autorest

/-- Modelled from the spec: the fields of Go `autorest.Client` the generated senders read
(the go-autorest runtime is absent): the retry budget and the wait between attempts. -/
structure Client where
  RetryAttempts : Nat
  RetryDuration : Nat
  deriving DecidableEq, Repr

/-- Modelled from the spec: `autorest.StatusCodesForRetry` (the go-autorest runtime is
absent): the default set of transient status codes, which includes 429 and 5xx codes. -/
def StatusCodesForRetry : List Nat :=
  [408, 429, 500, 502, 503, 504]

/-- The send decorators the generated senders pass to `autorest.SendWithSender`. -/
inductive SendDecorator where
  | DoRetryWithRegistration (client : Client)
  | DoRetryForStatusCodes (attempts : Nat) (backoff : Nat) (codes : List Nat)
  deriving DecidableEq, Repr

export SendDecorator (DoRetryForStatusCodes)

/-- What a sender returns, `(*http.Response, error)`: a response with a nil error, or an
error together with whatever response was received. -/
inductive SendResult where
  | ok (resp : http.Response)
  | failed (resp : Option http.Response) (err : Error)
  deriving DecidableEq, Repr

/-- The respond decorators the generated responders pass to `autorest.Respond`. -/
inductive RespondDecorator where
  | ByInspecting
  | WithErrorUnlessStatusCode (codes : List Nat)
  | ByUnmarshallingJSON
  | ByClosing
  deriving DecidableEq, Repr

export RespondDecorator (ByUnmarshallingJSON ByClosing)

/-- Go `client.ByInspecting()`. -/
def Client.ByInspecting (_client : Client) : RespondDecorator :=
  RespondDecorator.ByInspecting

/-- Modelled from the spec: the properties pointer a resource struct embeds (the models
files are absent), with the one field a client inspects. -/
structure Properties where
  RecoveryServicesBackupPolicyResourceID : Option String
  Document : String
  deriving DecidableEq, Repr

/-- Modelled from the spec: what a JSON body decodes to (the models files are absent):
the fields of the parameter and result structs that the clients read, all optional. -/
structure Payload where
  Name : Option String
  Properties : Option Properties
  IncludeDirectoryObjectReferences : Option Bool
  Value : Option (List String)
  NextLink : Option String
  OdataNextLink : Option String
  deriving DecidableEq, Repr

/-- Modelled from the spec: a parameter or result struct of the models files (absent): the
decoded fields and the response they came with. -/
structure Model extends Payload where
  Response : autorest.Response
  deriving DecidableEq, Repr

/-- The zero value of the decoded fields. -/
def Payload.zero : Payload :=
  { Name := none, Properties := none, IncludeDirectoryObjectReferences := none,
    Value := none, NextLink := none, OdataNextLink := none }

/-- The zero value of a model struct. -/
def Model.zero : Model :=
  { toPayload := Payload.zero, Response := { Response := none } }

/-- The zero value of `autorest.Response`. -/
def Response.zero : autorest.Response :=
  { Response := none }

/-- The collaborators of the generated clients that live outside these files. -/
structure Env where
  /-- Go `preparer.Prepare(...)`: runs the decorators and yields the request or an error. -/
  Prepare : Preparer → Except Error http.Request
  /-- Go `autorest.SendWithSender(client, req, decorators...)`. -/
  SendWithSender : Client → http.Request → List SendDecorator → SendResult
  /-- The JSON decoder behind `autorest.ByUnmarshallingJSON`; `none` for a malformed body. -/
  Unmarshal : String → Option Payload
  /-- The next-page preparer of a list result (`webhookListResultPreparer` and its
  siblings in the models files): an error, no request, or the request for the next page. -/
  ListResultPreparer : Model → Except Error (Option http.Request)

/-- The state a chain of respond decorators works on: the response, the error so far and
the target of `ByUnmarshallingJSON`. -/
structure Responded where
  resp : http.Response
  err : Option Error
  result : Payload
  deriving DecidableEq, Repr

/-- Modelled from the spec: the effect of one respond decorator (the go-autorest runtime
is absent). The status check fails with the actual code and the raw body when the status
is not a member of the expected set; decoding fails on a malformed payload; both are
skipped once an error is set. Closing releases the body stream whatever the outcome. -/
def RespondDecorator.apply (env : Env) : RespondDecorator → Responded → Responded
  | .ByInspecting, s => s
  | .WithErrorUnlessStatusCode codes, s =>
    match s.err with
    | some _ => s
    | none =>
      if codes.contains s.resp.StatusCode then s
      else { s with err := some (Error.unexpectedStatus s.resp.StatusCode s.resp.Body) }
  | .ByUnmarshallingJSON, s =>
    match s.err with
    | some _ => s
    | none =>
      match env.Unmarshal s.resp.Body with
      | some v => { s with result := v }
      | none => { s with err := some (Error.decodeError s.resp.Body) }
  | .ByClosing, s => { s with resp := { s.resp with Closed := s.resp.Closed + 1 } }

/-- Modelled from the spec: `autorest.Respond(resp, decorators...)` (the go-autorest
runtime is absent): the decorators run in call order on the response. -/
def Respond (env : Env) (resp : http.Response) (decorators : List RespondDecorator) :
    Responded :=
  decorators.foldl (fun s d => d.apply env s)
    { resp := resp, err := none, result := Payload.zero }

/-- Modelled from the spec: `autorest.NewErrorWithError` (the go-autorest runtime is
absent): the original error annotated with the package type, the method, the status code
of the response when there is one, and the message naming the stage. -/
def NewErrorWithError (original : Error) (packageType method : String)
    (resp : Option http.Response) (message : String) : Error :=
  Error.detailed original packageType method (resp.map (fun r => r.StatusCode)) message

/-- The result of an operation: its named results `result` and `err`, and the requests
it handed to a sender, in order. -/
structure Outcome (α : Type) where
  result : α
  err : Option Error
  sent : List http.Request

end autorest

namespace azure

/-- Go `azure.WithErrorUnlessStatusCode(codes...)`. -/
def WithErrorUnlessStatusCode (codes : List Nat) : autorest.RespondDecorator :=
  autorest.RespondDecorator.WithErrorUnlessStatusCode codes

/-- Go `azure.DoRetryWithRegistration(client)`. -/
def DoRetryWithRegistration (client : autorest.Client) : autorest.SendDecorator :=
  autorest.SendDecorator.DoRetryWithRegistration client

end azure

/-! ## The generated clients -/

namespace automation

/-- Modelled from the spec: `BaseClient` of the package's client file (absent): the
autorest client, the base URI and the subscription the requests are addressed to. -/
structure BaseClient where
  Client : autorest.Client
  BaseURI : String
  SubscriptionID : String

abbrev Webhook := autorest.Model
abbrev StringResult := autorest.Model
abbrev WebhookListResult := autorest.Model
abbrev WebhookCreateOrUpdateParameters := autorest.Model
abbrev WebhookUpdateParameters := autorest.Model

/-- The reflective view of the properties pointer of a resource. -/
def propertiesValue : Option autorest.Properties → reflect.Value
  | none => .nilPtr
  | some p => .ptr (.struct (.cons "RecoveryServicesBackupPolicyResourceID"
      (reflect.ofStringPtr p.RecoveryServicesBackupPolicyResourceID) .nil))

/-- The value of a `WebhookCreateOrUpdateParameters` as reflection sees it. -/
def WebhookCreateOrUpdateParameters.ValueOf (p : WebhookCreateOrUpdateParameters) :
    reflect.Value :=
  .struct (.cons "Name" (reflect.ofStringPtr p.Name)
    (.cons "WebhookCreateOrUpdateProperties" (propertiesValue p.Properties) .nil))

/-- The value of a `WebhookUpdateParameters` as reflection sees it. -/
def WebhookUpdateParameters.ValueOf (p : WebhookUpdateParameters) : reflect.Value :=
  .struct (.cons "Name" (reflect.ofStringPtr p.Name)
    (.cons "WebhookUpdateProperties" (propertiesValue p.Properties) .nil))

/-- Go `WebhookListResultPage`: a page of values and the function that fetches the next. -/
structure WebhookListResultPage where
  fn : Option (WebhookListResult → autorest.Outcome WebhookListResult)
  wlr : WebhookListResult

/-! ### `automation.WebhookClient` (webhook.go) -/

/-- Go `WebhookClient`. -/
structure WebhookClient extends BaseClient

/-- The preparer that Go `WebhookClient.CreateOrUpdatePreparer` builds: its decorators in call
order. -/
def WebhookClient.CreateOrUpdatePreparer.preparer (client : WebhookClient)
    (resourceGroupName : String) (automationAccountName : String) (webhookName : String)
    (parameters : WebhookCreateOrUpdateParameters) :
    autorest.Preparer :=
  let pathParameters : List (String × String) := [
    ("automationAccountName", autorest.Encode "path" automationAccountName),
    ("resourceGroupName", autorest.Encode "path" resourceGroupName),
    ("subscriptionId", autorest.Encode "path" client.SubscriptionID),
    ("webhookName", autorest.Encode "path" webhookName)]
  let APIVersion := "2015-10-31"
  let queryParameters : List (String × String) := [
    ("api-version", APIVersion)]
  autorest.CreatePreparer [
    autorest.AsContentType "application/json; charset=utf-8",
    autorest.AsPut,
    autorest.WithBaseURL client.BaseURI,
    autorest.WithPathParameters
      "/subscriptions/{subscriptionId}/resourceGroups/{resourceGroupName}/providers/Microsoft.Automation/automationAccounts/{automationAccountName}/webhooks/{webhookName}"
      pathParameters,
    autorest.WithJSON (WebhookCreateOrUpdateParameters.ValueOf parameters),
    autorest.WithQueryParameters queryParameters]

/-- Go `WebhookClient.CreateOrUpdatePreparer`: prepares the request. -/
def WebhookClient.CreateOrUpdatePreparer (env : autorest.Env) (client : WebhookClient)
    (resourceGroupName : String) (automationAccountName : String) (webhookName : String)
    (parameters : WebhookCreateOrUpdateParameters) :
    Except Error http.Request :=
  env.Prepare
    (WebhookClient.CreateOrUpdatePreparer.preparer client resourceGroupName automationAccountName
      webhookName parameters)

/-- Go `WebhookClient.CreateOrUpdateSender`: sends the request. -/
def WebhookClient.CreateOrUpdateSender (env : autorest.Env) (client : WebhookClient)
    (req : http.Request) :
    autorest.SendResult :=
  env.SendWithSender client.Client req
    [azure.DoRetryWithRegistration client.Client]

/-- Go `WebhookClient.CreateOrUpdateResponder`: handles the response; the response it returns is
the one it was
given, after the decorators ran on it. -/
def WebhookClient.CreateOrUpdateResponder (env : autorest.Env) (client : WebhookClient)
    (resp : http.Response) :
    Webhook × Option Error :=
  let r := autorest.Respond env resp [
    client.Client.ByInspecting,
    azure.WithErrorUnlessStatusCode [http.StatusOK, http.StatusCreated],
    autorest.ByUnmarshallingJSON,
    autorest.ByClosing]
  ({ toPayload := r.result, Response := { Response := some r.resp } }, r.err)

/-- The preparer that Go `WebhookClient.DeletePreparer` builds: its decorators in call order. -/
def WebhookClient.DeletePreparer.preparer (client : WebhookClient) (resourceGroupName : String)
    (automationAccountName : String) (webhookName : String) :
    autorest.Preparer :=
  let pathParameters : List (String × String) := [
    ("automationAccountName", autorest.Encode "path" automationAccountName),
    ("resourceGroupName", autorest.Encode "path" resourceGroupName),
    ("subscriptionId", autorest.Encode "path" client.SubscriptionID),
    ("webhookName", autorest.Encode "path" webhookName)]
  let APIVersion := "2015-10-31"
  let queryParameters : List (String × String) := [
    ("api-version", APIVersion)]
  autorest.CreatePreparer [
    autorest.AsDelete,
    autorest.WithBaseURL client.BaseURI,
    autorest.WithPathParameters
      "/subscriptions/{subscriptionId}/resourceGroups/{resourceGroupName}/providers/Microsoft.Automation/automationAccounts/{automationAccountName}/webhooks/{webhookName}"
      pathParameters,
    autorest.WithQueryParameters queryParameters]

/-- Go `WebhookClient.DeletePreparer`: prepares the request. -/
def WebhookClient.DeletePreparer (env : autorest.Env) (client : WebhookClient)
    (resourceGroupName : String) (automationAccountName : String) (webhookName : String) :
    Except Error http.Request :=
  env.Prepare
    (WebhookClient.DeletePreparer.preparer client resourceGroupName automationAccountName
      webhookName)

/-- Go `WebhookClient.DeleteSender`: sends the request. -/
def WebhookClient.DeleteSender (env : autorest.Env) (client : WebhookClient) (req : http.Request) :
    autorest.SendResult :=
  env.SendWithSender client.Client req
    [azure.DoRetryWithRegistration client.Client]

/-- Go `WebhookClient.DeleteResponder`: handles the response; the response it returns is the one
it was
given, after the decorators ran on it. -/
def WebhookClient.DeleteResponder (env : autorest.Env) (client : WebhookClient)
    (resp : http.Response) :
    autorest.Response × Option Error :=
  let r := autorest.Respond env resp [
    client.Client.ByInspecting,
    azure.WithErrorUnlessStatusCode [http.StatusOK],
    autorest.ByClosing]
  ({ Response := some r.resp }, r.err)

/-- The preparer that Go `WebhookClient.GenerateURIPreparer` builds: its decorators in call order.
-/
def WebhookClient.GenerateURIPreparer.preparer (client : WebhookClient)
    (resourceGroupName : String) (automationAccountName : String) :
    autorest.Preparer :=
  let pathParameters : List (String × String) := [
    ("automationAccountName", autorest.Encode "path" automationAccountName),
    ("resourceGroupName", autorest.Encode "path" resourceGroupName),
    ("subscriptionId", autorest.Encode "path" client.SubscriptionID)]
  let APIVersion := "2015-10-31"
  let queryParameters : List (String × String) := [
    ("api-version", APIVersion)]
  autorest.CreatePreparer [
    autorest.AsPost,
    autorest.WithBaseURL client.BaseURI,
    autorest.WithPathParameters
      "/subscriptions/{subscriptionId}/resourceGroups/{resourceGroupName}/providers/Microsoft.Automation/automationAccounts/{automationAccountName}/webhooks/generateUri"
      pathParameters,
    autorest.WithQueryParameters queryParameters]

/-- Go `WebhookClient.GenerateURIPreparer`: prepares the request. -/
def WebhookClient.GenerateURIPreparer (env : autorest.Env) (client : WebhookClient)
    (resourceGroupName : String) (automationAccountName : String) :
    Except Error http.Request :=
  env.Prepare
    (WebhookClient.GenerateURIPreparer.preparer client resourceGroupName automationAccountName)

/-- Go `WebhookClient.GenerateURISender`: sends the request. -/
def WebhookClient.GenerateURISender (env : autorest.Env) (client : WebhookClient)
    (req : http.Request) :
    autorest.SendResult :=
  env.SendWithSender client.Client req
    [azure.DoRetryWithRegistration client.Client]

/-- Go `WebhookClient.GenerateURIResponder`: handles the response; the response it returns is the
one it was
given, after the decorators ran on it. -/
def WebhookClient.GenerateURIResponder (env : autorest.Env) (client : WebhookClient)
    (resp : http.Response) :
    StringResult × Option Error :=
  let r := autorest.Respond env resp [
    client.Client.ByInspecting,
    azure.WithErrorUnlessStatusCode [http.StatusOK],
    autorest.ByUnmarshallingJSON,
    autorest.ByClosing]
  ({ toPayload := r.result, Response := { Response := some r.resp } }, r.err)

/-- The preparer that Go `WebhookClient.GetPreparer` builds: its decorators in call order. -/
def WebhookClient.GetPreparer.preparer (client : WebhookClient) (resourceGroupName : String)
    (automationAccountName : String) (webhookName : String) :
    autorest.Preparer :=
  let pathParameters : List (String × String) := [
    ("automationAccountName", autorest.Encode "path" automationAccountName),
    ("resourceGroupName", autorest.Encode "path" resourceGroupName),
    ("subscriptionId", autorest.Encode "path" client.SubscriptionID),
    ("webhookName", autorest.Encode "path" webhookName)]
  let APIVersion := "2015-10-31"
  let queryParameters : List (String × String) := [
    ("api-version", APIVersion)]
  autorest.CreatePreparer [
    autorest.AsGet,
    autorest.WithBaseURL client.BaseURI,
    autorest.WithPathParameters
      "/subscriptions/{subscriptionId}/resourceGroups/{resourceGroupName}/providers/Microsoft.Automation/automationAccounts/{automationAccountName}/webhooks/{webhookName}"
      pathParameters,
    autorest.WithQueryParameters queryParameters]

/-- Go `WebhookClient.GetPreparer`: prepares the request. -/
def WebhookClient.GetPreparer (env : autorest.Env) (client : WebhookClient)
    (resourceGroupName : String) (automationAccountName : String) (webhookName : String) :
    Except Error http.Request :=
  env.Prepare
    (WebhookClient.GetPreparer.preparer client resourceGroupName automationAccountName webhookName)

/-- Go `WebhookClient.GetSender`: sends the request. -/
def WebhookClient.GetSender (env : autorest.Env) (client : WebhookClient) (req : http.Request) :
    autorest.SendResult :=
  env.SendWithSender client.Client req
    [azure.DoRetryWithRegistration client.Client]

/-- Go `WebhookClient.GetResponder`: handles the response; the response it returns is the one it was
given, after the decorators ran on it. -/
def WebhookClient.GetResponder (env : autorest.Env) (client : WebhookClient)
    (resp : http.Response) :
    Webhook × Option Error :=
  let r := autorest.Respond env resp [
    client.Client.ByInspecting,
    azure.WithErrorUnlessStatusCode [http.StatusOK],
    autorest.ByUnmarshallingJSON,
    autorest.ByClosing]
  ({ toPayload := r.result, Response := { Response := some r.resp } }, r.err)

/-- The preparer that Go `WebhookClient.ListByAutomationAccountPreparer` builds: its decorators in
call order. -/
def WebhookClient.ListByAutomationAccountPreparer.preparer (client : WebhookClient)
    (resourceGroupName : String) (automationAccountName : String) (filter : String) :
    autorest.Preparer :=
  let pathParameters : List (String × String) := [
    ("automationAccountName", autorest.Encode "path" automationAccountName),
    ("resourceGroupName", autorest.Encode "path" resourceGroupName),
    ("subscriptionId", autorest.Encode "path" client.SubscriptionID)]
  let APIVersion := "2015-10-31"
  let queryParameters : List (String × String) := [
    ("api-version", APIVersion)]
  let queryParameters :=
    if filter.length > 0 then queryParameters ++ [("$filter", autorest.Encode "query" filter)] else queryParameters
  autorest.CreatePreparer [
    autorest.AsGet,
    autorest.WithBaseURL client.BaseURI,
    autorest.WithPathParameters
      "/subscriptions/{subscriptionId}/resourceGroups/{resourceGroupName}/providers/Microsoft.Automation/automationAccounts/{automationAccountName}/webhooks"
      pathParameters,
    autorest.WithQueryParameters queryParameters]

/-- Go `WebhookClient.ListByAutomationAccountPreparer`: prepares the request. -/
def WebhookClient.ListByAutomationAccountPreparer (env : autorest.Env) (client : WebhookClient)
    (resourceGroupName : String) (automationAccountName : String) (filter : String) :
    Except Error http.Request :=
  env.Prepare
    (WebhookClient.ListByAutomationAccountPreparer.preparer client resourceGroupName
      automationAccountName filter)

/-- Go `WebhookClient.ListByAutomationAccountSender`: sends the request. -/
def WebhookClient.ListByAutomationAccountSender (env : autorest.Env) (client : WebhookClient)
    (req : http.Request) :
    autorest.SendResult :=
  env.SendWithSender client.Client req
    [azure.DoRetryWithRegistration client.Client]

/-- Go `WebhookClient.ListByAutomationAccountResponder`: handles the response; the response it
returns is the one it was
given, after the decorators ran on it. -/
def WebhookClient.ListByAutomationAccountResponder (env : autorest.Env) (client : WebhookClient)
    (resp : http.Response) :
    WebhookListResult × Option Error :=
  let r := autorest.Respond env resp [
    client.Client.ByInspecting,
    azure.WithErrorUnlessStatusCode [http.StatusOK],
    autorest.ByUnmarshallingJSON,
    autorest.ByClosing]
  ({ toPayload := r.result, Response := { Response := some r.resp } }, r.err)

/-- The preparer that Go `WebhookClient.UpdatePreparer` builds: its decorators in call order. -/
def WebhookClient.UpdatePreparer.preparer (client : WebhookClient) (resourceGroupName : String)
    (automationAccountName : String) (webhookName : String) (parameters : WebhookUpdateParameters) :
    autorest.Preparer :=
  let pathParameters : List (String × String) := [
    ("automationAccountName", autorest.Encode "path" automationAccountName),
    ("resourceGroupName", autorest.Encode "path" resourceGroupName),
    ("subscriptionId", autorest.Encode "path" client.SubscriptionID),
    ("webhookName", autorest.Encode "path" webhookName)]
  let APIVersion := "2015-10-31"
  let queryParameters : List (String × String) := [
    ("api-version", APIVersion)]
  autorest.CreatePreparer [
    autorest.AsContentType "application/json; charset=utf-8",
    autorest.AsPatch,
    autorest.WithBaseURL client.BaseURI,
    autorest.WithPathParameters
      "/subscriptions/{subscriptionId}/resourceGroups/{resourceGroupName}/providers/Microsoft.Automation/automationAccounts/{automationAccountName}/webhooks/{webhookName}"
      pathParameters,
    autorest.WithJSON (WebhookUpdateParameters.ValueOf parameters),
    autorest.WithQueryParameters queryParameters]

/-- Go `WebhookClient.UpdatePreparer`: prepares the request. -/
def WebhookClient.UpdatePreparer (env : autorest.Env) (client : WebhookClient)
    (resourceGroupName : String) (automationAccountName : String) (webhookName : String)
    (parameters : WebhookUpdateParameters) :
    Except Error http.Request :=
  env.Prepare
    (WebhookClient.UpdatePreparer.preparer client resourceGroupName automationAccountName
      webhookName parameters)

/-- Go `WebhookClient.UpdateSender`: sends the request. -/
def WebhookClient.UpdateSender (env : autorest.Env) (client : WebhookClient) (req : http.Request) :
    autorest.SendResult :=
  env.SendWithSender client.Client req
    [azure.DoRetryWithRegistration client.Client]

/-- Go `WebhookClient.UpdateResponder`: handles the response; the response it returns is the one
it was
given, after the decorators ran on it. -/
def WebhookClient.UpdateResponder (env : autorest.Env) (client : WebhookClient)
    (resp : http.Response) :
    Webhook × Option Error :=
  let r := autorest.Respond env resp [
    client.Client.ByInspecting,
    azure.WithErrorUnlessStatusCode [http.StatusOK],
    autorest.ByUnmarshallingJSON,
    autorest.ByClosing]
  ({ toPayload := r.result, Response := { Response := some r.resp } }, r.err)

/-- Go `WebhookClient.listByAutomationAccountNextResults`: retrieves the next set of results, if
any. -/
def WebhookClient.listByAutomationAccountNextResults (env : autorest.Env) (client : WebhookClient)
    (lastResults : WebhookListResult) :
    autorest.Outcome WebhookListResult :=
  let result : WebhookListResult := autorest.Model.zero
  match env.ListResultPreparer lastResults with
  | .error err =>
    { result := result,
      err := some (autorest.NewErrorWithError err "automation.WebhookClient" "listByAutomationAccountNextResults" none
        "Failure preparing next results request"),
      sent := [] }
  | .ok none => { result := result, err := none, sent := [] }
  | .ok (some req) =>
  match client.ListByAutomationAccountSender env req with
  | .failed resp err =>
    let result : WebhookListResult := { result with Response := { Response := resp } }
    { result := result,
      err := some (autorest.NewErrorWithError err "automation.WebhookClient" "listByAutomationAccountNextResults" resp
        "Failure sending next results request"),
      sent := [req] }
  | .ok resp =>
    match client.ListByAutomationAccountResponder env resp with
    | (result, some err) =>
      { result := result,
        err := some (autorest.NewErrorWithError err "automation.WebhookClient" "listByAutomationAccountNextResults" (some resp)
          "Failure responding to next results request"),
        sent := [req] }
    | (result, none) => { result := result, err := none, sent := [req] }

/-- The validation Go `WebhookClient.CreateOrUpdate` runs on its arguments before it prepares a
request. -/
def WebhookClient.CreateOrUpdate.validation (resourceGroupName : String)
    (automationAccountName : String) (webhookName : String)
    (parameters : WebhookCreateOrUpdateParameters) :
    Option Error :=
  validation.Validate [
      { TargetValue := .string resourceGroupName,
        Constraints := [
          .mk "resourceGroupName" .Pattern (.string "^[-\\w\\._]+$") []] },
      { TargetValue := WebhookCreateOrUpdateParameters.ValueOf parameters,
        Constraints := [
          .mk "parameters.Name" .Null (.bool true) [],
          .mk "parameters.WebhookCreateOrUpdateProperties" .Null (.bool true) []] }]

/-- Go `WebhookClient.CreateOrUpdate`. -/
def WebhookClient.CreateOrUpdate (env : autorest.Env) (client : WebhookClient)
    (resourceGroupName : String) (automationAccountName : String) (webhookName : String)
    (parameters : WebhookCreateOrUpdateParameters) :
    autorest.Outcome Webhook :=
  let result : Webhook := autorest.Model.zero
  match WebhookClient.CreateOrUpdate.validation resourceGroupName automationAccountName webhookName parameters with
  | some err =>
    { result := result,
      err := some (validation.NewError "automation.WebhookClient" "CreateOrUpdate" err.Error),
      sent := [] }
  | none =>
  match client.CreateOrUpdatePreparer env resourceGroupName automationAccountName webhookName parameters with
  | .error err =>
    { result := result,
      err := some (autorest.NewErrorWithError err "automation.WebhookClient" "CreateOrUpdate" none
        "Failure preparing request"),
      sent := [] }
  | .ok req =>
  match client.CreateOrUpdateSender env req with
  | .failed resp err =>
    let result : Webhook := { result with Response := { Response := resp } }
    { result := result,
      err := some (autorest.NewErrorWithError err "automation.WebhookClient" "CreateOrUpdate" resp
        "Failure sending request"),
      sent := [req] }
  | .ok resp =>
    match client.CreateOrUpdateResponder env resp with
    | (result, some err) =>
      { result := result,
        err := some (autorest.NewErrorWithError err "automation.WebhookClient" "CreateOrUpdate" (some resp)
          "Failure responding to request"),
        sent := [req] }
    | (result, none) => { result := result, err := none, sent := [req] }

/-- The validation Go `WebhookClient.Delete` runs on its arguments before it prepares a request. -/
def WebhookClient.Delete.validation (resourceGroupName : String) (automationAccountName : String)
    (webhookName : String) :
    Option Error :=
  validation.Validate [
      { TargetValue := .string resourceGroupName,
        Constraints := [
          .mk "resourceGroupName" .Pattern (.string "^[-\\w\\._]+$") []] }]

/-- Go `WebhookClient.Delete`. -/
def WebhookClient.Delete (env : autorest.Env) (client : WebhookClient)
    (resourceGroupName : String) (automationAccountName : String) (webhookName : String) :
    autorest.Outcome autorest.Response :=
  let result : autorest.Response := autorest.Response.zero
  match WebhookClient.Delete.validation resourceGroupName automationAccountName webhookName with
  | some err =>
    { result := result,
      err := some (validation.NewError "automation.WebhookClient" "Delete" err.Error),
      sent := [] }
  | none =>
  match client.DeletePreparer env resourceGroupName automationAccountName webhookName with
  | .error err =>
    { result := result,
      err := some (autorest.NewErrorWithError err "automation.WebhookClient" "Delete" none
        "Failure preparing request"),
      sent := [] }
  | .ok req =>
  match client.DeleteSender env req with
  | .failed resp err =>
    let result : autorest.Response := { Response := resp }
    { result := result,
      err := some (autorest.NewErrorWithError err "automation.WebhookClient" "Delete" resp
        "Failure sending request"),
      sent := [req] }
  | .ok resp =>
    match client.DeleteResponder env resp with
    | (result, some err) =>
      { result := result,
        err := some (autorest.NewErrorWithError err "automation.WebhookClient" "Delete" (some resp)
          "Failure responding to request"),
        sent := [req] }
    | (result, none) => { result := result, err := none, sent := [req] }

/-- The validation Go `WebhookClient.GenerateURI` runs on its arguments before it prepares a
request. -/
def WebhookClient.GenerateURI.validation (resourceGroupName : String)
    (automationAccountName : String) :
    Option Error :=
  validation.Validate [
      { TargetValue := .string resourceGroupName,
        Constraints := [
          .mk "resourceGroupName" .Pattern (.string "^[-\\w\\._]+$") []] }]

/-- Go `WebhookClient.GenerateURI`. -/
def WebhookClient.GenerateURI (env : autorest.Env) (client : WebhookClient)
    (resourceGroupName : String) (automationAccountName : String) :
    autorest.Outcome StringResult :=
  let result : StringResult := autorest.Model.zero
  match WebhookClient.GenerateURI.validation resourceGroupName automationAccountName with
  | some err =>
    { result := result,
      err := some (validation.NewError "automation.WebhookClient" "GenerateURI" err.Error),
      sent := [] }
  | none =>
  match client.GenerateURIPreparer env resourceGroupName automationAccountName with
  | .error err =>
    { result := result,
      err := some (autorest.NewErrorWithError err "automation.WebhookClient" "GenerateURI" none
        "Failure preparing request"),
      sent := [] }
  | .ok req =>
  match client.GenerateURISender env req with
  | .failed resp err =>
    let result : StringResult := { result with Response := { Response := resp } }
    { result := result,
      err := some (autorest.NewErrorWithError err "automation.WebhookClient" "GenerateURI" resp
        "Failure sending request"),
      sent := [req] }
  | .ok resp =>
    match client.GenerateURIResponder env resp with
    | (result, some err) =>
      { result := result,
        err := some (autorest.NewErrorWithError err "automation.WebhookClient" "GenerateURI" (some resp)
          "Failure responding to request"),
        sent := [req] }
    | (result, none) => { result := result, err := none, sent := [req] }

/-- The validation Go `WebhookClient.Get` runs on its arguments before it prepares a request. -/
def WebhookClient.Get.validation (resourceGroupName : String) (automationAccountName : String)
    (webhookName : String) :
    Option Error :=
  validation.Validate [
      { TargetValue := .string resourceGroupName,
        Constraints := [
          .mk "resourceGroupName" .Pattern (.string "^[-\\w\\._]+$") []] }]

/-- Go `WebhookClient.Get`. -/
def WebhookClient.Get (env : autorest.Env) (client : WebhookClient) (resourceGroupName : String)
    (automationAccountName : String) (webhookName : String) :
    autorest.Outcome Webhook :=
  let result : Webhook := autorest.Model.zero
  match WebhookClient.Get.validation resourceGroupName automationAccountName webhookName with
  | some err =>
    { result := result,
      err := some (validation.NewError "automation.WebhookClient" "Get" err.Error),
      sent := [] }
  | none =>
  match client.GetPreparer env resourceGroupName automationAccountName webhookName with
  | .error err =>
    { result := result,
      err := some (autorest.NewErrorWithError err "automation.WebhookClient" "Get" none
        "Failure preparing request"),
      sent := [] }
  | .ok req =>
  match client.GetSender env req with
  | .failed resp err =>
    let result : Webhook := { result with Response := { Response := resp } }
    { result := result,
      err := some (autorest.NewErrorWithError err "automation.WebhookClient" "Get" resp
        "Failure sending request"),
      sent := [req] }
  | .ok resp =>
    match client.GetResponder env resp with
    | (result, some err) =>
      { result := result,
        err := some (autorest.NewErrorWithError err "automation.WebhookClient" "Get" (some resp)
          "Failure responding to request"),
        sent := [req] }
    | (result, none) => { result := result, err := none, sent := [req] }

/-- The validation Go `WebhookClient.ListByAutomationAccount` runs on its arguments before it
prepares a request. -/
def WebhookClient.ListByAutomationAccount.validation (resourceGroupName : String)
    (automationAccountName : String) (filter : String) :
    Option Error :=
  validation.Validate [
      { TargetValue := .string resourceGroupName,
        Constraints := [
          .mk "resourceGroupName" .Pattern (.string "^[-\\w\\._]+$") []] }]

/-- Go `WebhookClient.ListByAutomationAccount`. -/
def WebhookClient.ListByAutomationAccount (env : autorest.Env) (client : WebhookClient)
    (resourceGroupName : String) (automationAccountName : String) (filter : String) :
    autorest.Outcome WebhookListResultPage :=
  let result : WebhookListResultPage := { fn := none, wlr := autorest.Model.zero }
  match WebhookClient.ListByAutomationAccount.validation resourceGroupName automationAccountName filter with
  | some err =>
    { result := result,
      err := some (validation.NewError "automation.WebhookClient" "ListByAutomationAccount" err.Error),
      sent := [] }
  | none =>
  let result : WebhookListResultPage := { result with fn := some (client.listByAutomationAccountNextResults env) }
  match client.ListByAutomationAccountPreparer env resourceGroupName automationAccountName filter with
  | .error err =>
    { result := result,
      err := some (autorest.NewErrorWithError err "automation.WebhookClient" "ListByAutomationAccount" none
        "Failure preparing request"),
      sent := [] }
  | .ok req =>
  match client.ListByAutomationAccountSender env req with
  | .failed resp err =>
    let result : WebhookListResultPage :=
      { result with wlr := { result.wlr with Response := { Response := resp } } }
    { result := result,
      err := some (autorest.NewErrorWithError err "automation.WebhookClient" "ListByAutomationAccount" resp
        "Failure sending request"),
      sent := [req] }
  | .ok resp =>
    match client.ListByAutomationAccountResponder env resp with
    | (page, some err) =>
      { result := { result with wlr := page },
        err := some (autorest.NewErrorWithError err "automation.WebhookClient" "ListByAutomationAccount" (some resp)
          "Failure responding to request"),
        sent := [req] }
    | (page, none) => { result := { result with wlr := page }, err := none, sent := [req] }

/-- The validation Go `WebhookClient.Update` runs on its arguments before it prepares a request. -/
def WebhookClient.Update.validation (resourceGroupName : String) (automationAccountName : String)
    (webhookName : String) (parameters : WebhookUpdateParameters) :
    Option Error :=
  validation.Validate [
      { TargetValue := .string resourceGroupName,
        Constraints := [
          .mk "resourceGroupName" .Pattern (.string "^[-\\w\\._]+$") []] }]

/-- Go `WebhookClient.Update`. -/
def WebhookClient.Update (env : autorest.Env) (client : WebhookClient)
    (resourceGroupName : String) (automationAccountName : String) (webhookName : String)
    (parameters : WebhookUpdateParameters) :
    autorest.Outcome Webhook :=
  let result : Webhook := autorest.Model.zero
  match WebhookClient.Update.validation resourceGroupName automationAccountName webhookName parameters with
  | some err =>
    { result := result,
      err := some (validation.NewError "automation.WebhookClient" "Update" err.Error),
      sent := [] }
  | none =>
  match client.UpdatePreparer env resourceGroupName automationAccountName webhookName parameters with
  | .error err =>
    { result := result,
      err := some (autorest.NewErrorWithError err "automation.WebhookClient" "Update" none
        "Failure preparing request"),
      sent := [] }
  | .ok req =>
  match client.UpdateSender env req with
  | .failed resp err =>
    let result : Webhook := { result with Response := { Response := resp } }
    { result := result,
      err := some (autorest.NewErrorWithError err "automation.WebhookClient" "Update" resp
        "Failure sending request"),
      sent := [req] }
  | .ok resp =>
    match client.UpdateResponder env resp with
    | (result, some err) =>
      { result := result,
        err := some (autorest.NewErrorWithError err "automation.WebhookClient" "Update" (some resp)
          "Failure responding to request"),
        sent := [req] }
    | (result, none) => { result := result, err := none, sent := [req] }

end automation

namespace graphrbac

/-- Modelled from the spec: `BaseClient` of the package's client file (absent): the
autorest client, the base URI and the tenant the requests are addressed to. -/
structure BaseClient where
  Client : autorest.Client
  BaseURI : String
  TenantID : String

abbrev AADObject := autorest.Model
abbrev GetObjectsResult := autorest.Model
abbrev GetObjectsParameters := autorest.Model

/-- The value of a `GetObjectsParameters` as reflection sees it. -/
def GetObjectsParameters.ValueOf (p : GetObjectsParameters) : reflect.Value :=
  .struct (.cons "IncludeDirectoryObjectReferences"
    (reflect.ofBoolPtr p.IncludeDirectoryObjectReferences) .nil)

/-- Go `GetObjectsResultPage`: a page of values and the function that fetches the next. -/
structure GetObjectsResultPage where
  fn : Option (GetObjectsResult → autorest.Outcome GetObjectsResult)
  gor : GetObjectsResult

/-! ### `graphrbac.ObjectsClient` (objects.go) -/

/-- Go `ObjectsClient`. -/
structure ObjectsClient extends BaseClient

/-- The preparer that Go `ObjectsClient.GetCurrentUserPreparer` builds: its decorators in call
order. -/
def ObjectsClient.GetCurrentUserPreparer.preparer (client : ObjectsClient) :
    autorest.Preparer :=
  let pathParameters : List (String × String) := [
    ("tenantID", autorest.Encode "path" client.TenantID)]
  let APIVersion := "1.6"
  let queryParameters : List (String × String) := [
    ("api-version", APIVersion)]
  autorest.CreatePreparer [
    autorest.AsGet,
    autorest.WithBaseURL client.BaseURI,
    autorest.WithPathParameters
      "/{tenantID}/me"
      pathParameters,
    autorest.WithQueryParameters queryParameters]

/-- Go `ObjectsClient.GetCurrentUserPreparer`: prepares the request. -/
def ObjectsClient.GetCurrentUserPreparer (env : autorest.Env) (client : ObjectsClient) :
    Except Error http.Request :=
  env.Prepare (ObjectsClient.GetCurrentUserPreparer.preparer client)

/-- Go `ObjectsClient.GetCurrentUserSender`: sends the request. -/
def ObjectsClient.GetCurrentUserSender (env : autorest.Env) (client : ObjectsClient)
    (req : http.Request) :
    autorest.SendResult :=
  env.SendWithSender client.Client req
    [autorest.DoRetryForStatusCodes client.Client.RetryAttempts client.Client.RetryDuration
      autorest.StatusCodesForRetry]

/-- Go `ObjectsClient.GetCurrentUserResponder`: handles the response; the response it returns is
the one it was
given, after the decorators ran on it. -/
def ObjectsClient.GetCurrentUserResponder (env : autorest.Env) (client : ObjectsClient)
    (resp : http.Response) :
    AADObject × Option Error :=
  let r := autorest.Respond env resp [
    client.Client.ByInspecting,
    azure.WithErrorUnlessStatusCode [http.StatusOK],
    autorest.ByUnmarshallingJSON,
    autorest.ByClosing]
  ({ toPayload := r.result, Response := { Response := some r.resp } }, r.err)

/-- The preparer that Go `ObjectsClient.GetObjectsByObjectIdsPreparer` builds: its decorators in
call order. -/
def ObjectsClient.GetObjectsByObjectIdsPreparer.preparer (client : ObjectsClient)
    (parameters : GetObjectsParameters) :
    autorest.Preparer :=
  let pathParameters : List (String × String) := [
    ("tenantID", autorest.Encode "path" client.TenantID)]
  let APIVersion := "1.6"
  let queryParameters : List (String × String) := [
    ("api-version", APIVersion)]
  autorest.CreatePreparer [
    autorest.AsContentType "application/json; charset=utf-8",
    autorest.AsPost,
    autorest.WithBaseURL client.BaseURI,
    autorest.WithPathParameters
      "/{tenantID}/getObjectsByObjectIds"
      pathParameters,
    autorest.WithJSON (GetObjectsParameters.ValueOf parameters),
    autorest.WithQueryParameters queryParameters]

/-- Go `ObjectsClient.GetObjectsByObjectIdsPreparer`: prepares the request. -/
def ObjectsClient.GetObjectsByObjectIdsPreparer (env : autorest.Env) (client : ObjectsClient)
    (parameters : GetObjectsParameters) :
    Except Error http.Request :=
  env.Prepare (ObjectsClient.GetObjectsByObjectIdsPreparer.preparer client parameters)

/-- Go `ObjectsClient.GetObjectsByObjectIdsSender`: sends the request. -/
def ObjectsClient.GetObjectsByObjectIdsSender (env : autorest.Env) (client : ObjectsClient)
    (req : http.Request) :
    autorest.SendResult :=
  env.SendWithSender client.Client req
    [autorest.DoRetryForStatusCodes client.Client.RetryAttempts client.Client.RetryDuration
      autorest.StatusCodesForRetry]

/-- Go `ObjectsClient.GetObjectsByObjectIdsResponder`: handles the response; the response it
returns is the one it was
given, after the decorators ran on it. -/
def ObjectsClient.GetObjectsByObjectIdsResponder (env : autorest.Env) (client : ObjectsClient)
    (resp : http.Response) :
    GetObjectsResult × Option Error :=
  let r := autorest.Respond env resp [
    client.Client.ByInspecting,
    azure.WithErrorUnlessStatusCode [http.StatusOK],
    autorest.ByUnmarshallingJSON,
    autorest.ByClosing]
  ({ toPayload := r.result, Response := { Response := some r.resp } }, r.err)

/-- The preparer that Go `ObjectsClient.GetObjectsByObjectIdsNextPreparer` builds: its decorators
in call order. -/
def ObjectsClient.GetObjectsByObjectIdsNextPreparer.preparer (client : ObjectsClient)
    (nextLink : String) :
    autorest.Preparer :=
  let pathParameters : List (String × String) := [
    ("nextLink", nextLink),
    ("tenantID", autorest.Encode "path" client.TenantID)]
  let APIVersion := "1.6"
  let queryParameters : List (String × String) := [
    ("api-version", APIVersion)]
  autorest.CreatePreparer [
    autorest.AsPost,
    autorest.WithBaseURL client.BaseURI,
    autorest.WithPathParameters
      "/{tenantID}/{nextLink}"
      pathParameters,
    autorest.WithQueryParameters queryParameters]

/-- Go `ObjectsClient.GetObjectsByObjectIdsNextPreparer`: prepares the request. -/
def ObjectsClient.GetObjectsByObjectIdsNextPreparer (env : autorest.Env) (client : ObjectsClient)
    (nextLink : String) :
    Except Error http.Request :=
  env.Prepare (ObjectsClient.GetObjectsByObjectIdsNextPreparer.preparer client nextLink)

/-- Go `ObjectsClient.GetObjectsByObjectIdsNextSender`: sends the request. -/
def ObjectsClient.GetObjectsByObjectIdsNextSender (env : autorest.Env) (client : ObjectsClient)
    (req : http.Request) :
    autorest.SendResult :=
  env.SendWithSender client.Client req
    [autorest.DoRetryForStatusCodes client.Client.RetryAttempts client.Client.RetryDuration
      autorest.StatusCodesForRetry]

/-- Go `ObjectsClient.GetObjectsByObjectIdsNextResponder`: handles the response; the response it
returns is the one it was
given, after the decorators ran on it. -/
def ObjectsClient.GetObjectsByObjectIdsNextResponder (env : autorest.Env) (client : ObjectsClient)
    (resp : http.Response) :
    GetObjectsResult × Option Error :=
  let r := autorest.Respond env resp [
    client.Client.ByInspecting,
    azure.WithErrorUnlessStatusCode [http.StatusOK],
    autorest.ByUnmarshallingJSON,
    autorest.ByClosing]
  ({ toPayload := r.result, Response := { Response := some r.resp } }, r.err)

/-- Go `ObjectsClient.GetObjectsByObjectIdsNext`. -/
def ObjectsClient.GetObjectsByObjectIdsNext (env : autorest.Env) (client : ObjectsClient)
    (nextLink : String) :
    autorest.Outcome GetObjectsResult :=
  let result : GetObjectsResult := autorest.Model.zero
  match client.GetObjectsByObjectIdsNextPreparer env nextLink with
  | .error err =>
    { result := result,
      err := some (autorest.NewErrorWithError err "graphrbac.ObjectsClient" "GetObjectsByObjectIdsNext" none
        "Failure preparing request"),
      sent := [] }
  | .ok req =>
  match client.GetObjectsByObjectIdsNextSender env req with
  | .failed resp err =>
    let result : GetObjectsResult := { result with Response := { Response := resp } }
    { result := result,
      err := some (autorest.NewErrorWithError err "graphrbac.ObjectsClient" "GetObjectsByObjectIdsNext" resp
        "Failure sending request"),
      sent := [req] }
  | .ok resp =>
    match client.GetObjectsByObjectIdsNextResponder env resp with
    | (result, some err) =>
      { result := result,
        err := some (autorest.NewErrorWithError err "graphrbac.ObjectsClient" "GetObjectsByObjectIdsNext" (some resp)
          "Failure responding to request"),
        sent := [req] }
    | (result, none) => { result := result, err := none, sent := [req] }

/-- Go `ObjectsClient.GetCurrentUser`. -/
def ObjectsClient.GetCurrentUser (env : autorest.Env) (client : ObjectsClient) :
    autorest.Outcome AADObject :=
  let result : AADObject := autorest.Model.zero
  match client.GetCurrentUserPreparer env with
  | .error err =>
    { result := result,
      err := some (autorest.NewErrorWithError err "graphrbac.ObjectsClient" "GetCurrentUser" none
        "Failure preparing request"),
      sent := [] }
  | .ok req =>
  match client.GetCurrentUserSender env req with
  | .failed resp err =>
    let result : AADObject := { result with Response := { Response := resp } }
    { result := result,
      err := some (autorest.NewErrorWithError err "graphrbac.ObjectsClient" "GetCurrentUser" resp
        "Failure sending request"),
      sent := [req] }
  | .ok resp =>
    match client.GetCurrentUserResponder env resp with
    | (result, some err) =>
      { result := result,
        err := some (autorest.NewErrorWithError err "graphrbac.ObjectsClient" "GetCurrentUser" (some resp)
          "Failure responding to request"),
        sent := [req] }
    | (result, none) => { result := result, err := none, sent := [req] }

/-- The function Go `ObjectsClient.GetObjectsByObjectIds` installs as `result.fn`. -/
def ObjectsClient.GetObjectsByObjectIds.fn (env : autorest.Env) (client : ObjectsClient)
    (lastResult : GetObjectsResult) :
    autorest.Outcome GetObjectsResult :=
  if lastResult.OdataNextLink = none ∨ (autorest.to_String lastResult.OdataNextLink).length < 1 then
    { result := autorest.Model.zero, err := none, sent := [] }
  else
    match lastResult.OdataNextLink with
    | some nextLink => client.GetObjectsByObjectIdsNext env nextLink
    | none => { result := autorest.Model.zero, err := none, sent := [] }

/-- The validation Go `ObjectsClient.GetObjectsByObjectIds` runs on its arguments before it
prepares a request. -/
def ObjectsClient.GetObjectsByObjectIds.validation (parameters : GetObjectsParameters) :
    Option Error :=
  validation.Validate [
      { TargetValue := GetObjectsParameters.ValueOf parameters,
        Constraints := [
          .mk "parameters.IncludeDirectoryObjectReferences" .Null (.bool true) []] }]

/-- Go `ObjectsClient.GetObjectsByObjectIds`. -/
def ObjectsClient.GetObjectsByObjectIds (env : autorest.Env) (client : ObjectsClient)
    (parameters : GetObjectsParameters) :
    autorest.Outcome GetObjectsResultPage :=
  let result : GetObjectsResultPage := { fn := none, gor := autorest.Model.zero }
  match ObjectsClient.GetObjectsByObjectIds.validation parameters with
  | some err =>
    { result := result,
      err := some (validation.NewError "graphrbac.ObjectsClient" "GetObjectsByObjectIds" err.Error),
      sent := [] }
  | none =>
  let result : GetObjectsResultPage := { result with fn := some (ObjectsClient.GetObjectsByObjectIds.fn env client) }
  match client.GetObjectsByObjectIdsPreparer env parameters with
  | .error err =>
    { result := result,
      err := some (autorest.NewErrorWithError err "graphrbac.ObjectsClient" "GetObjectsByObjectIds" none
        "Failure preparing request"),
      sent := [] }
  | .ok req =>
  match client.GetObjectsByObjectIdsSender env req with
  | .failed resp err =>
    let result : GetObjectsResultPage :=
      { result with gor := { result.gor with Response := { Response := resp } } }
    { result := result,
      err := some (autorest.NewErrorWithError err "graphrbac.ObjectsClient" "GetObjectsByObjectIds" resp
        "Failure sending request"),
      sent := [req] }
  | .ok resp =>
    match client.GetObjectsByObjectIdsResponder env resp with
    | (page, some err) =>
      { result := { result with gor := page },
        err := some (autorest.NewErrorWithError err "graphrbac.ObjectsClient" "GetObjectsByObjectIds" (some resp)
          "Failure responding to request"),
        sent := [req] }
    | (page, none) => { result := { result with gor := page }, err := none, sent := [req] }

end graphrbac

namespace sql

/-- Modelled from the spec: `BaseClient` of the package's client file (absent): the
autorest client, the base URI and the subscription the requests are addressed to. -/
structure BaseClient where
  Client : autorest.Client
  BaseURI : String
  SubscriptionID : String

abbrev ServerUsageListResult := autorest.Model
abbrev ElasticPool := autorest.Model
abbrev ElasticPoolUpdate := autorest.Model
abbrev ElasticPoolListResult := autorest.Model
abbrev MetricDefinitionListResult := autorest.Model
abbrev MetricListResult := autorest.Model
abbrev BackupLongTermRetentionPolicy := autorest.Model
abbrev BackupLongTermRetentionPolicyListResult := autorest.Model
abbrev SyncMember := autorest.Model
abbrev SyncMemberListResult := autorest.Model
abbrev SyncFullSchemaPropertiesListResult := autorest.Model

/-- The reflective view of the properties pointer of a resource. -/
def propertiesValue : Option autorest.Properties → reflect.Value
  | none => .nilPtr
  | some p => .ptr (.struct (.cons "RecoveryServicesBackupPolicyResourceID"
      (reflect.ofStringPtr p.RecoveryServicesBackupPolicyResourceID) .nil))

/-- The value of an `ElasticPool` as reflection sees it. -/
def ElasticPool.ValueOf (p : ElasticPool) : reflect.Value :=
  .struct (.cons "ElasticPoolProperties" (propertiesValue p.Properties) .nil)

/-- The value of an `ElasticPoolUpdate` as reflection sees it. -/
def ElasticPoolUpdate.ValueOf (p : ElasticPoolUpdate) : reflect.Value :=
  .struct (.cons "ElasticPoolProperties" (propertiesValue p.Properties) .nil)

/-- The value of a `BackupLongTermRetentionPolicy` as reflection sees it. -/
def BackupLongTermRetentionPolicy.ValueOf (p : BackupLongTermRetentionPolicy) :
    reflect.Value :=
  .struct (.cons "BackupLongTermRetentionPolicyProperties" (propertiesValue p.Properties) .nil)

/-- The value of a `SyncMember` as reflection sees it. -/
def SyncMember.ValueOf (p : SyncMember) : reflect.Value :=
  .struct (.cons "SyncMemberProperties" (propertiesValue p.Properties) .nil)

/-- Go `SyncMemberListResultPage`: a page and the function that fetches the next. -/
structure SyncMemberListResultPage where
  fn : Option (SyncMemberListResult → autorest.Outcome SyncMemberListResult)
  smlr : SyncMemberListResult

/-- Go `SyncFullSchemaPropertiesListResultPage`: a page and the function that fetches
the next. -/
structure SyncFullSchemaPropertiesListResultPage where
  fn : Option (SyncFullSchemaPropertiesListResult →
    autorest.Outcome SyncFullSchemaPropertiesListResult)
  sfsplr : SyncFullSchemaPropertiesListResult

/-! ### `sql.ServerUsagesClient` (serverusages.go) -/

/-- Go `ServerUsagesClient`. -/
structure ServerUsagesClient extends BaseClient

/-- The preparer that Go `ServerUsagesClient.ListByServerPreparer` builds: its decorators in call
order. -/
def ServerUsagesClient.ListByServerPreparer.preparer (client : ServerUsagesClient)
    (resourceGroupName : String) (serverName : String) :
    autorest.Preparer :=
  let pathParameters : List (String × String) := [
    ("resourceGroupName", autorest.Encode "path" resourceGroupName),
    ("serverName", autorest.Encode "path" serverName),
    ("subscriptionId", autorest.Encode "path" client.SubscriptionID)]
  let APIVersion := "2014-04-01"
  let queryParameters : List (String × String) := [
    ("api-version", APIVersion)]
  autorest.CreatePreparer [
    autorest.AsGet,
    autorest.WithBaseURL client.BaseURI,
    autorest.WithPathParameters
      "/subscriptions/{subscriptionId}/resourceGroups/{resourceGroupName}/providers/Microsoft.Sql/servers/{serverName}/usages"
      pathParameters,
    autorest.WithQueryParameters queryParameters]

/-- Go `ServerUsagesClient.ListByServerPreparer`: prepares the request. -/
def ServerUsagesClient.ListByServerPreparer (env : autorest.Env) (client : ServerUsagesClient)
    (resourceGroupName : String) (serverName : String) :
    Except Error http.Request :=
  env.Prepare (ServerUsagesClient.ListByServerPreparer.preparer client resourceGroupName serverName)

/-- Go `ServerUsagesClient.ListByServerSender`: sends the request. -/
def ServerUsagesClient.ListByServerSender (env : autorest.Env) (client : ServerUsagesClient)
    (req : http.Request) :
    autorest.SendResult :=
  env.SendWithSender client.Client req
    [azure.DoRetryWithRegistration client.Client]

/-- Go `ServerUsagesClient.ListByServerResponder`: handles the response; the response it returns
is the one it was
given, after the decorators ran on it. -/
def ServerUsagesClient.ListByServerResponder (env : autorest.Env) (client : ServerUsagesClient)
    (resp : http.Response) :
    ServerUsageListResult × Option Error :=
  let r := autorest.Respond env resp [
    client.Client.ByInspecting,
    azure.WithErrorUnlessStatusCode [http.StatusOK],
    autorest.ByUnmarshallingJSON,
    autorest.ByClosing]
  ({ toPayload := r.result, Response := { Response := some r.resp } }, r.err)

/-- Go `ServerUsagesClient.ListByServer`. -/
def ServerUsagesClient.ListByServer (env : autorest.Env) (client : ServerUsagesClient)
    (resourceGroupName : String) (serverName : String) :
    autorest.Outcome ServerUsageListResult :=
  let result : ServerUsageListResult := autorest.Model.zero
  match client.ListByServerPreparer env resourceGroupName serverName with
  | .error err =>
    { result := result,
      err := some (autorest.NewErrorWithError err "sql.ServerUsagesClient" "ListByServer" none
        "Failure preparing request"),
      sent := [] }
  | .ok req =>
  match client.ListByServerSender env req with
  | .failed resp err =>
    let result : ServerUsageListResult := { result with Response := { Response := resp } }
    { result := result,
      err := some (autorest.NewErrorWithError err "sql.ServerUsagesClient" "ListByServer" resp
        "Failure sending request"),
      sent := [req] }
  | .ok resp =>
    match client.ListByServerResponder env resp with
    | (result, some err) =>
      { result := result,
        err := some (autorest.NewErrorWithError err "sql.ServerUsagesClient" "ListByServer" (some resp)
          "Failure responding to request"),
        sent := [req] }
    | (result, none) => { result := result, err := none, sent := [req] }

/-! ### `sql.ElasticPoolsClient` (elasticpools.go) -/

/-- Go `ElasticPoolsClient`. -/
structure ElasticPoolsClient extends BaseClient

/-- The preparer that Go `ElasticPoolsClient.CreateOrUpdatePreparer` builds: its decorators in
call order. -/
def ElasticPoolsClient.CreateOrUpdatePreparer.preparer (client : ElasticPoolsClient)
    (resourceGroupName : String) (serverName : String) (elasticPoolName : String)
    (parameters : ElasticPool) :
    autorest.Preparer :=
  let pathParameters : List (String × String) := [
    ("elasticPoolName", autorest.Encode "path" elasticPoolName),
    ("resourceGroupName", autorest.Encode "path" resourceGroupName),
    ("serverName", autorest.Encode "path" serverName),
    ("subscriptionId", autorest.Encode "path" client.SubscriptionID)]
  let APIVersion := "2014-04-01"
  let queryParameters : List (String × String) := [
    ("api-version", APIVersion)]
  autorest.CreatePreparer [
    autorest.AsContentType "application/json; charset=utf-8",
    autorest.AsPut,
    autorest.WithBaseURL client.BaseURI,
    autorest.WithPathParameters
      "/subscriptions/{subscriptionId}/resourceGroups/{resourceGroupName}/providers/Microsoft.Sql/servers/{serverName}/elasticPools/{elasticPoolName}"
      pathParameters,
    autorest.WithJSON (ElasticPool.ValueOf parameters),
    autorest.WithQueryParameters queryParameters]

/-- Go `ElasticPoolsClient.CreateOrUpdatePreparer`: prepares the request. -/
def ElasticPoolsClient.CreateOrUpdatePreparer (env : autorest.Env) (client : ElasticPoolsClient)
    (resourceGroupName : String) (serverName : String) (elasticPoolName : String)
    (parameters : ElasticPool) :
    Except Error http.Request :=
  env.Prepare
    (ElasticPoolsClient.CreateOrUpdatePreparer.preparer client resourceGroupName serverName
      elasticPoolName parameters)

/-- Go `ElasticPoolsClient.CreateOrUpdateResponder`: handles the response; the response it returns
is the one it was
given, after the decorators ran on it. -/
def ElasticPoolsClient.CreateOrUpdateResponder (env : autorest.Env) (client : ElasticPoolsClient)
    (resp : http.Response) :
    ElasticPool × Option Error :=
  let r := autorest.Respond env resp [
    client.Client.ByInspecting,
    azure.WithErrorUnlessStatusCode [http.StatusOK, http.StatusCreated, http.StatusAccepted],
    autorest.ByUnmarshallingJSON,
    autorest.ByClosing]
  ({ toPayload := r.result, Response := { Response := some r.resp } }, r.err)

/-- The preparer that Go `ElasticPoolsClient.DeletePreparer` builds: its decorators in call order.
-/
def ElasticPoolsClient.DeletePreparer.preparer (client : ElasticPoolsClient)
    (resourceGroupName : String) (serverName : String) (elasticPoolName : String) :
    autorest.Preparer :=
  let pathParameters : List (String × String) := [
    ("elasticPoolName", autorest.Encode "path" elasticPoolName),
    ("resourceGroupName", autorest.Encode "path" resourceGroupName),
    ("serverName", autorest.Encode "path" serverName),
    ("subscriptionId", autorest.Encode "path" client.SubscriptionID)]
  let APIVersion := "2014-04-01"
  let queryParameters : List (String × String) := [
    ("api-version", APIVersion)]
  autorest.CreatePreparer [
    autorest.AsDelete,
    autorest.WithBaseURL client.BaseURI,
    autorest.WithPathParameters
      "/subscriptions/{subscriptionId}/resourceGroups/{resourceGroupName}/providers/Microsoft.Sql/servers/{serverName}/elasticPools/{elasticPoolName}"
      pathParameters,
    autorest.WithQueryParameters queryParameters]

/-- Go `ElasticPoolsClient.DeletePreparer`: prepares the request. -/
def ElasticPoolsClient.DeletePreparer (env : autorest.Env) (client : ElasticPoolsClient)
    (resourceGroupName : String) (serverName : String) (elasticPoolName : String) :
    Except Error http.Request :=
  env.Prepare
    (ElasticPoolsClient.DeletePreparer.preparer client resourceGroupName serverName
      elasticPoolName)

/-- Go `ElasticPoolsClient.DeleteSender`: sends the request. -/
def ElasticPoolsClient.DeleteSender (env : autorest.Env) (client : ElasticPoolsClient)
    (req : http.Request) :
    autorest.SendResult :=
  env.SendWithSender client.Client req
    [azure.DoRetryWithRegistration client.Client]

/-- Go `ElasticPoolsClient.DeleteResponder`: handles the response; the response it returns is the
one it was
given, after the decorators ran on it. -/
def ElasticPoolsClient.DeleteResponder (env : autorest.Env) (client : ElasticPoolsClient)
    (resp : http.Response) :
    autorest.Response × Option Error :=
  let r := autorest.Respond env resp [
    client.Client.ByInspecting,
    azure.WithErrorUnlessStatusCode [http.StatusOK, http.StatusNoContent],
    autorest.ByClosing]
  ({ Response := some r.resp }, r.err)

/-- The preparer that Go `ElasticPoolsClient.GetPreparer` builds: its decorators in call order. -/
def ElasticPoolsClient.GetPreparer.preparer (client : ElasticPoolsClient)
    (resourceGroupName : String) (serverName : String) (elasticPoolName : String) :
    autorest.Preparer :=
  let pathParameters : List (String × String) := [
    ("elasticPoolName", autorest.Encode "path" elasticPoolName),
    ("resourceGroupName", autorest.Encode "path" resourceGroupName),
    ("serverName", autorest.Encode "path" serverName),
    ("subscriptionId", autorest.Encode "path" client.SubscriptionID)]
  let APIVersion := "2014-04-01"
  let queryParameters : List (String × String) := [
    ("api-version", APIVersion)]
  autorest.CreatePreparer [
    autorest.AsGet,
    autorest.WithBaseURL client.BaseURI,
    autorest.WithPathParameters
      "/subscriptions/{subscriptionId}/resourceGroups/{resourceGroupName}/providers/Microsoft.Sql/servers/{serverName}/elasticPools/{elasticPoolName}"
      pathParameters,
    autorest.WithQueryParameters queryParameters]

/-- Go `ElasticPoolsClient.GetPreparer`: prepares the request. -/
def ElasticPoolsClient.GetPreparer (env : autorest.Env) (client : ElasticPoolsClient)
    (resourceGroupName : String) (serverName : String) (elasticPoolName : String) :
    Except Error http.Request :=
  env.Prepare
    (ElasticPoolsClient.GetPreparer.preparer client resourceGroupName serverName elasticPoolName)

/-- Go `ElasticPoolsClient.GetSender`: sends the request. -/
def ElasticPoolsClient.GetSender (env : autorest.Env) (client : ElasticPoolsClient)
    (req : http.Request) :
    autorest.SendResult :=
  env.SendWithSender client.Client req
    [azure.DoRetryWithRegistration client.Client]

/-- Go `ElasticPoolsClient.GetResponder`: handles the response; the response it returns is the one
it was
given, after the decorators ran on it. -/
def ElasticPoolsClient.GetResponder (env : autorest.Env) (client : ElasticPoolsClient)
    (resp : http.Response) :
    ElasticPool × Option Error :=
  let r := autorest.Respond env resp [
    client.Client.ByInspecting,
    azure.WithErrorUnlessStatusCode [http.StatusOK],
    autorest.ByUnmarshallingJSON,
    autorest.ByClosing]
  ({ toPayload := r.result, Response := { Response := some r.resp } }, r.err)

/-- The preparer that Go `ElasticPoolsClient.ListByServerPreparer` builds: its decorators in call
order. -/
def ElasticPoolsClient.ListByServerPreparer.preparer (client : ElasticPoolsClient)
    (resourceGroupName : String) (serverName : String) :
    autorest.Preparer :=
  let pathParameters : List (String × String) := [
    ("resourceGroupName", autorest.Encode "path" resourceGroupName),
    ("serverName", autorest.Encode "path" serverName),
    ("subscriptionId", autorest.Encode "path" client.SubscriptionID)]
  let APIVersion := "2014-04-01"
  let queryParameters : List (String × String) := [
    ("api-version", APIVersion)]
  autorest.CreatePreparer [
    autorest.AsGet,
    autorest.WithBaseURL client.BaseURI,
    autorest.WithPathParameters
      "/subscriptions/{subscriptionId}/resourceGroups/{resourceGroupName}/providers/Microsoft.Sql/servers/{serverName}/elasticPools"
      pathParameters,
    autorest.WithQueryParameters queryParameters]

/-- Go `ElasticPoolsClient.ListByServerPreparer`: prepares the request. -/
def ElasticPoolsClient.ListByServerPreparer (env : autorest.Env) (client : ElasticPoolsClient)
    (resourceGroupName : String) (serverName : String) :
    Except Error http.Request :=
  env.Prepare (ElasticPoolsClient.ListByServerPreparer.preparer client resourceGroupName serverName)

/-- Go `ElasticPoolsClient.ListByServerSender`: sends the request. -/
def ElasticPoolsClient.ListByServerSender (env : autorest.Env) (client : ElasticPoolsClient)
    (req : http.Request) :
    autorest.SendResult :=
  env.SendWithSender client.Client req
    [azure.DoRetryWithRegistration client.Client]

/-- Go `ElasticPoolsClient.ListByServerResponder`: handles the response; the response it returns
is the one it was
given, after the decorators ran on it. -/
def ElasticPoolsClient.ListByServerResponder (env : autorest.Env) (client : ElasticPoolsClient)
    (resp : http.Response) :
    ElasticPoolListResult × Option Error :=
  let r := autorest.Respond env resp [
    client.Client.ByInspecting,
    azure.WithErrorUnlessStatusCode [http.StatusOK],
    autorest.ByUnmarshallingJSON,
    autorest.ByClosing]
  ({ toPayload := r.result, Response := { Response := some r.resp } }, r.err)

/-- The preparer that Go `ElasticPoolsClient.ListMetricDefinitionsPreparer` builds: its decorators
in call order. -/
def ElasticPoolsClient.ListMetricDefinitionsPreparer.preparer (client : ElasticPoolsClient)
    (resourceGroupName : String) (serverName : String) (elasticPoolName : String) :
    autorest.Preparer :=
  let pathParameters : List (String × String) := [
    ("elasticPoolName", autorest.Encode "path" elasticPoolName),
    ("resourceGroupName", autorest.Encode "path" resourceGroupName),
    ("serverName", autorest.Encode "path" serverName),
    ("subscriptionId", autorest.Encode "path" client.SubscriptionID)]
  let APIVersion := "2014-04-01"
  let queryParameters : List (String × String) := [
    ("api-version", APIVersion)]
  autorest.CreatePreparer [
    autorest.AsGet,
    autorest.WithBaseURL client.BaseURI,
    autorest.WithPathParameters
      "/subscriptions/{subscriptionId}/resourceGroups/{resourceGroupName}/providers/Microsoft.Sql/servers/{serverName}/elasticPools/{elasticPoolName}/metricDefinitions"
      pathParameters,
    autorest.WithQueryParameters queryParameters]

/-- Go `ElasticPoolsClient.ListMetricDefinitionsPreparer`: prepares the request. -/
def ElasticPoolsClient.ListMetricDefinitionsPreparer (env : autorest.Env)
    (client : ElasticPoolsClient) (resourceGroupName : String) (serverName : String)
    (elasticPoolName : String) :
    Except Error http.Request :=
  env.Prepare
    (ElasticPoolsClient.ListMetricDefinitionsPreparer.preparer client resourceGroupName serverName
      elasticPoolName)

/-- Go `ElasticPoolsClient.ListMetricDefinitionsSender`: sends the request. -/
def ElasticPoolsClient.ListMetricDefinitionsSender (env : autorest.Env)
    (client : ElasticPoolsClient) (req : http.Request) :
    autorest.SendResult :=
  env.SendWithSender client.Client req
    [azure.DoRetryWithRegistration client.Client]

/-- Go `ElasticPoolsClient.ListMetricDefinitionsResponder`: handles the response; the response it
returns is the one it was
given, after the decorators ran on it. -/
def ElasticPoolsClient.ListMetricDefinitionsResponder (env : autorest.Env)
    (client : ElasticPoolsClient) (resp : http.Response) :
    MetricDefinitionListResult × Option Error :=
  let r := autorest.Respond env resp [
    client.Client.ByInspecting,
    azure.WithErrorUnlessStatusCode [http.StatusOK],
    autorest.ByUnmarshallingJSON,
    autorest.ByClosing]
  ({ toPayload := r.result, Response := { Response := some r.resp } }, r.err)

/-- The preparer that Go `ElasticPoolsClient.ListMetricsPreparer` builds: its decorators in call
order. -/
def ElasticPoolsClient.ListMetricsPreparer.preparer (client : ElasticPoolsClient)
    (resourceGroupName : String) (serverName : String) (elasticPoolName : String)
    (filter : String) :
    autorest.Preparer :=
  let pathParameters : List (String × String) := [
    ("elasticPoolName", autorest.Encode "path" elasticPoolName),
    ("resourceGroupName", autorest.Encode "path" resourceGroupName),
    ("serverName", autorest.Encode "path" serverName),
    ("subscriptionId", autorest.Encode "path" client.SubscriptionID)]
  let APIVersion := "2014-04-01"
  let queryParameters : List (String × String) := [
    ("$filter", autorest.Encode "query" filter),
    ("api-version", APIVersion)]
  autorest.CreatePreparer [
    autorest.AsGet,
    autorest.WithBaseURL client.BaseURI,
    autorest.WithPathParameters
      "/subscriptions/{subscriptionId}/resourceGroups/{resourceGroupName}/providers/Microsoft.Sql/servers/{serverName}/elasticPools/{elasticPoolName}/metrics"
      pathParameters,
    autorest.WithQueryParameters queryParameters]

/-- Go `ElasticPoolsClient.ListMetricsPreparer`: prepares the request. -/
def ElasticPoolsClient.ListMetricsPreparer (env : autorest.Env) (client : ElasticPoolsClient)
    (resourceGroupName : String) (serverName : String) (elasticPoolName : String)
    (filter : String) :
    Except Error http.Request :=
  env.Prepare
    (ElasticPoolsClient.ListMetricsPreparer.preparer client resourceGroupName serverName
      elasticPoolName filter)

/-- Go `ElasticPoolsClient.ListMetricsSender`: sends the request. -/
def ElasticPoolsClient.ListMetricsSender (env : autorest.Env) (client : ElasticPoolsClient)
    (req : http.Request) :
    autorest.SendResult :=
  env.SendWithSender client.Client req
    [azure.DoRetryWithRegistration client.Client]

/-- Go `ElasticPoolsClient.ListMetricsResponder`: handles the response; the response it returns is
the one it was
given, after the decorators ran on it. -/
def ElasticPoolsClient.ListMetricsResponder (env : autorest.Env) (client : ElasticPoolsClient)
    (resp : http.Response) :
    MetricListResult × Option Error :=
  let r := autorest.Respond env resp [
    client.Client.ByInspecting,
    azure.WithErrorUnlessStatusCode [http.StatusOK],
    autorest.ByUnmarshallingJSON,
    autorest.ByClosing]
  ({ toPayload := r.result, Response := { Response := some r.resp } }, r.err)

/-- The preparer that Go `ElasticPoolsClient.UpdatePreparer` builds: its decorators in call order.
-/
def ElasticPoolsClient.UpdatePreparer.preparer (client : ElasticPoolsClient)
    (resourceGroupName : String) (serverName : String) (elasticPoolName : String)
    (parameters : ElasticPoolUpdate) :
    autorest.Preparer :=
  let pathParameters : List (String × String) := [
    ("elasticPoolName", autorest.Encode "path" elasticPoolName),
    ("resourceGroupName", autorest.Encode "path" resourceGroupName),
    ("serverName", autorest.Encode "path" serverName),
    ("subscriptionId", autorest.Encode "path" client.SubscriptionID)]
  let APIVersion := "2014-04-01"
  let queryParameters : List (String × String) := [
    ("api-version", APIVersion)]
  autorest.CreatePreparer [
    autorest.AsContentType "application/json; charset=utf-8",
    autorest.AsPatch,
    autorest.WithBaseURL client.BaseURI,
    autorest.WithPathParameters
      "/subscriptions/{subscriptionId}/resourceGroups/{resourceGroupName}/providers/Microsoft.Sql/servers/{serverName}/elasticPools/{elasticPoolName}"
      pathParameters,
    autorest.WithJSON (ElasticPoolUpdate.ValueOf parameters),
    autorest.WithQueryParameters queryParameters]

/-- Go `ElasticPoolsClient.UpdatePreparer`: prepares the request. -/
def ElasticPoolsClient.UpdatePreparer (env : autorest.Env) (client : ElasticPoolsClient)
    (resourceGroupName : String) (serverName : String) (elasticPoolName : String)
    (parameters : ElasticPoolUpdate) :
    Except Error http.Request :=
  env.Prepare
    (ElasticPoolsClient.UpdatePreparer.preparer client resourceGroupName serverName
      elasticPoolName parameters)

/-- Go `ElasticPoolsClient.UpdateResponder`: handles the response; the response it returns is the
one it was
given, after the decorators ran on it. -/
def ElasticPoolsClient.UpdateResponder (env : autorest.Env) (client : ElasticPoolsClient)
    (resp : http.Response) :
    ElasticPool × Option Error :=
  let r := autorest.Respond env resp [
    client.Client.ByInspecting,
    azure.WithErrorUnlessStatusCode [http.StatusOK, http.StatusAccepted],
    autorest.ByUnmarshallingJSON,
    autorest.ByClosing]
  ({ toPayload := r.result, Response := { Response := some r.resp } }, r.err)

/-- Go `ElasticPoolsClient.Delete`. -/
def ElasticPoolsClient.Delete (env : autorest.Env) (client : ElasticPoolsClient)
    (resourceGroupName : String) (serverName : String) (elasticPoolName : String) :
    autorest.Outcome autorest.Response :=
  let result : autorest.Response := autorest.Response.zero
  match client.DeletePreparer env resourceGroupName serverName elasticPoolName with
  | .error err =>
    { result := result,
      err := some (autorest.NewErrorWithError err "sql.ElasticPoolsClient" "Delete" none
        "Failure preparing request"),
      sent := [] }
  | .ok req =>
  match client.DeleteSender env req with
  | .failed resp err =>
    let result : autorest.Response := { Response := resp }
    { result := result,
      err := some (autorest.NewErrorWithError err "sql.ElasticPoolsClient" "Delete" resp
        "Failure sending request"),
      sent := [req] }
  | .ok resp =>
    match client.DeleteResponder env resp with
    | (result, some err) =>
      { result := result,
        err := some (autorest.NewErrorWithError err "sql.ElasticPoolsClient" "Delete" (some resp)
          "Failure responding to request"),
        sent := [req] }
    | (result, none) => { result := result, err := none, sent := [req] }

/-- Go `ElasticPoolsClient.Get`. -/
def ElasticPoolsClient.Get (env : autorest.Env) (client : ElasticPoolsClient)
    (resourceGroupName : String) (serverName : String) (elasticPoolName : String) :
    autorest.Outcome ElasticPool :=
  let result : ElasticPool := autorest.Model.zero
  match client.GetPreparer env resourceGroupName serverName elasticPoolName with
  | .error err =>
    { result := result,
      err := some (autorest.NewErrorWithError err "sql.ElasticPoolsClient" "Get" none
        "Failure preparing request"),
      sent := [] }
  | .ok req =>
  match client.GetSender env req with
  | .failed resp err =>
    let result : ElasticPool := { result with Response := { Response := resp } }
    { result := result,
      err := some (autorest.NewErrorWithError err "sql.ElasticPoolsClient" "Get" resp
        "Failure sending request"),
      sent := [req] }
  | .ok resp =>
    match client.GetResponder env resp with
    | (result, some err) =>
      { result := result,
        err := some (autorest.NewErrorWithError err "sql.ElasticPoolsClient" "Get" (some resp)
          "Failure responding to request"),
        sent := [req] }
    | (result, none) => { result := result, err := none, sent := [req] }

/-- Go `ElasticPoolsClient.ListByServer`. -/
def ElasticPoolsClient.ListByServer (env : autorest.Env) (client : ElasticPoolsClient)
    (resourceGroupName : String) (serverName : String) :
    autorest.Outcome ElasticPoolListResult :=
  let result : ElasticPoolListResult := autorest.Model.zero
  match client.ListByServerPreparer env resourceGroupName serverName with
  | .error err =>
    { result := result,
      err := some (autorest.NewErrorWithError err "sql.ElasticPoolsClient" "ListByServer" none
        "Failure preparing request"),
      sent := [] }
  | .ok req =>
  match client.ListByServerSender env req with
  | .failed resp err =>
    let result : ElasticPoolListResult := { result with Response := { Response := resp } }
    { result := result,
      err := some (autorest.NewErrorWithError err "sql.ElasticPoolsClient" "ListByServer" resp
        "Failure sending request"),
      sent := [req] }
  | .ok resp =>
    match client.ListByServerResponder env resp with
    | (result, some err) =>
      { result := result,
        err := some (autorest.NewErrorWithError err "sql.ElasticPoolsClient" "ListByServer" (some resp)
          "Failure responding to request"),
        sent := [req] }
    | (result, none) => { result := result, err := none, sent := [req] }

/-- Go `ElasticPoolsClient.ListMetricDefinitions`. -/
def ElasticPoolsClient.ListMetricDefinitions (env : autorest.Env) (client : ElasticPoolsClient)
    (resourceGroupName : String) (serverName : String) (elasticPoolName : String) :
    autorest.Outcome MetricDefinitionListResult :=
  let result : MetricDefinitionListResult := autorest.Model.zero
  match client.ListMetricDefinitionsPreparer env resourceGroupName serverName elasticPoolName with
  | .error err =>
    { result := result,
      err := some (autorest.NewErrorWithError err "sql.ElasticPoolsClient" "ListMetricDefinitions" none
        "Failure preparing request"),
      sent := [] }
  | .ok req =>
  match client.ListMetricDefinitionsSender env req with
  | .failed resp err =>
    let result : MetricDefinitionListResult := { result with Response := { Response := resp } }
    { result := result,
      err := some (autorest.NewErrorWithError err "sql.ElasticPoolsClient" "ListMetricDefinitions" resp
        "Failure sending request"),
      sent := [req] }
  | .ok resp =>
    match client.ListMetricDefinitionsResponder env resp with
    | (result, some err) =>
      { result := result,
        err := some (autorest.NewErrorWithError err "sql.ElasticPoolsClient" "ListMetricDefinitions" (some resp)
          "Failure responding to request"),
        sent := [req] }
    | (result, none) => { result := result, err := none, sent := [req] }

/-- Go `ElasticPoolsClient.ListMetrics`. -/
def ElasticPoolsClient.ListMetrics (env : autorest.Env) (client : ElasticPoolsClient)
    (resourceGroupName : String) (serverName : String) (elasticPoolName : String)
    (filter : String) :
    autorest.Outcome MetricListResult :=
  let result : MetricListResult := autorest.Model.zero
  match client.ListMetricsPreparer env resourceGroupName serverName elasticPoolName filter with
  | .error err =>
    { result := result,
      err := some (autorest.NewErrorWithError err "sql.ElasticPoolsClient" "ListMetrics" none
        "Failure preparing request"),
      sent := [] }
  | .ok req =>
  match client.ListMetricsSender env req with
  | .failed resp err =>
    let result : MetricListResult := { result with Response := { Response := resp } }
    { result := result,
      err := some (autorest.NewErrorWithError err "sql.ElasticPoolsClient" "ListMetrics" resp
        "Failure sending request"),
      sent := [req] }
  | .ok resp =>
    match client.ListMetricsResponder env resp with
    | (result, some err) =>
      { result := result,
        err := some (autorest.NewErrorWithError err "sql.ElasticPoolsClient" "ListMetrics" (some resp)
          "Failure responding to request"),
        sent := [req] }
    | (result, none) => { result := result, err := none, sent := [req] }

/-! ### `sql.BackupLongTermRetentionPoliciesClient` (backuplongtermretentionpolicies.go) -/

/-- Go `BackupLongTermRetentionPoliciesClient`. -/
structure BackupLongTermRetentionPoliciesClient extends BaseClient

/-- The preparer that Go `BackupLongTermRetentionPoliciesClient.CreateOrUpdatePreparer` builds:
its decorators in call order. -/
def BackupLongTermRetentionPoliciesClient.CreateOrUpdatePreparer.preparer
    (client : BackupLongTermRetentionPoliciesClient) (resourceGroupName : String)
    (serverName : String) (databaseName : String) (parameters : BackupLongTermRetentionPolicy) :
    autorest.Preparer :=
  let pathParameters : List (String × String) := [
    ("backupLongTermRetentionPolicyName", autorest.Encode "path" "Default"),
    ("databaseName", autorest.Encode "path" databaseName),
    ("resourceGroupName", autorest.Encode "path" resourceGroupName),
    ("serverName", autorest.Encode "path" serverName),
    ("subscriptionId", autorest.Encode "path" client.SubscriptionID)]
  let APIVersion := "2014-04-01"
  let queryParameters : List (String × String) := [
    ("api-version", APIVersion)]
  autorest.CreatePreparer [
    autorest.AsContentType "application/json; charset=utf-8",
    autorest.AsPut,
    autorest.WithBaseURL client.BaseURI,
    autorest.WithPathParameters
      "/subscriptions/{subscriptionId}/resourceGroups/{resourceGroupName}/providers/Microsoft.Sql/servers/{serverName}/databases/{databaseName}/backupLongTermRetentionPolicies/{backupLongTermRetentionPolicyName}"
      pathParameters,
    autorest.WithJSON (BackupLongTermRetentionPolicy.ValueOf parameters),
    autorest.WithQueryParameters queryParameters]

/-- Go `BackupLongTermRetentionPoliciesClient.CreateOrUpdatePreparer`: prepares the request. -/
def BackupLongTermRetentionPoliciesClient.CreateOrUpdatePreparer (env : autorest.Env)
    (client : BackupLongTermRetentionPoliciesClient) (resourceGroupName : String)
    (serverName : String) (databaseName : String) (parameters : BackupLongTermRetentionPolicy) :
    Except Error http.Request :=
  env.Prepare
    (BackupLongTermRetentionPoliciesClient.CreateOrUpdatePreparer.preparer client
      resourceGroupName serverName databaseName parameters)

/-- Go `BackupLongTermRetentionPoliciesClient.CreateOrUpdateResponder`: handles the response; the
response it returns is the one it was
given, after the decorators ran on it. -/
def BackupLongTermRetentionPoliciesClient.CreateOrUpdateResponder (env : autorest.Env)
    (client : BackupLongTermRetentionPoliciesClient) (resp : http.Response) :
    BackupLongTermRetentionPolicy × Option Error :=
  let r := autorest.Respond env resp [
    client.Client.ByInspecting,
    azure.WithErrorUnlessStatusCode [http.StatusOK, http.StatusCreated, http.StatusAccepted],
    autorest.ByUnmarshallingJSON,
    autorest.ByClosing]
  ({ toPayload := r.result, Response := { Response := some r.resp } }, r.err)

/-- The preparer that Go `BackupLongTermRetentionPoliciesClient.GetPreparer` builds: its
decorators in call order. -/
def BackupLongTermRetentionPoliciesClient.GetPreparer.preparer
    (client : BackupLongTermRetentionPoliciesClient) (resourceGroupName : String)
    (serverName : String) (databaseName : String) :
    autorest.Preparer :=
  let pathParameters : List (String × String) := [
    ("backupLongTermRetentionPolicyName", autorest.Encode "path" "Default"),
    ("databaseName", autorest.Encode "path" databaseName),
    ("resourceGroupName", autorest.Encode "path" resourceGroupName),
    ("serverName", autorest.Encode "path" serverName),
    ("subscriptionId", autorest.Encode "path" client.SubscriptionID)]
  let APIVersion := "2014-04-01"
  let queryParameters : List (String × String) := [
    ("api-version", APIVersion)]
  autorest.CreatePreparer [
    autorest.AsGet,
    autorest.WithBaseURL client.BaseURI,
    autorest.WithPathParameters
      "/subscriptions/{subscriptionId}/resourceGroups/{resourceGroupName}/providers/Microsoft.Sql/servers/{serverName}/databases/{databaseName}/backupLongTermRetentionPolicies/{backupLongTermRetentionPolicyName}"
      pathParameters,
    autorest.WithQueryParameters queryParameters]

/-- Go `BackupLongTermRetentionPoliciesClient.GetPreparer`: prepares the request. -/
def BackupLongTermRetentionPoliciesClient.GetPreparer (env : autorest.Env)
    (client : BackupLongTermRetentionPoliciesClient) (resourceGroupName : String)
    (serverName : String) (databaseName : String) :
    Except Error http.Request :=
  env.Prepare
    (BackupLongTermRetentionPoliciesClient.GetPreparer.preparer client resourceGroupName
      serverName databaseName)

/-- Go `BackupLongTermRetentionPoliciesClient.GetSender`: sends the request. -/
def BackupLongTermRetentionPoliciesClient.GetSender (env : autorest.Env)
    (client : BackupLongTermRetentionPoliciesClient) (req : http.Request) :
    autorest.SendResult :=
  env.SendWithSender client.Client req
    [azure.DoRetryWithRegistration client.Client]

/-- Go `BackupLongTermRetentionPoliciesClient.GetResponder`: handles the response; the response it
returns is the one it was
given, after the decorators ran on it. -/
def BackupLongTermRetentionPoliciesClient.GetResponder (env : autorest.Env)
    (client : BackupLongTermRetentionPoliciesClient) (resp : http.Response) :
    BackupLongTermRetentionPolicy × Option Error :=
  let r := autorest.Respond env resp [
    client.Client.ByInspecting,
    azure.WithErrorUnlessStatusCode [http.StatusOK],
    autorest.ByUnmarshallingJSON,
    autorest.ByClosing]
  ({ toPayload := r.result, Response := { Response := some r.resp } }, r.err)

/-- The preparer that Go `BackupLongTermRetentionPoliciesClient.ListByDatabasePreparer` builds:
its decorators in call order. -/
def BackupLongTermRetentionPoliciesClient.ListByDatabasePreparer.preparer
    (client : BackupLongTermRetentionPoliciesClient) (resourceGroupName : String)
    (serverName : String) (databaseName : String) :
    autorest.Preparer :=
  let pathParameters : List (String × String) := [
    ("databaseName", autorest.Encode "path" databaseName),
    ("resourceGroupName", autorest.Encode "path" resourceGroupName),
    ("serverName", autorest.Encode "path" serverName),
    ("subscriptionId", autorest.Encode "path" client.SubscriptionID)]
  let APIVersion := "2014-04-01"
  let queryParameters : List (String × String) := [
    ("api-version", APIVersion)]
  autorest.CreatePreparer [
    autorest.AsGet,
    autorest.WithBaseURL client.BaseURI,
    autorest.WithPathParameters
      "/subscriptions/{subscriptionId}/resourceGroups/{resourceGroupName}/providers/Microsoft.Sql/servers/{serverName}/databases/{databaseName}/backupLongTermRetentionPolicies"
      pathParameters,
    autorest.WithQueryParameters queryParameters]

/-- Go `BackupLongTermRetentionPoliciesClient.ListByDatabasePreparer`: prepares the request. -/
def BackupLongTermRetentionPoliciesClient.ListByDatabasePreparer (env : autorest.Env)
    (client : BackupLongTermRetentionPoliciesClient) (resourceGroupName : String)
    (serverName : String) (databaseName : String) :
    Except Error http.Request :=
  env.Prepare
    (BackupLongTermRetentionPoliciesClient.ListByDatabasePreparer.preparer client
      resourceGroupName serverName databaseName)

/-- Go `BackupLongTermRetentionPoliciesClient.ListByDatabaseSender`: sends the request. -/
def BackupLongTermRetentionPoliciesClient.ListByDatabaseSender (env : autorest.Env)
    (client : BackupLongTermRetentionPoliciesClient) (req : http.Request) :
    autorest.SendResult :=
  env.SendWithSender client.Client req
    [azure.DoRetryWithRegistration client.Client]

/-- Go `BackupLongTermRetentionPoliciesClient.ListByDatabaseResponder`: handles the response; the
response it returns is the one it was
given, after the decorators ran on it. -/
def BackupLongTermRetentionPoliciesClient.ListByDatabaseResponder (env : autorest.Env)
    (client : BackupLongTermRetentionPoliciesClient) (resp : http.Response) :
    BackupLongTermRetentionPolicyListResult × Option Error :=
  let r := autorest.Respond env resp [
    client.Client.ByInspecting,
    azure.WithErrorUnlessStatusCode [http.StatusOK],
    autorest.ByUnmarshallingJSON,
    autorest.ByClosing]
  ({ toPayload := r.result, Response := { Response := some r.resp } }, r.err)

/-- Go `BackupLongTermRetentionPoliciesClient.Get`. -/
def BackupLongTermRetentionPoliciesClient.Get (env : autorest.Env)
    (client : BackupLongTermRetentionPoliciesClient) (resourceGroupName : String)
    (serverName : String) (databaseName : String) :
    autorest.Outcome BackupLongTermRetentionPolicy :=
  let result : BackupLongTermRetentionPolicy := autorest.Model.zero
  match client.GetPreparer env resourceGroupName serverName databaseName with
  | .error err =>
    { result := result,
      err := some (autorest.NewErrorWithError err "sql.BackupLongTermRetentionPoliciesClient" "Get" none
        "Failure preparing request"),
      sent := [] }
  | .ok req =>
  match client.GetSender env req with
  | .failed resp err =>
    let result : BackupLongTermRetentionPolicy := { result with Response := { Response := resp } }
    { result := result,
      err := some (autorest.NewErrorWithError err "sql.BackupLongTermRetentionPoliciesClient" "Get" resp
        "Failure sending request"),
      sent := [req] }
  | .ok resp =>
    match client.GetResponder env resp with
    | (result, some err) =>
      { result := result,
        err := some (autorest.NewErrorWithError err "sql.BackupLongTermRetentionPoliciesClient" "Get" (some resp)
          "Failure responding to request"),
        sent := [req] }
    | (result, none) => { result := result, err := none, sent := [req] }

/-- Go `BackupLongTermRetentionPoliciesClient.ListByDatabase`. -/
def BackupLongTermRetentionPoliciesClient.ListByDatabase (env : autorest.Env)
    (client : BackupLongTermRetentionPoliciesClient) (resourceGroupName : String)
    (serverName : String) (databaseName : String) :
    autorest.Outcome BackupLongTermRetentionPolicyListResult :=
  let result : BackupLongTermRetentionPolicyListResult := autorest.Model.zero
  match client.ListByDatabasePreparer env resourceGroupName serverName databaseName with
  | .error err =>
    { result := result,
      err := some (autorest.NewErrorWithError err "sql.BackupLongTermRetentionPoliciesClient" "ListByDatabase" none
        "Failure preparing request"),
      sent := [] }
  | .ok req =>
  match client.ListByDatabaseSender env req with
  | .failed resp err =>
    let result : BackupLongTermRetentionPolicyListResult := { result with Response := { Response := resp } }
    { result := result,
      err := some (autorest.NewErrorWithError err "sql.BackupLongTermRetentionPoliciesClient" "ListByDatabase" resp
        "Failure sending request"),
      sent := [req] }
  | .ok resp =>
    match client.ListByDatabaseResponder env resp with
    | (result, some err) =>
      { result := result,
        err := some (autorest.NewErrorWithError err "sql.BackupLongTermRetentionPoliciesClient" "ListByDatabase" (some resp)
          "Failure responding to request"),
        sent := [req] }
    | (result, none) => { result := result, err := none, sent := [req] }

/-! ### `sql.SyncMembersClient` (syncmembers.go) -/

/-- Go `SyncMembersClient`. -/
structure SyncMembersClient extends BaseClient

/-- The preparer that Go `SyncMembersClient.CreateOrUpdatePreparer` builds: its decorators in call
order. -/
def SyncMembersClient.CreateOrUpdatePreparer.preparer (client : SyncMembersClient)
    (resourceGroupName : String) (serverName : String) (databaseName : String)
    (syncGroupName : String) (syncMemberName : String) (parameters : SyncMember) :
    autorest.Preparer :=
  let pathParameters : List (String × String) := [
    ("databaseName", autorest.Encode "path" databaseName),
    ("resourceGroupName", autorest.Encode "path" resourceGroupName),
    ("serverName", autorest.Encode "path" serverName),
    ("subscriptionId", autorest.Encode "path" client.SubscriptionID),
    ("syncGroupName", autorest.Encode "path" syncGroupName),
    ("syncMemberName", autorest.Encode "path" syncMemberName)]
  let APIVersion := "2015-05-01-preview"
  let queryParameters : List (String × String) := [
    ("api-version", APIVersion)]
  autorest.CreatePreparer [
    autorest.AsContentType "application/json; charset=utf-8",
    autorest.AsPut,
    autorest.WithBaseURL client.BaseURI,
    autorest.WithPathParameters
      "/subscriptions/{subscriptionId}/resourceGroups/{resourceGroupName}/providers/Microsoft.Sql/servers/{serverName}/databases/{databaseName}/syncGroups/{syncGroupName}/syncMembers/{syncMemberName}"
      pathParameters,
    autorest.WithJSON (SyncMember.ValueOf parameters),
    autorest.WithQueryParameters queryParameters]

/-- Go `SyncMembersClient.CreateOrUpdatePreparer`: prepares the request. -/
def SyncMembersClient.CreateOrUpdatePreparer (env : autorest.Env) (client : SyncMembersClient)
    (resourceGroupName : String) (serverName : String) (databaseName : String)
    (syncGroupName : String) (syncMemberName : String) (parameters : SyncMember) :
    Except Error http.Request :=
  env.Prepare
    (SyncMembersClient.CreateOrUpdatePreparer.preparer client resourceGroupName serverName
      databaseName syncGroupName syncMemberName parameters)

/-- Go `SyncMembersClient.CreateOrUpdateResponder`: handles the response; the response it returns
is the one it was
given, after the decorators ran on it. -/
def SyncMembersClient.CreateOrUpdateResponder (env : autorest.Env) (client : SyncMembersClient)
    (resp : http.Response) :
    SyncMember × Option Error :=
  let r := autorest.Respond env resp [
    client.Client.ByInspecting,
    azure.WithErrorUnlessStatusCode [http.StatusOK, http.StatusCreated, http.StatusAccepted],
    autorest.ByUnmarshallingJSON,
    autorest.ByClosing]
  ({ toPayload := r.result, Response := { Response := some r.resp } }, r.err)

/-- The preparer that Go `SyncMembersClient.DeletePreparer` builds: its decorators in call order. -/
def SyncMembersClient.DeletePreparer.preparer (client : SyncMembersClient)
    (resourceGroupName : String) (serverName : String) (databaseName : String)
    (syncGroupName : String) (syncMemberName : String) :
    autorest.Preparer :=
  let pathParameters : List (String × String) := [
    ("databaseName", autorest.Encode "path" databaseName),
    ("resourceGroupName", autorest.Encode "path" resourceGroupName),
    ("serverName", autorest.Encode "path" serverName),
    ("subscriptionId", autorest.Encode "path" client.SubscriptionID),
    ("syncGroupName", autorest.Encode "path" syncGroupName),
    ("syncMemberName", autorest.Encode "path" syncMemberName)]
  let APIVersion := "2015-05-01-preview"
  let queryParameters : List (String × String) := [
    ("api-version", APIVersion)]
  autorest.CreatePreparer [
    autorest.AsDelete,
    autorest.WithBaseURL client.BaseURI,
    autorest.WithPathParameters
      "/subscriptions/{subscriptionId}/resourceGroups/{resourceGroupName}/providers/Microsoft.Sql/servers/{serverName}/databases/{databaseName}/syncGroups/{syncGroupName}/syncMembers/{syncMemberName}"
      pathParameters,
    autorest.WithQueryParameters queryParameters]

/-- Go `SyncMembersClient.DeletePreparer`: prepares the request. -/
def SyncMembersClient.DeletePreparer (env : autorest.Env) (client : SyncMembersClient)
    (resourceGroupName : String) (serverName : String) (databaseName : String)
    (syncGroupName : String) (syncMemberName : String) :
    Except Error http.Request :=
  env.Prepare
    (SyncMembersClient.DeletePreparer.preparer client resourceGroupName serverName databaseName
      syncGroupName syncMemberName)

/-- Go `SyncMembersClient.DeleteResponder`: handles the response; the response it returns is the
one it was
given, after the decorators ran on it. -/
def SyncMembersClient.DeleteResponder (env : autorest.Env) (client : SyncMembersClient)
    (resp : http.Response) :
    autorest.Response × Option Error :=
  let r := autorest.Respond env resp [
    client.Client.ByInspecting,
    azure.WithErrorUnlessStatusCode [http.StatusOK, http.StatusAccepted, http.StatusNoContent],
    autorest.ByClosing]
  ({ Response := some r.resp }, r.err)

/-- The preparer that Go `SyncMembersClient.GetPreparer` builds: its decorators in call order. -/
def SyncMembersClient.GetPreparer.preparer (client : SyncMembersClient)
    (resourceGroupName : String) (serverName : String) (databaseName : String)
    (syncGroupName : String) (syncMemberName : String) :
    autorest.Preparer :=
  let pathParameters : List (String × String) := [
    ("databaseName", autorest.Encode "path" databaseName),
    ("resourceGroupName", autorest.Encode "path" resourceGroupName),
    ("serverName", autorest.Encode "path" serverName),
    ("subscriptionId", autorest.Encode "path" client.SubscriptionID),
    ("syncGroupName", autorest.Encode "path" syncGroupName),
    ("syncMemberName", autorest.Encode "path" syncMemberName)]
  let APIVersion := "2015-05-01-preview"
  let queryParameters : List (String × String) := [
    ("api-version", APIVersion)]
  autorest.CreatePreparer [
    autorest.AsGet,
    autorest.WithBaseURL client.BaseURI,
    autorest.WithPathParameters
      "/subscriptions/{subscriptionId}/resourceGroups/{resourceGroupName}/providers/Microsoft.Sql/servers/{serverName}/databases/{databaseName}/syncGroups/{syncGroupName}/syncMembers/{syncMemberName}"
      pathParameters,
    autorest.WithQueryParameters queryParameters]

/-- Go `SyncMembersClient.GetPreparer`: prepares the request. -/
def SyncMembersClient.GetPreparer (env : autorest.Env) (client : SyncMembersClient)
    (resourceGroupName : String) (serverName : String) (databaseName : String)
    (syncGroupName : String) (syncMemberName : String) :
    Except Error http.Request :=
  env.Prepare
    (SyncMembersClient.GetPreparer.preparer client resourceGroupName serverName databaseName
      syncGroupName syncMemberName)

/-- Go `SyncMembersClient.GetSender`: sends the request. -/
def SyncMembersClient.GetSender (env : autorest.Env) (client : SyncMembersClient)
    (req : http.Request) :
    autorest.SendResult :=
  env.SendWithSender client.Client req
    [azure.DoRetryWithRegistration client.Client]

/-- Go `SyncMembersClient.GetResponder`: handles the response; the response it returns is the one
it was
given, after the decorators ran on it. -/
def SyncMembersClient.GetResponder (env : autorest.Env) (client : SyncMembersClient)
    (resp : http.Response) :
    SyncMember × Option Error :=
  let r := autorest.Respond env resp [
    client.Client.ByInspecting,
    azure.WithErrorUnlessStatusCode [http.StatusOK],
    autorest.ByUnmarshallingJSON,
    autorest.ByClosing]
  ({ toPayload := r.result, Response := { Response := some r.resp } }, r.err)

/-- The preparer that Go `SyncMembersClient.ListBySyncGroupPreparer` builds: its decorators in
call order. -/
def SyncMembersClient.ListBySyncGroupPreparer.preparer (client : SyncMembersClient)
    (resourceGroupName : String) (serverName : String) (databaseName : String)
    (syncGroupName : String) :
    autorest.Preparer :=
  let pathParameters : List (String × String) := [
    ("databaseName", autorest.Encode "path" databaseName),
    ("resourceGroupName", autorest.Encode "path" resourceGroupName),
    ("serverName", autorest.Encode "path" serverName),
    ("subscriptionId", autorest.Encode "path" client.SubscriptionID),
    ("syncGroupName", autorest.Encode "path" syncGroupName)]
  let APIVersion := "2015-05-01-preview"
  let queryParameters : List (String × String) := [
    ("api-version", APIVersion)]
  autorest.CreatePreparer [
    autorest.AsGet,
    autorest.WithBaseURL client.BaseURI,
    autorest.WithPathParameters
      "/subscriptions/{subscriptionId}/resourceGroups/{resourceGroupName}/providers/Microsoft.Sql/servers/{serverName}/databases/{databaseName}/syncGroups/{syncGroupName}/syncMembers"
      pathParameters,
    autorest.WithQueryParameters queryParameters]

/-- Go `SyncMembersClient.ListBySyncGroupPreparer`: prepares the request. -/
def SyncMembersClient.ListBySyncGroupPreparer (env : autorest.Env) (client : SyncMembersClient)
    (resourceGroupName : String) (serverName : String) (databaseName : String)
    (syncGroupName : String) :
    Except Error http.Request :=
  env.Prepare
    (SyncMembersClient.ListBySyncGroupPreparer.preparer client resourceGroupName serverName
      databaseName syncGroupName)

/-- Go `SyncMembersClient.ListBySyncGroupSender`: sends the request. -/
def SyncMembersClient.ListBySyncGroupSender (env : autorest.Env) (client : SyncMembersClient)
    (req : http.Request) :
    autorest.SendResult :=
  env.SendWithSender client.Client req
    [azure.DoRetryWithRegistration client.Client]

/-- Go `SyncMembersClient.ListBySyncGroupResponder`: handles the response; the response it returns
is the one it was
given, after the decorators ran on it. -/
def SyncMembersClient.ListBySyncGroupResponder (env : autorest.Env) (client : SyncMembersClient)
    (resp : http.Response) :
    SyncMemberListResult × Option Error :=
  let r := autorest.Respond env resp [
    client.Client.ByInspecting,
    azure.WithErrorUnlessStatusCode [http.StatusOK],
    autorest.ByUnmarshallingJSON,
    autorest.ByClosing]
  ({ toPayload := r.result, Response := { Response := some r.resp } }, r.err)

/-- The preparer that Go `SyncMembersClient.ListMemberSchemasPreparer` builds: its decorators in
call order. -/
def SyncMembersClient.ListMemberSchemasPreparer.preparer (client : SyncMembersClient)
    (resourceGroupName : String) (serverName : String) (databaseName : String)
    (syncGroupName : String) (syncMemberName : String) :
    autorest.Preparer :=
  let pathParameters : List (String × String) := [
    ("databaseName", autorest.Encode "path" databaseName),
    ("resourceGroupName", autorest.Encode "path" resourceGroupName),
    ("serverName", autorest.Encode "path" serverName),
    ("subscriptionId", autorest.Encode "path" client.SubscriptionID),
    ("syncGroupName", autorest.Encode "path" syncGroupName),
    ("syncMemberName", autorest.Encode "path" syncMemberName)]
  let APIVersion := "2015-05-01-preview"
  let queryParameters : List (String × String) := [
    ("api-version", APIVersion)]
  autorest.CreatePreparer [
    autorest.AsGet,
    autorest.WithBaseURL client.BaseURI,
    autorest.WithPathParameters
      "/subscriptions/{subscriptionId}/resourceGroups/{resourceGroupName}/providers/Microsoft.Sql/servers/{serverName}/databases/{databaseName}/syncGroups/{syncGroupName}/syncMembers/{syncMemberName}/schemas"
      pathParameters,
    autorest.WithQueryParameters queryParameters]

/-- Go `SyncMembersClient.ListMemberSchemasPreparer`: prepares the request. -/
def SyncMembersClient.ListMemberSchemasPreparer (env : autorest.Env) (client : SyncMembersClient)
    (resourceGroupName : String) (serverName : String) (databaseName : String)
    (syncGroupName : String) (syncMemberName : String) :
    Except Error http.Request :=
  env.Prepare
    (SyncMembersClient.ListMemberSchemasPreparer.preparer client resourceGroupName serverName
      databaseName syncGroupName syncMemberName)

/-- Go `SyncMembersClient.ListMemberSchemasSender`: sends the request. -/
def SyncMembersClient.ListMemberSchemasSender (env : autorest.Env) (client : SyncMembersClient)
    (req : http.Request) :
    autorest.SendResult :=
  env.SendWithSender client.Client req
    [azure.DoRetryWithRegistration client.Client]

/-- Go `SyncMembersClient.ListMemberSchemasResponder`: handles the response; the response it
returns is the one it was
given, after the decorators ran on it. -/
def SyncMembersClient.ListMemberSchemasResponder (env : autorest.Env) (client : SyncMembersClient)
    (resp : http.Response) :
    SyncFullSchemaPropertiesListResult × Option Error :=
  let r := autorest.Respond env resp [
    client.Client.ByInspecting,
    azure.WithErrorUnlessStatusCode [http.StatusOK],
    autorest.ByUnmarshallingJSON,
    autorest.ByClosing]
  ({ toPayload := r.result, Response := { Response := some r.resp } }, r.err)

/-- The preparer that Go `SyncMembersClient.RefreshMemberSchemaPreparer` builds: its decorators in
call order. -/
def SyncMembersClient.RefreshMemberSchemaPreparer.preparer (client : SyncMembersClient)
    (resourceGroupName : String) (serverName : String) (databaseName : String)
    (syncGroupName : String) (syncMemberName : String) :
    autorest.Preparer :=
  let pathParameters : List (String × String) := [
    ("databaseName", autorest.Encode "path" databaseName),
    ("resourceGroupName", autorest.Encode "path" resourceGroupName),
    ("serverName", autorest.Encode "path" serverName),
    ("subscriptionId", autorest.Encode "path" client.SubscriptionID),
    ("syncGroupName", autorest.Encode "path" syncGroupName),
    ("syncMemberName", autorest.Encode "path" syncMemberName)]
  let APIVersion := "2015-05-01-preview"
  let queryParameters : List (String × String) := [
    ("api-version", APIVersion)]
  autorest.CreatePreparer [
    autorest.AsPost,
    autorest.WithBaseURL client.BaseURI,
    autorest.WithPathParameters
      "/subscriptions/{subscriptionId}/resourceGroups/{resourceGroupName}/providers/Microsoft.Sql/servers/{serverName}/databases/{databaseName}/syncGroups/{syncGroupName}/syncMembers/{syncMemberName}/refreshSchema"
      pathParameters,
    autorest.WithQueryParameters queryParameters]

/-- Go `SyncMembersClient.RefreshMemberSchemaPreparer`: prepares the request. -/
def SyncMembersClient.RefreshMemberSchemaPreparer (env : autorest.Env)
    (client : SyncMembersClient) (resourceGroupName : String) (serverName : String)
    (databaseName : String) (syncGroupName : String) (syncMemberName : String) :
    Except Error http.Request :=
  env.Prepare
    (SyncMembersClient.RefreshMemberSchemaPreparer.preparer client resourceGroupName serverName
      databaseName syncGroupName syncMemberName)

/-- Go `SyncMembersClient.RefreshMemberSchemaResponder`: handles the response; the response it
returns is the one it was
given, after the decorators ran on it. -/
def SyncMembersClient.RefreshMemberSchemaResponder (env : autorest.Env)
    (client : SyncMembersClient) (resp : http.Response) :
    autorest.Response × Option Error :=
  let r := autorest.Respond env resp [
    client.Client.ByInspecting,
    azure.WithErrorUnlessStatusCode [http.StatusOK, http.StatusAccepted],
    autorest.ByClosing]
  ({ Response := some r.resp }, r.err)

/-- The preparer that Go `SyncMembersClient.UpdatePreparer` builds: its decorators in call order. -/
def SyncMembersClient.UpdatePreparer.preparer (client : SyncMembersClient)
    (resourceGroupName : String) (serverName : String) (databaseName : String)
    (syncGroupName : String) (syncMemberName : String) (parameters : SyncMember) :
    autorest.Preparer :=
  let pathParameters : List (String × String) := [
    ("databaseName", autorest.Encode "path" databaseName),
    ("resourceGroupName", autorest.Encode "path" resourceGroupName),
    ("serverName", autorest.Encode "path" serverName),
    ("subscriptionId", autorest.Encode "path" client.SubscriptionID),
    ("syncGroupName", autorest.Encode "path" syncGroupName),
    ("syncMemberName", autorest.Encode "path" syncMemberName)]
  let APIVersion := "2015-05-01-preview"
  let queryParameters : List (String × String) := [
    ("api-version", APIVersion)]
  autorest.CreatePreparer [
    autorest.AsContentType "application/json; charset=utf-8",
    autorest.AsPatch,
    autorest.WithBaseURL client.BaseURI,
    autorest.WithPathParameters
      "/subscriptions/{subscriptionId}/resourceGroups/{resourceGroupName}/providers/Microsoft.Sql/servers/{serverName}/databases/{databaseName}/syncGroups/{syncGroupName}/syncMembers/{syncMemberName}"
      pathParameters,
    autorest.WithJSON (SyncMember.ValueOf parameters),
    autorest.WithQueryParameters queryParameters]

/-- Go `SyncMembersClient.UpdatePreparer`: prepares the request. -/
def SyncMembersClient.UpdatePreparer (env : autorest.Env) (client : SyncMembersClient)
    (resourceGroupName : String) (serverName : String) (databaseName : String)
    (syncGroupName : String) (syncMemberName : String) (parameters : SyncMember) :
    Except Error http.Request :=
  env.Prepare
    (SyncMembersClient.UpdatePreparer.preparer client resourceGroupName serverName databaseName
      syncGroupName syncMemberName parameters)

/-- Go `SyncMembersClient.UpdateResponder`: handles the response; the response it returns is the
one it was
given, after the decorators ran on it. -/
def SyncMembersClient.UpdateResponder (env : autorest.Env) (client : SyncMembersClient)
    (resp : http.Response) :
    SyncMember × Option Error :=
  let r := autorest.Respond env resp [
    client.Client.ByInspecting,
    azure.WithErrorUnlessStatusCode [http.StatusOK, http.StatusAccepted],
    autorest.ByUnmarshallingJSON,
    autorest.ByClosing]
  ({ toPayload := r.result, Response := { Response := some r.resp } }, r.err)

/-- Go `SyncMembersClient.listBySyncGroupNextResults`: retrieves the next set of results, if any. -/
def SyncMembersClient.listBySyncGroupNextResults (env : autorest.Env) (client : SyncMembersClient)
    (lastResults : SyncMemberListResult) :
    autorest.Outcome SyncMemberListResult :=
  let result : SyncMemberListResult := autorest.Model.zero
  match env.ListResultPreparer lastResults with
  | .error err =>
    { result := result,
      err := some (autorest.NewErrorWithError err "sql.SyncMembersClient" "listBySyncGroupNextResults" none
        "Failure preparing next results request"),
      sent := [] }
  | .ok none => { result := result, err := none, sent := [] }
  | .ok (some req) =>
  match client.ListBySyncGroupSender env req with
  | .failed resp err =>
    let result : SyncMemberListResult := { result with Response := { Response := resp } }
    { result := result,
      err := some (autorest.NewErrorWithError err "sql.SyncMembersClient" "listBySyncGroupNextResults" resp
        "Failure sending next results request"),
      sent := [req] }
  | .ok resp =>
    match client.ListBySyncGroupResponder env resp with
    | (result, some err) =>
      { result := result,
        err := some (autorest.NewErrorWithError err "sql.SyncMembersClient" "listBySyncGroupNextResults" (some resp)
          "Failure responding to next results request"),
        sent := [req] }
    | (result, none) => { result := result, err := none, sent := [req] }

/-- Go `SyncMembersClient.listMemberSchemasNextResults`: retrieves the next set of results, if
any. -/
def SyncMembersClient.listMemberSchemasNextResults (env : autorest.Env)
    (client : SyncMembersClient) (lastResults : SyncFullSchemaPropertiesListResult) :
    autorest.Outcome SyncFullSchemaPropertiesListResult :=
  let result : SyncFullSchemaPropertiesListResult := autorest.Model.zero
  match env.ListResultPreparer lastResults with
  | .error err =>
    { result := result,
      err := some (autorest.NewErrorWithError err "sql.SyncMembersClient" "listMemberSchemasNextResults" none
        "Failure preparing next results request"),
      sent := [] }
  | .ok none => { result := result, err := none, sent := [] }
  | .ok (some req) =>
  match client.ListMemberSchemasSender env req with
  | .failed resp err =>
    let result : SyncFullSchemaPropertiesListResult := { result with Response := { Response := resp } }
    { result := result,
      err := some (autorest.NewErrorWithError err "sql.SyncMembersClient" "listMemberSchemasNextResults" resp
        "Failure sending next results request"),
      sent := [req] }
  | .ok resp =>
    match client.ListMemberSchemasResponder env resp with
    | (result, some err) =>
      { result := result,
        err := some (autorest.NewErrorWithError err "sql.SyncMembersClient" "listMemberSchemasNextResults" (some resp)
          "Failure responding to next results request"),
        sent := [req] }
    | (result, none) => { result := result, err := none, sent := [req] }

/-- Go `SyncMembersClient.Get`. -/
def SyncMembersClient.Get (env : autorest.Env) (client : SyncMembersClient)
    (resourceGroupName : String) (serverName : String) (databaseName : String)
    (syncGroupName : String) (syncMemberName : String) :
    autorest.Outcome SyncMember :=
  let result : SyncMember := autorest.Model.zero
  match client.GetPreparer env resourceGroupName serverName databaseName syncGroupName syncMemberName with
  | .error err =>
    { result := result,
      err := some (autorest.NewErrorWithError err "sql.SyncMembersClient" "Get" none
        "Failure preparing request"),
      sent := [] }
  | .ok req =>
  match client.GetSender env req with
  | .failed resp err =>
    let result : SyncMember := { result with Response := { Response := resp } }
    { result := result,
      err := some (autorest.NewErrorWithError err "sql.SyncMembersClient" "Get" resp
        "Failure sending request"),
      sent := [req] }
  | .ok resp =>
    match client.GetResponder env resp with
    | (result, some err) =>
      { result := result,
        err := some (autorest.NewErrorWithError err "sql.SyncMembersClient" "Get" (some resp)
          "Failure responding to request"),
        sent := [req] }
    | (result, none) => { result := result, err := none, sent := [req] }

/-- Go `SyncMembersClient.ListBySyncGroup`. -/
def SyncMembersClient.ListBySyncGroup (env : autorest.Env) (client : SyncMembersClient)
    (resourceGroupName : String) (serverName : String) (databaseName : String)
    (syncGroupName : String) :
    autorest.Outcome SyncMemberListResultPage :=
  let result : SyncMemberListResultPage := { fn := none, smlr := autorest.Model.zero }
  let result : SyncMemberListResultPage := { result with fn := some (client.listBySyncGroupNextResults env) }
  match client.ListBySyncGroupPreparer env resourceGroupName serverName databaseName syncGroupName with
  | .error err =>
    { result := result,
      err := some (autorest.NewErrorWithError err "sql.SyncMembersClient" "ListBySyncGroup" none
        "Failure preparing request"),
      sent := [] }
  | .ok req =>
  match client.ListBySyncGroupSender env req with
  | .failed resp err =>
    let result : SyncMemberListResultPage :=
      { result with smlr := { result.smlr with Response := { Response := resp } } }
    { result := result,
      err := some (autorest.NewErrorWithError err "sql.SyncMembersClient" "ListBySyncGroup" resp
        "Failure sending request"),
      sent := [req] }
  | .ok resp =>
    match client.ListBySyncGroupResponder env resp with
    | (page, some err) =>
      { result := { result with smlr := page },
        err := some (autorest.NewErrorWithError err "sql.SyncMembersClient" "ListBySyncGroup" (some resp)
          "Failure responding to request"),
        sent := [req] }
    | (page, none) => { result := { result with smlr := page }, err := none, sent := [req] }

/-- Go `SyncMembersClient.ListMemberSchemas`. -/
def SyncMembersClient.ListMemberSchemas (env : autorest.Env) (client : SyncMembersClient)
    (resourceGroupName : String) (serverName : String) (databaseName : String)
    (syncGroupName : String) (syncMemberName : String) :
    autorest.Outcome SyncFullSchemaPropertiesListResultPage :=
  let result : SyncFullSchemaPropertiesListResultPage := { fn := none, sfsplr := autorest.Model.zero }
  let result : SyncFullSchemaPropertiesListResultPage := { result with fn := some (client.listMemberSchemasNextResults env) }
  match client.ListMemberSchemasPreparer env resourceGroupName serverName databaseName syncGroupName syncMemberName with
  | .error err =>
    { result := result,
      err := some (autorest.NewErrorWithError err "sql.SyncMembersClient" "ListMemberSchemas" none
        "Failure preparing request"),
      sent := [] }
  | .ok req =>
  match client.ListMemberSchemasSender env req with
  | .failed resp err =>
    let result : SyncFullSchemaPropertiesListResultPage :=
      { result with sfsplr := { result.sfsplr with Response := { Response := resp } } }
    { result := result,
      err := some (autorest.NewErrorWithError err "sql.SyncMembersClient" "ListMemberSchemas" resp
        "Failure sending request"),
      sent := [req] }
  | .ok resp =>
    match client.ListMemberSchemasResponder env resp with
    | (page, some err) =>
      { result := { result with sfsplr := page },
        err := some (autorest.NewErrorWithError err "sql.SyncMembersClient" "ListMemberSchemas" (some resp)
          "Failure responding to request"),
        sent := [req] }
    | (page, none) => { result := { result with sfsplr := page }, err := none, sent := [req] }

end sql

/-! ## The preparers, responders and synchronous operations of the repository -/

/-- A preparer with its receiver and arguments bundled into one value: the client type and
the Go name, the strings it is given (the client id first), and the preparer it builds. -/
structure PreparerCase where
  Client : String
  Name : String
  Args : Type
  inputs : Args → List String
  preparer : Args → autorest.Preparer

/-- Every preparer of the six client files, in source order. -/
def allPreparers : List PreparerCase := [
  { Client := "automation.WebhookClient", Name := "CreateOrUpdatePreparer",
    Args := automation.WebhookClient × String × String × String × automation.WebhookCreateOrUpdateParameters,
    inputs := fun a => [a.1.SubscriptionID, a.2.1, a.2.2.1, a.2.2.2.1],
    preparer := fun a =>
      automation.WebhookClient.CreateOrUpdatePreparer.preparer a.1 a.2.1 a.2.2.1 a.2.2.2.1 a.2.2.2.2 },
  { Client := "automation.WebhookClient", Name := "DeletePreparer",
    Args := automation.WebhookClient × String × String × String,
    inputs := fun a => [a.1.SubscriptionID, a.2.1, a.2.2.1, a.2.2.2],
    preparer := fun a =>
      automation.WebhookClient.DeletePreparer.preparer a.1 a.2.1 a.2.2.1 a.2.2.2 },
  { Client := "automation.WebhookClient", Name := "GenerateURIPreparer",
    Args := automation.WebhookClient × String × String,
    inputs := fun a => [a.1.SubscriptionID, a.2.1, a.2.2],
    preparer := fun a =>
      automation.WebhookClient.GenerateURIPreparer.preparer a.1 a.2.1 a.2.2 },
  { Client := "automation.WebhookClient", Name := "GetPreparer",
    Args := automation.WebhookClient × String × String × String,
    inputs := fun a => [a.1.SubscriptionID, a.2.1, a.2.2.1, a.2.2.2],
    preparer := fun a =>
      automation.WebhookClient.GetPreparer.preparer a.1 a.2.1 a.2.2.1 a.2.2.2 },
  { Client := "automation.WebhookClient", Name := "ListByAutomationAccountPreparer",
    Args := automation.WebhookClient × String × String × String,
    inputs := fun a => [a.1.SubscriptionID, a.2.1, a.2.2.1, a.2.2.2],
    preparer := fun a =>
      automation.WebhookClient.ListByAutomationAccountPreparer.preparer a.1 a.2.1 a.2.2.1 a.2.2.2 },
  { Client := "automation.WebhookClient", Name := "UpdatePreparer",
    Args := automation.WebhookClient × String × String × String × automation.WebhookUpdateParameters,
    inputs := fun a => [a.1.SubscriptionID, a.2.1, a.2.2.1, a.2.2.2.1],
    preparer := fun a =>
      automation.WebhookClient.UpdatePreparer.preparer a.1 a.2.1 a.2.2.1 a.2.2.2.1 a.2.2.2.2 },
  { Client := "graphrbac.ObjectsClient", Name := "GetCurrentUserPreparer",
    Args := graphrbac.ObjectsClient,
    inputs := fun a => [a.TenantID],
    preparer := fun a =>
      graphrbac.ObjectsClient.GetCurrentUserPreparer.preparer a },
  { Client := "graphrbac.ObjectsClient", Name := "GetObjectsByObjectIdsPreparer",
    Args := graphrbac.ObjectsClient × graphrbac.GetObjectsParameters,
    inputs := fun a => [a.1.TenantID],
    preparer := fun a =>
      graphrbac.ObjectsClient.GetObjectsByObjectIdsPreparer.preparer a.1 a.2 },
  { Client := "graphrbac.ObjectsClient", Name := "GetObjectsByObjectIdsNextPreparer",
    Args := graphrbac.ObjectsClient × String,
    inputs := fun a => [a.1.TenantID, a.2],
    preparer := fun a =>
      graphrbac.ObjectsClient.GetObjectsByObjectIdsNextPreparer.preparer a.1 a.2 },
  { Client := "sql.ServerUsagesClient", Name := "ListByServerPreparer",
    Args := sql.ServerUsagesClient × String × String,
    inputs := fun a => [a.1.SubscriptionID, a.2.1, a.2.2],
    preparer := fun a =>
      sql.ServerUsagesClient.ListByServerPreparer.preparer a.1 a.2.1 a.2.2 },
  { Client := "sql.ElasticPoolsClient", Name := "CreateOrUpdatePreparer",
    Args := sql.ElasticPoolsClient × String × String × String × sql.ElasticPool,
    inputs := fun a => [a.1.SubscriptionID, a.2.1, a.2.2.1, a.2.2.2.1],
    preparer := fun a =>
      sql.ElasticPoolsClient.CreateOrUpdatePreparer.preparer a.1 a.2.1 a.2.2.1 a.2.2.2.1 a.2.2.2.2 },
  { Client := "sql.ElasticPoolsClient", Name := "DeletePreparer",
    Args := sql.ElasticPoolsClient × String × String × String,
    inputs := fun a => [a.1.SubscriptionID, a.2.1, a.2.2.1, a.2.2.2],
    preparer := fun a =>
      sql.ElasticPoolsClient.DeletePreparer.preparer a.1 a.2.1 a.2.2.1 a.2.2.2 },
  { Client := "sql.ElasticPoolsClient", Name := "GetPreparer",
    Args := sql.ElasticPoolsClient × String × String × String,
    inputs := fun a => [a.1.SubscriptionID, a.2.1, a.2.2.1, a.2.2.2],
    preparer := fun a =>
      sql.ElasticPoolsClient.GetPreparer.preparer a.1 a.2.1 a.2.2.1 a.2.2.2 },
  { Client := "sql.ElasticPoolsClient", Name := "ListByServerPreparer",
    Args := sql.ElasticPoolsClient × String × String,
    inputs := fun a => [a.1.SubscriptionID, a.2.1, a.2.2],
    preparer := fun a =>
      sql.ElasticPoolsClient.ListByServerPreparer.preparer a.1 a.2.1 a.2.2 },
  { Client := "sql.ElasticPoolsClient", Name := "ListMetricDefinitionsPreparer",
    Args := sql.ElasticPoolsClient × String × String × String,
    inputs := fun a => [a.1.SubscriptionID, a.2.1, a.2.2.1, a.2.2.2],
    preparer := fun a =>
      sql.ElasticPoolsClient.ListMetricDefinitionsPreparer.preparer a.1 a.2.1 a.2.2.1 a.2.2.2 },
  { Client := "sql.ElasticPoolsClient", Name := "ListMetricsPreparer",
    Args := sql.ElasticPoolsClient × String × String × String × String,
    inputs := fun a => [a.1.SubscriptionID, a.2.1, a.2.2.1, a.2.2.2.1, a.2.2.2.2],
    preparer := fun a =>
      sql.ElasticPoolsClient.ListMetricsPreparer.preparer a.1 a.2.1 a.2.2.1 a.2.2.2.1 a.2.2.2.2 },
  { Client := "sql.ElasticPoolsClient", Name := "UpdatePreparer",
    Args := sql.ElasticPoolsClient × String × String × String × sql.ElasticPoolUpdate,
    inputs := fun a => [a.1.SubscriptionID, a.2.1, a.2.2.1, a.2.2.2.1],
    preparer := fun a =>
      sql.ElasticPoolsClient.UpdatePreparer.preparer a.1 a.2.1 a.2.2.1 a.2.2.2.1 a.2.2.2.2 },
  { Client := "sql.BackupLongTermRetentionPoliciesClient", Name := "CreateOrUpdatePreparer",
    Args := sql.BackupLongTermRetentionPoliciesClient × String × String × String × sql.BackupLongTermRetentionPolicy,
    inputs := fun a => [a.1.SubscriptionID, a.2.1, a.2.2.1, a.2.2.2.1],
    preparer := fun a =>
      sql.BackupLongTermRetentionPoliciesClient.CreateOrUpdatePreparer.preparer a.1 a.2.1 a.2.2.1 a.2.2.2.1 a.2.2.2.2 },
  { Client := "sql.BackupLongTermRetentionPoliciesClient", Name := "GetPreparer",
    Args := sql.BackupLongTermRetentionPoliciesClient × String × String × String,
    inputs := fun a => [a.1.SubscriptionID, a.2.1, a.2.2.1, a.2.2.2],
    preparer := fun a =>
      sql.BackupLongTermRetentionPoliciesClient.GetPreparer.preparer a.1 a.2.1 a.2.2.1 a.2.2.2 },
  { Client := "sql.BackupLongTermRetentionPoliciesClient", Name := "ListByDatabasePreparer",
    Args := sql.BackupLongTermRetentionPoliciesClient × String × String × String,
    inputs := fun a => [a.1.SubscriptionID, a.2.1, a.2.2.1, a.2.2.2],
    preparer := fun a =>
      sql.BackupLongTermRetentionPoliciesClient.ListByDatabasePreparer.preparer a.1 a.2.1 a.2.2.1 a.2.2.2 },
  { Client := "sql.SyncMembersClient", Name := "CreateOrUpdatePreparer",
    Args := sql.SyncMembersClient × String × String × String × String × String × sql.SyncMember,
    inputs := fun a => [a.1.SubscriptionID, a.2.1, a.2.2.1, a.2.2.2.1, a.2.2.2.2.1, a.2.2.2.2.2.1],
    preparer := fun a =>
      sql.SyncMembersClient.CreateOrUpdatePreparer.preparer a.1 a.2.1 a.2.2.1 a.2.2.2.1 a.2.2.2.2.1 a.2.2.2.2.2.1 a.2.2.2.2.2.2 },
  { Client := "sql.SyncMembersClient", Name := "DeletePreparer",
    Args := sql.SyncMembersClient × String × String × String × String × String,
    inputs := fun a => [a.1.SubscriptionID, a.2.1, a.2.2.1, a.2.2.2.1, a.2.2.2.2.1, a.2.2.2.2.2],
    preparer := fun a =>
      sql.SyncMembersClient.DeletePreparer.preparer a.1 a.2.1 a.2.2.1 a.2.2.2.1 a.2.2.2.2.1 a.2.2.2.2.2 },
  { Client := "sql.SyncMembersClient", Name := "GetPreparer",
    Args := sql.SyncMembersClient × String × String × String × String × String,
    inputs := fun a => [a.1.SubscriptionID, a.2.1, a.2.2.1, a.2.2.2.1, a.2.2.2.2.1, a.2.2.2.2.2],
    preparer := fun a =>
      sql.SyncMembersClient.GetPreparer.preparer a.1 a.2.1 a.2.2.1 a.2.2.2.1 a.2.2.2.2.1 a.2.2.2.2.2 },
  { Client := "sql.SyncMembersClient", Name := "ListBySyncGroupPreparer",
    Args := sql.SyncMembersClient × String × String × String × String,
    inputs := fun a => [a.1.SubscriptionID, a.2.1, a.2.2.1, a.2.2.2.1, a.2.2.2.2],
    preparer := fun a =>
      sql.SyncMembersClient.ListBySyncGroupPreparer.preparer a.1 a.2.1 a.2.2.1 a.2.2.2.1 a.2.2.2.2 },
  { Client := "sql.SyncMembersClient", Name := "ListMemberSchemasPreparer",
    Args := sql.SyncMembersClient × String × String × String × String × String,
    inputs := fun a => [a.1.SubscriptionID, a.2.1, a.2.2.1, a.2.2.2.1, a.2.2.2.2.1, a.2.2.2.2.2],
    preparer := fun a =>
      sql.SyncMembersClient.ListMemberSchemasPreparer.preparer a.1 a.2.1 a.2.2.1 a.2.2.2.1 a.2.2.2.2.1 a.2.2.2.2.2 },
  { Client := "sql.SyncMembersClient", Name := "RefreshMemberSchemaPreparer",
    Args := sql.SyncMembersClient × String × String × String × String × String,
    inputs := fun a => [a.1.SubscriptionID, a.2.1, a.2.2.1, a.2.2.2.1, a.2.2.2.2.1, a.2.2.2.2.2],
    preparer := fun a =>
      sql.SyncMembersClient.RefreshMemberSchemaPreparer.preparer a.1 a.2.1 a.2.2.1 a.2.2.2.1 a.2.2.2.2.1 a.2.2.2.2.2 },
  { Client := "sql.SyncMembersClient", Name := "UpdatePreparer",
    Args := sql.SyncMembersClient × String × String × String × String × String × sql.SyncMember,
    inputs := fun a => [a.1.SubscriptionID, a.2.1, a.2.2.1, a.2.2.2.1, a.2.2.2.2.1, a.2.2.2.2.2.1],
    preparer := fun a =>
      sql.SyncMembersClient.UpdatePreparer.preparer a.1 a.2.1 a.2.2.1 a.2.2.2.1 a.2.2.2.2.1 a.2.2.2.2.2.1 a.2.2.2.2.2.2 }]

/-- A responder with its receiver bundled: the client type and the Go name, the status
codes it declares, whether it decodes the body, and its results: the decoded fields (for
a responder that decodes), the response it hands back and the error. -/
structure ResponderCase where
  Client : String
  Name : String
  Receiver : Type
  codes : List Nat
  decodes : Bool
  run : autorest.Env → Receiver → http.Response →
    Option autorest.Payload × autorest.Response × Option Error

/-- Every responder of the six client files, in source order. -/
def allResponders : List ResponderCase := [
  { Client := "automation.WebhookClient", Name := "CreateOrUpdateResponder",
    Receiver := automation.WebhookClient,
    codes := [http.StatusOK, http.StatusCreated], decodes := true,
    run := fun env client resp =>
      let r := automation.WebhookClient.CreateOrUpdateResponder env client resp
      (some r.1.toPayload, r.1.Response, r.2) },
  { Client := "automation.WebhookClient", Name := "DeleteResponder",
    Receiver := automation.WebhookClient,
    codes := [http.StatusOK], decodes := false,
    run := fun env client resp =>
      let r := automation.WebhookClient.DeleteResponder env client resp
      (none, r.1, r.2) },
  { Client := "automation.WebhookClient", Name := "GenerateURIResponder",
    Receiver := automation.WebhookClient,
    codes := [http.StatusOK], decodes := true,
    run := fun env client resp =>
      let r := automation.WebhookClient.GenerateURIResponder env client resp
      (some r.1.toPayload, r.1.Response, r.2) },
  { Client := "automation.WebhookClient", Name := "GetResponder",
    Receiver := automation.WebhookClient,
    codes := [http.StatusOK], decodes := true,
    run := fun env client resp =>
      let r := automation.WebhookClient.GetResponder env client resp
      (some r.1.toPayload, r.1.Response, r.2) },
  { Client := "automation.WebhookClient", Name := "ListByAutomationAccountResponder",
    Receiver := automation.WebhookClient,
    codes := [http.StatusOK], decodes := true,
    run := fun env client resp =>
      let r := automation.WebhookClient.ListByAutomationAccountResponder env client resp
      (some r.1.toPayload, r.1.Response, r.2) },
  { Client := "automation.WebhookClient", Name := "UpdateResponder",
    Receiver := automation.WebhookClient,
    codes := [http.StatusOK], decodes := true,
    run := fun env client resp =>
      let r := automation.WebhookClient.UpdateResponder env client resp
      (some r.1.toPayload, r.1.Response, r.2) },
  { Client := "graphrbac.ObjectsClient", Name := "GetCurrentUserResponder",
    Receiver := graphrbac.ObjectsClient,
    codes := [http.StatusOK], decodes := true,
    run := fun env client resp =>
      let r := graphrbac.ObjectsClient.GetCurrentUserResponder env client resp
      (some r.1.toPayload, r.1.Response, r.2) },
  { Client := "graphrbac.ObjectsClient", Name := "GetObjectsByObjectIdsResponder",
    Receiver := graphrbac.ObjectsClient,
    codes := [http.StatusOK], decodes := true,
    run := fun env client resp =>
      let r := graphrbac.ObjectsClient.GetObjectsByObjectIdsResponder env client resp
      (some r.1.toPayload, r.1.Response, r.2) },
  { Client := "graphrbac.ObjectsClient", Name := "GetObjectsByObjectIdsNextResponder",
    Receiver := graphrbac.ObjectsClient,
    codes := [http.StatusOK], decodes := true,
    run := fun env client resp =>
      let r := graphrbac.ObjectsClient.GetObjectsByObjectIdsNextResponder env client resp
      (some r.1.toPayload, r.1.Response, r.2) },
  { Client := "sql.ServerUsagesClient", Name := "ListByServerResponder",
    Receiver := sql.ServerUsagesClient,
    codes := [http.StatusOK], decodes := true,
    run := fun env client resp =>
      let r := sql.ServerUsagesClient.ListByServerResponder env client resp
      (some r.1.toPayload, r.1.Response, r.2) },
  { Client := "sql.ElasticPoolsClient", Name := "CreateOrUpdateResponder",
    Receiver := sql.ElasticPoolsClient,
    codes := [http.StatusOK, http.StatusCreated, http.StatusAccepted], decodes := true,
    run := fun env client resp =>
      let r := sql.ElasticPoolsClient.CreateOrUpdateResponder env client resp
      (some r.1.toPayload, r.1.Response, r.2) },
  { Client := "sql.ElasticPoolsClient", Name := "DeleteResponder",
    Receiver := sql.ElasticPoolsClient,
    codes := [http.StatusOK, http.StatusNoContent], decodes := false,
    run := fun env client resp =>
      let r := sql.ElasticPoolsClient.DeleteResponder env client resp
      (none, r.1, r.2) },
  { Client := "sql.ElasticPoolsClient", Name := "GetResponder",
    Receiver := sql.ElasticPoolsClient,
    codes := [http.StatusOK], decodes := true,
    run := fun env client resp =>
      let r := sql.ElasticPoolsClient.GetResponder env client resp
      (some r.1.toPayload, r.1.Response, r.2) },
  { Client := "sql.ElasticPoolsClient", Name := "ListByServerResponder",
    Receiver := sql.ElasticPoolsClient,
    codes := [http.StatusOK], decodes := true,
    run := fun env client resp =>
      let r := sql.ElasticPoolsClient.ListByServerResponder env client resp
      (some r.1.toPayload, r.1.Response, r.2) },
  { Client := "sql.ElasticPoolsClient", Name := "ListMetricDefinitionsResponder",
    Receiver := sql.ElasticPoolsClient,
    codes := [http.StatusOK], decodes := true,
    run := fun env client resp =>
      let r := sql.ElasticPoolsClient.ListMetricDefinitionsResponder env client resp
      (some r.1.toPayload, r.1.Response, r.2) },
  { Client := "sql.ElasticPoolsClient", Name := "ListMetricsResponder",
    Receiver := sql.ElasticPoolsClient,
    codes := [http.StatusOK], decodes := true,
    run := fun env client resp =>
      let r := sql.ElasticPoolsClient.ListMetricsResponder env client resp
      (some r.1.toPayload, r.1.Response, r.2) },
  { Client := "sql.ElasticPoolsClient", Name := "UpdateResponder",
    Receiver := sql.ElasticPoolsClient,
    codes := [http.StatusOK, http.StatusAccepted], decodes := true,
    run := fun env client resp =>
      let r := sql.ElasticPoolsClient.UpdateResponder env client resp
      (some r.1.toPayload, r.1.Response, r.2) },
  { Client := "sql.BackupLongTermRetentionPoliciesClient", Name := "CreateOrUpdateResponder",
    Receiver := sql.BackupLongTermRetentionPoliciesClient,
    codes := [http.StatusOK, http.StatusCreated, http.StatusAccepted], decodes := true,
    run := fun env client resp =>
      let r := sql.BackupLongTermRetentionPoliciesClient.CreateOrUpdateResponder env client resp
      (some r.1.toPayload, r.1.Response, r.2) },
  { Client := "sql.BackupLongTermRetentionPoliciesClient", Name := "GetResponder",
    Receiver := sql.BackupLongTermRetentionPoliciesClient,
    codes := [http.StatusOK], decodes := true,
    run := fun env client resp =>
      let r := sql.BackupLongTermRetentionPoliciesClient.GetResponder env client resp
      (some r.1.toPayload, r.1.Response, r.2) },
  { Client := "sql.BackupLongTermRetentionPoliciesClient", Name := "ListByDatabaseResponder",
    Receiver := sql.BackupLongTermRetentionPoliciesClient,
    codes := [http.StatusOK], decodes := true,
    run := fun env client resp =>
      let r := sql.BackupLongTermRetentionPoliciesClient.ListByDatabaseResponder env client resp
      (some r.1.toPayload, r.1.Response, r.2) },
  { Client := "sql.SyncMembersClient", Name := "CreateOrUpdateResponder",
    Receiver := sql.SyncMembersClient,
    codes := [http.StatusOK, http.StatusCreated, http.StatusAccepted], decodes := true,
    run := fun env client resp =>
      let r := sql.SyncMembersClient.CreateOrUpdateResponder env client resp
      (some r.1.toPayload, r.1.Response, r.2) },
  { Client := "sql.SyncMembersClient", Name := "DeleteResponder",
    Receiver := sql.SyncMembersClient,
    codes := [http.StatusOK, http.StatusAccepted, http.StatusNoContent], decodes := false,
    run := fun env client resp =>
      let r := sql.SyncMembersClient.DeleteResponder env client resp
      (none, r.1, r.2) },
  { Client := "sql.SyncMembersClient", Name := "GetResponder",
    Receiver := sql.SyncMembersClient,
    codes := [http.StatusOK], decodes := true,
    run := fun env client resp =>
      let r := sql.SyncMembersClient.GetResponder env client resp
      (some r.1.toPayload, r.1.Response, r.2) },
  { Client := "sql.SyncMembersClient", Name := "ListBySyncGroupResponder",
    Receiver := sql.SyncMembersClient,
    codes := [http.StatusOK], decodes := true,
    run := fun env client resp =>
      let r := sql.SyncMembersClient.ListBySyncGroupResponder env client resp
      (some r.1.toPayload, r.1.Response, r.2) },
  { Client := "sql.SyncMembersClient", Name := "ListMemberSchemasResponder",
    Receiver := sql.SyncMembersClient,
    codes := [http.StatusOK], decodes := true,
    run := fun env client resp =>
      let r := sql.SyncMembersClient.ListMemberSchemasResponder env client resp
      (some r.1.toPayload, r.1.Response, r.2) },
  { Client := "sql.SyncMembersClient", Name := "RefreshMemberSchemaResponder",
    Receiver := sql.SyncMembersClient,
    codes := [http.StatusOK, http.StatusAccepted], decodes := false,
    run := fun env client resp =>
      let r := sql.SyncMembersClient.RefreshMemberSchemaResponder env client resp
      (none, r.1, r.2) },
  { Client := "sql.SyncMembersClient", Name := "UpdateResponder",
    Receiver := sql.SyncMembersClient,
    codes := [http.StatusOK, http.StatusAccepted], decodes := true,
    run := fun env client resp =>
      let r := sql.SyncMembersClient.UpdateResponder env client resp
      (some r.1.toPayload, r.1.Response, r.2) }]

/-- A synchronous operation with its receiver and arguments bundled: the package-qualified
client type and the Go name of the operation as declared, its validation (nil when it has
none), its preparer, sender and responder as it calls them, and its results: the error
and the requests handed to the sender. -/
structure SyncOperation where
  PackageType : String
  Method : String
  Args : Type
  validation : Args → Option Error
  prepare : autorest.Env → Args → Except Error http.Request
  send : autorest.Env → Args → http.Request → autorest.SendResult
  respond : autorest.Env → Args → http.Response → Option Error
  run : autorest.Env → Args → Option Error × List http.Request

/-- Every operation of the six client files that prepares, sends and responds within one
call, in source order. -/
def syncOperations : List SyncOperation := [
  { PackageType := "automation.WebhookClient", Method := "CreateOrUpdate",
    Args := automation.WebhookClient × String × String × String × automation.WebhookCreateOrUpdateParameters,
    validation := fun a => automation.WebhookClient.CreateOrUpdate.validation a.2.1 a.2.2.1 a.2.2.2.1 a.2.2.2.2,
    prepare := fun env a => automation.WebhookClient.CreateOrUpdatePreparer env a.1 a.2.1 a.2.2.1 a.2.2.2.1 a.2.2.2.2,
    send := fun env a req => automation.WebhookClient.CreateOrUpdateSender env a.1 req,
    respond := fun env a resp => (automation.WebhookClient.CreateOrUpdateResponder env a.1 resp).2,
    run := fun env a =>
      let r := automation.WebhookClient.CreateOrUpdate env a.1 a.2.1 a.2.2.1 a.2.2.2.1 a.2.2.2.2
      (r.err, r.sent) },
  { PackageType := "automation.WebhookClient", Method := "Delete",
    Args := automation.WebhookClient × String × String × String,
    validation := fun a => automation.WebhookClient.Delete.validation a.2.1 a.2.2.1 a.2.2.2,
    prepare := fun env a => automation.WebhookClient.DeletePreparer env a.1 a.2.1 a.2.2.1 a.2.2.2,
    send := fun env a req => automation.WebhookClient.DeleteSender env a.1 req,
    respond := fun env a resp => (automation.WebhookClient.DeleteResponder env a.1 resp).2,
    run := fun env a =>
      let r := automation.WebhookClient.Delete env a.1 a.2.1 a.2.2.1 a.2.2.2
      (r.err, r.sent) },
  { PackageType := "automation.WebhookClient", Method := "GenerateURI",
    Args := automation.WebhookClient × String × String,
    validation := fun a => automation.WebhookClient.GenerateURI.validation a.2.1 a.2.2,
    prepare := fun env a => automation.WebhookClient.GenerateURIPreparer env a.1 a.2.1 a.2.2,
    send := fun env a req => automation.WebhookClient.GenerateURISender env a.1 req,
    respond := fun env a resp => (automation.WebhookClient.GenerateURIResponder env a.1 resp).2,
    run := fun env a =>
      let r := automation.WebhookClient.GenerateURI env a.1 a.2.1 a.2.2
      (r.err, r.sent) },
  { PackageType := "automation.WebhookClient", Method := "Get",
    Args := automation.WebhookClient × String × String × String,
    validation := fun a => automation.WebhookClient.Get.validation a.2.1 a.2.2.1 a.2.2.2,
    prepare := fun env a => automation.WebhookClient.GetPreparer env a.1 a.2.1 a.2.2.1 a.2.2.2,
    send := fun env a req => automation.WebhookClient.GetSender env a.1 req,
    respond := fun env a resp => (automation.WebhookClient.GetResponder env a.1 resp).2,
    run := fun env a =>
      let r := automation.WebhookClient.Get env a.1 a.2.1 a.2.2.1 a.2.2.2
      (r.err, r.sent) },
  { PackageType := "automation.WebhookClient", Method := "ListByAutomationAccount",
    Args := automation.WebhookClient × String × String × String,
    validation := fun a => automation.WebhookClient.ListByAutomationAccount.validation a.2.1 a.2.2.1 a.2.2.2,
    prepare := fun env a => automation.WebhookClient.ListByAutomationAccountPreparer env a.1 a.2.1 a.2.2.1 a.2.2.2,
    send := fun env a req => automation.WebhookClient.ListByAutomationAccountSender env a.1 req,
    respond := fun env a resp => (automation.WebhookClient.ListByAutomationAccountResponder env a.1 resp).2,
    run := fun env a =>
      let r := automation.WebhookClient.ListByAutomationAccount env a.1 a.2.1 a.2.2.1 a.2.2.2
      (r.err, r.sent) },
  { PackageType := "automation.WebhookClient", Method := "Update",
    Args := automation.WebhookClient × String × String × String × automation.WebhookUpdateParameters,
    validation := fun a => automation.WebhookClient.Update.validation a.2.1 a.2.2.1 a.2.2.2.1 a.2.2.2.2,
    prepare := fun env a => automation.WebhookClient.UpdatePreparer env a.1 a.2.1 a.2.2.1 a.2.2.2.1 a.2.2.2.2,
    send := fun env a req => automation.WebhookClient.UpdateSender env a.1 req,
    respond := fun env a resp => (automation.WebhookClient.UpdateResponder env a.1 resp).2,
    run := fun env a =>
      let r := automation.WebhookClient.Update env a.1 a.2.1 a.2.2.1 a.2.2.2.1 a.2.2.2.2
      (r.err, r.sent) },
  { PackageType := "graphrbac.ObjectsClient", Method := "GetCurrentUser",
    Args := graphrbac.ObjectsClient,
    validation := fun _ => none,
    prepare := fun env a => graphrbac.ObjectsClient.GetCurrentUserPreparer env a,
    send := fun env a req => graphrbac.ObjectsClient.GetCurrentUserSender env a req,
    respond := fun env a resp => (graphrbac.ObjectsClient.GetCurrentUserResponder env a resp).2,
    run := fun env a =>
      let r := graphrbac.ObjectsClient.GetCurrentUser env a
      (r.err, r.sent) },
  { PackageType := "graphrbac.ObjectsClient", Method := "GetObjectsByObjectIds",
    Args := graphrbac.ObjectsClient × graphrbac.GetObjectsParameters,
    validation := fun a => graphrbac.ObjectsClient.GetObjectsByObjectIds.validation a.2,
    prepare := fun env a => graphrbac.ObjectsClient.GetObjectsByObjectIdsPreparer env a.1 a.2,
    send := fun env a req => graphrbac.ObjectsClient.GetObjectsByObjectIdsSender env a.1 req,
    respond := fun env a resp => (graphrbac.ObjectsClient.GetObjectsByObjectIdsResponder env a.1 resp).2,
    run := fun env a =>
      let r := graphrbac.ObjectsClient.GetObjectsByObjectIds env a.1 a.2
      (r.err, r.sent) },
  { PackageType := "graphrbac.ObjectsClient", Method := "GetObjectsByObjectIdsNext",
    Args := graphrbac.ObjectsClient × String,
    validation := fun _ => none,
    prepare := fun env a => graphrbac.ObjectsClient.GetObjectsByObjectIdsNextPreparer env a.1 a.2,
    send := fun env a req => graphrbac.ObjectsClient.GetObjectsByObjectIdsNextSender env a.1 req,
    respond := fun env a resp => (graphrbac.ObjectsClient.GetObjectsByObjectIdsNextResponder env a.1 resp).2,
    run := fun env a =>
      let r := graphrbac.ObjectsClient.GetObjectsByObjectIdsNext env a.1 a.2
      (r.err, r.sent) },
  { PackageType := "sql.ServerUsagesClient", Method := "ListByServer",
    Args := sql.ServerUsagesClient × String × String,
    validation := fun _ => none,
    prepare := fun env a => sql.ServerUsagesClient.ListByServerPreparer env a.1 a.2.1 a.2.2,
    send := fun env a req => sql.ServerUsagesClient.ListByServerSender env a.1 req,
    respond := fun env a resp => (sql.ServerUsagesClient.ListByServerResponder env a.1 resp).2,
    run := fun env a =>
      let r := sql.ServerUsagesClient.ListByServer env a.1 a.2.1 a.2.2
      (r.err, r.sent) },
  { PackageType := "sql.ElasticPoolsClient", Method := "Delete",
    Args := sql.ElasticPoolsClient × String × String × String,
    validation := fun _ => none,
    prepare := fun env a => sql.ElasticPoolsClient.DeletePreparer env a.1 a.2.1 a.2.2.1 a.2.2.2,
    send := fun env a req => sql.ElasticPoolsClient.DeleteSender env a.1 req,
    respond := fun env a resp => (sql.ElasticPoolsClient.DeleteResponder env a.1 resp).2,
    run := fun env a =>
      let r := sql.ElasticPoolsClient.Delete env a.1 a.2.1 a.2.2.1 a.2.2.2
      (r.err, r.sent) },
  { PackageType := "sql.ElasticPoolsClient", Method := "Get",
    Args := sql.ElasticPoolsClient × String × String × String,
    validation := fun _ => none,
    prepare := fun env a => sql.ElasticPoolsClient.GetPreparer env a.1 a.2.1 a.2.2.1 a.2.2.2,
    send := fun env a req => sql.ElasticPoolsClient.GetSender env a.1 req,
    respond := fun env a resp => (sql.ElasticPoolsClient.GetResponder env a.1 resp).2,
    run := fun env a =>
      let r := sql.ElasticPoolsClient.Get env a.1 a.2.1 a.2.2.1 a.2.2.2
      (r.err, r.sent) },
  { PackageType := "sql.ElasticPoolsClient", Method := "ListByServer",
    Args := sql.ElasticPoolsClient × String × String,
    validation := fun _ => none,
    prepare := fun env a => sql.ElasticPoolsClient.ListByServerPreparer env a.1 a.2.1 a.2.2,
    send := fun env a req => sql.ElasticPoolsClient.ListByServerSender env a.1 req,
    respond := fun env a resp => (sql.ElasticPoolsClient.ListByServerResponder env a.1 resp).2,
    run := fun env a =>
      let r := sql.ElasticPoolsClient.ListByServer env a.1 a.2.1 a.2.2
      (r.err, r.sent) },
  { PackageType := "sql.ElasticPoolsClient", Method := "ListMetricDefinitions",
    Args := sql.ElasticPoolsClient × String × String × String,
    validation := fun _ => none,
    prepare := fun env a => sql.ElasticPoolsClient.ListMetricDefinitionsPreparer env a.1 a.2.1 a.2.2.1 a.2.2.2,
    send := fun env a req => sql.ElasticPoolsClient.ListMetricDefinitionsSender env a.1 req,
    respond := fun env a resp => (sql.ElasticPoolsClient.ListMetricDefinitionsResponder env a.1 resp).2,
    run := fun env a =>
      let r := sql.ElasticPoolsClient.ListMetricDefinitions env a.1 a.2.1 a.2.2.1 a.2.2.2
      (r.err, r.sent) },
  { PackageType := "sql.ElasticPoolsClient", Method := "ListMetrics",
    Args := sql.ElasticPoolsClient × String × String × String × String,
    validation := fun _ => none,
    prepare := fun env a => sql.ElasticPoolsClient.ListMetricsPreparer env a.1 a.2.1 a.2.2.1 a.2.2.2.1 a.2.2.2.2,
    send := fun env a req => sql.ElasticPoolsClient.ListMetricsSender env a.1 req,
    respond := fun env a resp => (sql.ElasticPoolsClient.ListMetricsResponder env a.1 resp).2,
    run := fun env a =>
      let r := sql.ElasticPoolsClient.ListMetrics env a.1 a.2.1 a.2.2.1 a.2.2.2.1 a.2.2.2.2
      (r.err, r.sent) },
  { PackageType := "sql.BackupLongTermRetentionPoliciesClient", Method := "Get",
    Args := sql.BackupLongTermRetentionPoliciesClient × String × String × String,
    validation := fun _ => none,
    prepare := fun env a => sql.BackupLongTermRetentionPoliciesClient.GetPreparer env a.1 a.2.1 a.2.2.1 a.2.2.2,
    send := fun env a req => sql.BackupLongTermRetentionPoliciesClient.GetSender env a.1 req,
    respond := fun env a resp => (sql.BackupLongTermRetentionPoliciesClient.GetResponder env a.1 resp).2,
    run := fun env a =>
      let r := sql.BackupLongTermRetentionPoliciesClient.Get env a.1 a.2.1 a.2.2.1 a.2.2.2
      (r.err, r.sent) },
  { PackageType := "sql.BackupLongTermRetentionPoliciesClient", Method := "ListByDatabase",
    Args := sql.BackupLongTermRetentionPoliciesClient × String × String × String,
    validation := fun _ => none,
    prepare := fun env a => sql.BackupLongTermRetentionPoliciesClient.ListByDatabasePreparer env a.1 a.2.1 a.2.2.1 a.2.2.2,
    send := fun env a req => sql.BackupLongTermRetentionPoliciesClient.ListByDatabaseSender env a.1 req,
    respond := fun env a resp => (sql.BackupLongTermRetentionPoliciesClient.ListByDatabaseResponder env a.1 resp).2,
    run := fun env a =>
      let r := sql.BackupLongTermRetentionPoliciesClient.ListByDatabase env a.1 a.2.1 a.2.2.1 a.2.2.2
      (r.err, r.sent) },
  { PackageType := "sql.SyncMembersClient", Method := "Get",
    Args := sql.SyncMembersClient × String × String × String × String × String,
    validation := fun _ => none,
    prepare := fun env a => sql.SyncMembersClient.GetPreparer env a.1 a.2.1 a.2.2.1 a.2.2.2.1 a.2.2.2.2.1 a.2.2.2.2.2,
    send := fun env a req => sql.SyncMembersClient.GetSender env a.1 req,
    respond := fun env a resp => (sql.SyncMembersClient.GetResponder env a.1 resp).2,
    run := fun env a =>
      let r := sql.SyncMembersClient.Get env a.1 a.2.1 a.2.2.1 a.2.2.2.1 a.2.2.2.2.1 a.2.2.2.2.2
      (r.err, r.sent) },
  { PackageType := "sql.SyncMembersClient", Method := "ListBySyncGroup",
    Args := sql.SyncMembersClient × String × String × String × String,
    validation := fun _ => none,
    prepare := fun env a => sql.SyncMembersClient.ListBySyncGroupPreparer env a.1 a.2.1 a.2.2.1 a.2.2.2.1 a.2.2.2.2,
    send := fun env a req => sql.SyncMembersClient.ListBySyncGroupSender env a.1 req,
    respond := fun env a resp => (sql.SyncMembersClient.ListBySyncGroupResponder env a.1 resp).2,
    run := fun env a =>
      let r := sql.SyncMembersClient.ListBySyncGroup env a.1 a.2.1 a.2.2.1 a.2.2.2.1 a.2.2.2.2
      (r.err, r.sent) },
  { PackageType := "sql.SyncMembersClient", Method := "ListMemberSchemas",
    Args := sql.SyncMembersClient × String × String × String × String × String,
    validation := fun _ => none,
    prepare := fun env a => sql.SyncMembersClient.ListMemberSchemasPreparer env a.1 a.2.1 a.2.2.1 a.2.2.2.1 a.2.2.2.2.1 a.2.2.2.2.2,
    send := fun env a req => sql.SyncMembersClient.ListMemberSchemasSender env a.1 req,
    respond := fun env a resp => (sql.SyncMembersClient.ListMemberSchemasResponder env a.1 resp).2,
    run := fun env a =>
      let r := sql.SyncMembersClient.ListMemberSchemas env a.1 a.2.1 a.2.2.1 a.2.2.2.1 a.2.2.2.2.1 a.2.2.2.2.2
      (r.err, r.sent) }]

/-! ## The Redis cache data source (data_source_redis_cache.go) -/

namespace azurerm

/-- A value handed to `d.Set` or returned by `d.Get`. -/
inductive Value where
  | string (s : String)
  | stringPtr (p : Option String)
  | int32Ptr (p : Option Int)
  | boolPtr (p : Option Bool)
  | stringsPtr (p : Option (List String))
  | map (entries : List (String × String))
  deriving DecidableEq, Repr

/-- Go `*schema.ResourceData`: the resource id and the attributes written so far. -/
structure ResourceData where
  Id : String
  Attributes : List (String × Value)
  deriving DecidableEq, Repr

/-- Modelled from the spec: `redis.Sku` of the Redis SDK (absent). -/
structure Sku where
  Name : String
  Family : String
  Capacity : Option Int
  deriving DecidableEq, Repr

/-- Modelled from the spec: `redis.Properties` of the Redis SDK (absent), with the fields
the read handler uses; the SKU and the Redis configuration are fields of the properties. -/
structure Properties where
  Sku : Option Sku
  RedisConfiguration : List (String × String)
  SslPort : Option Int
  HostName : Option String
  MinimumTLSVersion : String
  Port : Option Int
  EnableNonSslPort : Option Bool
  ShardCount : Option Int
  StaticIP : Option String
  SubnetID : Option String
  deriving DecidableEq, Repr

/-- Modelled from the spec: `redis.ResourceType` of the Redis SDK (absent), the result of
`client.Get`, with the fields the read handler uses. The properties are an embedded
pointer `*Properties`: `resp.Sku` and `resp.RedisConfiguration` are fields of the
properties it points to, and reading them dereferences that pointer. -/
structure ResourceType where
  Response : autorest.Response
  ID : Option String
  Location : Option String
  Zones : Option (List String)
  Properties : Option Properties
  Tags : List (String × String)
  deriving DecidableEq, Repr

/-- Modelled from the spec: `redis.AccessKeys` of the Redis SDK (absent), the result of
`client.ListKeys`. -/
structure AccessKeys where
  PrimaryKey : Option String
  SecondaryKey : Option String
  deriving DecidableEq, Repr

/-- The collaborators of the read handler that live outside its file. -/
structure Env where
  /-- Go `client.Get(ctx, resourceGroup, name)` of the Redis client. -/
  Get : String → String → ResourceType × Option Error
  /-- Go `client.ListKeys(ctx, resourceGroup, name)` of the Redis client. -/
  ListKeys : String → String → AccessKeys × Option Error
  /-- Go `utils.ResponseWasNotFound`. -/
  ResponseWasNotFound : autorest.Response → Bool
  /-- Go `azureRMNormalizeLocation`. -/
  azureRMNormalizeLocation : String → String
  /-- Go `flattenRedisConfiguration`. -/
  flattenRedisConfiguration : List (String × String) → Value × Option Error
  /-- Go `flattenAndSetTags`. -/
  flattenAndSetTags : ResourceData → List (String × String) → ResourceData
  /-- The error `d.Set(key, value)` reports, nil when the schema accepts the value. -/
  SetError : String → Value → Option Error

/-- Go `d.Get(key)`: the attribute, the empty string when it is not set. -/
def ResourceData.Get (d : ResourceData) (key : String) : Value :=
  (d.Attributes.lookup key).getD (Value.string "")

/-- Go `d.Set(key, value)`: writes the attribute unless the schema rejects the value, and
reports the schema error. -/
def ResourceData.Set (env : Env) (d : ResourceData) (key : String) (value : Value) :
    ResourceData × Option Error :=
  match env.SetError key value with
  | some err => (d, some err)
  | none => ({ d with Attributes := (key, value) :: d.Attributes.filter (fun p => p.1 != key) }, none)

/-- Go `d.SetId(id)`. -/
def ResourceData.SetId (d : ResourceData) (id : String) : ResourceData :=
  { d with Id := id }

/-- How a call of the read handler ends: it returns its error (nil on success), or it
panics on a failed type assertion or a nil pointer dereference. Either way the resource
data holds what was written until then. -/
inductive ReadResult where
  | returned (d : ResourceData) (err : Option Error)
  | panicked (d : ResourceData)
  deriving DecidableEq, Repr

/-- The resource data a call of the read handler leaves, whether it returned or panicked. -/
def ReadResult.data : ReadResult → ResourceData
  | .returned d _ => d
  | .panicked d => d

/-- The part of Go `dataSourceArmRedisCacheRead` between `d.SetId` and the read of
`resp.Sku`: the location and the zones. The source discards the result of every `d.Set`
call here, and so does this definition. -/
def dataSourceArmRedisCacheRead.location (env : Env) (d : ResourceData)
    (resp : ResourceType) : ResourceData :=
  let d :=
    match resp.Location with
    | some location => (d.Set env "location" (.string (env.azureRMNormalizeLocation location))).1
    | none => d
  match resp.Zones with
  | some zones => (d.Set env "zones" (.stringsPtr (some zones))).1
  | none => d

/-- The part of Go `dataSourceArmRedisCacheRead` from the read of `resp.Sku` to the
flattening of the Redis configuration, given the properties the response points to: the
attributes of the SKU and of the properties. The source discards the result of every
`d.Set` call here, and so does this definition. -/
def dataSourceArmRedisCacheRead.properties (env : Env) (d : ResourceData)
    (props : Properties) : ResourceData :=
  let d :=
    match props.Sku with
    | some sku =>
      let d := (d.Set env "capacity" (.int32Ptr sku.Capacity)).1
      let d := (d.Set env "family" (.string sku.Family)).1
      (d.Set env "sku_name" (.string sku.Name)).1
    | none => d
  let d := (d.Set env "ssl_port" (.int32Ptr props.SslPort)).1
  let d := (d.Set env "hostname" (.stringPtr props.HostName)).1
  let d := (d.Set env "minimum_tls_version" (.string props.MinimumTLSVersion)).1
  let d := (d.Set env "port" (.int32Ptr props.Port)).1
  let d := (d.Set env "enable_non_ssl_port" (.boolPtr props.EnableNonSslPort)).1
  let d :=
    match props.ShardCount with
    | some shardCount => (d.Set env "shard_count" (.int32Ptr (some shardCount))).1
    | none => d
  let d := (d.Set env "private_static_ip_address" (.stringPtr props.StaticIP)).1
  (d.Set env "subnet_id" (.stringPtr props.SubnetID)).1

/-- Go `dataSourceArmRedisCacheRead`. The read of `resp.Sku` dereferences the embedded
properties pointer, so a response without properties panics there, after the location and
the zones were written; past that point the guard `props != nil` of the source always
holds. -/
def dataSourceArmRedisCacheRead (env : Env) (d : ResourceData) : ReadResult :=
  match d.Get "resource_group_name", d.Get "name" with
  | .string resourceGroup, .string name =>
    match env.Get resourceGroup name with
    | (resp, some err) =>
      if env.ResponseWasNotFound resp.Response then
        .returned d (some (Error.errorf
          "Error: Redis instance %q (Resource group %q) was not found" [name, resourceGroup]))
      else
        .returned d (some (Error.errorfWrap
          "Error reading the state of Redis instance %q: %+v" [name] err))
    | (resp, none) =>
      match resp.ID with
      | none => .panicked d
      | some id =>
        let d := d.SetId id
        let d := dataSourceArmRedisCacheRead.location env d resp
        match resp.Properties with
        | none => .panicked d
        | some props =>
          let d := dataSourceArmRedisCacheRead.properties env d props
          match env.flattenRedisConfiguration props.RedisConfiguration with
          | (_, some err) =>
            .returned d
              (some (Error.errorfWrap "Error flattening `redis_configuration`: %+v" [] err))
          | (redisConfiguration, none) =>
            match d.Set env "redis_configuration" redisConfiguration with
            | (d, some err) =>
              .returned d
                (some (Error.errorfWrap "Error setting `redis_configuration`: %+v" [] err))
            | (d, none) =>
              match env.ListKeys resourceGroup name with
              | (_, some err) => .returned d (some err)
              | (keys, none) =>
                match keys.PrimaryKey with
                | none => .panicked d
                | some primaryKey =>
                  let d := (d.Set env "primary_access_key" (.string primaryKey)).1
                  match keys.SecondaryKey with
                  | none => .panicked d
                  | some secondaryKey =>
                    let d := (d.Set env "secondary_access_key" (.string secondaryKey)).1
                    let d := env.flattenAndSetTags d resp.Tags
                    .returned d none
  | _, _ => .panicked d

/-- Whether an error is a `fmt.Errorf` annotation one of whose arguments is the given
name. -/
def namesResource (err : Error) (name : String) : Bool :=
  match err with
  | Error.errorf _ args => args.contains name
  | Error.errorfWrap _ args _ => args.contains name
  | _ => false

end azurerm

/-! ## Path templates -/

namespace autorest

/-- A piece of a path template: a literal character or a named placeholder `{name}`. -/
inductive Segment where
  | lit (c : Char)
  | param (name : String)
  deriving DecidableEq, Repr

/-- Splits the characters of a template into segments; `cur` holds the characters read
since an opening brace, latest first. A brace that is never closed is literal text. -/
def scanSegments : List Char → Option (List Char) → List Segment
  | [], none => []
  | [], some cur => Segment.lit '{' :: cur.reverse.map Segment.lit
  | c :: rest, none =>
    if c = '{' then scanSegments rest (some []) else Segment.lit c :: scanSegments rest none
  | c :: rest, some cur =>
    if c = '}' then Segment.param (String.mk cur.reverse) :: scanSegments rest none
    else scanSegments rest (some (c :: cur))

/-- The segments of a path template. -/
def pathSegments (path : String) : List Segment :=
  scanSegments path.toList none

/-- The names of the segments that are placeholders, in order. -/
def segmentNames : List Segment → List String
  | [] => []
  | Segment.lit _ :: rest => segmentNames rest
  | Segment.param name :: rest => name :: segmentNames rest

/-- The named placeholders of a path template, in order of occurrence. -/
def placeholders (path : String) : List String :=
  segmentNames (pathSegments path)

/-- Modelled from the spec: the text one segment contributes to the built path (the
go-autorest runtime is absent): a placeholder is replaced by its parameter, and building
fails with a malformed-template error when it has no corresponding parameter. -/
def resolveSegment (pathParameters : List (String × String)) : Segment → Except Error (List Char)
  | Segment.lit c => .ok [c]
  | Segment.param name =>
    match pathParameters.lookup name with
    | some value => .ok value.toList
    | none => .error (Error.plain ("MalformedTemplate: no parameter for placeholder " ++ name))

/-- Modelled from the spec: the path built from segments (the go-autorest runtime is
absent); the first placeholder without a parameter makes the build fail. -/
def buildSegments (pathParameters : List (String × String)) : List Segment → Except Error (List Char)
  | [] => .ok []
  | seg :: rest =>
    match resolveSegment pathParameters seg with
    | .error e => .error e
    | .ok chars =>
      match buildSegments pathParameters rest with
      | .error e => .error e
      | .ok tail => .ok (chars ++ tail)

/-- Modelled from the spec: the URL path `autorest.WithPathParameters(path, pathParameters)`
builds (the go-autorest runtime is absent). -/
def buildPath (path : String) (pathParameters : List (String × String)) : Except Error String :=
  match buildSegments pathParameters (pathSegments path) with
  | .error e => .error e
  | .ok chars => .ok (String.mk chars)

/-- The path template and path parameters of every `WithPathParameters` decorator of a
preparer. -/
def pathParametersOf : Preparer → List (String × List (String × String))
  | [] => []
  | PrepareDecorator.WithPathParameters path pathParameters :: rest =>
    (path, pathParameters) :: pathParametersOf rest
  | _ :: rest => pathParametersOf rest

/-- The query parameters of every `WithQueryParameters` decorator of a preparer. -/
def queryParametersOf : Preparer → List (List (String × String))
  | [] => []
  | PrepareDecorator.WithQueryParameters queryParameters :: rest =>
    queryParameters :: queryParametersOf rest
  | _ :: rest => queryParametersOf rest

/-- Whether two lists of names have the same members. -/
def sameNames (xs ys : List String) : Bool :=
  xs.all (fun x => ys.contains x) && ys.all (fun y => xs.contains y)

end autorest

/-! ## Concrete collaborators -/

namespace sample

/-- A request as a preparer may yield it. -/
def request : http.Request :=
  { Method := "GET", URL := "https://management.azure.com/subscriptions/sub-1",
    ContentType := none, Body := none }

/-- A response with the given status and body whose stream is still open. -/
def response (status : Nat) (body : String) : http.Response :=
  { StatusCode := status, Body := body, Closed := 0 }

/-- The decoded fields of a JSON object whose only member is the name `hook`. -/
def payload : autorest.Payload :=
  { autorest.Payload.zero with Name := some "hook" }

/-- Collaborators that answer every call the same way: the preparer result, the sender
result and the next-page preparer result are given; the decoder accepts exactly the JSON
object whose only member is the name `hook`. -/
def env (prepared : Except Error http.Request) (sent : autorest.SendResult)
    (next : Except Error (Option http.Request)) : autorest.Env :=
  { Prepare := fun _ => prepared,
    SendWithSender := fun _ _ _ => sent,
    Unmarshal := fun body =>
      if body = "\x7b\"name\":\"hook\"\x7d" then some payload else none,
    ListResultPreparer := fun _ => next }

/-- An autorest client with three retry attempts. -/
def client : autorest.Client :=
  { RetryAttempts := 3, RetryDuration := 30 }

/-- A webhook client. -/
def webhookClient : automation.WebhookClient :=
  { Client := client, BaseURI := "https://management.azure.com", SubscriptionID := "sub-1" }

/-- A Graph objects client. -/
def objectsClient : graphrbac.ObjectsClient :=
  { Client := client, BaseURI := "https://graph.windows.net", TenantID := "tenant-1" }

/-- A sync members client. -/
def syncMembersClient : sql.SyncMembersClient :=
  { Client := client, BaseURI := "https://management.azure.com", SubscriptionID := "sub-1" }

/-- The Redis instance `cache1` as `client.Get` returns it. -/
def redisResource : azurerm.ResourceType :=
  { Response := { Response := some (response 200 "") },
    ID := some "/subscriptions/sub-1/resourceGroups/rg1/providers/Microsoft.Cache/Redis/cache1",
    Location := some "westus", Zones := none,
    Properties := some
      { Sku := some { Name := "Standard", Family := "C", Capacity := some 1 },
        RedisConfiguration := [("maxclients", "1000")],
        SslPort := some 6380, HostName := some "cache1.redis.cache.windows.net",
        MinimumTLSVersion := "1.2", Port := some 6379, EnableNonSslPort := some false,
        ShardCount := none, StaticIP := none, SubnetID := none },
    Tags := [] }

/-- The access keys of `cache1`. -/
def redisKeys : azurerm.AccessKeys :=
  { PrimaryKey := some "key-1", SecondaryKey := some "key-2" }

/-- The configuration of the data source before the read. -/
def redisData : azurerm.ResourceData :=
  { Id := "", Attributes := [("resource_group_name", .string "rg1"), ("name", .string "cache1")] }

/-- Collaborators of the read handler: the errors of `client.Get`, of
`flattenRedisConfiguration` and of `client.ListKeys` are given, and `d.Set` rejects
exactly the keys in `rejected`. -/
def redisEnv (getErr flattenErr listErr : Option Error) (rejected : List String) :
    azurerm.Env :=
  { Get := fun _ _ => (redisResource, getErr),
    ListKeys := fun _ _ => (redisKeys, listErr),
    ResponseWasNotFound := fun _ => false,
    azureRMNormalizeLocation := fun location => location,
    flattenRedisConfiguration := fun cfg => (.map cfg, flattenErr),
    flattenAndSetTags := fun d _ => d,
    SetError := fun key _ =>
      if rejected.contains key then some (Error.plain ("invalid value for " ++ key)) else none }

end sample

/-! ## Long-running operations -/

namespace autorest

/-- Go `autorest.Sender`: what issues one request and yields the response or an error. -/
abbrev Sender := http.Request → SendResult

/-- Go `autorest.DecorateSender(client, decorators...)`: the client as a sender, wrapped
in the send decorators. -/
def DecorateSender (env : Env) (client : Client) (decorators : List SendDecorator) : Sender :=
  fun req => env.SendWithSender client req decorators

end autorest

namespace azure

/-- Modelled from the spec: the derived provisioning status of a poll future (the
go-autorest runtime is absent): in progress, or one of the three terminal states. -/
inductive ProvisioningStatus where
  | InProgress
  | Succeeded
  | Failed
  | Canceled
  deriving DecidableEq, Repr

/-- Whether a status is one of the terminal states. -/
def ProvisioningStatus.isTerminal : ProvisioningStatus → Bool
  | .InProgress => false
  | .Succeeded => true
  | .Failed => true
  | .Canceled => true

/-- Equality of two strings ignoring the case of their letters. -/
def equalFold (a b : String) : Bool :=
  a.toList.map Char.toLower == b.toList.map Char.toLower

/-- Modelled from the spec: the state a provisioning-status string stands for (the
go-autorest runtime is absent): a case-insensitive comparison against the vocabulary
`Succeeded`, `Failed`, `Canceled`; every other value is treated as in progress. -/
def statusOf (s : String) : ProvisioningStatus :=
  if equalFold s "Succeeded" then .Succeeded
  else if equalFold s "Failed" then .Failed
  else if equalFold s "Canceled" then .Canceled
  else .InProgress

/-- The collaborators of the poller that read a response: the extraction of the
provisioning-status field from a body (`none` when the body has no such field) and the
request that polls the location a response names. -/
structure Env where
  ProvisioningState : String → Option String
  PollingRequest : http.Request → http.Response → http.Request

/-- Modelled from the spec: the status derived from a response (the go-autorest runtime is
absent): the provisioning-status field of the body when there is one, else terminal
success for a 200 or a 204 and in progress for any other status. -/
def deriveStatus (penv : Env) (resp : http.Response) : ProvisioningStatus :=
  match penv.ProvisioningState resp.Body with
  | some s => statusOf s
  | none =>
    if resp.StatusCode = http.StatusOK ∨ resp.StatusCode = http.StatusNoContent then .Succeeded
    else .InProgress

/-- Modelled from the spec: Go `azure.Future` (the go-autorest runtime is absent): the
original request, the most recently observed response and the derived status. -/
structure Future where
  Request : Option http.Request
  Response : Option http.Response
  Status : ProvisioningStatus
  deriving DecidableEq, Repr

/-- The zero value of a future. -/
def Future.zero : Future :=
  { Request := none, Response := none, Status := .InProgress }

/-- Modelled from the spec: Go `azure.NewFuture(req)` (the go-autorest runtime is absent):
a future that has observed nothing yet. -/
def NewFuture (req : http.Request) : Future :=
  { Request := some req, Response := none, Status := .InProgress }

/-- The request the next call of `Done` issues: the original request while nothing has
been observed, then the polling request for the location the last response names. -/
def Future.nextRequest (penv : Env) (f : Future) : Option http.Request :=
  match f.Request, f.Response with
  | none, _ => none
  | some req, none => some req
  | some req, some resp => some (penv.PollingRequest req resp)

/-- Modelled from the spec: the error of a terminal outcome (the go-autorest runtime is
absent): `OperationFailed` or `OperationCanceled`, carrying the last observed body. -/
def Future.errorInfo (f : Future) : Option Error :=
  match f.Status with
  | .Failed => some (Error.operationFailed ((f.Response.map (fun r => r.Body)).getD ""))
  | .Canceled => some (Error.operationCanceled ((f.Response.map (fun r => r.Body)).getD ""))
  | .Succeeded => none
  | .InProgress => none

/-- What one call of `Done` leaves: the future after the call, the two results of the call
and the requests it handed to the sender. -/
structure Polled where
  future : Future
  done : Bool
  err : Option Error
  sent : List http.Request

/-- Modelled from the spec: Go `future.Done(sender)` (the go-autorest runtime is absent).
A future in a terminal state issues no request. Otherwise one request is sent; a failure
of the sender is returned as it is; a response is recorded and the status derived
from it, and a terminal failure is reported as an error. -/
def Future.Done (penv : Env) (f : Future) (sender : autorest.Sender) : Polled :=
  if f.Status.isTerminal then { future := f, done := true, err := f.errorInfo, sent := [] }
  else
    match f.nextRequest penv with
    | none =>
      { future := f, done := false, err := some (Error.plain "azure: future has no request"),
        sent := [] }
    | some req =>
      match sender req with
      | .failed resp err =>
        { future := { f with Response := resp <|> f.Response }, done := false, err := some err,
          sent := [req] }
      | .ok resp =>
        let g : Future := { f with Response := some resp, Status := deriveStatus penv resp }
        { future := g, done := g.Status.isTerminal, err := g.errorInfo, sent := [req] }

/-- Modelled from the spec: the poll loop, Go `future.WaitForCompletion` (the go-autorest
runtime is absent). The list holds the sender as it answers each successive poll and ends
where the caller cancels the loop. The loop stops at the first error or terminal state;
on cancellation the future is left in progress. -/
def Future.WaitForCompletion (penv : Env) : Future → List autorest.Sender → Polled
  | f, [] =>
    if f.Status.isTerminal then { future := f, done := true, err := f.errorInfo, sent := [] }
    else { future := f, done := false, err := some (Error.plain "context canceled"), sent := [] }
  | f, sender :: rest =>
    let p := f.Done penv sender
    match p.err, p.done with
    | some _, _ => p
    | none, true => p
    | none, false =>
      let r := Future.WaitForCompletion penv p.future rest
      { r with sent := p.sent ++ r.sent }

end azure

namespace sql

/-- Modelled from the spec: the future a long-running operation returns (the models file
is absent): the poll future and the request the operation was started with. -/
structure OperationFuture where
  Future : azure.Future
  req : Option http.Request
  deriving DecidableEq, Repr

/-- The zero value of an operation future. -/
def OperationFuture.zero : OperationFuture :=
  { Future := azure.Future.zero, req := none }

/-- Go `future.Response()`: the most recently observed response. -/
def OperationFuture.Response (future : OperationFuture) : Option http.Response :=
  future.Future.Response

abbrev ElasticPoolsCreateOrUpdateFuture := OperationFuture
abbrev ElasticPoolsUpdateFuture := OperationFuture
abbrev BackupLongTermRetentionPoliciesCreateOrUpdateFuture := OperationFuture
abbrev SyncMembersCreateOrUpdateFuture := OperationFuture
abbrev SyncMembersDeleteFuture := OperationFuture
abbrev SyncMembersRefreshMemberSchemaFuture := OperationFuture
abbrev SyncMembersUpdateFuture := OperationFuture

/-- The part of Go `ElasticPoolsClient.CreateOrUpdateSender`
after the call of `future.Done`, given the future before the call and what the call left:
the error of `Done` is returned as it is; otherwise the status of the response the future
holds is checked; a future that holds no response is not checked. -/
def ElasticPoolsClient.CreateOrUpdateSender.after (env : autorest.Env)
    (future : ElasticPoolsCreateOrUpdateFuture) (polled : azure.Polled) :
    autorest.Outcome ElasticPoolsCreateOrUpdateFuture :=
  let future : ElasticPoolsCreateOrUpdateFuture := { future with Future := polled.future }
  match polled.err with
  | some err => { result := future, err := some err, sent := polled.sent }
  | none =>
    match future.Response with
    | none => { result := future, err := none, sent := polled.sent }
    | some resp =>
      let r := autorest.Respond env resp [
        azure.WithErrorUnlessStatusCode [http.StatusOK, http.StatusCreated, http.StatusAccepted]]
      { result := { future with Future := { future.Future with Response := some r.resp } },
        err := r.err, sent := polled.sent }

/-- Go `ElasticPoolsClient.CreateOrUpdateSender`:
creates the future, calls `Done` once and checks the status of the response the future
holds. The requests handed to the sender are recorded. -/
def ElasticPoolsClient.CreateOrUpdateSender (env : autorest.Env) (penv : azure.Env)
    (client : ElasticPoolsClient) (req : http.Request) :
    autorest.Outcome ElasticPoolsCreateOrUpdateFuture :=
  let sender := autorest.DecorateSender env client.Client
    [azure.DoRetryWithRegistration client.Client]
  let future : ElasticPoolsCreateOrUpdateFuture := { Future := azure.NewFuture req, req := some req }
  ElasticPoolsClient.CreateOrUpdateSender.after env future (future.Future.Done penv sender)

/-- Go `ElasticPoolsClient.CreateOrUpdate`. -/
def ElasticPoolsClient.CreateOrUpdate (env : autorest.Env) (penv : azure.Env)
    (client : ElasticPoolsClient)
    (resourceGroupName : String) (serverName : String) (elasticPoolName : String) (parameters : ElasticPool) :
    autorest.Outcome ElasticPoolsCreateOrUpdateFuture :=
  let result : ElasticPoolsCreateOrUpdateFuture := OperationFuture.zero
  match client.CreateOrUpdatePreparer env resourceGroupName serverName elasticPoolName parameters with
  | .error err =>
    { result := result,
      err := some (autorest.NewErrorWithError err "sql.ElasticPoolsClient" "CreateOrUpdate" none
        "Failure preparing request"),
      sent := [] }
  | .ok req =>
    let sent := client.CreateOrUpdateSender env penv req
    let result : ElasticPoolsCreateOrUpdateFuture := sent.result
    match sent.err with
    | some err =>
      { result := result,
        err := some (autorest.NewErrorWithError err "sql.ElasticPoolsClient" "CreateOrUpdate"
          result.Response "Failure sending request"),
        sent := sent.sent }
    | none => { result := result, err := none, sent := sent.sent }

/-- The part of Go `ElasticPoolsClient.UpdateSender`
after the call of `future.Done`, given the future before the call and what the call left:
the error of `Done` is returned as it is; otherwise the status of the response the future
holds is checked; a future that holds no response is not checked. -/
def ElasticPoolsClient.UpdateSender.after (env : autorest.Env)
    (future : ElasticPoolsUpdateFuture) (polled : azure.Polled) :
    autorest.Outcome ElasticPoolsUpdateFuture :=
  let future : ElasticPoolsUpdateFuture := { future with Future := polled.future }
  match polled.err with
  | some err => { result := future, err := some err, sent := polled.sent }
  | none =>
    match future.Response with
    | none => { result := future, err := none, sent := polled.sent }
    | some resp =>
      let r := autorest.Respond env resp [
        azure.WithErrorUnlessStatusCode [http.StatusOK, http.StatusAccepted]]
      { result := { future with Future := { future.Future with Response := some r.resp } },
        err := r.err, sent := polled.sent }

/-- Go `ElasticPoolsClient.UpdateSender`:
creates the future, calls `Done` once and checks the status of the response the future
holds. The requests handed to the sender are recorded. -/
def ElasticPoolsClient.UpdateSender (env : autorest.Env) (penv : azure.Env)
    (client : ElasticPoolsClient) (req : http.Request) :
    autorest.Outcome ElasticPoolsUpdateFuture :=
  let sender := autorest.DecorateSender env client.Client
    [azure.DoRetryWithRegistration client.Client]
  let future : ElasticPoolsUpdateFuture := { Future := azure.NewFuture req, req := some req }
  ElasticPoolsClient.UpdateSender.after env future (future.Future.Done penv sender)

/-- Go `ElasticPoolsClient.Update`. -/
def ElasticPoolsClient.Update (env : autorest.Env) (penv : azure.Env)
    (client : ElasticPoolsClient)
    (resourceGroupName : String) (serverName : String) (elasticPoolName : String) (parameters : ElasticPoolUpdate) :
    autorest.Outcome ElasticPoolsUpdateFuture :=
  let result : ElasticPoolsUpdateFuture := OperationFuture.zero
  match client.UpdatePreparer env resourceGroupName serverName elasticPoolName parameters with
  | .error err =>
    { result := result,
      err := some (autorest.NewErrorWithError err "sql.ElasticPoolsClient" "Update" none
        "Failure preparing request"),
      sent := [] }
  | .ok req =>
    let sent := client.UpdateSender env penv req
    let result : ElasticPoolsUpdateFuture := sent.result
    match sent.err with
    | some err =>
      { result := result,
        err := some (autorest.NewErrorWithError err "sql.ElasticPoolsClient" "Update"
          result.Response "Failure sending request"),
        sent := sent.sent }
    | none => { result := result, err := none, sent := sent.sent }

/-- The part of Go `BackupLongTermRetentionPoliciesClient.CreateOrUpdateSender`
after the call of `future.Done`, given the future before the call and what the call left:
the error of `Done` is returned as it is; otherwise the status of the response the future
holds is checked; a future that holds no response is not checked. -/
def BackupLongTermRetentionPoliciesClient.CreateOrUpdateSender.after (env : autorest.Env)
    (future : BackupLongTermRetentionPoliciesCreateOrUpdateFuture) (polled : azure.Polled) :
    autorest.Outcome BackupLongTermRetentionPoliciesCreateOrUpdateFuture :=
  let future : BackupLongTermRetentionPoliciesCreateOrUpdateFuture := { future with Future := polled.future }
  match polled.err with
  | some err => { result := future, err := some err, sent := polled.sent }
  | none =>
    match future.Response with
    | none => { result := future, err := none, sent := polled.sent }
    | some resp =>
      let r := autorest.Respond env resp [
        azure.WithErrorUnlessStatusCode [http.StatusOK, http.StatusCreated, http.StatusAccepted]]
      { result := { future with Future := { future.Future with Response := some r.resp } },
        err := r.err, sent := polled.sent }

/-- Go `BackupLongTermRetentionPoliciesClient.CreateOrUpdateSender`:
creates the future, calls `Done` once and checks the status of the response the future
holds. The requests handed to the sender are recorded. -/
def BackupLongTermRetentionPoliciesClient.CreateOrUpdateSender (env : autorest.Env) (penv : azure.Env)
    (client : BackupLongTermRetentionPoliciesClient) (req : http.Request) :
    autorest.Outcome BackupLongTermRetentionPoliciesCreateOrUpdateFuture :=
  let sender := autorest.DecorateSender env client.Client
    [azure.DoRetryWithRegistration client.Client]
  let future : BackupLongTermRetentionPoliciesCreateOrUpdateFuture := { Future := azure.NewFuture req, req := some req }
  BackupLongTermRetentionPoliciesClient.CreateOrUpdateSender.after env future (future.Future.Done penv sender)

/-- The validation Go `BackupLongTermRetentionPoliciesClient.CreateOrUpdate` runs on its arguments
before it prepares a request. -/
def BackupLongTermRetentionPoliciesClient.CreateOrUpdate.validation
    (resourceGroupName : String) (serverName : String) (databaseName : String) (parameters : BackupLongTermRetentionPolicy) :
    Option Error :=
  validation.Validate [
      { TargetValue := BackupLongTermRetentionPolicy.ValueOf parameters,
        Constraints := [
          .mk "parameters.BackupLongTermRetentionPolicyProperties" .Null (.bool false) [
            .mk "parameters.BackupLongTermRetentionPolicyProperties.RecoveryServicesBackupPolicyResourceID"
              .Null (.bool true) []]] }]

/-- Go `BackupLongTermRetentionPoliciesClient.CreateOrUpdate`. -/
def BackupLongTermRetentionPoliciesClient.CreateOrUpdate (env : autorest.Env) (penv : azure.Env)
    (client : BackupLongTermRetentionPoliciesClient)
    (resourceGroupName : String) (serverName : String) (databaseName : String) (parameters : BackupLongTermRetentionPolicy) :
    autorest.Outcome BackupLongTermRetentionPoliciesCreateOrUpdateFuture :=
  let result : BackupLongTermRetentionPoliciesCreateOrUpdateFuture := OperationFuture.zero
  match BackupLongTermRetentionPoliciesClient.CreateOrUpdate.validation resourceGroupName serverName databaseName parameters with
  | some err =>
    { result := result,
      err := some (validation.NewError "sql.BackupLongTermRetentionPoliciesClient" "CreateOrUpdate" err.Error),
      sent := [] }
  | none =>
  match client.CreateOrUpdatePreparer env resourceGroupName serverName databaseName parameters with
  | .error err =>
    { result := result,
      err := some (autorest.NewErrorWithError err "sql.BackupLongTermRetentionPoliciesClient" "CreateOrUpdate" none
        "Failure preparing request"),
      sent := [] }
  | .ok req =>
    let sent := client.CreateOrUpdateSender env penv req
    let result : BackupLongTermRetentionPoliciesCreateOrUpdateFuture := sent.result
    match sent.err with
    | some err =>
      { result := result,
        err := some (autorest.NewErrorWithError err "sql.BackupLongTermRetentionPoliciesClient" "CreateOrUpdate"
          result.Response "Failure sending request"),
        sent := sent.sent }
    | none => { result := result, err := none, sent := sent.sent }

/-- The part of Go `SyncMembersClient.CreateOrUpdateSender`
after the call of `future.Done`, given the future before the call and what the call left:
the error of `Done` is returned as it is; otherwise the status of the response the future
holds is checked; a future that holds no response is not checked. -/
def SyncMembersClient.CreateOrUpdateSender.after (env : autorest.Env)
    (future : SyncMembersCreateOrUpdateFuture) (polled : azure.Polled) :
    autorest.Outcome SyncMembersCreateOrUpdateFuture :=
  let future : SyncMembersCreateOrUpdateFuture := { future with Future := polled.future }
  match polled.err with
  | some err => { result := future, err := some err, sent := polled.sent }
  | none =>
    match future.Response with
    | none => { result := future, err := none, sent := polled.sent }
    | some resp =>
      let r := autorest.Respond env resp [
        azure.WithErrorUnlessStatusCode [http.StatusOK, http.StatusCreated, http.StatusAccepted]]
      { result := { future with Future := { future.Future with Response := some r.resp } },
        err := r.err, sent := polled.sent }

/-- Go `SyncMembersClient.CreateOrUpdateSender`:
creates the future, calls `Done` once and checks the status of the response the future
holds. The requests handed to the sender are recorded. -/
def SyncMembersClient.CreateOrUpdateSender (env : autorest.Env) (penv : azure.Env)
    (client : SyncMembersClient) (req : http.Request) :
    autorest.Outcome SyncMembersCreateOrUpdateFuture :=
  let sender := autorest.DecorateSender env client.Client
    [azure.DoRetryWithRegistration client.Client]
  let future : SyncMembersCreateOrUpdateFuture := { Future := azure.NewFuture req, req := some req }
  SyncMembersClient.CreateOrUpdateSender.after env future (future.Future.Done penv sender)

/-- Go `SyncMembersClient.CreateOrUpdate`. -/
def SyncMembersClient.CreateOrUpdate (env : autorest.Env) (penv : azure.Env)
    (client : SyncMembersClient)
    (resourceGroupName : String) (serverName : String) (databaseName : String) (syncGroupName : String) (syncMemberName : String) (parameters : SyncMember) :
    autorest.Outcome SyncMembersCreateOrUpdateFuture :=
  let result : SyncMembersCreateOrUpdateFuture := OperationFuture.zero
  match client.CreateOrUpdatePreparer env resourceGroupName serverName databaseName syncGroupName syncMemberName parameters with
  | .error err =>
    { result := result,
      err := some (autorest.NewErrorWithError err "sql.SyncMembersClient" "CreateOrUpdate" none
        "Failure preparing request"),
      sent := [] }
  | .ok req =>
    let sent := client.CreateOrUpdateSender env penv req
    let result : SyncMembersCreateOrUpdateFuture := sent.result
    match sent.err with
    | some err =>
      { result := result,
        err := some (autorest.NewErrorWithError err "sql.SyncMembersClient" "CreateOrUpdate"
          result.Response "Failure sending request"),
        sent := sent.sent }
    | none => { result := result, err := none, sent := sent.sent }

/-- The part of Go `SyncMembersClient.DeleteSender`
after the call of `future.Done`, given the future before the call and what the call left:
the error of `Done` is returned as it is; otherwise the status of the response the future
holds is checked; a future that holds no response is not checked. -/
def SyncMembersClient.DeleteSender.after (env : autorest.Env)
    (future : SyncMembersDeleteFuture) (polled : azure.Polled) :
    autorest.Outcome SyncMembersDeleteFuture :=
  let future : SyncMembersDeleteFuture := { future with Future := polled.future }
  match polled.err with
  | some err => { result := future, err := some err, sent := polled.sent }
  | none =>
    match future.Response with
    | none => { result := future, err := none, sent := polled.sent }
    | some resp =>
      let r := autorest.Respond env resp [
        azure.WithErrorUnlessStatusCode [http.StatusOK, http.StatusAccepted, http.StatusNoContent]]
      { result := { future with Future := { future.Future with Response := some r.resp } },
        err := r.err, sent := polled.sent }

/-- Go `SyncMembersClient.DeleteSender`:
creates the future, calls `Done` once and checks the status of the response the future
holds. The requests handed to the sender are recorded. -/
def SyncMembersClient.DeleteSender (env : autorest.Env) (penv : azure.Env)
    (client : SyncMembersClient) (req : http.Request) :
    autorest.Outcome SyncMembersDeleteFuture :=
  let sender := autorest.DecorateSender env client.Client
    [azure.DoRetryWithRegistration client.Client]
  let future : SyncMembersDeleteFuture := { Future := azure.NewFuture req, req := some req }
  SyncMembersClient.DeleteSender.after env future (future.Future.Done penv sender)

/-- Go `SyncMembersClient.Delete`. -/
def SyncMembersClient.Delete (env : autorest.Env) (penv : azure.Env)
    (client : SyncMembersClient)
    (resourceGroupName : String) (serverName : String) (databaseName : String) (syncGroupName : String) (syncMemberName : String) :
    autorest.Outcome SyncMembersDeleteFuture :=
  let result : SyncMembersDeleteFuture := OperationFuture.zero
  match client.DeletePreparer env resourceGroupName serverName databaseName syncGroupName syncMemberName with
  | .error err =>
    { result := result,
      err := some (autorest.NewErrorWithError err "sql.SyncMembersClient" "Delete" none
        "Failure preparing request"),
      sent := [] }
  | .ok req =>
    let sent := client.DeleteSender env penv req
    let result : SyncMembersDeleteFuture := sent.result
    match sent.err with
    | some err =>
      { result := result,
        err := some (autorest.NewErrorWithError err "sql.SyncMembersClient" "Delete"
          result.Response "Failure sending request"),
        sent := sent.sent }
    | none => { result := result, err := none, sent := sent.sent }

/-- The part of Go `SyncMembersClient.RefreshMemberSchemaSender`
after the call of `future.Done`, given the future before the call and what the call left:
the error of `Done` is returned as it is; otherwise the status of the response the future
holds is checked; a future that holds no response is not checked. -/
def SyncMembersClient.RefreshMemberSchemaSender.after (env : autorest.Env)
    (future : SyncMembersRefreshMemberSchemaFuture) (polled : azure.Polled) :
    autorest.Outcome SyncMembersRefreshMemberSchemaFuture :=
  let future : SyncMembersRefreshMemberSchemaFuture := { future with Future := polled.future }
  match polled.err with
  | some err => { result := future, err := some err, sent := polled.sent }
  | none =>
    match future.Response with
    | none => { result := future, err := none, sent := polled.sent }
    | some resp =>
      let r := autorest.Respond env resp [
        azure.WithErrorUnlessStatusCode [http.StatusOK, http.StatusAccepted]]
      { result := { future with Future := { future.Future with Response := some r.resp } },
        err := r.err, sent := polled.sent }

/-- Go `SyncMembersClient.RefreshMemberSchemaSender`:
creates the future, calls `Done` once and checks the status of the response the future
holds. The requests handed to the sender are recorded. -/
def SyncMembersClient.RefreshMemberSchemaSender (env : autorest.Env) (penv : azure.Env)
    (client : SyncMembersClient) (req : http.Request) :
    autorest.Outcome SyncMembersRefreshMemberSchemaFuture :=
  let sender := autorest.DecorateSender env client.Client
    [azure.DoRetryWithRegistration client.Client]
  let future : SyncMembersRefreshMemberSchemaFuture := { Future := azure.NewFuture req, req := some req }
  SyncMembersClient.RefreshMemberSchemaSender.after env future (future.Future.Done penv sender)

/-- Go `SyncMembersClient.RefreshMemberSchema`. -/
def SyncMembersClient.RefreshMemberSchema (env : autorest.Env) (penv : azure.Env)
    (client : SyncMembersClient)
    (resourceGroupName : String) (serverName : String) (databaseName : String) (syncGroupName : String) (syncMemberName : String) :
    autorest.Outcome SyncMembersRefreshMemberSchemaFuture :=
  let result : SyncMembersRefreshMemberSchemaFuture := OperationFuture.zero
  match client.RefreshMemberSchemaPreparer env resourceGroupName serverName databaseName syncGroupName syncMemberName with
  | .error err =>
    { result := result,
      err := some (autorest.NewErrorWithError err "sql.SyncMembersClient" "RefreshMemberSchema" none
        "Failure preparing request"),
      sent := [] }
  | .ok req =>
    let sent := client.RefreshMemberSchemaSender env penv req
    let result : SyncMembersRefreshMemberSchemaFuture := sent.result
    match sent.err with
    | some err =>
      { result := result,
        err := some (autorest.NewErrorWithError err "sql.SyncMembersClient" "RefreshMemberSchema"
          result.Response "Failure sending request"),
        sent := sent.sent }
    | none => { result := result, err := none, sent := sent.sent }

/-- The part of Go `SyncMembersClient.UpdateSender`
after the call of `future.Done`, given the future before the call and what the call left:
the error of `Done` is returned as it is; otherwise the status of the response the future
holds is checked; a future that holds no response is not checked. -/
def SyncMembersClient.UpdateSender.after (env : autorest.Env)
    (future : SyncMembersUpdateFuture) (polled : azure.Polled) :
    autorest.Outcome SyncMembersUpdateFuture :=
  let future : SyncMembersUpdateFuture := { future with Future := polled.future }
  match polled.err with
  | some err => { result := future, err := some err, sent := polled.sent }
  | none =>
    match future.Response with
    | none => { result := future, err := none, sent := polled.sent }
    | some resp =>
      let r := autorest.Respond env resp [
        azure.WithErrorUnlessStatusCode [http.StatusOK, http.StatusAccepted]]
      { result := { future with Future := { future.Future with Response := some r.resp } },
        err := r.err, sent := polled.sent }

/-- Go `SyncMembersClient.UpdateSender`:
creates the future, calls `Done` once and checks the status of the response the future
holds. The requests handed to the sender are recorded. -/
def SyncMembersClient.UpdateSender (env : autorest.Env) (penv : azure.Env)
    (client : SyncMembersClient) (req : http.Request) :
    autorest.Outcome SyncMembersUpdateFuture :=
  let sender := autorest.DecorateSender env client.Client
    [azure.DoRetryWithRegistration client.Client]
  let future : SyncMembersUpdateFuture := { Future := azure.NewFuture req, req := some req }
  SyncMembersClient.UpdateSender.after env future (future.Future.Done penv sender)

/-- Go `SyncMembersClient.Update`. -/
def SyncMembersClient.Update (env : autorest.Env) (penv : azure.Env)
    (client : SyncMembersClient)
    (resourceGroupName : String) (serverName : String) (databaseName : String) (syncGroupName : String) (syncMemberName : String) (parameters : SyncMember) :
    autorest.Outcome SyncMembersUpdateFuture :=
  let result : SyncMembersUpdateFuture := OperationFuture.zero
  match client.UpdatePreparer env resourceGroupName serverName databaseName syncGroupName syncMemberName parameters with
  | .error err =>
    { result := result,
      err := some (autorest.NewErrorWithError err "sql.SyncMembersClient" "Update" none
        "Failure preparing request"),
      sent := [] }
  | .ok req =>
    let sent := client.UpdateSender env penv req
    let result : SyncMembersUpdateFuture := sent.result
    match sent.err with
    | some err =>
      { result := result,
        err := some (autorest.NewErrorWithError err "sql.SyncMembersClient" "Update"
          result.Response "Failure sending request"),
        sent := sent.sent }
    | none => { result := result, err := none, sent := sent.sent }

end sql

/-- One long-running-operation sender of the repository: its receiver, the autorest client
of a receiver, the status codes it accepts for the response the future holds, the part of
the sender after the call of `future.Done`, and the sender. -/
structure LroSenderCase where
  Client : String
  Name : String
  Receiver : Type
  client : Receiver → autorest.Client
  codes : List Nat
  after : autorest.Env → sql.OperationFuture → azure.Polled →
    autorest.Outcome sql.OperationFuture
  run : autorest.Env → azure.Env → Receiver → http.Request → autorest.Outcome sql.OperationFuture

/-- Every long-running-operation sender of the repository. -/
def lroSenders : List LroSenderCase := [
  { Client := "sql.ElasticPoolsClient", Name := "CreateOrUpdateSender",
    Receiver := sql.ElasticPoolsClient,
    client := fun c => c.Client,
    codes := [http.StatusOK, http.StatusCreated, http.StatusAccepted],
    after := fun env future polled =>
      sql.ElasticPoolsClient.CreateOrUpdateSender.after env future polled,
    run := fun env penv c req => sql.ElasticPoolsClient.CreateOrUpdateSender env penv c req },
  { Client := "sql.ElasticPoolsClient", Name := "UpdateSender",
    Receiver := sql.ElasticPoolsClient,
    client := fun c => c.Client,
    codes := [http.StatusOK, http.StatusAccepted],
    after := fun env future polled =>
      sql.ElasticPoolsClient.UpdateSender.after env future polled,
    run := fun env penv c req => sql.ElasticPoolsClient.UpdateSender env penv c req },
  { Client := "sql.BackupLongTermRetentionPoliciesClient", Name := "CreateOrUpdateSender",
    Receiver := sql.BackupLongTermRetentionPoliciesClient,
    client := fun c => c.Client,
    codes := [http.StatusOK, http.StatusCreated, http.StatusAccepted],
    after := fun env future polled =>
      sql.BackupLongTermRetentionPoliciesClient.CreateOrUpdateSender.after env future polled,
    run := fun env penv c req => sql.BackupLongTermRetentionPoliciesClient.CreateOrUpdateSender env penv c req },
  { Client := "sql.SyncMembersClient", Name := "CreateOrUpdateSender",
    Receiver := sql.SyncMembersClient,
    client := fun c => c.Client,
    codes := [http.StatusOK, http.StatusCreated, http.StatusAccepted],
    after := fun env future polled =>
      sql.SyncMembersClient.CreateOrUpdateSender.after env future polled,
    run := fun env penv c req => sql.SyncMembersClient.CreateOrUpdateSender env penv c req },
  { Client := "sql.SyncMembersClient", Name := "DeleteSender",
    Receiver := sql.SyncMembersClient,
    client := fun c => c.Client,
    codes := [http.StatusOK, http.StatusAccepted, http.StatusNoContent],
    after := fun env future polled =>
      sql.SyncMembersClient.DeleteSender.after env future polled,
    run := fun env penv c req => sql.SyncMembersClient.DeleteSender env penv c req },
  { Client := "sql.SyncMembersClient", Name := "RefreshMemberSchemaSender",
    Receiver := sql.SyncMembersClient,
    client := fun c => c.Client,
    codes := [http.StatusOK, http.StatusAccepted],
    after := fun env future polled =>
      sql.SyncMembersClient.RefreshMemberSchemaSender.after env future polled,
    run := fun env penv c req => sql.SyncMembersClient.RefreshMemberSchemaSender env penv c req },
  { Client := "sql.SyncMembersClient", Name := "UpdateSender",
    Receiver := sql.SyncMembersClient,
    client := fun c => c.Client,
    codes := [http.StatusOK, http.StatusAccepted],
    after := fun env future polled =>
      sql.SyncMembersClient.UpdateSender.after env future polled,
    run := fun env penv c req => sql.SyncMembersClient.UpdateSender env penv c req }]

/-- One long-running operation of the repository: its names, its arguments, the autorest
client of its receiver, the status codes its sender accepts for the response the future
holds, and its validation, preparer, the part of its sender after the call of
`future.Done`, its sender and the operation itself. -/
structure LroOperation where
  PackageType : String
  Method : String
  Args : Type
  client : Args → autorest.Client
  codes : List Nat
  validation : Args → Option Error
  prepare : autorest.Env → Args → Except Error http.Request
  after : autorest.Env → sql.OperationFuture → azure.Polled →
    autorest.Outcome sql.OperationFuture
  send : autorest.Env → azure.Env → Args → http.Request → autorest.Outcome sql.OperationFuture
  run : autorest.Env → azure.Env → Args → autorest.Outcome sql.OperationFuture

/-- Every long-running operation of the repository. -/
def lroOperations : List LroOperation := [
  { PackageType := "sql.ElasticPoolsClient", Method := "CreateOrUpdate",
    Args := sql.ElasticPoolsClient × String × String × String × sql.ElasticPool,
    client := fun a => a.1.Client,
    codes := [http.StatusOK, http.StatusCreated, http.StatusAccepted],
    validation := fun _ => none,
    prepare := fun env a => sql.ElasticPoolsClient.CreateOrUpdatePreparer env a.1 a.2.1 a.2.2.1 a.2.2.2.1 a.2.2.2.2,
    after := fun env future polled =>
      sql.ElasticPoolsClient.CreateOrUpdateSender.after env future polled,
    send := fun env penv a req => sql.ElasticPoolsClient.CreateOrUpdateSender env penv a.1 req,
    run := fun env penv a => sql.ElasticPoolsClient.CreateOrUpdate env penv a.1 a.2.1 a.2.2.1 a.2.2.2.1 a.2.2.2.2 },
  { PackageType := "sql.ElasticPoolsClient", Method := "Update",
    Args := sql.ElasticPoolsClient × String × String × String × sql.ElasticPoolUpdate,
    client := fun a => a.1.Client,
    codes := [http.StatusOK, http.StatusAccepted],
    validation := fun _ => none,
    prepare := fun env a => sql.ElasticPoolsClient.UpdatePreparer env a.1 a.2.1 a.2.2.1 a.2.2.2.1 a.2.2.2.2,
    after := fun env future polled =>
      sql.ElasticPoolsClient.UpdateSender.after env future polled,
    send := fun env penv a req => sql.ElasticPoolsClient.UpdateSender env penv a.1 req,
    run := fun env penv a => sql.ElasticPoolsClient.Update env penv a.1 a.2.1 a.2.2.1 a.2.2.2.1 a.2.2.2.2 },
  { PackageType := "sql.BackupLongTermRetentionPoliciesClient", Method := "CreateOrUpdate",
    Args := sql.BackupLongTermRetentionPoliciesClient × String × String × String × sql.BackupLongTermRetentionPolicy,
    client := fun a => a.1.Client,
    codes := [http.StatusOK, http.StatusCreated, http.StatusAccepted],
    validation := fun a => sql.BackupLongTermRetentionPoliciesClient.CreateOrUpdate.validation a.2.1 a.2.2.1 a.2.2.2.1 a.2.2.2.2,
    prepare := fun env a => sql.BackupLongTermRetentionPoliciesClient.CreateOrUpdatePreparer env a.1 a.2.1 a.2.2.1 a.2.2.2.1 a.2.2.2.2,
    after := fun env future polled =>
      sql.BackupLongTermRetentionPoliciesClient.CreateOrUpdateSender.after env future polled,
    send := fun env penv a req => sql.BackupLongTermRetentionPoliciesClient.CreateOrUpdateSender env penv a.1 req,
    run := fun env penv a => sql.BackupLongTermRetentionPoliciesClient.CreateOrUpdate env penv a.1 a.2.1 a.2.2.1 a.2.2.2.1 a.2.2.2.2 },
  { PackageType := "sql.SyncMembersClient", Method := "CreateOrUpdate",
    Args := sql.SyncMembersClient × String × String × String × String × String × sql.SyncMember,
    client := fun a => a.1.Client,
    codes := [http.StatusOK, http.StatusCreated, http.StatusAccepted],
    validation := fun _ => none,
    prepare := fun env a => sql.SyncMembersClient.CreateOrUpdatePreparer env a.1 a.2.1 a.2.2.1 a.2.2.2.1 a.2.2.2.2.1 a.2.2.2.2.2.1 a.2.2.2.2.2.2,
    after := fun env future polled =>
      sql.SyncMembersClient.CreateOrUpdateSender.after env future polled,
    send := fun env penv a req => sql.SyncMembersClient.CreateOrUpdateSender env penv a.1 req,
    run := fun env penv a => sql.SyncMembersClient.CreateOrUpdate env penv a.1 a.2.1 a.2.2.1 a.2.2.2.1 a.2.2.2.2.1 a.2.2.2.2.2.1 a.2.2.2.2.2.2 },
  { PackageType := "sql.SyncMembersClient", Method := "Delete",
    Args := sql.SyncMembersClient × String × String × String × String × String,
    client := fun a => a.1.Client,
    codes := [http.StatusOK, http.StatusAccepted, http.StatusNoContent],
    validation := fun _ => none,
    prepare := fun env a => sql.SyncMembersClient.DeletePreparer env a.1 a.2.1 a.2.2.1 a.2.2.2.1 a.2.2.2.2.1 a.2.2.2.2.2,
    after := fun env future polled =>
      sql.SyncMembersClient.DeleteSender.after env future polled,
    send := fun env penv a req => sql.SyncMembersClient.DeleteSender env penv a.1 req,
    run := fun env penv a => sql.SyncMembersClient.Delete env penv a.1 a.2.1 a.2.2.1 a.2.2.2.1 a.2.2.2.2.1 a.2.2.2.2.2 },
  { PackageType := "sql.SyncMembersClient", Method := "RefreshMemberSchema",
    Args := sql.SyncMembersClient × String × String × String × String × String,
    client := fun a => a.1.Client,
    codes := [http.StatusOK, http.StatusAccepted],
    validation := fun _ => none,
    prepare := fun env a => sql.SyncMembersClient.RefreshMemberSchemaPreparer env a.1 a.2.1 a.2.2.1 a.2.2.2.1 a.2.2.2.2.1 a.2.2.2.2.2,
    after := fun env future polled =>
      sql.SyncMembersClient.RefreshMemberSchemaSender.after env future polled,
    send := fun env penv a req => sql.SyncMembersClient.RefreshMemberSchemaSender env penv a.1 req,
    run := fun env penv a => sql.SyncMembersClient.RefreshMemberSchema env penv a.1 a.2.1 a.2.2.1 a.2.2.2.1 a.2.2.2.2.1 a.2.2.2.2.2 },
  { PackageType := "sql.SyncMembersClient", Method := "Update",
    Args := sql.SyncMembersClient × String × String × String × String × String × sql.SyncMember,
    client := fun a => a.1.Client,
    codes := [http.StatusOK, http.StatusAccepted],
    validation := fun _ => none,
    prepare := fun env a => sql.SyncMembersClient.UpdatePreparer env a.1 a.2.1 a.2.2.1 a.2.2.2.1 a.2.2.2.2.1 a.2.2.2.2.2.1 a.2.2.2.2.2.2,
    after := fun env future polled =>
      sql.SyncMembersClient.UpdateSender.after env future polled,
    send := fun env penv a req => sql.SyncMembersClient.UpdateSender env penv a.1 req,
    run := fun env penv a => sql.SyncMembersClient.Update env penv a.1 a.2.1 a.2.2.1 a.2.2.2.1 a.2.2.2.2.1 a.2.2.2.2.2.1 a.2.2.2.2.2.2 }]

/-! ## Retrying senders -/

namespace autorest

/-- The status code a send yields, `none` for a connection-level error. -/
def SendResult.status : SendResult → Option Nat
  | .ok resp => some resp.StatusCode
  | .failed _ _ => none

/-- Modelled from the spec: the Retry Policy of the transport sender (the go-autorest
runtime is absent): a pure function of the status code of the last answer, `none` for a
connection-level error, and of the number of attempts made before it, that says whether
the request is issued again. The elapsed time and the backoff duration are left out. -/
abbrev RetryPolicy := Option Nat → Nat → Bool

/-- What a retrying sender leaves: what it returns and the requests it issued, in order. -/
structure Attempted where
  result : SendResult
  sent : List http.Request
  deriving DecidableEq, Repr

/-- Modelled from the spec: the loop of a retrying sender (the go-autorest runtime is
absent). `transport k` is the wire as it answers the attempt numbered `k`. The sender
issues the call and consults the policy on the answer; the same request is issued again
while the policy asks for it and the deadline of the caller, counted in retries, leaves
room; the answer to the last attempt is returned unmodified. -/
def sendWithRetry (policy : RetryPolicy) (transport : Nat → Sender) (req : http.Request) :
    Nat → Nat → Attempted
  | 0, attempt => { result := transport attempt req, sent := [req] }
  | deadline + 1, attempt =>
    if policy (transport attempt req).status attempt then
      let rest := sendWithRetry policy transport req deadline (attempt + 1)
      { rest with sent := req :: rest.sent }
    else { result := transport attempt req, sent := [req] }

/-- Modelled from the spec: `autorest.SendWithSender` over a wire (the go-autorest runtime
is absent): the send decorator stands for a retry policy, and `policy` says for which;
without a decorator the request is sent once. -/
def SendWithSender (policy : SendDecorator → RetryPolicy) (deadline : Nat)
    (transport : Nat → Sender) (_client : Client) (req : http.Request)
    (decorators : List SendDecorator) : SendResult :=
  match decorators with
  | [] => transport 0 req
  | decorator :: _ => (sendWithRetry (policy decorator) transport req deadline 0).result

end autorest

/-! ## Iterators over paged results -/

namespace autorest

/-- Whether a page carries a link to a next page. -/
def hasNextLink : Option String → Bool
  | none => false
  | some link => decide (0 < link.length)

/-- The items of a page. -/
def Model.items (page : Model) : List String :=
  page.Value.getD []

/-- Modelled from the spec: the paginated lister behind the iterator types (the models
files are absent): the position in the current page, the function that fetches the page
after a given page, the current page, and the next link of a page. -/
structure Lister where
  i : Nat
  fn : Option (Model → Outcome Model)
  page : Model
  nextLink : Model → Option String

/-- What iterating to the end yields: the items in the order they were yielded, the error
that halted the iteration, and whether the sequence terminated. -/
structure Listed where
  items : List String
  err : Option Error
  done : Bool
  deriving DecidableEq, Repr

/-- Modelled from the spec: the sequence a lister produces (the models files are absent).
The items of the current page from the position on are yielded; while the page carries a
next link the next page is fetched and iteration goes on there; iteration stops when no
next link is present; a failed fetch halts it. `fuel` bounds the number of fetches. -/
def drain (fn : Option (Model → Outcome Model)) (nextLink : Model → Option String) :
    Nat → Nat → Model → Listed
  | 0, i, page =>
    { items := page.items.drop i, err := none, done := !hasNextLink (nextLink page) }
  | fuel + 1, i, page =>
    if hasNextLink (nextLink page) then
      match fn with
      | none =>
        { items := page.items.drop i,
          err := some (Error.plain "no function to fetch the next page"), done := false }
      | some fetch =>
        match (fetch page).err with
        | some err => { items := page.items.drop i, err := some err, done := false }
        | none =>
          let rest := drain fn nextLink fuel 0 (fetch page).result
          { rest with items := page.items.drop i ++ rest.items }
    else { items := page.items.drop i, err := none, done := true }

/-- The sequence a lister produces with at most `fuel` page fetches. -/
def Lister.collect (l : Lister) (fuel : Nat) : Listed :=
  drain l.fn l.nextLink fuel l.i l.page

/-- A chain of pages: every page but the last carries a next link and the fetch after it
yields the page that follows; the last page carries no next link. -/
def linked (fn : Option (Model → Outcome Model)) (nextLink : Model → Option String) :
    List Model → Bool
  | [] => false
  | [last] => !hasNextLink (nextLink last)
  | page :: next :: rest =>
    hasNextLink (nextLink page) &&
      (match fn with
       | none => false
       | some fetch => decide ((fetch page).err = none) && decide ((fetch page).result = next)) &&
      linked fn nextLink (next :: rest)

/-- The items of a list of pages, page after page. -/
def itemsOf : List Model → List String
  | [] => []
  | page :: rest => page.items ++ itemsOf rest

end autorest

namespace automation

/-- Modelled from the spec: Go `WebhookListResultIterator` (the models file is absent): the
position in the current page and the page. -/
structure WebhookListResultIterator where
  i : Nat
  page : WebhookListResultPage

/-- The lister behind the iterator. -/
def WebhookListResultIterator.Lister (iter : WebhookListResultIterator) : autorest.Lister :=
  { i := iter.i, fn := iter.page.fn, page := iter.page.wlr, nextLink := fun page => page.NextLink }

/-- Go `WebhookClient.ListByAutomationAccountComplete`: enumerates all values, crossing page
boundaries as required. -/
def WebhookClient.ListByAutomationAccountComplete (env : autorest.Env) (client : WebhookClient)
    (resourceGroupName : String) (automationAccountName : String) (filter : String) :
    autorest.Outcome WebhookListResultIterator :=
  let page := client.ListByAutomationAccount env resourceGroupName automationAccountName filter
  { result := { i := 0, page := page.result }, err := page.err, sent := page.sent }

end automation

namespace graphrbac

/-- Modelled from the spec: Go `GetObjectsResultIterator` (the models file is absent): the
position in the current page and the page. -/
structure GetObjectsResultIterator where
  i : Nat
  page : GetObjectsResultPage

/-- The lister behind the iterator. -/
def GetObjectsResultIterator.Lister (iter : GetObjectsResultIterator) : autorest.Lister :=
  { i := iter.i, fn := iter.page.fn, page := iter.page.gor,
    nextLink := fun page => page.OdataNextLink }

/-- Go `ObjectsClient.GetObjectsByObjectIdsComplete`: enumerates all values, crossing page
boundaries as required. -/
def ObjectsClient.GetObjectsByObjectIdsComplete (env : autorest.Env) (client : ObjectsClient)
    (parameters : GetObjectsParameters) :
    autorest.Outcome GetObjectsResultIterator :=
  let page := client.GetObjectsByObjectIds env parameters
  { result := { i := 0, page := page.result }, err := page.err, sent := page.sent }

end graphrbac

namespace sql

/-- Modelled from the spec: Go `SyncMemberListResultIterator` (the models file is absent):
the position in the current page and the page. -/
structure SyncMemberListResultIterator where
  i : Nat
  page : SyncMemberListResultPage

/-- Modelled from the spec: Go `SyncFullSchemaPropertiesListResultIterator` (the models file
is absent): the position in the current page and the page. -/
structure SyncFullSchemaPropertiesListResultIterator where
  i : Nat
  page : SyncFullSchemaPropertiesListResultPage

/-- The lister behind the iterator. -/
def SyncMemberListResultIterator.Lister (iter : SyncMemberListResultIterator) :
    autorest.Lister :=
  { i := iter.i, fn := iter.page.fn, page := iter.page.smlr,
    nextLink := fun page => page.NextLink }

/-- The lister behind the iterator. -/
def SyncFullSchemaPropertiesListResultIterator.Lister
    (iter : SyncFullSchemaPropertiesListResultIterator) : autorest.Lister :=
  { i := iter.i, fn := iter.page.fn, page := iter.page.sfsplr,
    nextLink := fun page => page.NextLink }

/-- Go `SyncMembersClient.ListBySyncGroupComplete`: enumerates all values, crossing page
boundaries as required. -/
def SyncMembersClient.ListBySyncGroupComplete (env : autorest.Env) (client : SyncMembersClient)
    (resourceGroupName : String) (serverName : String) (databaseName : String)
    (syncGroupName : String) :
    autorest.Outcome SyncMemberListResultIterator :=
  let page := client.ListBySyncGroup env resourceGroupName serverName databaseName syncGroupName
  { result := { i := 0, page := page.result }, err := page.err, sent := page.sent }

/-- Go `SyncMembersClient.ListMemberSchemasComplete`: enumerates all values, crossing page
boundaries as required. -/
def SyncMembersClient.ListMemberSchemasComplete (env : autorest.Env)
    (client : SyncMembersClient) (resourceGroupName : String) (serverName : String)
    (databaseName : String) (syncGroupName : String) (syncMemberName : String) :
    autorest.Outcome SyncFullSchemaPropertiesListResultIterator :=
  let page := client.ListMemberSchemas env resourceGroupName serverName databaseName
    syncGroupName syncMemberName
  { result := { i := 0, page := page.result }, err := page.err, sent := page.sent }

end sql

/-- One `...Complete` operation of the repository: its names, its arguments, the fetch
function the operation installs, its validation, the list operation it calls, given as the
fetch function and the values of the page that operation returns, and the lister of the
iterator it returns. -/
structure CompleteCase where
  PackageType : String
  Method : String
  Args : Type
  fetch : autorest.Env → Args → autorest.Model → autorest.Outcome autorest.Model
  validation : Args → Option Error
  list : autorest.Env → Args →
    autorest.Outcome (Option (autorest.Model → autorest.Outcome autorest.Model) × autorest.Model)
  run : autorest.Env → Args → autorest.Outcome autorest.Lister

/-- Every `...Complete` operation of the repository. -/
def completeOperations : List CompleteCase := [
  { PackageType := "automation.WebhookClient", Method := "ListByAutomationAccountComplete",
    Args := automation.WebhookClient × String × String × String,
    fetch := fun env a => automation.WebhookClient.listByAutomationAccountNextResults env a.1,
    validation := fun a =>
      automation.WebhookClient.ListByAutomationAccount.validation a.2.1 a.2.2.1 a.2.2.2,
    list := fun env a =>
      let r := automation.WebhookClient.ListByAutomationAccount env a.1 a.2.1 a.2.2.1 a.2.2.2
      { result := (r.result.fn, r.result.wlr), err := r.err, sent := r.sent },
    run := fun env a =>
      let r := automation.WebhookClient.ListByAutomationAccountComplete env a.1 a.2.1 a.2.2.1
        a.2.2.2
      { result := r.result.Lister, err := r.err, sent := r.sent } },
  { PackageType := "graphrbac.ObjectsClient", Method := "GetObjectsByObjectIdsComplete",
    Args := graphrbac.ObjectsClient × graphrbac.GetObjectsParameters,
    fetch := fun env a => graphrbac.ObjectsClient.GetObjectsByObjectIds.fn env a.1,
    validation := fun a => graphrbac.ObjectsClient.GetObjectsByObjectIds.validation a.2,
    list := fun env a =>
      let r := graphrbac.ObjectsClient.GetObjectsByObjectIds env a.1 a.2
      { result := (r.result.fn, r.result.gor), err := r.err, sent := r.sent },
    run := fun env a =>
      let r := graphrbac.ObjectsClient.GetObjectsByObjectIdsComplete env a.1 a.2
      { result := r.result.Lister, err := r.err, sent := r.sent } },
  { PackageType := "sql.SyncMembersClient", Method := "ListBySyncGroupComplete",
    Args := sql.SyncMembersClient × String × String × String × String,
    fetch := fun env a => sql.SyncMembersClient.listBySyncGroupNextResults env a.1,
    validation := fun _ => none,
    list := fun env a =>
      let r := sql.SyncMembersClient.ListBySyncGroup env a.1 a.2.1 a.2.2.1 a.2.2.2.1 a.2.2.2.2
      { result := (r.result.fn, r.result.smlr), err := r.err, sent := r.sent },
    run := fun env a =>
      let r := sql.SyncMembersClient.ListBySyncGroupComplete env a.1 a.2.1 a.2.2.1 a.2.2.2.1
        a.2.2.2.2
      { result := r.result.Lister, err := r.err, sent := r.sent } },
  { PackageType := "sql.SyncMembersClient", Method := "ListMemberSchemasComplete",
    Args := sql.SyncMembersClient × String × String × String × String × String,
    fetch := fun env a => sql.SyncMembersClient.listMemberSchemasNextResults env a.1,
    validation := fun _ => none,
    list := fun env a =>
      let r := sql.SyncMembersClient.ListMemberSchemas env a.1 a.2.1 a.2.2.1 a.2.2.2.1
        a.2.2.2.2.1 a.2.2.2.2.2
      { result := (r.result.fn, r.result.sfsplr), err := r.err, sent := r.sent },
    run := fun env a =>
      let r := sql.SyncMembersClient.ListMemberSchemasComplete env a.1 a.2.1 a.2.2.1 a.2.2.2.1
        a.2.2.2.2.1 a.2.2.2.2.2
      { result := r.result.Lister, err := r.err, sent := r.sent } }]

/-! ## Headers and bodies of the prepared requests -/

namespace autorest

/-- The content types a preparer sets, in call order. -/
def Preparer.contentTypes (p : Preparer) : List String :=
  p.filterMap (fun d =>
    match d with
    | .AsContentType contentType => some contentType
    | _ => none)

/-- The JSON bodies a preparer attaches, in call order. -/
def Preparer.jsonBodies (p : Preparer) : List reflect.Value :=
  p.filterMap (fun d =>
    match d with
    | .WithJSON v => some v
    | _ => none)

end autorest

namespace graphrbac

/-- The senders of `ObjectsClient`. -/
def objectsSenders : List (String × (autorest.Env → ObjectsClient → http.Request → autorest.SendResult)) := [
  ("GetCurrentUserSender", ObjectsClient.GetCurrentUserSender),
  ("GetObjectsByObjectIdsSender", ObjectsClient.GetObjectsByObjectIdsSender),
  ("GetObjectsByObjectIdsNextSender", ObjectsClient.GetObjectsByObjectIdsNextSender)]

end graphrbac

/-! ## The results of the synchronous operations -/

/-- What a caller sees of the result of a synchronous operation: the response it came with,
the decoded fields, and whether a function that fetches the next page is installed. -/
structure ResultView where
  Response : autorest.Response
  fields : autorest.Payload
  fn : Bool
  deriving DecidableEq, Repr

/-- One synchronous operation of the repository with the result it returns: its names,
its arguments, whether it returns a page, its validation, preparer, sender and responder,
and the operation itself. -/
structure SyncResultCase where
  PackageType : String
  Method : String
  Args : Type
  paged : Bool
  validation : Args → Option Error
  prepare : autorest.Env → Args → Except Error http.Request
  send : autorest.Env → Args → http.Request → autorest.SendResult
  respond : autorest.Env → Args → http.Response →
    (autorest.Response × autorest.Payload) × Option Error
  run : autorest.Env → Args → autorest.Outcome ResultView

/-- Every synchronous operation of the repository, with its result. -/
def syncOperationResults : List SyncResultCase := [
  { PackageType := "automation.WebhookClient", Method := "CreateOrUpdate",
    Args := automation.WebhookClient × String × String × String × automation.WebhookCreateOrUpdateParameters,
    paged := false,
    validation := fun a => automation.WebhookClient.CreateOrUpdate.validation a.2.1 a.2.2.1 a.2.2.2.1 a.2.2.2.2,
    prepare := fun env a => automation.WebhookClient.CreateOrUpdatePreparer env a.1 a.2.1 a.2.2.1 a.2.2.2.1 a.2.2.2.2,
    send := fun env a req => automation.WebhookClient.CreateOrUpdateSender env a.1 req,
    respond := fun env a resp =>
      let r := automation.WebhookClient.CreateOrUpdateResponder env a.1 resp
      ((r.1.Response, r.1.toPayload), r.2),
    run := fun env a =>
      let r := automation.WebhookClient.CreateOrUpdate env a.1 a.2.1 a.2.2.1 a.2.2.2.1 a.2.2.2.2
      { result := { Response := r.result.Response, fields := r.result.toPayload, fn := false },
        err := r.err, sent := r.sent } },
  { PackageType := "automation.WebhookClient", Method := "Delete",
    Args := automation.WebhookClient × String × String × String,
    paged := false,
    validation := fun a => automation.WebhookClient.Delete.validation a.2.1 a.2.2.1 a.2.2.2,
    prepare := fun env a => automation.WebhookClient.DeletePreparer env a.1 a.2.1 a.2.2.1 a.2.2.2,
    send := fun env a req => automation.WebhookClient.DeleteSender env a.1 req,
    respond := fun env a resp =>
      let r := automation.WebhookClient.DeleteResponder env a.1 resp
      ((r.1, autorest.Payload.zero), r.2),
    run := fun env a =>
      let r := automation.WebhookClient.Delete env a.1 a.2.1 a.2.2.1 a.2.2.2
      { result := { Response := r.result, fields := autorest.Payload.zero, fn := false },
        err := r.err, sent := r.sent } },
  { PackageType := "automation.WebhookClient", Method := "GenerateURI",
    Args := automation.WebhookClient × String × String,
    paged := false,
    validation := fun a => automation.WebhookClient.GenerateURI.validation a.2.1 a.2.2,
    prepare := fun env a => automation.WebhookClient.GenerateURIPreparer env a.1 a.2.1 a.2.2,
    send := fun env a req => automation.WebhookClient.GenerateURISender env a.1 req,
    respond := fun env a resp =>
      let r := automation.WebhookClient.GenerateURIResponder env a.1 resp
      ((r.1.Response, r.1.toPayload), r.2),
    run := fun env a =>
      let r := automation.WebhookClient.GenerateURI env a.1 a.2.1 a.2.2
      { result := { Response := r.result.Response, fields := r.result.toPayload, fn := false },
        err := r.err, sent := r.sent } },
  { PackageType := "automation.WebhookClient", Method := "Get",
    Args := automation.WebhookClient × String × String × String,
    paged := false,
    validation := fun a => automation.WebhookClient.Get.validation a.2.1 a.2.2.1 a.2.2.2,
    prepare := fun env a => automation.WebhookClient.GetPreparer env a.1 a.2.1 a.2.2.1 a.2.2.2,
    send := fun env a req => automation.WebhookClient.GetSender env a.1 req,
    respond := fun env a resp =>
      let r := automation.WebhookClient.GetResponder env a.1 resp
      ((r.1.Response, r.1.toPayload), r.2),
    run := fun env a =>
      let r := automation.WebhookClient.Get env a.1 a.2.1 a.2.2.1 a.2.2.2
      { result := { Response := r.result.Response, fields := r.result.toPayload, fn := false },
        err := r.err, sent := r.sent } },
  { PackageType := "automation.WebhookClient", Method := "ListByAutomationAccount",
    Args := automation.WebhookClient × String × String × String,
    paged := true,
    validation := fun a => automation.WebhookClient.ListByAutomationAccount.validation a.2.1 a.2.2.1 a.2.2.2,
    prepare := fun env a => automation.WebhookClient.ListByAutomationAccountPreparer env a.1 a.2.1 a.2.2.1 a.2.2.2,
    send := fun env a req => automation.WebhookClient.ListByAutomationAccountSender env a.1 req,
    respond := fun env a resp =>
      let r := automation.WebhookClient.ListByAutomationAccountResponder env a.1 resp
      ((r.1.Response, r.1.toPayload), r.2),
    run := fun env a =>
      let r := automation.WebhookClient.ListByAutomationAccount env a.1 a.2.1 a.2.2.1 a.2.2.2
      { result := { Response := r.result.wlr.Response, fields := r.result.wlr.toPayload, fn := r.result.fn.isSome },
        err := r.err, sent := r.sent } },
  { PackageType := "automation.WebhookClient", Method := "Update",
    Args := automation.WebhookClient × String × String × String × automation.WebhookUpdateParameters,
    paged := false,
    validation := fun a => automation.WebhookClient.Update.validation a.2.1 a.2.2.1 a.2.2.2.1 a.2.2.2.2,
    prepare := fun env a => automation.WebhookClient.UpdatePreparer env a.1 a.2.1 a.2.2.1 a.2.2.2.1 a.2.2.2.2,
    send := fun env a req => automation.WebhookClient.UpdateSender env a.1 req,
    respond := fun env a resp =>
      let r := automation.WebhookClient.UpdateResponder env a.1 resp
      ((r.1.Response, r.1.toPayload), r.2),
    run := fun env a =>
      let r := automation.WebhookClient.Update env a.1 a.2.1 a.2.2.1 a.2.2.2.1 a.2.2.2.2
      { result := { Response := r.result.Response, fields := r.result.toPayload, fn := false },
        err := r.err, sent := r.sent } },
  { PackageType := "graphrbac.ObjectsClient", Method := "GetCurrentUser",
    Args := graphrbac.ObjectsClient,
    paged := false,
    validation := fun _ => none,
    prepare := fun env a => graphrbac.ObjectsClient.GetCurrentUserPreparer env a,
    send := fun env a req => graphrbac.ObjectsClient.GetCurrentUserSender env a req,
    respond := fun env a resp =>
      let r := graphrbac.ObjectsClient.GetCurrentUserResponder env a resp
      ((r.1.Response, r.1.toPayload), r.2),
    run := fun env a =>
      let r := graphrbac.ObjectsClient.GetCurrentUser env a
      { result := { Response := r.result.Response, fields := r.result.toPayload, fn := false },
        err := r.err, sent := r.sent } },
  { PackageType := "graphrbac.ObjectsClient", Method := "GetObjectsByObjectIds",
    Args := graphrbac.ObjectsClient × graphrbac.GetObjectsParameters,
    paged := true,
    validation := fun a => graphrbac.ObjectsClient.GetObjectsByObjectIds.validation a.2,
    prepare := fun env a => graphrbac.ObjectsClient.GetObjectsByObjectIdsPreparer env a.1 a.2,
    send := fun env a req => graphrbac.ObjectsClient.GetObjectsByObjectIdsSender env a.1 req,
    respond := fun env a resp =>
      let r := graphrbac.ObjectsClient.GetObjectsByObjectIdsResponder env a.1 resp
      ((r.1.Response, r.1.toPayload), r.2),
    run := fun env a =>
      let r := graphrbac.ObjectsClient.GetObjectsByObjectIds env a.1 a.2
      { result := { Response := r.result.gor.Response, fields := r.result.gor.toPayload, fn := r.result.fn.isSome },
        err := r.err, sent := r.sent } },
  { PackageType := "graphrbac.ObjectsClient", Method := "GetObjectsByObjectIdsNext",
    Args := graphrbac.ObjectsClient × String,
    paged := false,
    validation := fun _ => none,
    prepare := fun env a => graphrbac.ObjectsClient.GetObjectsByObjectIdsNextPreparer env a.1 a.2,
    send := fun env a req => graphrbac.ObjectsClient.GetObjectsByObjectIdsNextSender env a.1 req,
    respond := fun env a resp =>
      let r := graphrbac.ObjectsClient.GetObjectsByObjectIdsNextResponder env a.1 resp
      ((r.1.Response, r.1.toPayload), r.2),
    run := fun env a =>
      let r := graphrbac.ObjectsClient.GetObjectsByObjectIdsNext env a.1 a.2
      { result := { Response := r.result.Response, fields := r.result.toPayload, fn := false },
        err := r.err, sent := r.sent } },
  { PackageType := "sql.ServerUsagesClient", Method := "ListByServer",
    Args := sql.ServerUsagesClient × String × String,
    paged := false,
    validation := fun _ => none,
    prepare := fun env a => sql.ServerUsagesClient.ListByServerPreparer env a.1 a.2.1 a.2.2,
    send := fun env a req => sql.ServerUsagesClient.ListByServerSender env a.1 req,
    respond := fun env a resp =>
      let r := sql.ServerUsagesClient.ListByServerResponder env a.1 resp
      ((r.1.Response, r.1.toPayload), r.2),
    run := fun env a =>
      let r := sql.ServerUsagesClient.ListByServer env a.1 a.2.1 a.2.2
      { result := { Response := r.result.Response, fields := r.result.toPayload, fn := false },
        err := r.err, sent := r.sent } },
  { PackageType := "sql.ElasticPoolsClient", Method := "Delete",
    Args := sql.ElasticPoolsClient × String × String × String,
    paged := false,
    validation := fun _ => none,
    prepare := fun env a => sql.ElasticPoolsClient.DeletePreparer env a.1 a.2.1 a.2.2.1 a.2.2.2,
    send := fun env a req => sql.ElasticPoolsClient.DeleteSender env a.1 req,
    respond := fun env a resp =>
      let r := sql.ElasticPoolsClient.DeleteResponder env a.1 resp
      ((r.1, autorest.Payload.zero), r.2),
    run := fun env a =>
      let r := sql.ElasticPoolsClient.Delete env a.1 a.2.1 a.2.2.1 a.2.2.2
      { result := { Response := r.result, fields := autorest.Payload.zero, fn := false },
        err := r.err, sent := r.sent } },
  { PackageType := "sql.ElasticPoolsClient", Method := "Get",
    Args := sql.ElasticPoolsClient × String × String × String,
    paged := false,
    validation := fun _ => none,
    prepare := fun env a => sql.ElasticPoolsClient.GetPreparer env a.1 a.2.1 a.2.2.1 a.2.2.2,
    send := fun env a req => sql.ElasticPoolsClient.GetSender env a.1 req,
    respond := fun env a resp =>
      let r := sql.ElasticPoolsClient.GetResponder env a.1 resp
      ((r.1.Response, r.1.toPayload), r.2),
    run := fun env a =>
      let r := sql.ElasticPoolsClient.Get env a.1 a.2.1 a.2.2.1 a.2.2.2
      { result := { Response := r.result.Response, fields := r.result.toPayload, fn := false },
        err := r.err, sent := r.sent } },
  { PackageType := "sql.ElasticPoolsClient", Method := "ListByServer",
    Args := sql.ElasticPoolsClient × String × String,
    paged := false,
    validation := fun _ => none,
    prepare := fun env a => sql.ElasticPoolsClient.ListByServerPreparer env a.1 a.2.1 a.2.2,
    send := fun env a req => sql.ElasticPoolsClient.ListByServerSender env a.1 req,
    respond := fun env a resp =>
      let r := sql.ElasticPoolsClient.ListByServerResponder env a.1 resp
      ((r.1.Response, r.1.toPayload), r.2),
    run := fun env a =>
      let r := sql.ElasticPoolsClient.ListByServer env a.1 a.2.1 a.2.2
      { result := { Response := r.result.Response, fields := r.result.toPayload, fn := false },
        err := r.err, sent := r.sent } },
  { PackageType := "sql.ElasticPoolsClient", Method := "ListMetricDefinitions",
    Args := sql.ElasticPoolsClient × String × String × String,
    paged := false,
    validation := fun _ => none,
    prepare := fun env a => sql.ElasticPoolsClient.ListMetricDefinitionsPreparer env a.1 a.2.1 a.2.2.1 a.2.2.2,
    send := fun env a req => sql.ElasticPoolsClient.ListMetricDefinitionsSender env a.1 req,
    respond := fun env a resp =>
      let r := sql.ElasticPoolsClient.ListMetricDefinitionsResponder env a.1 resp
      ((r.1.Response, r.1.toPayload), r.2),
    run := fun env a =>
      let r := sql.ElasticPoolsClient.ListMetricDefinitions env a.1 a.2.1 a.2.2.1 a.2.2.2
      { result := { Response := r.result.Response, fields := r.result.toPayload, fn := false },
        err := r.err, sent := r.sent } },
  { PackageType := "sql.ElasticPoolsClient", Method := "ListMetrics",
    Args := sql.ElasticPoolsClient × String × String × String × String,
    paged := false,
    validation := fun _ => none,
    prepare := fun env a => sql.ElasticPoolsClient.ListMetricsPreparer env a.1 a.2.1 a.2.2.1 a.2.2.2.1 a.2.2.2.2,
    send := fun env a req => sql.ElasticPoolsClient.ListMetricsSender env a.1 req,
    respond := fun env a resp =>
      let r := sql.ElasticPoolsClient.ListMetricsResponder env a.1 resp
      ((r.1.Response, r.1.toPayload), r.2),
    run := fun env a =>
      let r := sql.ElasticPoolsClient.ListMetrics env a.1 a.2.1 a.2.2.1 a.2.2.2.1 a.2.2.2.2
      { result := { Response := r.result.Response, fields := r.result.toPayload, fn := false },
        err := r.err, sent := r.sent } },
  { PackageType := "sql.BackupLongTermRetentionPoliciesClient", Method := "Get",
    Args := sql.BackupLongTermRetentionPoliciesClient × String × String × String,
    paged := false,
    validation := fun _ => none,
    prepare := fun env a => sql.BackupLongTermRetentionPoliciesClient.GetPreparer env a.1 a.2.1 a.2.2.1 a.2.2.2,
    send := fun env a req => sql.BackupLongTermRetentionPoliciesClient.GetSender env a.1 req,
    respond := fun env a resp =>
      let r := sql.BackupLongTermRetentionPoliciesClient.GetResponder env a.1 resp
      ((r.1.Response, r.1.toPayload), r.2),
    run := fun env a =>
      let r := sql.BackupLongTermRetentionPoliciesClient.Get env a.1 a.2.1 a.2.2.1 a.2.2.2
      { result := { Response := r.result.Response, fields := r.result.toPayload, fn := false },
        err := r.err, sent := r.sent } },
  { PackageType := "sql.BackupLongTermRetentionPoliciesClient", Method := "ListByDatabase",
    Args := sql.BackupLongTermRetentionPoliciesClient × String × String × String,
    paged := false,
    validation := fun _ => none,
    prepare := fun env a => sql.BackupLongTermRetentionPoliciesClient.ListByDatabasePreparer env a.1 a.2.1 a.2.2.1 a.2.2.2,
    send := fun env a req => sql.BackupLongTermRetentionPoliciesClient.ListByDatabaseSender env a.1 req,
    respond := fun env a resp =>
      let r := sql.BackupLongTermRetentionPoliciesClient.ListByDatabaseResponder env a.1 resp
      ((r.1.Response, r.1.toPayload), r.2),
    run := fun env a =>
      let r := sql.BackupLongTermRetentionPoliciesClient.ListByDatabase env a.1 a.2.1 a.2.2.1 a.2.2.2
      { result := { Response := r.result.Response, fields := r.result.toPayload, fn := false },
        err := r.err, sent := r.sent } },
  { PackageType := "sql.SyncMembersClient", Method := "Get",
    Args := sql.SyncMembersClient × String × String × String × String × String,
    paged := false,
    validation := fun _ => none,
    prepare := fun env a => sql.SyncMembersClient.GetPreparer env a.1 a.2.1 a.2.2.1 a.2.2.2.1 a.2.2.2.2.1 a.2.2.2.2.2,
    send := fun env a req => sql.SyncMembersClient.GetSender env a.1 req,
    respond := fun env a resp =>
      let r := sql.SyncMembersClient.GetResponder env a.1 resp
      ((r.1.Response, r.1.toPayload), r.2),
    run := fun env a =>
      let r := sql.SyncMembersClient.Get env a.1 a.2.1 a.2.2.1 a.2.2.2.1 a.2.2.2.2.1 a.2.2.2.2.2
      { result := { Response := r.result.Response, fields := r.result.toPayload, fn := false },
        err := r.err, sent := r.sent } },
  { PackageType := "sql.SyncMembersClient", Method := "ListBySyncGroup",
    Args := sql.SyncMembersClient × String × String × String × String,
    paged := true,
    validation := fun _ => none,
    prepare := fun env a => sql.SyncMembersClient.ListBySyncGroupPreparer env a.1 a.2.1 a.2.2.1 a.2.2.2.1 a.2.2.2.2,
    send := fun env a req => sql.SyncMembersClient.ListBySyncGroupSender env a.1 req,
    respond := fun env a resp =>
      let r := sql.SyncMembersClient.ListBySyncGroupResponder env a.1 resp
      ((r.1.Response, r.1.toPayload), r.2),
    run := fun env a =>
      let r := sql.SyncMembersClient.ListBySyncGroup env a.1 a.2.1 a.2.2.1 a.2.2.2.1 a.2.2.2.2
      { result := { Response := r.result.smlr.Response, fields := r.result.smlr.toPayload, fn := r.result.fn.isSome },
        err := r.err, sent := r.sent } },
  { PackageType := "sql.SyncMembersClient", Method := "ListMemberSchemas",
    Args := sql.SyncMembersClient × String × String × String × String × String,
    paged := true,
    validation := fun _ => none,
    prepare := fun env a => sql.SyncMembersClient.ListMemberSchemasPreparer env a.1 a.2.1 a.2.2.1 a.2.2.2.1 a.2.2.2.2.1 a.2.2.2.2.2,
    send := fun env a req => sql.SyncMembersClient.ListMemberSchemasSender env a.1 req,
    respond := fun env a resp =>
      let r := sql.SyncMembersClient.ListMemberSchemasResponder env a.1 resp
      ((r.1.Response, r.1.toPayload), r.2),
    run := fun env a =>
      let r := sql.SyncMembersClient.ListMemberSchemas env a.1 a.2.1 a.2.2.1 a.2.2.2.1 a.2.2.2.2.1 a.2.2.2.2.2
      { result := { Response := r.result.sfsplr.Response, fields := r.result.sfsplr.toPayload, fn := r.result.fn.isSome },
        err := r.err, sent := r.sent } }]

/-! ## Concrete collaborators of the pollers, the retrying senders and the listers -/

namespace sample

/-- An elastic pools client. -/
def elasticPoolsClient : sql.ElasticPoolsClient :=
  { Client := client, BaseURI := "https://management.azure.com", SubscriptionID := "sub-1" }

/-- The request that polls the operation `/op/123`. -/
def pollRequest : http.Request :=
  { Method := "GET", URL := "https://management.azure.com/op/123", ContentType := none,
    Body := none }

/-- The body of a poll that reports a failed operation. -/
def failedBody : String :=
  "\x7b\"status\":\"Failed\",\"error\":\"quota exceeded\"\x7d"

/-- A poller that reads the status member of three bodies and polls `/op/123`. -/
def poller : azure.Env :=
  { ProvisioningState := fun body =>
      if body = "\x7b\"status\":\"InProgress\"\x7d" then some "InProgress"
      else if body = "\x7b\"status\":\"Succeeded\"\x7d" then some "Succeeded"
      else if body = failedBody then some "Failed"
      else none,
    PollingRequest := fun _ _ => pollRequest }

/-- A sender that answers every request with the given response. -/
def answering (resp : http.Response) : autorest.Sender :=
  fun _ => .ok resp

/-- A wire that answers the attempt numbered `k` with the status at position `k` of the
list, and with 200 past its end. -/
def wire (statuses : List Nat) : Nat → autorest.Sender :=
  fun k _ => .ok (response (statuses.getD k 200) "")

/-- A retry policy for each send decorator: a transient failure, a status of the set of
the decorator or a connection-level error, is retried while fewer retries than the
attempts of the decorator were made. -/
def retryPolicy : autorest.SendDecorator → autorest.RetryPolicy
  | .DoRetryForStatusCodes attempts _ codes => fun status attempt =>
    decide (attempt < attempts) &&
      (match status with
       | none => true
       | some code => codes.contains code)
  | .DoRetryWithRegistration c => fun status attempt =>
    decide (attempt < c.RetryAttempts) &&
      (match status with
       | none => true
       | some code => autorest.StatusCodesForRetry.contains code)

/-- A Graph objects client whose retry attempts are set to zero. -/
def objectsClientNoRetry : graphrbac.ObjectsClient :=
  { Client := { RetryAttempts := 0, RetryDuration := 30 },
    BaseURI := "https://graph.windows.net", TenantID := "tenant-1" }

/-- The request for the second page of a listing. -/
def nextRequest : http.Request :=
  { Method := "GET", URL := "https://management.azure.com/page2", ContentType := none,
    Body := none }

/-- The decoded fields of the first page of a listing: two items and a next link. -/
def firstPage : autorest.Payload :=
  { autorest.Payload.zero with Value := some ["a", "b"], NextLink := some "page2" }

/-- The decoded fields of the second page of a listing: one item and no next link. -/
def secondPage : autorest.Payload :=
  { autorest.Payload.zero with Value := some ["c"] }

/-- Collaborators of a listing in two pages: the request for the second page is answered
with the second page, every other request with the first. -/
def pagedEnv : autorest.Env :=
  { Prepare := fun _ => .ok request,
    SendWithSender := fun _ req _ =>
      if req = nextRequest then .ok (response 200 "second") else .ok (response 200 "first"),
    Unmarshal := fun body =>
      if body = "first" then some firstPage
      else if body = "second" then some secondPage
      else none,
    ListResultPreparer := fun page =>
      if autorest.hasNextLink page.NextLink then .ok (some nextRequest) else .ok none }

end sample

/-! ## The validated operations of `automation.WebhookClient` -/

/-- One public operation of `automation.WebhookClient`: its name, its arguments, the
resource group name among them, its validation, and the operation with its error and the
requests it sent. -/
structure WebhookOperation where
  Method : String
  Args : Type
  resourceGroupName : Args → String
  validation : Args → Option Error
  run : autorest.Env → Args → Option Error × List http.Request

/-- Every public operation of `automation.WebhookClient`. -/
def webhookOperations : List WebhookOperation := [
  { Method := "CreateOrUpdate",
    Args := automation.WebhookClient × String × String × String ×
      automation.WebhookCreateOrUpdateParameters,
    resourceGroupName := fun a => a.2.1,
    validation := fun a =>
      automation.WebhookClient.CreateOrUpdate.validation a.2.1 a.2.2.1 a.2.2.2.1 a.2.2.2.2,
    run := fun env a =>
      let r := automation.WebhookClient.CreateOrUpdate env a.1 a.2.1 a.2.2.1 a.2.2.2.1 a.2.2.2.2
      (r.err, r.sent) },
  { Method := "Delete",
    Args := automation.WebhookClient × String × String × String,
    resourceGroupName := fun a => a.2.1,
    validation := fun a => automation.WebhookClient.Delete.validation a.2.1 a.2.2.1 a.2.2.2,
    run := fun env a =>
      let r := automation.WebhookClient.Delete env a.1 a.2.1 a.2.2.1 a.2.2.2
      (r.err, r.sent) },
  { Method := "GenerateURI",
    Args := automation.WebhookClient × String × String,
    resourceGroupName := fun a => a.2.1,
    validation := fun a => automation.WebhookClient.GenerateURI.validation a.2.1 a.2.2,
    run := fun env a =>
      let r := automation.WebhookClient.GenerateURI env a.1 a.2.1 a.2.2
      (r.err, r.sent) },
  { Method := "Get",
    Args := automation.WebhookClient × String × String × String,
    resourceGroupName := fun a => a.2.1,
    validation := fun a => automation.WebhookClient.Get.validation a.2.1 a.2.2.1 a.2.2.2,
    run := fun env a =>
      let r := automation.WebhookClient.Get env a.1 a.2.1 a.2.2.1 a.2.2.2
      (r.err, r.sent) },
  { Method := "ListByAutomationAccount",
    Args := automation.WebhookClient × String × String × String,
    resourceGroupName := fun a => a.2.1,
    validation := fun a =>
      automation.WebhookClient.ListByAutomationAccount.validation a.2.1 a.2.2.1 a.2.2.2,
    run := fun env a =>
      let r := automation.WebhookClient.ListByAutomationAccount env a.1 a.2.1 a.2.2.1 a.2.2.2
      (r.err, r.sent) },
  { Method := "Update",
    Args := automation.WebhookClient × String × String × String ×
      automation.WebhookUpdateParameters,
    resourceGroupName := fun a => a.2.1,
    validation := fun a =>
      automation.WebhookClient.Update.validation a.2.1 a.2.2.1 a.2.2.2.1 a.2.2.2.2,
    run := fun env a =>
      let r := automation.WebhookClient.Update env a.1 a.2.1 a.2.2.1 a.2.2.2.1 a.2.2.2.2
      (r.err, r.sent) }]

/-! ## The status checks of the long-running operations -/

/-- One long-running operation of the repository with its two status checks: its names,
its receiver and the autorest client of a receiver, its sender, and the error of its
responder. -/
structure LroStatusCase where
  Client : String
  Method : String
  Receiver : Type
  client : Receiver → autorest.Client
  send : autorest.Env → azure.Env → Receiver → http.Request →
    autorest.Outcome sql.OperationFuture
  respond : autorest.Env → Receiver → http.Response → Option Error

/-- Every long-running operation of the repository, with its sender and its responder. -/
def lroStatusChecks : List LroStatusCase := [
  { Client := "sql.ElasticPoolsClient", Method := "CreateOrUpdate",
    Receiver := sql.ElasticPoolsClient, client := fun c => c.Client,
    send := fun env penv c req => sql.ElasticPoolsClient.CreateOrUpdateSender env penv c req,
    respond := fun env c resp => (sql.ElasticPoolsClient.CreateOrUpdateResponder env c resp).2 },
  { Client := "sql.ElasticPoolsClient", Method := "Update",
    Receiver := sql.ElasticPoolsClient, client := fun c => c.Client,
    send := fun env penv c req => sql.ElasticPoolsClient.UpdateSender env penv c req,
    respond := fun env c resp => (sql.ElasticPoolsClient.UpdateResponder env c resp).2 },
  { Client := "sql.BackupLongTermRetentionPoliciesClient", Method := "CreateOrUpdate",
    Receiver := sql.BackupLongTermRetentionPoliciesClient, client := fun c => c.Client,
    send := fun env penv c req =>
      sql.BackupLongTermRetentionPoliciesClient.CreateOrUpdateSender env penv c req,
    respond := fun env c resp =>
      (sql.BackupLongTermRetentionPoliciesClient.CreateOrUpdateResponder env c resp).2 },
  { Client := "sql.SyncMembersClient", Method := "CreateOrUpdate",
    Receiver := sql.SyncMembersClient, client := fun c => c.Client,
    send := fun env penv c req => sql.SyncMembersClient.CreateOrUpdateSender env penv c req,
    respond := fun env c resp => (sql.SyncMembersClient.CreateOrUpdateResponder env c resp).2 },
  { Client := "sql.SyncMembersClient", Method := "Delete",
    Receiver := sql.SyncMembersClient, client := fun c => c.Client,
    send := fun env penv c req => sql.SyncMembersClient.DeleteSender env penv c req,
    respond := fun env c resp => (sql.SyncMembersClient.DeleteResponder env c resp).2 },
  { Client := "sql.SyncMembersClient", Method := "RefreshMemberSchema",
    Receiver := sql.SyncMembersClient, client := fun c => c.Client,
    send := fun env penv c req => sql.SyncMembersClient.RefreshMemberSchemaSender env penv c req,
    respond := fun env c resp =>
      (sql.SyncMembersClient.RefreshMemberSchemaResponder env c resp).2 },
  { Client := "sql.SyncMembersClient", Method := "Update",
    Receiver := sql.SyncMembersClient, client := fun c => c.Client,
    send := fun env penv c req => sql.SyncMembersClient.UpdateSender env penv c req,
    respond := fun env c resp => (sql.SyncMembersClient.UpdateResponder env c resp).2 }]

/-! ## Lemmas on encoding, path building and the responder chains -/

namespace autorest

theorem hexDigit_ne_slash (n : Nat) : hexDigit n ≠ '/' := by
  unfold hexDigit
  have h : n % 16 < 16 := Nat.mod_lt n (by decide)
  generalize n % 16 = m at h
  interval_cases m <;> decide

theorem slash_not_mem_percentByte (b : Nat) : '/' ∉ percentByte b := by
  unfold percentByte
  intro h
  simp only [List.mem_cons, List.mem_singleton, List.not_mem_nil, or_false] at h
  rcases h with h | h | h
  · exact absurd h (by decide)
  · exact hexDigit_ne_slash _ h.symm
  · exact hexDigit_ne_slash _ h.symm

theorem slash_not_mem_queryEscapeChar (c : Char) : '/' ∉ queryEscapeChar c := by
  unfold queryEscapeChar
  intro h
  split at h
  · next hu =>
    simp only [List.mem_singleton] at h
    subst h
    exact absurd hu (by decide)
  · split at h
    · simp only [List.mem_singleton] at h
      exact absurd h (by decide)
    · simp only [List.mem_flatMap] at h
      obtain ⟨b, _, hb⟩ := h
      exact slash_not_mem_percentByte b hb

theorem slash_not_mem_queryEscape (s : List Char) : '/' ∉ queryEscape s := by
  unfold queryEscape
  intro h
  simp only [List.mem_flatMap] at h
  obtain ⟨c, _, hc⟩ := h
  exact slash_not_mem_queryEscapeChar c hc

theorem slash_not_mem_pathEscape (s : List Char) : '/' ∉ pathEscape s := by
  unfold pathEscape
  intro h
  simp only [List.mem_flatMap] at h
  obtain ⟨c, hc, hin⟩ := h
  split at hin
  · simp only [List.mem_cons, List.mem_singleton, List.not_mem_nil, or_false] at hin
    rcases hin with h | h | h <;> exact absurd h (by decide)
  · simp only [List.mem_singleton] at hin
    subst hin
    exact slash_not_mem_queryEscape s hc

theorem slash_not_mem_Encode_path (s : String) : '/' ∉ (Encode "path" s).toList := by
  have h : Encode "path" s = String.mk (pathEscape s.toList) := by
    unfold Encode
    simp
  rw [h]
  exact slash_not_mem_pathEscape _

theorem segmentNames_sub_build (pathParameters : List (String × String)) (segs : List Segment)
    (h : ∀ name ∈ segmentNames segs, name ∈ pathParameters.map Prod.fst) :
    ∃ chars, buildSegments pathParameters segs = .ok chars := by
  induction segs with
  | nil => exact ⟨[], rfl⟩
  | cons seg rest ih =>
    cases seg with
    | lit c =>
      obtain ⟨tail, ht⟩ := ih (fun name hn => h name (by simpa [segmentNames] using hn))
      exact ⟨[c] ++ tail, by simp [buildSegments, resolveSegment, ht]⟩
    | param name =>
      obtain ⟨tail, ht⟩ := ih (fun n hn => h n (by simp [segmentNames, hn]))
      have hmem : name ∈ pathParameters.map Prod.fst := h name (by simp [segmentNames])
      have hlook : ∃ v, pathParameters.lookup name = some v := by
        clear h ih ht
        induction pathParameters with
        | nil => simp at hmem
        | cons kv ps ihp =>
          obtain ⟨k, v⟩ := kv
          by_cases hk : name = k
          · subst hk
            exact ⟨v, by simp [List.lookup]⟩
          · have : name ∈ ps.map Prod.fst := by
              simp only [List.map_cons, List.mem_cons] at hmem
              rcases hmem with h1 | h1
              · exact absurd h1 hk
              · exact h1
            obtain ⟨w, hw⟩ := ihp this
            refine ⟨w, ?_⟩
            have hne : (name == k) = false := by simpa using hk
            simp [List.lookup, hne, hw]
      obtain ⟨v, hv⟩ := hlook
      exact ⟨v.toList ++ tail, by simp [buildSegments, resolveSegment, hv, ht]⟩

theorem sameNames_iff (xs ys : List String) (h : sameNames xs ys = true) (name : String) :
    name ∈ xs ↔ name ∈ ys := by
  unfold sameNames at h
  simp only [Bool.and_eq_true, List.all_eq_true, List.contains_eq_any_beq, List.any_eq_true,
    beq_iff_eq] at h
  constructor
  · intro hx
    obtain ⟨y, hy, hxy⟩ := h.1 name hx
    exact hxy ▸ hy
  · intro hy
    obtain ⟨x, hx, hyx⟩ := h.2 name hy
    exact hyx ▸ hx

theorem buildPath_ok_of_sameNames (path : String) (pathParameters : List (String × String))
    (h : sameNames (placeholders path) (pathParameters.map Prod.fst) = true) :
    ∃ url, buildPath path pathParameters = .ok url := by
  obtain ⟨chars, hc⟩ := segmentNames_sub_build pathParameters (pathSegments path)
    (fun name hn => (sameNames_iff _ _ h name).1 hn)
  exact ⟨String.mk chars, by simp [buildPath, hc]⟩

end autorest

theorem respond_decoding_chain (env : autorest.Env) (resp : http.Response) (codes : List Nat) :
    autorest.Respond env resp
        [autorest.RespondDecorator.ByInspecting,
          autorest.RespondDecorator.WithErrorUnlessStatusCode codes,
          autorest.RespondDecorator.ByUnmarshallingJSON,
          autorest.RespondDecorator.ByClosing] =
      { resp := { resp with Closed := resp.Closed + 1 },
        err :=
          if codes.contains resp.StatusCode then
            match env.Unmarshal resp.Body with
            | some _ => none
            | none => some (Error.decodeError resp.Body)
          else some (Error.unexpectedStatus resp.StatusCode resp.Body),
        result :=
          if codes.contains resp.StatusCode then (env.Unmarshal resp.Body).getD autorest.Payload.zero
          else autorest.Payload.zero } := by
  simp only [autorest.Respond, List.foldl, autorest.RespondDecorator.apply]
  by_cases h : codes.contains resp.StatusCode = true
  · simp only [h, if_true]
    cases hu : env.Unmarshal resp.Body <;> simp
  · simp only [h, if_false]
    simp

theorem respond_plain_chain (env : autorest.Env) (resp : http.Response) (codes : List Nat) :
    autorest.Respond env resp
        [autorest.RespondDecorator.ByInspecting,
          autorest.RespondDecorator.WithErrorUnlessStatusCode codes,
          autorest.RespondDecorator.ByClosing] =
      { resp := { resp with Closed := resp.Closed + 1 },
        err :=
          if codes.contains resp.StatusCode then none
          else some (Error.unexpectedStatus resp.StatusCode resp.Body),
        result := autorest.Payload.zero } := by
  simp only [autorest.Respond, List.foldl, autorest.RespondDecorator.apply]
  by_cases h : codes.contains resp.StatusCode = true
  · simp only [h, if_true]
  · simp only [h, if_false]
    simp

/-! ## Lemmas on the poll loop, the retry loop and the listers -/

namespace azure

/-- A call of `Done` on a future in a terminal state returns the future unchanged and sends
nothing. -/
theorem Future.Done_of_terminal (penv : Env) (f : Future) (sender : autorest.Sender)
    (h : f.Status.isTerminal = true) :
    f.Done penv sender = { future := f, done := true, err := f.errorInfo, sent := [] } := by
  simp [Future.Done, h]

/-- A call of `Done` changes the status only of a future that is in progress. -/
theorem Future.Done_status (penv : Env) (f : Future) (sender : autorest.Sender) :
    (f.Done penv sender).future.Status = f.Status ∨ f.Status = .InProgress := by
  cases hs : f.Status
  · exact Or.inr rfl
  all_goals
    left
    rw [Future.Done_of_terminal penv f sender (by rw [hs]; rfl)]
    exact hs

/-- A call of `Done` sends at most one request. -/
theorem Future.Done_sent_length (penv : Env) (f : Future) (sender : autorest.Sender) :
    (f.Done penv sender).sent.length ≤ 1 := by
  unfold Future.Done
  split
  · simp
  · split
    · simp
    · split <;> simp

/-- The poll loop on a future in a terminal state returns the future unchanged and sends
nothing. -/
theorem Future.WaitForCompletion_of_terminal (penv : Env) (f : Future)
    (senders : List autorest.Sender) (h : f.Status.isTerminal = true) :
    f.WaitForCompletion penv senders =
      { future := f, done := true, err := f.errorInfo, sent := [] } := by
  cases senders with
  | nil => simp [Future.WaitForCompletion, h]
  | cons sender rest =>
    simp only [Future.WaitForCompletion, Future.Done_of_terminal penv f sender h]
    cases f.errorInfo <;> rfl

/-- Once the poll loop has reached a terminal state, further answers of the sender change
nothing. -/
theorem Future.WaitForCompletion_append (penv : Env) (pre post : List autorest.Sender) :
    ∀ f : Future, (f.WaitForCompletion penv pre).future.Status.isTerminal = true →
      f.WaitForCompletion penv (pre ++ post) = f.WaitForCompletion penv pre := by
  induction pre with
  | nil =>
    intro f h
    have hf : f.Status.isTerminal = true := by
      simp only [Future.WaitForCompletion] at h
      split at h <;> simp_all
    rw [List.nil_append, Future.WaitForCompletion_of_terminal penv f post hf,
      Future.WaitForCompletion_of_terminal penv f [] hf]
  | cons sender rest ih =>
    intro f h
    simp only [List.cons_append, Future.WaitForCompletion] at h ⊢
    rcases he : (f.Done penv sender).err with _ | e
    · rcases hd : (f.Done penv sender).done with _ | _
      · simp only [he, hd] at h ⊢
        have := ih _ h
        simp only [List.append_eq] at *
        rw [this]
      · simp only [he, hd]
    · simp only [he]

end azure

namespace autorest

/-- Draining a chain of linked pages with enough fuel yields the items of every page, in
order, and terminates. -/
theorem drain_linked (fn : Option (Model → Outcome Model)) (nextLink : Model → Option String) :
    ∀ (pages : List Model) (page : Model) (i fuel : Nat),
      linked fn nextLink (page :: pages) = true → pages.length ≤ fuel →
      drain fn nextLink fuel i page =
        { items := page.items.drop i ++ itemsOf pages, err := none, done := true } := by
  intro pages
  induction pages with
  | nil =>
    intro page i fuel h _
    simp only [linked, Bool.not_eq_true'] at h
    cases fuel <;> simp [drain, h, itemsOf]
  | cons next rest ih =>
    intro page i fuel h hfuel
    cases fuel with
    | zero => simp at hfuel
    | succ fuel =>
      simp only [linked, Bool.and_eq_true] at h
      obtain ⟨⟨hlink, hfetch⟩, hrest⟩ := h
      cases fn with
      | none => simp at hfetch
      | some fetch =>
        simp only [Bool.and_eq_true, decide_eq_true_eq] at hfetch
        have hlen : rest.length ≤ fuel := by
          simp only [List.length_cons] at hfuel
          omega
        have := ih next 0 fuel hrest hlen
        simp only [drain, hlink, if_true, hfetch.1, hfetch.2, this, List.drop_zero, itemsOf]

end autorest

namespace autorest

/-- A retrying sender issues the request at least once and at most once more than the
deadline leaves retries, and every request it issues is the given one. -/
theorem sendWithRetry_sent (policy : RetryPolicy) (transport : Nat → Sender)
    (req : http.Request) :
    ∀ deadline attempt,
      1 ≤ (sendWithRetry policy transport req deadline attempt).sent.length ∧
      (sendWithRetry policy transport req deadline attempt).sent.length ≤ deadline + 1 ∧
      ∀ q ∈ (sendWithRetry policy transport req deadline attempt).sent, q = req := by
  intro deadline
  induction deadline with
  | zero =>
    intro attempt
    simp [sendWithRetry]
  | succ deadline ih =>
    intro attempt
    unfold sendWithRetry
    split
    · obtain ⟨h1, h2, h3⟩ := ih (attempt + 1)
      refine ⟨by simp, by simp only [List.length_cons]; omega, ?_⟩
      intro q hq
      simp only [List.mem_cons] at hq
      rcases hq with rfl | hq
      · rfl
      · exact h3 q hq
    · simp

/-- When the policy asks for a retry after each of the first `k` answers and for none after
the next, and the deadline leaves `k` retries, the sender issues the request `k + 1` times
and returns the last answer as it is. -/
theorem sendWithRetry_stop (policy : RetryPolicy) (transport : Nat → Sender)
    (req : http.Request) :
    ∀ k deadline attempt, k ≤ deadline →
      (∀ j, j < k → policy (transport (attempt + j) req).status (attempt + j) = true) →
      policy (transport (attempt + k) req).status (attempt + k) = false →
      sendWithRetry policy transport req deadline attempt =
        { result := transport (attempt + k) req, sent := List.replicate (k + 1) req } := by
  intro k
  induction k with
  | zero =>
    intro deadline attempt _ _ hstop
    simp only [Nat.add_zero] at hstop
    cases deadline with
    | zero => rfl
    | succ deadline => simp [sendWithRetry, hstop, List.replicate]
  | succ k ih =>
    intro deadline attempt hk hretry hstop
    cases deadline with
    | zero => omega
    | succ deadline =>
      have h0 : policy (transport attempt req).status attempt = true := by
        simpa using hretry 0 (by omega)
      have hrest := ih deadline (attempt + 1) (by omega)
        (fun j hj => by
          have := hretry (j + 1) (by omega)
          rwa [Nat.add_assoc, Nat.add_comm 1 j])
        (by rwa [Nat.add_assoc, Nat.add_comm 1 k])
      rw [sendWithRetry]
      simp only [h0, if_true, hrest]
      simp [List.replicate, Nat.add_assoc, Nat.add_comm 1 k]

/-- The requests a retrying sender issues depend on the answers only through their status
codes. -/
theorem sendWithRetry_sent_congr (policy : RetryPolicy) (transport transport' : Nat → Sender)
    (req : http.Request)
    (h : ∀ k, (transport' k req).status = (transport k req).status) :
    ∀ deadline attempt,
      (sendWithRetry policy transport' req deadline attempt).sent =
        (sendWithRetry policy transport req deadline attempt).sent := by
  intro deadline
  induction deadline with
  | zero =>
    intro attempt
    rfl
  | succ deadline ih =>
    intro attempt
    simp only [sendWithRetry, h attempt]
    split
    · simp only [ih (attempt + 1)]
    · rfl

end autorest

/-! ## Lemmas on validation and on the attributes of the data source -/

namespace regexp

/-- The pattern of resource group names accepts the non-empty strings of hyphens, word
characters, dots and underscores. -/
theorem MatchString_resourceGroupName (s : String) :
    MatchString "^[-\\w\\._]+$" s =
      (!s.toList.isEmpty &&
        s.toList.all (fun c => c == '-' || (isWord c || (c == '.' || c == '_')))) := by
  have hp : ("^[-\\w\\._]+$" : String).toList =
      ['^', '[', '-', '\\', 'w', '\\', '.', '_', ']', '+', '$'] := by decide
  have hc : parseClass ['-', '\\', 'w', '\\', '.', '_', ']', '+', '$'] false =
      some ([ClassItem.lit '-', ClassItem.word, ClassItem.lit '.', ClassItem.lit '_'],
        ['+', '$']) := by decide
  simp only [MatchString, hp, hc, List.any_cons, List.any_nil, ClassItem.accepts,
    Bool.or_false]

end regexp

namespace validation

/-- The validation of a resource group name alone. -/
theorem validateValue_resourceGroupName (s : String) :
    validateValue (.string s) (.mk "resourceGroupName" .Pattern (.string "^[-\\w\\._]+$") []) =
      if regexp.MatchString "^[-\\w\\._]+$" s then none
      else some (createError "resourceGroupName" .Pattern
        ("value doesn't match pattern " ++ "^[-\\w\\._]+$")) := by
  simp [validateValue]

end validation

namespace azurerm

/-- Dropping the entries of another key does not change what a key looks up. -/
theorem lookup_filter_ne (key other : String) (h : key ≠ other) :
    ∀ l : List (String × Value),
      (l.filter (fun p => p.1 != other)).lookup key = l.lookup key := by
  intro l
  induction l with
  | nil => rfl
  | cons p rest ih =>
    obtain ⟨k, v⟩ := p
    by_cases hk : k = other
    · subst hk
      have hne : (key == k) = false := by simpa using h
      simp [List.filter, List.lookup, hne, ih]
    · have hb : (k != other) = true := by simpa using hk
      simp only [List.filter, hb, List.lookup]
      rw [ih]

/-- A call of `d.Set` leaves every other key as it was. -/
theorem ResourceData.Set_lookup_ne (env : Env) (d : ResourceData) (key other : String)
    (value : Value) (h : key ≠ other) :
    (d.Set env other value).1.Attributes.lookup key = d.Attributes.lookup key := by
  unfold ResourceData.Set
  cases env.SetError other value with
  | some err => rfl
  | none =>
    have hne : (key == other) = false := by simpa using h
    simp only [List.lookup, hne]
    exact lookup_filter_ne key other h _

end azurerm

namespace azurerm

/-- The location and the zones copied from the response leave a key as it was unless the
key belongs to one of the two and its source is present. -/
theorem location_lookup (env : Env) (d : ResourceData) (resp : ResourceType) (key : String)
    (hloc : resp.Location = none ∨ key ≠ "location")
    (hzones : resp.Zones = none ∨ key ≠ "zones") :
    (dataSourceArmRedisCacheRead.location env d resp).Attributes.lookup key =
      d.Attributes.lookup key := by
  unfold dataSourceArmRedisCacheRead.location
  rcases hl : resp.Location with _ | location <;> rcases hz : resp.Zones with _ | zones <;>
    simp only [hl, hz, reduceCtorEq, false_or] at hloc hzones ⊢ <;>
    (repeat rw [ResourceData.Set_lookup_ne]) <;> assumption

/-- The attributes copied from the properties leave a key as it was unless the key belongs
to the SKU and the SKU is present, or to the properties, "shard_count" only when the
shard count is present. -/
theorem properties_lookup (env : Env) (d : ResourceData) (props : Properties) (key : String)
    (hsku : props.Sku = none ∨ (key ≠ "capacity" ∧ key ≠ "family" ∧ key ≠ "sku_name"))
    (hprops : key ≠ "ssl_port" ∧ key ≠ "hostname" ∧ key ≠ "minimum_tls_version" ∧
      key ≠ "port" ∧ key ≠ "enable_non_ssl_port" ∧ key ≠ "private_static_ip_address" ∧
      key ≠ "subnet_id")
    (hshard : props.ShardCount = none ∨ key ≠ "shard_count") :
    (dataSourceArmRedisCacheRead.properties env d props).Attributes.lookup key =
      d.Attributes.lookup key := by
  unfold dataSourceArmRedisCacheRead.properties
  obtain ⟨h1, h2, h3, h4, h5, h6, h7⟩ := hprops
  rcases hs : props.Sku with _ | sku <;> rcases hc : props.ShardCount with _ | shardCount <;>
    simp only [hs, hc, reduceCtorEq, false_or] at hsku hshard ⊢ <;>
    (repeat rw [ResourceData.Set_lookup_ne]) <;>
    first
    | assumption
    | exact hsku.1
    | exact hsku.2.1
    | exact hsku.2.2

/-- Under every key other than the four it writes after the attribute groups, the data the
read handler leaves holds what the attribute groups it reached left there. -/
theorem read_data_lookup (env : Env) (d : ResourceData) (resourceGroup name : String)
    (hrg : d.Get "resource_group_name" = .string resourceGroup)
    (hname : d.Get "name" = .string name)
    (htags : ∀ (d0 : ResourceData) (tags : List (String × String)) (key : String),
      key ≠ "tags" →
        (env.flattenAndSetTags d0 tags).Attributes.lookup key = d0.Attributes.lookup key)
    (key : String)
    (h1 : key ≠ "redis_configuration") (h2 : key ≠ "primary_access_key")
    (h3 : key ≠ "secondary_access_key") (h4 : key ≠ "tags") :
    (dataSourceArmRedisCacheRead env d).data.Attributes.lookup key =
      (match (env.Get resourceGroup name).2, (env.Get resourceGroup name).1.ID,
          (env.Get resourceGroup name).1.Properties with
       | some _, _, _ => d
       | none, none, _ => d
       | none, some id, none =>
         dataSourceArmRedisCacheRead.location env (d.SetId id) (env.Get resourceGroup name).1
       | none, some id, some props =>
         dataSourceArmRedisCacheRead.properties env
           (dataSourceArmRedisCacheRead.location env (d.SetId id)
             (env.Get resourceGroup name).1) props).Attributes.lookup key := by
  rcases hg : env.Get resourceGroup name with ⟨resp, _ | ge⟩
  · simp only [dataSourceArmRedisCacheRead, hrg, hname, hg]
    rcases hi : resp.ID with _ | id
    · rfl
    rcases hp : resp.Properties with _ | props
    · rfl
    simp only
    generalize dataSourceArmRedisCacheRead.properties env
      (dataSourceArmRedisCacheRead.location env (d.SetId id) resp) props = d1
    rcases hf : env.flattenRedisConfiguration props.RedisConfiguration with ⟨cfg, _ | fe⟩
    · have hcfg := ResourceData.Set_lookup_ne env d1 key "redis_configuration" cfg h1
      rcases hs : d1.Set env "redis_configuration" cfg with ⟨d2, _ | se⟩
      · rw [hs] at hcfg
        rcases hk : env.ListKeys resourceGroup name with ⟨keys, _ | ke⟩
        · rcases hpk : keys.PrimaryKey with _ | pk
          · simp only [hs, hpk, ReadResult.data]
            exact hcfg
          rcases hsk : keys.SecondaryKey with _ | sk
          · simp only [hs, hpk, hsk, ReadResult.data]
            rw [ResourceData.Set_lookup_ne _ _ _ _ _ h2]
            exact hcfg
          · simp only [hs, hpk, hsk, ReadResult.data]
            rw [htags _ _ _ h4, ResourceData.Set_lookup_ne _ _ _ _ _ h3,
              ResourceData.Set_lookup_ne _ _ _ _ _ h2]
            exact hcfg
        · simp only [hs, ReadResult.data]
          exact hcfg
      · rw [hs] at hcfg
        simp only [hs, ReadResult.data]
        exact hcfg
    · rfl
  · simp only [dataSourceArmRedisCacheRead, hrg, hname, hg]
    split <;> rfl

end azurerm

/-! ## The claims -/

/-- Claim C1: for every synchronous client operation that passes its own validation, a
failing preparer yields the preparer error annotated with the client name, the operation
name and "Failure preparing request"; a failing sender yields the sender error annotated
"Failure sending request"; a failing responder yields the responder error annotated
"Failure responding to request". The annotation carries the package-qualified client type
and the name of the operation that was called, and the returned error is never nil. -/
theorem syncOperation_error_names_stage (op : SyncOperation) (hop : op ∈ syncOperations)
    (env : autorest.Env) (a : op.Args) (hvalid : op.validation a = none) :
    (∀ e, op.prepare env a = .error e →
      (op.run env a).1 = some (autorest.NewErrorWithError e op.PackageType op.Method none
        "Failure preparing request")) ∧
    (∀ req resp e, op.prepare env a = .ok req → op.send env a req = .failed resp e →
      (op.run env a).1 = some (autorest.NewErrorWithError e op.PackageType op.Method resp
        "Failure sending request")) ∧
    (∀ req resp e, op.prepare env a = .ok req → op.send env a req = .ok resp →
      op.respond env a resp = some e →
      (op.run env a).1 = some (autorest.NewErrorWithError e op.PackageType op.Method
        (some resp) "Failure responding to request")) := by
  simp only [syncOperations, List.mem_cons, List.mem_singleton, List.not_mem_nil, or_false] at hop
  rcases hop with
    rfl | rfl | rfl | rfl | rfl | rfl | rfl | rfl | rfl | rfl | rfl | rfl | rfl | rfl | rfl | rfl
    | rfl | rfl | rfl | rfl
  all_goals
    dsimp only at hvalid ⊢
    refine ⟨fun e h => ?_, fun req resp e h1 h2 => ?_, fun req resp e h1 h2 h3 => ?_⟩
  all_goals
    simp only [
      automation.WebhookClient.CreateOrUpdate, automation.WebhookClient.Delete,
      automation.WebhookClient.GenerateURI, automation.WebhookClient.Get,
      automation.WebhookClient.ListByAutomationAccount, automation.WebhookClient.Update,
      graphrbac.ObjectsClient.GetCurrentUser, graphrbac.ObjectsClient.GetObjectsByObjectIds,
      graphrbac.ObjectsClient.GetObjectsByObjectIdsNext, sql.ServerUsagesClient.ListByServer,
      sql.ElasticPoolsClient.Delete, sql.ElasticPoolsClient.Get,
      sql.ElasticPoolsClient.ListByServer, sql.ElasticPoolsClient.ListMetricDefinitions,
      sql.ElasticPoolsClient.ListMetrics, sql.BackupLongTermRetentionPoliciesClient.Get,
      sql.BackupLongTermRetentionPoliciesClient.ListByDatabase, sql.SyncMembersClient.Get,
      sql.SyncMembersClient.ListBySyncGroup, sql.SyncMembersClient.ListMemberSchemas]
    simp_all
    try (split <;> simp_all)

/-- Witness of C1 on `WebhookClient.Get`: a preparer that fails, a sender that fails and a
response with status 404, each annotated with its stage. -/
theorem syncOperation_error_names_stage_witness :
    (automation.WebhookClient.Get
        (sample.env (.error (Error.plain "no scheme in URL")) (.ok (sample.response 200 ""))
          (.ok none))
        sample.webhookClient "rg1" "account1" "hook1").err =
      some (Error.detailed (Error.plain "no scheme in URL") "automation.WebhookClient" "Get" none
        "Failure preparing request") ∧
    (automation.WebhookClient.Get
        (sample.env (.ok sample.request)
          (.failed none (Error.plain "connection reset")) (.ok none))
        sample.webhookClient "rg1" "account1" "hook1").err =
      some (Error.detailed (Error.plain "connection reset") "automation.WebhookClient" "Get" none
        "Failure sending request") ∧
    (automation.WebhookClient.Get
        (sample.env (.ok sample.request) (.ok (sample.response 404 "not found")) (.ok none))
        sample.webhookClient "rg1" "account1" "hook1").err =
      some (Error.detailed (Error.unexpectedStatus 404 "not found") "automation.WebhookClient"
        "Get" (some 404) "Failure responding to request") :=
  ⟨(syncOperation_error_names_stage (syncOperations.get ⟨3, by decide⟩) (List.get_mem _ _ _)
      (sample.env (.error (Error.plain "no scheme in URL")) (.ok (sample.response 200 ""))
        (.ok none))
      (sample.webhookClient, "rg1", "account1", "hook1") (by decide)).1 _ rfl,
   (syncOperation_error_names_stage (syncOperations.get ⟨3, by decide⟩) (List.get_mem _ _ _)
      (sample.env (.ok sample.request) (.failed none (Error.plain "connection reset"))
        (.ok none))
      (sample.webhookClient, "rg1", "account1", "hook1") (by decide)).2.1 _ _ _ rfl rfl,
   (syncOperation_error_names_stage (syncOperations.get ⟨3, by decide⟩) (List.get_mem _ _ _)
      (sample.env (.ok sample.request) (.ok (sample.response 404 "not found")) (.ok none))
      (sample.webhookClient, "rg1", "account1", "hook1") (by decide)).2.2 _ _ _ rfl rfl (by decide)⟩

/-- Claim C2: every responder returns the unexpected-status error, carrying the actual code
and the raw body, whenever the status is not in the set it declares, and returns a nil
error with the decoded fields when the status is in the set and the body decodes;
`WebhookClient.GetResponder` fails on every status other than 200 and
`WebhookClient.CreateOrUpdateResponder` on every status other than 200 and 201. -/
theorem responders_check_status :
    (∀ c ∈ allResponders, ∀ (env : autorest.Env) (client : c.Receiver) (resp : http.Response),
      (resp.StatusCode ∉ c.codes →
        (c.run env client resp).2.2 =
          some (Error.unexpectedStatus resp.StatusCode resp.Body)) ∧
      (resp.StatusCode ∈ c.codes → ∀ v, env.Unmarshal resp.Body = some v →
        (c.run env client resp).2.2 = none ∧
        (c.decodes = true → (c.run env client resp).1 = some v))) ∧
    (∀ (env : autorest.Env) (client : automation.WebhookClient) (resp : http.Response),
      resp.StatusCode ≠ 200 →
      (automation.WebhookClient.GetResponder env client resp).2 ≠ none) ∧
    (∀ (env : autorest.Env) (client : automation.WebhookClient) (resp : http.Response),
      resp.StatusCode ≠ 200 → resp.StatusCode ≠ 201 →
      (automation.WebhookClient.CreateOrUpdateResponder env client resp).2 ≠ none) := by
  refine ⟨?_, ?_, ?_⟩
  · intro c hc env client resp
    simp only [allResponders, List.mem_cons, List.mem_singleton, List.not_mem_nil, or_false] at hc
    rcases hc with
      rfl | rfl | rfl | rfl | rfl | rfl | rfl | rfl | rfl | rfl | rfl | rfl | rfl | rfl | rfl |
      rfl | rfl | rfl | rfl | rfl | rfl | rfl | rfl | rfl | rfl | rfl | rfl
    all_goals
      simp only [
        automation.WebhookClient.CreateOrUpdateResponder,
        automation.WebhookClient.DeleteResponder, automation.WebhookClient.GenerateURIResponder,
        automation.WebhookClient.GetResponder,
        automation.WebhookClient.ListByAutomationAccountResponder,
        automation.WebhookClient.UpdateResponder,
        graphrbac.ObjectsClient.GetCurrentUserResponder,
        graphrbac.ObjectsClient.GetObjectsByObjectIdsResponder,
        graphrbac.ObjectsClient.GetObjectsByObjectIdsNextResponder,
        sql.ServerUsagesClient.ListByServerResponder,
        sql.ElasticPoolsClient.CreateOrUpdateResponder, sql.ElasticPoolsClient.DeleteResponder,
        sql.ElasticPoolsClient.GetResponder, sql.ElasticPoolsClient.ListByServerResponder,
        sql.ElasticPoolsClient.ListMetricDefinitionsResponder,
        sql.ElasticPoolsClient.ListMetricsResponder, sql.ElasticPoolsClient.UpdateResponder,
        sql.BackupLongTermRetentionPoliciesClient.CreateOrUpdateResponder,
        sql.BackupLongTermRetentionPoliciesClient.GetResponder,
        sql.BackupLongTermRetentionPoliciesClient.ListByDatabaseResponder,
        sql.SyncMembersClient.CreateOrUpdateResponder, sql.SyncMembersClient.DeleteResponder,
        sql.SyncMembersClient.GetResponder, sql.SyncMembersClient.ListBySyncGroupResponder,
        sql.SyncMembersClient.ListMemberSchemasResponder,
        sql.SyncMembersClient.RefreshMemberSchemaResponder,
        sql.SyncMembersClient.UpdateResponder,
        autorest.Client.ByInspecting, azure.WithErrorUnlessStatusCode, autorest.ByUnmarshallingJSON,
        autorest.ByClosing, respond_decoding_chain, respond_plain_chain]
      refine ⟨fun h => ?_, fun h v hv => ?_⟩
      · simp_all
      · simp_all
  · intro env client resp h
    simp [automation.WebhookClient.GetResponder, autorest.Client.ByInspecting,
      azure.WithErrorUnlessStatusCode, respond_decoding_chain, h]
  · intro env client resp h1 h2
    simp [automation.WebhookClient.CreateOrUpdateResponder, autorest.Client.ByInspecting,
      azure.WithErrorUnlessStatusCode, respond_decoding_chain, h1, h2]

/-- Witness of C2 on `WebhookClient.GetResponder`: status 404 is rejected with its code
and body, status 200 with a well-formed body yields no error and the decoded fields. -/
theorem responders_check_status_witness :
    (automation.WebhookClient.GetResponder
        (sample.env (.ok sample.request) (.ok (sample.response 404 "not found")) (.ok none))
        sample.webhookClient (sample.response 404 "not found")).2 =
      some (Error.unexpectedStatus 404 "not found") ∧
    ((automation.WebhookClient.GetResponder
        (sample.env (.ok sample.request) (.ok (sample.response 200 "")) (.ok none))
        sample.webhookClient (sample.response 200 "\x7b\"name\":\"hook\"\x7d")).2 = none ∧
      (true = true →
        some (automation.WebhookClient.GetResponder
          (sample.env (.ok sample.request) (.ok (sample.response 200 "")) (.ok none))
          sample.webhookClient
          (sample.response 200 "\x7b\"name\":\"hook\"\x7d")).1.toPayload =
        some sample.payload)) :=
  ⟨(responders_check_status.1 (allResponders.get ⟨3, by decide⟩) (List.get_mem _ _ _)
      (sample.env (.ok sample.request) (.ok (sample.response 404 "not found")) (.ok none))
      sample.webhookClient (sample.response 404 "not found")).1 (by decide),
   (responders_check_status.1 (allResponders.get ⟨3, by decide⟩) (List.get_mem _ _ _)
      (sample.env (.ok sample.request) (.ok (sample.response 200 "")) (.ok none))
      sample.webhookClient (sample.response 200 "\x7b\"name\":\"hook\"\x7d")).2 (by decide)
      sample.payload (by decide)⟩

/-- Claim C3: every responder closes the response body exactly once on every path: the
response it hands back is the one it was given with one more close of the body, whether
the status is accepted and the body decodes, the status is rejected, or decoding fails. -/
theorem responders_close_body_once (c : ResponderCase) (hc : c ∈ allResponders)
    (env : autorest.Env) (client : c.Receiver) (resp : http.Response) :
    (c.run env client resp).2.1.Response = some { resp with Closed := resp.Closed + 1 } := by
  simp only [allResponders, List.mem_cons, List.mem_singleton, List.not_mem_nil, or_false] at hc
  rcases hc with
    rfl | rfl | rfl | rfl | rfl | rfl | rfl | rfl | rfl | rfl | rfl | rfl | rfl | rfl | rfl | rfl
    | rfl | rfl | rfl | rfl | rfl | rfl | rfl | rfl | rfl | rfl | rfl
  all_goals
    simp only [
      automation.WebhookClient.CreateOrUpdateResponder, automation.WebhookClient.DeleteResponder,
      automation.WebhookClient.GenerateURIResponder, automation.WebhookClient.GetResponder,
      automation.WebhookClient.ListByAutomationAccountResponder,
      automation.WebhookClient.UpdateResponder, graphrbac.ObjectsClient.GetCurrentUserResponder,
      graphrbac.ObjectsClient.GetObjectsByObjectIdsResponder,
      graphrbac.ObjectsClient.GetObjectsByObjectIdsNextResponder,
      sql.ServerUsagesClient.ListByServerResponder,
      sql.ElasticPoolsClient.CreateOrUpdateResponder, sql.ElasticPoolsClient.DeleteResponder,
      sql.ElasticPoolsClient.GetResponder, sql.ElasticPoolsClient.ListByServerResponder,
      sql.ElasticPoolsClient.ListMetricDefinitionsResponder,
      sql.ElasticPoolsClient.ListMetricsResponder, sql.ElasticPoolsClient.UpdateResponder,
      sql.BackupLongTermRetentionPoliciesClient.CreateOrUpdateResponder,
      sql.BackupLongTermRetentionPoliciesClient.GetResponder,
      sql.BackupLongTermRetentionPoliciesClient.ListByDatabaseResponder,
      sql.SyncMembersClient.CreateOrUpdateResponder, sql.SyncMembersClient.DeleteResponder,
      sql.SyncMembersClient.GetResponder, sql.SyncMembersClient.ListBySyncGroupResponder,
      sql.SyncMembersClient.ListMemberSchemasResponder,
      sql.SyncMembersClient.RefreshMemberSchemaResponder, sql.SyncMembersClient.UpdateResponder,
      autorest.Client.ByInspecting, azure.WithErrorUnlessStatusCode, autorest.ByUnmarshallingJSON,
      autorest.ByClosing, respond_decoding_chain, respond_plain_chain]

/-- Witness of C3 on `SyncMembersClient.DeleteResponder` with a rejected status. -/
theorem responders_close_body_once_witness :
    (sql.SyncMembersClient.DeleteResponder
        (sample.env (.ok sample.request) (.ok (sample.response 500 "boom")) (.ok none))
        sample.syncMembersClient (sample.response 500 "boom")).1.Response =
      some { StatusCode := 500, Body := "boom", Closed := 1 } :=
  responders_close_body_once (allResponders.get ⟨21, by decide⟩) (List.get_mem _ _ _)
    (sample.env (.ok sample.request) (.ok (sample.response 500 "boom")) (.ok none))
    sample.syncMembersClient (sample.response 500 "boom")

/-- Claim C4: for every preparer, the named placeholders of its path template are exactly
the keys of the pathParameters map it passes with that template, so building the path
resolves every placeholder and never fails for want of a parameter. -/
theorem preparers_placeholders_are_keys (c : PreparerCase) (hc : c ∈ allPreparers)
    (a : c.Args) :
    autorest.pathParametersOf (c.preparer a) ≠ [] ∧
    ∀ p ∈ autorest.pathParametersOf (c.preparer a),
      (∀ name, name ∈ autorest.placeholders p.1 ↔ name ∈ p.2.map Prod.fst) ∧
      ∃ url, autorest.buildPath p.1 p.2 = .ok url := by
  simp only [allPreparers, List.mem_cons, List.mem_singleton, List.not_mem_nil, or_false] at hc
  rcases hc with
    rfl | rfl | rfl | rfl | rfl | rfl | rfl | rfl | rfl | rfl | rfl | rfl | rfl | rfl | rfl | rfl
    | rfl | rfl | rfl | rfl | rfl | rfl | rfl | rfl | rfl | rfl | rfl
  all_goals
    simp only [
      automation.WebhookClient.CreateOrUpdatePreparer.preparer,
      automation.WebhookClient.DeletePreparer.preparer,
      automation.WebhookClient.GenerateURIPreparer.preparer,
      automation.WebhookClient.GetPreparer.preparer,
      automation.WebhookClient.ListByAutomationAccountPreparer.preparer,
      automation.WebhookClient.UpdatePreparer.preparer,
      graphrbac.ObjectsClient.GetCurrentUserPreparer.preparer,
      graphrbac.ObjectsClient.GetObjectsByObjectIdsPreparer.preparer,
      graphrbac.ObjectsClient.GetObjectsByObjectIdsNextPreparer.preparer,
      sql.ServerUsagesClient.ListByServerPreparer.preparer,
      sql.ElasticPoolsClient.CreateOrUpdatePreparer.preparer,
      sql.ElasticPoolsClient.DeletePreparer.preparer,
      sql.ElasticPoolsClient.GetPreparer.preparer,
      sql.ElasticPoolsClient.ListByServerPreparer.preparer,
      sql.ElasticPoolsClient.ListMetricDefinitionsPreparer.preparer,
      sql.ElasticPoolsClient.ListMetricsPreparer.preparer,
      sql.ElasticPoolsClient.UpdatePreparer.preparer,
      sql.BackupLongTermRetentionPoliciesClient.CreateOrUpdatePreparer.preparer,
      sql.BackupLongTermRetentionPoliciesClient.GetPreparer.preparer,
      sql.BackupLongTermRetentionPoliciesClient.ListByDatabasePreparer.preparer,
      sql.SyncMembersClient.CreateOrUpdatePreparer.preparer,
      sql.SyncMembersClient.DeletePreparer.preparer, sql.SyncMembersClient.GetPreparer.preparer,
      sql.SyncMembersClient.ListBySyncGroupPreparer.preparer,
      sql.SyncMembersClient.ListMemberSchemasPreparer.preparer,
      sql.SyncMembersClient.RefreshMemberSchemaPreparer.preparer,
      sql.SyncMembersClient.UpdatePreparer.preparer,
      autorest.CreatePreparer, autorest.pathParametersOf, List.mem_singleton, ne_eq,
      List.cons_ne_nil, not_false_eq_true, true_and, forall_eq]
    refine ⟨autorest.sameNames_iff _ _ ?_, autorest.buildPath_ok_of_sameNames _ _ ?_⟩ <;> rfl

/-- Witness of C4 on `WebhookClient.GenerateURIPreparer`. -/
theorem preparers_placeholders_are_keys_witness :
    ∃ url, autorest.buildPath
      "/subscriptions/{subscriptionId}/resourceGroups/{resourceGroupName}/providers/Microsoft.Automation/automationAccounts/{automationAccountName}/webhooks/generateUri"
      [("automationAccountName", autorest.Encode "path" "account1"),
        ("resourceGroupName", autorest.Encode "path" "rg1"),
        ("subscriptionId", autorest.Encode "path" sample.webhookClient.SubscriptionID)] =
      .ok url :=
  ((preparers_placeholders_are_keys (allPreparers.get ⟨2, by decide⟩) (List.get_mem _ _ _)
    (sample.webhookClient, "rg1", "account1")).2 _ (List.Mem.head _)).2

/-- Counterexample to C5 as stated: `ObjectsClient.GetObjectsByObjectIdsNextPreparer` puts
its nextLink argument into the pathParameters map as it is; for the link
`directoryObjects/page2` the value is not the path encoding and its `/` is unencoded. -/
theorem nextLink_reaches_path_unencoded :
    autorest.pathParametersOf
        (graphrbac.ObjectsClient.GetObjectsByObjectIdsNextPreparer.preparer sample.objectsClient
          "directoryObjects/page2") =
      [("/{tenantID}/{nextLink}",
        [("nextLink", "directoryObjects/page2"), ("tenantID", "tenant-1")])] ∧
    autorest.Encode "path" "directoryObjects/page2" = "directoryObjects%2Fpage2" ∧
    '/' ∈ "directoryObjects/page2".toList := by
  refine ⟨?_, ?_, ?_⟩ <;> decide

/-- Claim C5, amended: in every preparer each pathParameters value other than the one
under the key `nextLink` is the path encoding of a caller-supplied string, of the client
id or of the constant "Default", and contains no `/`; the nextLink value of
`ObjectsClient.GetObjectsByObjectIdsNextPreparer` is the supplied link, unencoded. -/
theorem preparers_encode_path_values :
    (∀ c ∈ allPreparers, ∀ a : c.Args, ∀ p ∈ autorest.pathParametersOf (c.preparer a),
      ∀ kv ∈ p.2, kv.1 ≠ "nextLink" →
        (∃ s, (s ∈ c.inputs a ∨ s = "Default") ∧ kv.2 = autorest.Encode "path" s) ∧
        '/' ∉ kv.2.toList) ∧
    (∀ (client : graphrbac.ObjectsClient) (nextLink : String),
      autorest.pathParametersOf
          (graphrbac.ObjectsClient.GetObjectsByObjectIdsNextPreparer.preparer client nextLink) =
        [("/{tenantID}/{nextLink}",
          [("nextLink", nextLink), ("tenantID", autorest.Encode "path" client.TenantID)])]) := by
  refine ⟨?_, fun client nextLink => rfl⟩
  intro c hc a
  simp only [allPreparers, List.mem_cons, List.mem_singleton, List.not_mem_nil, or_false] at hc
  rcases hc with
    rfl | rfl | rfl | rfl | rfl | rfl | rfl | rfl | rfl | rfl | rfl | rfl | rfl | rfl | rfl | rfl
    | rfl | rfl | rfl | rfl | rfl | rfl | rfl | rfl | rfl | rfl | rfl
  all_goals
    intro p hp
    simp only [
      automation.WebhookClient.CreateOrUpdatePreparer.preparer,
      automation.WebhookClient.DeletePreparer.preparer,
      automation.WebhookClient.GenerateURIPreparer.preparer,
      automation.WebhookClient.GetPreparer.preparer,
      automation.WebhookClient.ListByAutomationAccountPreparer.preparer,
      automation.WebhookClient.UpdatePreparer.preparer,
      graphrbac.ObjectsClient.GetCurrentUserPreparer.preparer,
      graphrbac.ObjectsClient.GetObjectsByObjectIdsPreparer.preparer,
      graphrbac.ObjectsClient.GetObjectsByObjectIdsNextPreparer.preparer,
      sql.ServerUsagesClient.ListByServerPreparer.preparer,
      sql.ElasticPoolsClient.CreateOrUpdatePreparer.preparer,
      sql.ElasticPoolsClient.DeletePreparer.preparer,
      sql.ElasticPoolsClient.GetPreparer.preparer,
      sql.ElasticPoolsClient.ListByServerPreparer.preparer,
      sql.ElasticPoolsClient.ListMetricDefinitionsPreparer.preparer,
      sql.ElasticPoolsClient.ListMetricsPreparer.preparer,
      sql.ElasticPoolsClient.UpdatePreparer.preparer,
      sql.BackupLongTermRetentionPoliciesClient.CreateOrUpdatePreparer.preparer,
      sql.BackupLongTermRetentionPoliciesClient.GetPreparer.preparer,
      sql.BackupLongTermRetentionPoliciesClient.ListByDatabasePreparer.preparer,
      sql.SyncMembersClient.CreateOrUpdatePreparer.preparer,
      sql.SyncMembersClient.DeletePreparer.preparer, sql.SyncMembersClient.GetPreparer.preparer,
      sql.SyncMembersClient.ListBySyncGroupPreparer.preparer,
      sql.SyncMembersClient.ListMemberSchemasPreparer.preparer,
      sql.SyncMembersClient.RefreshMemberSchemaPreparer.preparer,
      sql.SyncMembersClient.UpdatePreparer.preparer,
      autorest.CreatePreparer, autorest.pathParametersOf, List.mem_singleton] at hp
    subst hp
    simp only [List.forall_mem_cons]
    repeat' constructor
  all_goals
    first
    | (intro h; exact absurd rfl h)
    | (intro _; exact ⟨⟨_, by simp, rfl⟩, autorest.slash_not_mem_Encode_path _⟩)
    | (intro x hx; cases hx)

/-- Witness of the amended C5 on `WebhookClient.GetPreparer` with a webhook name that
holds a slash. -/
theorem preparers_encode_path_values_witness :
    (∃ s, (s ∈ [sample.webhookClient.SubscriptionID, "rg1", "account1", "hook/1"] ∨
        s = "Default") ∧
      autorest.Encode "path" "hook/1" = autorest.Encode "path" s) ∧
    '/' ∉ (autorest.Encode "path" "hook/1").toList :=
  preparers_encode_path_values.1 (allPreparers.get ⟨3, by decide⟩) (List.get_mem _ _ _)
    (sample.webhookClient, "rg1", "account1", "hook/1") _ (List.Mem.head _)
    ("webhookName", autorest.Encode "path" "hook/1") (by decide) (by decide)

/-- Claim C6: every preparer puts an "api-version" entry in its query parameters whose
value is a constant, the same for all operations of one client: "2015-10-31" for
WebhookClient, "1.6" for ObjectsClient, "2015-05-01-preview" for SyncMembersClient and
"2014-04-01" for ElasticPoolsClient, ServerUsagesClient and
BackupLongTermRetentionPoliciesClient. -/
theorem preparers_pin_api_version (c : PreparerCase) (hc : c ∈ allPreparers) (a : c.Args) :
    autorest.queryParametersOf (c.preparer a) ≠ [] ∧
    ∀ q ∈ autorest.queryParametersOf (c.preparer a),
      q.lookup "api-version" = some
        (if c.Client = "automation.WebhookClient" then "2015-10-31"
         else if c.Client = "graphrbac.ObjectsClient" then "1.6"
         else if c.Client = "sql.SyncMembersClient" then "2015-05-01-preview"
         else "2014-04-01") ∧
      c.Client ∈ ["automation.WebhookClient", "graphrbac.ObjectsClient",
        "sql.SyncMembersClient", "sql.ElasticPoolsClient", "sql.ServerUsagesClient",
        "sql.BackupLongTermRetentionPoliciesClient"] := by
  simp only [allPreparers, List.mem_cons, List.mem_singleton, List.not_mem_nil, or_false] at hc
  rcases hc with
    rfl | rfl | rfl | rfl | rfl | rfl | rfl | rfl | rfl | rfl | rfl | rfl | rfl | rfl | rfl | rfl
    | rfl | rfl | rfl | rfl | rfl | rfl | rfl | rfl | rfl | rfl | rfl
  all_goals
    simp only [
      automation.WebhookClient.CreateOrUpdatePreparer.preparer,
      automation.WebhookClient.DeletePreparer.preparer,
      automation.WebhookClient.GenerateURIPreparer.preparer,
      automation.WebhookClient.GetPreparer.preparer,
      automation.WebhookClient.ListByAutomationAccountPreparer.preparer,
      automation.WebhookClient.UpdatePreparer.preparer,
      graphrbac.ObjectsClient.GetCurrentUserPreparer.preparer,
      graphrbac.ObjectsClient.GetObjectsByObjectIdsPreparer.preparer,
      graphrbac.ObjectsClient.GetObjectsByObjectIdsNextPreparer.preparer,
      sql.ServerUsagesClient.ListByServerPreparer.preparer,
      sql.ElasticPoolsClient.CreateOrUpdatePreparer.preparer,
      sql.ElasticPoolsClient.DeletePreparer.preparer,
      sql.ElasticPoolsClient.GetPreparer.preparer,
      sql.ElasticPoolsClient.ListByServerPreparer.preparer,
      sql.ElasticPoolsClient.ListMetricDefinitionsPreparer.preparer,
      sql.ElasticPoolsClient.ListMetricsPreparer.preparer,
      sql.ElasticPoolsClient.UpdatePreparer.preparer,
      sql.BackupLongTermRetentionPoliciesClient.CreateOrUpdatePreparer.preparer,
      sql.BackupLongTermRetentionPoliciesClient.GetPreparer.preparer,
      sql.BackupLongTermRetentionPoliciesClient.ListByDatabasePreparer.preparer,
      sql.SyncMembersClient.CreateOrUpdatePreparer.preparer,
      sql.SyncMembersClient.DeletePreparer.preparer, sql.SyncMembersClient.GetPreparer.preparer,
      sql.SyncMembersClient.ListBySyncGroupPreparer.preparer,
      sql.SyncMembersClient.ListMemberSchemasPreparer.preparer,
      sql.SyncMembersClient.RefreshMemberSchemaPreparer.preparer,
      sql.SyncMembersClient.UpdatePreparer.preparer,
      autorest.CreatePreparer, autorest.queryParametersOf, List.mem_singleton, ne_eq,
      List.cons_ne_nil, not_false_eq_true, true_and, forall_eq]
    first
    | exact ⟨rfl, by decide⟩
    | (refine ⟨?_, by decide⟩; split <;> rfl)

/-- Witness of C6 on `SyncMembersClient.GetPreparer`. -/
theorem preparers_pin_api_version_witness :
    List.lookup "api-version" [("api-version", "2015-05-01-preview")] =
      some "2015-05-01-preview" :=
  ((preparers_pin_api_version (allPreparers.get ⟨22, by decide⟩) (List.get_mem _ _ _)
    (sample.syncMembersClient, "rg1", "server1", "db1", "group1", "member1")).2 _
      (List.Mem.head _)).1

/-- Claim C8: when fetching a next page fails at preparing, sending or responding, the
next-page function returns the underlying error wrapped in an annotation, so never a nil
error, and hands at most one request to the sender: none when preparing fails, the one
request otherwise. -/
theorem next_page_failure_surfaces :
    (∀ (env : autorest.Env) (client : automation.WebhookClient) (lastResults : automation.WebhookListResult),
      (∀ e, env.ListResultPreparer lastResults = .error e →
        (automation.WebhookClient.listByAutomationAccountNextResults env client lastResults).err =
            some (autorest.NewErrorWithError e "automation.WebhookClient"
              "listByAutomationAccountNextResults" none "Failure preparing next results request") ∧
          (automation.WebhookClient.listByAutomationAccountNextResults env client lastResults).sent = []) ∧
      (∀ req resp e, env.ListResultPreparer lastResults = .ok (some req) →
        automation.WebhookClient.ListByAutomationAccountSender env client req = .failed resp e →
        (automation.WebhookClient.listByAutomationAccountNextResults env client lastResults).err =
            some (autorest.NewErrorWithError e "automation.WebhookClient"
              "listByAutomationAccountNextResults" resp "Failure sending next results request") ∧
          (automation.WebhookClient.listByAutomationAccountNextResults env client lastResults).sent = [req]) ∧
      (∀ req resp e, env.ListResultPreparer lastResults = .ok (some req) →
        automation.WebhookClient.ListByAutomationAccountSender env client req = .ok resp →
        (automation.WebhookClient.ListByAutomationAccountResponder env client resp).2 = some e →
        (automation.WebhookClient.listByAutomationAccountNextResults env client lastResults).err =
            some (autorest.NewErrorWithError e "automation.WebhookClient"
              "listByAutomationAccountNextResults" (some resp) "Failure responding to next results request") ∧
          (automation.WebhookClient.listByAutomationAccountNextResults env client lastResults).sent = [req]) ∧
      (automation.WebhookClient.listByAutomationAccountNextResults env client lastResults).sent.length ≤ 1) ∧
    (∀ (env : autorest.Env) (client : graphrbac.ObjectsClient) (nextLink : String),
      (∀ e, graphrbac.ObjectsClient.GetObjectsByObjectIdsNextPreparer env client nextLink = .error e →
        (graphrbac.ObjectsClient.GetObjectsByObjectIdsNext env client nextLink).err =
            some (autorest.NewErrorWithError e "graphrbac.ObjectsClient"
              "GetObjectsByObjectIdsNext" none "Failure preparing request") ∧
          (graphrbac.ObjectsClient.GetObjectsByObjectIdsNext env client nextLink).sent = []) ∧
      (∀ req resp e, graphrbac.ObjectsClient.GetObjectsByObjectIdsNextPreparer env client nextLink = .ok req →
        graphrbac.ObjectsClient.GetObjectsByObjectIdsNextSender env client req = .failed resp e →
        (graphrbac.ObjectsClient.GetObjectsByObjectIdsNext env client nextLink).err =
            some (autorest.NewErrorWithError e "graphrbac.ObjectsClient"
              "GetObjectsByObjectIdsNext" resp "Failure sending request") ∧
          (graphrbac.ObjectsClient.GetObjectsByObjectIdsNext env client nextLink).sent = [req]) ∧
      (∀ req resp e, graphrbac.ObjectsClient.GetObjectsByObjectIdsNextPreparer env client nextLink = .ok req →
        graphrbac.ObjectsClient.GetObjectsByObjectIdsNextSender env client req = .ok resp →
        (graphrbac.ObjectsClient.GetObjectsByObjectIdsNextResponder env client resp).2 = some e →
        (graphrbac.ObjectsClient.GetObjectsByObjectIdsNext env client nextLink).err =
            some (autorest.NewErrorWithError e "graphrbac.ObjectsClient"
              "GetObjectsByObjectIdsNext" (some resp) "Failure responding to request") ∧
          (graphrbac.ObjectsClient.GetObjectsByObjectIdsNext env client nextLink).sent = [req]) ∧
      (graphrbac.ObjectsClient.GetObjectsByObjectIdsNext env client nextLink).sent.length ≤ 1) ∧
    (∀ (env : autorest.Env) (client : sql.SyncMembersClient) (lastResults : sql.SyncMemberListResult),
      (∀ e, env.ListResultPreparer lastResults = .error e →
        (sql.SyncMembersClient.listBySyncGroupNextResults env client lastResults).err =
            some (autorest.NewErrorWithError e "sql.SyncMembersClient"
              "listBySyncGroupNextResults" none "Failure preparing next results request") ∧
          (sql.SyncMembersClient.listBySyncGroupNextResults env client lastResults).sent = []) ∧
      (∀ req resp e, env.ListResultPreparer lastResults = .ok (some req) →
        sql.SyncMembersClient.ListBySyncGroupSender env client req = .failed resp e →
        (sql.SyncMembersClient.listBySyncGroupNextResults env client lastResults).err =
            some (autorest.NewErrorWithError e "sql.SyncMembersClient"
              "listBySyncGroupNextResults" resp "Failure sending next results request") ∧
          (sql.SyncMembersClient.listBySyncGroupNextResults env client lastResults).sent = [req]) ∧
      (∀ req resp e, env.ListResultPreparer lastResults = .ok (some req) →
        sql.SyncMembersClient.ListBySyncGroupSender env client req = .ok resp →
        (sql.SyncMembersClient.ListBySyncGroupResponder env client resp).2 = some e →
        (sql.SyncMembersClient.listBySyncGroupNextResults env client lastResults).err =
            some (autorest.NewErrorWithError e "sql.SyncMembersClient"
              "listBySyncGroupNextResults" (some resp) "Failure responding to next results request") ∧
          (sql.SyncMembersClient.listBySyncGroupNextResults env client lastResults).sent = [req]) ∧
      (sql.SyncMembersClient.listBySyncGroupNextResults env client lastResults).sent.length ≤ 1) ∧
    (∀ (env : autorest.Env) (client : sql.SyncMembersClient) (lastResults : sql.SyncFullSchemaPropertiesListResult),
      (∀ e, env.ListResultPreparer lastResults = .error e →
        (sql.SyncMembersClient.listMemberSchemasNextResults env client lastResults).err =
            some (autorest.NewErrorWithError e "sql.SyncMembersClient"
              "listMemberSchemasNextResults" none "Failure preparing next results request") ∧
          (sql.SyncMembersClient.listMemberSchemasNextResults env client lastResults).sent = []) ∧
      (∀ req resp e, env.ListResultPreparer lastResults = .ok (some req) →
        sql.SyncMembersClient.ListMemberSchemasSender env client req = .failed resp e →
        (sql.SyncMembersClient.listMemberSchemasNextResults env client lastResults).err =
            some (autorest.NewErrorWithError e "sql.SyncMembersClient"
              "listMemberSchemasNextResults" resp "Failure sending next results request") ∧
          (sql.SyncMembersClient.listMemberSchemasNextResults env client lastResults).sent = [req]) ∧
      (∀ req resp e, env.ListResultPreparer lastResults = .ok (some req) →
        sql.SyncMembersClient.ListMemberSchemasSender env client req = .ok resp →
        (sql.SyncMembersClient.ListMemberSchemasResponder env client resp).2 = some e →
        (sql.SyncMembersClient.listMemberSchemasNextResults env client lastResults).err =
            some (autorest.NewErrorWithError e "sql.SyncMembersClient"
              "listMemberSchemasNextResults" (some resp) "Failure responding to next results request") ∧
          (sql.SyncMembersClient.listMemberSchemasNextResults env client lastResults).sent = [req]) ∧
      (sql.SyncMembersClient.listMemberSchemasNextResults env client lastResults).sent.length ≤ 1) := by
  refine ⟨?_, ?_, ?_, ?_⟩
  all_goals
    intro env client x
    refine ⟨fun e h => ?_, fun req resp e h1 h2 => ?_, fun req resp e h1 h2 h3 => ?_, ?_⟩
  all_goals
    simp only [
      automation.WebhookClient.listByAutomationAccountNextResults,
      graphrbac.ObjectsClient.GetObjectsByObjectIdsNext,
      sql.SyncMembersClient.listBySyncGroupNextResults,
      sql.SyncMembersClient.listMemberSchemasNextResults]
    first
    | (simp_all; done)
    | (simp_all; split <;> simp_all)
    | ((repeat' split) <;> simp)

/-- Witness of C8 on `WebhookClient.listByAutomationAccountNextResults` with a sender
that fails. -/
theorem next_page_failure_surfaces_witness :
    (automation.WebhookClient.listByAutomationAccountNextResults
        (sample.env (.ok sample.request) (.failed none (Error.plain "connection reset"))
          (.ok (some sample.request)))
        sample.webhookClient autorest.Model.zero).err =
      some (Error.detailed (Error.plain "connection reset") "automation.WebhookClient"
        "listByAutomationAccountNextResults" none "Failure sending next results request") ∧
    (automation.WebhookClient.listByAutomationAccountNextResults
        (sample.env (.ok sample.request) (.failed none (Error.plain "connection reset"))
          (.ok (some sample.request)))
        sample.webhookClient autorest.Model.zero).sent = [sample.request] :=
  (next_page_failure_surfaces.1
    (sample.env (.ok sample.request) (.failed none (Error.plain "connection reset"))
      (.ok (some sample.request)))
    sample.webhookClient autorest.Model.zero).2.1 _ _ _ rfl rfl

/-- Claim C12: the status of a poll future changes only while it is in progress, a call of
`Done` sends at most one request, and a future in a terminal state is never changed and
issues no request, in a single call and in the poll loop; once the poll loop has observed a
terminal state, whatever the sender would answer afterwards changes nothing. -/
theorem poll_future_terminal_is_final (penv : azure.Env) (f : azure.Future) :
    (∀ sender : autorest.Sender,
      (f.Done penv sender).future.Status = f.Status ∨ f.Status = .InProgress) ∧
    (∀ sender : autorest.Sender, (f.Done penv sender).sent.length ≤ 1) ∧
    (∀ sender : autorest.Sender, f.Status.isTerminal = true →
      (f.Done penv sender).future = f ∧ (f.Done penv sender).sent = []) ∧
    (∀ senders : List autorest.Sender, f.Status.isTerminal = true →
      (f.WaitForCompletion penv senders).future = f ∧
        (f.WaitForCompletion penv senders).sent = []) ∧
    (∀ pre post : List autorest.Sender,
      (f.WaitForCompletion penv pre).future.Status.isTerminal = true →
        f.WaitForCompletion penv (pre ++ post) = f.WaitForCompletion penv pre) := by
  refine ⟨fun sender => azure.Future.Done_status penv f sender,
    fun sender => azure.Future.Done_sent_length penv f sender, ?_, ?_, ?_⟩
  · intro sender h
    rw [azure.Future.Done_of_terminal penv f sender h]
    exact ⟨rfl, rfl⟩
  · intro senders h
    rw [azure.Future.WaitForCompletion_of_terminal penv f senders h]
    exact ⟨rfl, rfl⟩
  · intro pre post h
    exact azure.Future.WaitForCompletion_append penv pre post f h

/-- Witness of C12: the future `ElasticPoolsClient.CreateOrUpdateSender` returns for a
finished operation polls no more, and a loop that has seen `Succeeded` ignores a later
failure. -/
theorem poll_future_terminal_is_final_witness :
    ((sql.ElasticPoolsClient.CreateOrUpdateSender
        (sample.env (.ok sample.request) (.ok (sample.response 200 "")) (.ok none))
        sample.poller sample.elasticPoolsClient sample.request).result.Future.Done sample.poller
        (sample.answering (sample.response 200 "\x7b\"status\":\"Failed\"\x7d"))).sent = [] ∧
    (azure.NewFuture sample.request).WaitForCompletion sample.poller
        ([sample.answering (sample.response 202 ""),
          sample.answering (sample.response 200 "\x7b\"status\":\"Succeeded\"\x7d")] ++
          [sample.answering (sample.response 200 sample.failedBody)]) =
      (azure.NewFuture sample.request).WaitForCompletion sample.poller
        [sample.answering (sample.response 202 ""),
          sample.answering (sample.response 200 "\x7b\"status\":\"Succeeded\"\x7d")] :=
  ⟨((poll_future_terminal_is_final sample.poller
      (sql.ElasticPoolsClient.CreateOrUpdateSender
        (sample.env (.ok sample.request) (.ok (sample.response 200 "")) (.ok none))
        sample.poller sample.elasticPoolsClient sample.request).result.Future).2.2.1
      (sample.answering (sample.response 200 "\x7b\"status\":\"Failed\"\x7d")) (by decide)).2,
   (poll_future_terminal_is_final sample.poller (azure.NewFuture sample.request)).2.2.2.2
     [sample.answering (sample.response 202 ""),
       sample.answering (sample.response 200 "\x7b\"status\":\"Succeeded\"\x7d")]
     [sample.answering (sample.response 200 sample.failedBody)] (by decide)⟩

/-- Claim C13: the state derived from a provisioning-status string is Succeeded, Failed or
Canceled exactly when the string equals that word ignoring case, and InProgress for every
other string; the status derived from a response depends on its body and status code only,
so a second poll that meets the same response yields the same status. -/
theorem provisioning_status_by_word (s : String) :
    (azure.statusOf s = .Succeeded ↔ azure.equalFold s "Succeeded" = true) ∧
    (azure.statusOf s = .Failed ↔ azure.equalFold s "Failed" = true) ∧
    (azure.statusOf s = .Canceled ↔ azure.equalFold s "Canceled" = true) ∧
    (azure.statusOf s = .InProgress ↔
      azure.equalFold s "Succeeded" = false ∧ azure.equalFold s "Failed" = false ∧
        azure.equalFold s "Canceled" = false) ∧
    (∀ (penv : azure.Env) (resp resp' : http.Response),
      resp'.Body = resp.Body → resp'.StatusCode = resp.StatusCode →
        azure.deriveStatus penv resp' = azure.deriveStatus penv resp) ∧
    (∀ (penv : azure.Env) (f : azure.Future) (sender : autorest.Sender) (resp : http.Response),
      (∀ req, sender req = .ok resp) → f.Request ≠ none →
        ((f.Done penv sender).future.Done penv sender).future.Status =
          (f.Done penv sender).future.Status) := by
  have hsf : ¬ (azure.equalFold s "Succeeded" = true ∧ azure.equalFold s "Failed" = true) := by
    rintro ⟨h1, h2⟩
    simp only [azure.equalFold, beq_iff_eq] at h1 h2
    rw [h1] at h2
    exact absurd h2 (by decide)
  have hsc : ¬ (azure.equalFold s "Succeeded" = true ∧ azure.equalFold s "Canceled" = true) := by
    rintro ⟨h1, h2⟩
    simp only [azure.equalFold, beq_iff_eq] at h1 h2
    rw [h1] at h2
    exact absurd h2 (by decide)
  have hfc : ¬ (azure.equalFold s "Failed" = true ∧ azure.equalFold s "Canceled" = true) := by
    rintro ⟨h1, h2⟩
    simp only [azure.equalFold, beq_iff_eq] at h1 h2
    rw [h1] at h2
    exact absurd h2 (by decide)
  refine ⟨?_, ?_, ?_, ?_, ?_, ?_⟩
  · unfold azure.statusOf
    cases h1 : azure.equalFold s "Succeeded" <;> cases h2 : azure.equalFold s "Failed" <;>
      cases h3 : azure.equalFold s "Canceled" <;> simp_all
  · unfold azure.statusOf
    cases h1 : azure.equalFold s "Succeeded" <;> cases h2 : azure.equalFold s "Failed" <;>
      cases h3 : azure.equalFold s "Canceled" <;> simp_all
  · unfold azure.statusOf
    cases h1 : azure.equalFold s "Succeeded" <;> cases h2 : azure.equalFold s "Failed" <;>
      cases h3 : azure.equalFold s "Canceled" <;> simp_all
  · unfold azure.statusOf
    cases h1 : azure.equalFold s "Succeeded" <;> cases h2 : azure.equalFold s "Failed" <;>
      cases h3 : azure.equalFold s "Canceled" <;> simp_all
  · intro penv resp resp' hb hc
    simp only [azure.deriveStatus, hb, hc]
  · intro penv f sender resp hsender hreq
    by_cases ht : f.Status.isTerminal = true
    · rw [azure.Future.Done_of_terminal penv f sender ht]
      simp only [azure.Future.Done_of_terminal penv f sender ht]
    · obtain ⟨req, hr⟩ : ∃ req, f.nextRequest penv = some req := by
        unfold azure.Future.nextRequest
        rcases hq : f.Request with _ | req
        · exact absurd hq hreq
        · cases f.Response <;> simp
      have hd : f.Done penv sender =
          { future := { f with Response := some resp, Status := azure.deriveStatus penv resp },
            done := (azure.deriveStatus penv resp).isTerminal,
            err := azure.Future.errorInfo
              { f with Response := some resp, Status := azure.deriveStatus penv resp },
            sent := [req] } := by
        simp [azure.Future.Done, ht, hr, hsender]
      rw [hd]
      by_cases hg : (azure.deriveStatus penv resp).isTerminal = true
      · rw [azure.Future.Done_of_terminal penv _ sender hg]
      · obtain ⟨req', hr'⟩ : ∃ req',
            azure.Future.nextRequest penv
              { f with Response := some resp, Status := azure.deriveStatus penv resp } =
              some req' := by
          unfold azure.Future.nextRequest
          rcases hq : f.Request with _ | req
          · exact absurd hq hreq
          · simp [hq]
        simp [azure.Future.Done, hg, hr', hsender]

/-- Witness of C13: the vocabulary in three spellings, another word, and two polls that meet
the same body. -/
theorem provisioning_status_by_word_witness :
    azure.statusOf "SUCCEEDED" = .Succeeded ∧ azure.statusOf "failed" = .Failed ∧
    azure.statusOf "cAnCeLeD" = .Canceled ∧ azure.statusOf "Running" = .InProgress ∧
    (((azure.NewFuture sample.request).Done sample.poller
        (sample.answering (sample.response 202 "\x7b\"status\":\"InProgress\"\x7d"))).future.Done
        sample.poller
        (sample.answering (sample.response 202 "\x7b\"status\":\"InProgress\"\x7d"))).future.Status =
      ((azure.NewFuture sample.request).Done sample.poller
        (sample.answering
          (sample.response 202 "\x7b\"status\":\"InProgress\"\x7d"))).future.Status :=
  ⟨(provisioning_status_by_word "SUCCEEDED").1.2 (by decide),
   (provisioning_status_by_word "failed").2.1.2 (by decide),
   (provisioning_status_by_word "cAnCeLeD").2.2.1.2 (by decide),
   (provisioning_status_by_word "Running").2.2.2.1.2 (by decide),
   (provisioning_status_by_word "").2.2.2.2.2 sample.poller (azure.NewFuture sample.request)
     (sample.answering (sample.response 202 "\x7b\"status\":\"InProgress\"\x7d"))
     (sample.response 202 "\x7b\"status\":\"InProgress\"\x7d") (fun _ => rfl) (by decide)⟩

/-- Claim C14: when a poll of an operation in progress observes the status Failed or
Canceled, the poll loop exits with `OperationFailed` or `OperationCanceled` carrying the
body of that response, having sent that one request; whatever the sender would answer next
is not asked for, and a later wait on the future sends nothing and reports the same error. -/
theorem poll_failure_exits_loop (penv : azure.Env) (f : azure.Future)
    (sender : autorest.Sender) (rest : List autorest.Sender) (req : http.Request)
    (resp : http.Response)
    (hprogress : f.Status = .InProgress)
    (hreq : f.nextRequest penv = some req)
    (hsend : sender req = .ok resp)
    (hstatus : azure.deriveStatus penv resp = .Failed ∨
      azure.deriveStatus penv resp = .Canceled) :
    (f.WaitForCompletion penv (sender :: rest)).err =
      some (if azure.deriveStatus penv resp = .Failed then Error.operationFailed resp.Body
        else Error.operationCanceled resp.Body) ∧
    (f.WaitForCompletion penv (sender :: rest)).sent = [req] ∧
    (f.WaitForCompletion penv (sender :: rest)).future.Response = some resp ∧
    (f.WaitForCompletion penv (sender :: rest)).future.Status = azure.deriveStatus penv resp ∧
    (∀ more : List autorest.Sender,
      ((f.WaitForCompletion penv (sender :: rest)).future.WaitForCompletion penv more).sent = [] ∧
      ((f.WaitForCompletion penv (sender :: rest)).future.WaitForCompletion penv more).err =
        (f.WaitForCompletion penv (sender :: rest)).err) := by
  have hd : f.Done penv sender =
      { future := { f with Response := some resp, Status := azure.deriveStatus penv resp },
        done := (azure.deriveStatus penv resp).isTerminal,
        err := azure.Future.errorInfo
          { f with Response := some resp, Status := azure.deriveStatus penv resp },
        sent := [req] } := by
    simp [azure.Future.Done, hprogress, hreq, hsend, azure.ProvisioningStatus.isTerminal]
  have hw : f.WaitForCompletion penv (sender :: rest) =
      { future := { f with Response := some resp, Status := azure.deriveStatus penv resp },
        done := true,
        err := some (if azure.deriveStatus penv resp = .Failed then
          Error.operationFailed resp.Body else Error.operationCanceled resp.Body),
        sent := [req] } := by
    simp only [azure.Future.WaitForCompletion, hd]
    rcases hstatus with h | h <;>
      simp [h, azure.Future.errorInfo, azure.ProvisioningStatus.isTerminal]
  rw [hw]
  refine ⟨rfl, rfl, rfl, rfl, ?_⟩
  intro more
  have ht : azure.ProvisioningStatus.isTerminal
      (azure.Future.Status
        { f with Response := some resp, Status := azure.deriveStatus penv resp }) = true := by
    rcases hstatus with h | h <;> simp [h, azure.ProvisioningStatus.isTerminal]
  rw [azure.Future.WaitForCompletion_of_terminal penv _ more ht]
  refine ⟨rfl, ?_⟩
  rcases hstatus with h | h <;> simp [h, azure.Future.errorInfo]

/-- Witness of C14: the initiating call returns 202 and the poll reports a failure for
want of quota. -/
theorem poll_failure_exits_loop_witness :
    ((sql.ElasticPoolsClient.CreateOrUpdateSender
        (sample.env (.ok sample.request) (.ok (sample.response 202 "")) (.ok none))
        sample.poller sample.elasticPoolsClient sample.request).result.Future.WaitForCompletion
        sample.poller
        [sample.answering (sample.response 200 sample.failedBody),
          sample.answering (sample.response 200 "\x7b\"status\":\"Succeeded\"\x7d")]).err =
      some (Error.operationFailed
        "\x7b\"status\":\"Failed\",\"error\":\"quota exceeded\"\x7d") ∧
    ((sql.ElasticPoolsClient.CreateOrUpdateSender
        (sample.env (.ok sample.request) (.ok (sample.response 202 "")) (.ok none))
        sample.poller sample.elasticPoolsClient sample.request).result.Future.WaitForCompletion
        sample.poller
        [sample.answering (sample.response 200 sample.failedBody),
          sample.answering (sample.response 200 "\x7b\"status\":\"Succeeded\"\x7d")]).sent =
      [sample.pollRequest] :=
  ⟨(poll_failure_exits_loop sample.poller
      (sql.ElasticPoolsClient.CreateOrUpdateSender
        (sample.env (.ok sample.request) (.ok (sample.response 202 "")) (.ok none))
        sample.poller sample.elasticPoolsClient sample.request).result.Future
      (sample.answering (sample.response 200 sample.failedBody))
      [sample.answering (sample.response 200 "\x7b\"status\":\"Succeeded\"\x7d")]
      sample.pollRequest (sample.response 200 sample.failedBody)
      (by decide) (by decide) rfl (Or.inl (by decide))).1,
   (poll_failure_exits_loop sample.poller
      (sql.ElasticPoolsClient.CreateOrUpdateSender
        (sample.env (.ok sample.request) (.ok (sample.response 202 "")) (.ok none))
        sample.poller sample.elasticPoolsClient sample.request).result.Future
      (sample.answering (sample.response 200 sample.failedBody))
      [sample.answering (sample.response 200 "\x7b\"status\":\"Succeeded\"\x7d")]
      sample.pollRequest (sample.response 200 sample.failedBody)
      (by decide) (by decide) rfl (Or.inl (by decide))).2.1⟩

/-- Claim C17: a preparer sets a content type exactly when it attaches a JSON body: the
CreateOrUpdate and Update preparers of every client and
`ObjectsClient.GetObjectsByObjectIdsPreparer` set "application/json; charset=utf-8" and
attach one body; every other preparer sets no content type and attaches no body. -/
theorem preparers_content_type_iff_body (c : PreparerCase) (hc : c ∈ allPreparers)
    (a : c.Args) :
    (autorest.Preparer.contentTypes (c.preparer a) ≠ [] ↔
      autorest.Preparer.jsonBodies (c.preparer a) ≠ []) ∧
    (c.Name ∈ ["CreateOrUpdatePreparer", "UpdatePreparer", "GetObjectsByObjectIdsPreparer"] →
      autorest.Preparer.contentTypes (c.preparer a) = ["application/json; charset=utf-8"] ∧
      (autorest.Preparer.jsonBodies (c.preparer a)).length = 1) ∧
    (c.Name ∉ ["CreateOrUpdatePreparer", "UpdatePreparer", "GetObjectsByObjectIdsPreparer"] →
      autorest.Preparer.contentTypes (c.preparer a) = [] ∧
      autorest.Preparer.jsonBodies (c.preparer a) = []) := by
  simp only [allPreparers, List.mem_cons, List.mem_singleton, List.not_mem_nil, or_false] at hc
  rcases hc with
    rfl | rfl | rfl | rfl | rfl | rfl | rfl | rfl | rfl | rfl | rfl | rfl | rfl | rfl | rfl | rfl
    | rfl | rfl | rfl | rfl | rfl | rfl | rfl | rfl | rfl | rfl | rfl
  all_goals
    simp only [
      automation.WebhookClient.CreateOrUpdatePreparer.preparer,
      automation.WebhookClient.DeletePreparer.preparer,
      automation.WebhookClient.GenerateURIPreparer.preparer,
      automation.WebhookClient.GetPreparer.preparer,
      automation.WebhookClient.ListByAutomationAccountPreparer.preparer,
      automation.WebhookClient.UpdatePreparer.preparer,
      graphrbac.ObjectsClient.GetCurrentUserPreparer.preparer,
      graphrbac.ObjectsClient.GetObjectsByObjectIdsPreparer.preparer,
      graphrbac.ObjectsClient.GetObjectsByObjectIdsNextPreparer.preparer,
      sql.ServerUsagesClient.ListByServerPreparer.preparer,
      sql.ElasticPoolsClient.CreateOrUpdatePreparer.preparer,
      sql.ElasticPoolsClient.DeletePreparer.preparer,
      sql.ElasticPoolsClient.GetPreparer.preparer,
      sql.ElasticPoolsClient.ListByServerPreparer.preparer,
      sql.ElasticPoolsClient.ListMetricDefinitionsPreparer.preparer,
      sql.ElasticPoolsClient.ListMetricsPreparer.preparer,
      sql.ElasticPoolsClient.UpdatePreparer.preparer,
      sql.BackupLongTermRetentionPoliciesClient.CreateOrUpdatePreparer.preparer,
      sql.BackupLongTermRetentionPoliciesClient.GetPreparer.preparer,
      sql.BackupLongTermRetentionPoliciesClient.ListByDatabasePreparer.preparer,
      sql.SyncMembersClient.CreateOrUpdatePreparer.preparer,
      sql.SyncMembersClient.DeletePreparer.preparer,
      sql.SyncMembersClient.GetPreparer.preparer,
      sql.SyncMembersClient.ListBySyncGroupPreparer.preparer,
      sql.SyncMembersClient.ListMemberSchemasPreparer.preparer,
      sql.SyncMembersClient.RefreshMemberSchemaPreparer.preparer,
      sql.SyncMembersClient.UpdatePreparer.preparer,
      autorest.CreatePreparer, autorest.Preparer.contentTypes, autorest.Preparer.jsonBodies,
      List.filterMap_cons, List.filterMap_nil]
    refine ⟨by simp, ?_, ?_⟩ <;> intro h <;> first | (exact absurd h (by decide)) | simp

/-- Witness of C17 on `WebhookClient.CreateOrUpdatePreparer` and
`ObjectsClient.GetObjectsByObjectIdsNextPreparer`. -/
theorem preparers_content_type_iff_body_witness :
    autorest.Preparer.contentTypes
        (automation.WebhookClient.CreateOrUpdatePreparer.preparer sample.webhookClient "rg1"
          "account1" "hook1" autorest.Model.zero) =
      ["application/json; charset=utf-8"] ∧
    autorest.Preparer.jsonBodies
        (graphrbac.ObjectsClient.GetObjectsByObjectIdsNextPreparer.preparer sample.objectsClient
          "page2") = [] :=
  ⟨((preparers_content_type_iff_body (allPreparers.get ⟨0, by decide⟩) (List.get_mem _ _ _)
      (sample.webhookClient, "rg1", "account1", "hook1", autorest.Model.zero)).2.1
      (by decide)).1,
   ((preparers_content_type_iff_body (allPreparers.get ⟨8, by decide⟩) (List.get_mem _ _ _)
      (sample.objectsClient, "page2")).2.2 (by decide)).2⟩

/-- Counterexample to C20 as stated: when the sender of
`WebhookClient.ListByAutomationAccount` fails, the returned page already holds the function
that fetches the next page. -/
theorem list_result_keeps_fetch_function :
    (automation.WebhookClient.ListByAutomationAccount
        (sample.env (.ok sample.request) (.failed none (Error.plain "connection reset"))
          (.ok none))
        sample.webhookClient "rg1" "account1" "").err =
      some (Error.detailed (Error.plain "connection reset") "automation.WebhookClient"
        "ListByAutomationAccount" none "Failure sending request") ∧
    (automation.WebhookClient.ListByAutomationAccount
        (sample.env (.ok sample.request) (.failed none (Error.plain "connection reset"))
          (.ok none))
        sample.webhookClient "rg1" "account1" "").result.fn.isSome = true := by
  constructor <;> decide

/-- Claim C20, amended: every synchronous operation that passes its own validation runs
prepare, send and respond in that order and stops at the first failure. When the preparer
fails nothing is sent and the result holds no response and no decoded field; when the
sender fails the one request was sent and the result holds the response of the sender as
the sender left it and no decoded field; otherwise the result is the one of the responder.
On every failing path the four operations that return a page, ListByAutomationAccount,
GetObjectsByObjectIds, ListBySyncGroup and ListMemberSchemas, hold in addition the function
that fetches the next page. -/
theorem sync_result_by_stage (op : SyncResultCase) (hop : op ∈ syncOperationResults)
    (env : autorest.Env) (a : op.Args) (hvalid : op.validation a = none) :
    (∀ e, op.prepare env a = .error e →
      (op.run env a).sent = [] ∧
      (op.run env a).result.Response = autorest.Response.zero ∧
      (op.run env a).result.fields = autorest.Payload.zero ∧
      (op.run env a).result.fn = op.paged) ∧
    (∀ req resp e, op.prepare env a = .ok req → op.send env a req = .failed resp e →
      (op.run env a).sent = [req] ∧
      (op.run env a).result.Response = { Response := resp } ∧
      (op.run env a).result.fields = autorest.Payload.zero ∧
      (op.run env a).result.fn = op.paged) ∧
    (∀ req resp, op.prepare env a = .ok req → op.send env a req = .ok resp →
      (op.run env a).sent = [req] ∧
      ((op.run env a).result.Response, (op.run env a).result.fields) =
        (op.respond env a resp).1) ∧
    (op.paged = true ↔
      op.Method ∈ ["ListByAutomationAccount", "GetObjectsByObjectIds", "ListBySyncGroup",
        "ListMemberSchemas"]) := by
  simp only [syncOperationResults, List.mem_cons, List.mem_singleton, List.not_mem_nil,
    or_false] at hop
  rcases hop with
    rfl | rfl | rfl | rfl | rfl | rfl | rfl | rfl | rfl | rfl | rfl | rfl | rfl | rfl | rfl | rfl
    | rfl | rfl | rfl | rfl
  all_goals
    dsimp only at hvalid ⊢
    refine ⟨fun e h => ?_, fun req resp e h1 h2 => ?_, fun req resp h1 h2 => ?_, by decide⟩
  all_goals
    simp only [
      automation.WebhookClient.CreateOrUpdate, automation.WebhookClient.Delete,
      automation.WebhookClient.GenerateURI, automation.WebhookClient.Get,
      automation.WebhookClient.ListByAutomationAccount, automation.WebhookClient.Update,
      graphrbac.ObjectsClient.GetCurrentUser, graphrbac.ObjectsClient.GetObjectsByObjectIds,
      graphrbac.ObjectsClient.GetObjectsByObjectIdsNext, sql.ServerUsagesClient.ListByServer,
      sql.ElasticPoolsClient.Delete, sql.ElasticPoolsClient.Get,
      sql.ElasticPoolsClient.ListByServer, sql.ElasticPoolsClient.ListMetricDefinitions,
      sql.ElasticPoolsClient.ListMetrics, sql.BackupLongTermRetentionPoliciesClient.Get,
      sql.BackupLongTermRetentionPoliciesClient.ListByDatabase, sql.SyncMembersClient.Get,
      sql.SyncMembersClient.ListBySyncGroup, sql.SyncMembersClient.ListMemberSchemas,
      autorest.Response.zero]
    simp_all [autorest.Model.zero, autorest.Response.zero]
    try (split <;> simp_all)

/-- Witness of the amended C20 on `WebhookClient.Get` with a preparer and a sender that
fail, and on `WebhookClient.ListByAutomationAccount` with a response. -/
theorem sync_result_by_stage_witness :
    (automation.WebhookClient.Get
        (sample.env (.error (Error.plain "no scheme in URL")) (.ok (sample.response 200 ""))
          (.ok none))
        sample.webhookClient "rg1" "account1" "hook1").sent = [] ∧
    (automation.WebhookClient.Get
        (sample.env (.ok sample.request)
          (.failed (some (sample.response 503 "busy")) (Error.plain "retries exhausted"))
          (.ok none))
        sample.webhookClient "rg1" "account1" "hook1").result.Response =
      { Response := some (sample.response 503 "busy") } ∧
    (automation.WebhookClient.ListByAutomationAccount
        (sample.env (.ok sample.request) (.ok (sample.response 200 "\x7b\"name\":\"hook\"\x7d"))
          (.ok none))
        sample.webhookClient "rg1" "account1" "").sent = [sample.request] :=
  ⟨((sync_result_by_stage (syncOperationResults.get ⟨3, by decide⟩) (List.get_mem _ _ _)
      (sample.env (.error (Error.plain "no scheme in URL")) (.ok (sample.response 200 ""))
        (.ok none))
      (sample.webhookClient, "rg1", "account1", "hook1") (by decide)).1 _ rfl).1,
   ((sync_result_by_stage (syncOperationResults.get ⟨3, by decide⟩) (List.get_mem _ _ _)
      (sample.env (.ok sample.request)
        (.failed (some (sample.response 503 "busy")) (Error.plain "retries exhausted"))
        (.ok none))
      (sample.webhookClient, "rg1", "account1", "hook1") (by decide)).2.1 _ _ _ rfl rfl).2.1,
   ((sync_result_by_stage (syncOperationResults.get ⟨4, by decide⟩) (List.get_mem _ _ _)
      (sample.env (.ok sample.request) (.ok (sample.response 200 "\x7b\"name\":\"hook\"\x7d"))
        (.ok none))
      (sample.webhookClient, "rg1", "account1", "") (by decide)).2.2.1 _ _ rfl rfl).1⟩

/-- Claim C21: `WebhookClient.ListByAutomationAccountPreparer` passes one map of query
parameters, which always holds the api-version; it holds a "$filter" entry exactly when the
filter is not empty, the value of that entry is the query encoding of the filter, and with
an empty filter the api-version is its only entry. -/
theorem list_preparer_applies_filter (client : automation.WebhookClient)
    (resourceGroupName automationAccountName filter : String) :
    ∃ q, autorest.queryParametersOf
        (automation.WebhookClient.ListByAutomationAccountPreparer.preparer client
          resourceGroupName automationAccountName filter) = [q] ∧
      q.lookup "api-version" = some "2015-10-31" ∧
      (q.lookup "$filter" ≠ none ↔ filter ≠ "") ∧
      (filter ≠ "" → q.lookup "$filter" = some (autorest.Encode "query" filter) ∧
        q.map Prod.fst = ["api-version", "$filter"]) ∧
      (filter = "" → q = [("api-version", "2015-10-31")]) := by
  have hlen : filter.length > 0 ↔ filter ≠ "" := by
    cases filter with
    | mk data =>
      cases data with
      | nil => simp [String.length]
      | cons c cs =>
        simp only [String.length, List.length_cons, gt_iff_lt, Nat.zero_lt_succ, ne_eq,
          true_iff]
        intro h
        have := congrArg String.data h
        simp at this
  by_cases hf : filter = ""
  · subst hf
    refine ⟨[("api-version", "2015-10-31")], ?_, by decide, by decide, ?_, fun _ => rfl⟩
    · rfl
    · intro h
      exact absurd rfl h
  · have hpos : filter.length > 0 := hlen.2 hf
    refine ⟨[("api-version", "2015-10-31"), ("$filter", autorest.Encode "query" filter)],
      ?_, rfl, ?_, ?_, fun h => absurd h hf⟩
    · simp [automation.WebhookClient.ListByAutomationAccountPreparer.preparer,
        autorest.CreatePreparer, autorest.queryParametersOf, hpos]
    · simp [List.lookup, hf]
    · intro _
      simp [List.lookup]

/-- Witness of C21: the empty filter and the filter `a b`. -/
theorem list_preparer_applies_filter_witness :
    autorest.queryParametersOf
        (automation.WebhookClient.ListByAutomationAccountPreparer.preparer sample.webhookClient
          "rg1" "account1" "") = [[("api-version", "2015-10-31")]] ∧
    ∃ q, autorest.queryParametersOf
        (automation.WebhookClient.ListByAutomationAccountPreparer.preparer sample.webhookClient
          "rg1" "account1" "a b") = [q] ∧
      q.lookup "$filter" = some "a+b" := by
  obtain ⟨q, hq, _, _, _, hempty⟩ :=
    list_preparer_applies_filter sample.webhookClient "rg1" "account1" ""
  obtain ⟨q', hq', _, _, hfilter, _⟩ :=
    list_preparer_applies_filter sample.webhookClient "rg1" "account1" "a b"
  exact ⟨by rw [hq, hempty rfl], q', hq', (hfilter (by decide)).1.trans (by rfl)⟩

/-- Claim C22: the pattern of resource group names accepts exactly the non-empty strings of
hyphens, letters, digits, dots and underscores. Every public operation of `WebhookClient`
given a resource group name the pattern rejects returns the validation error that names the
client and the operation and hands no request to the sender, whatever the collaborators
would do; given a name the pattern accepts, its validation never reports that constraint,
and reports nothing at all for the operations other than CreateOrUpdate. -/
theorem webhook_operations_check_resourceGroupName (op : WebhookOperation)
    (hop : op ∈ webhookOperations) (env : autorest.Env) (a : op.Args) :
    (regexp.MatchString "^[-\\w\\._]+$" (op.resourceGroupName a) = true ↔
      op.resourceGroupName a ≠ "" ∧
      ∀ c ∈ (op.resourceGroupName a).toList,
        c = '-' ∨ c.isAlphanum = true ∨ c = '.' ∨ c = '_') ∧
    (regexp.MatchString "^[-\\w\\._]+$" (op.resourceGroupName a) = false →
      op.run env a =
        (some (Error.validation "automation.WebhookClient" op.Method
          (validation.createError "resourceGroupName" .Pattern
            "value doesn't match pattern ^[-\\w\\._]+$").Error), [])) ∧
    (regexp.MatchString "^[-\\w\\._]+$" (op.resourceGroupName a) = true →
      (∀ e, op.validation a = some e →
        e ≠ validation.createError "resourceGroupName" .Pattern
          "value doesn't match pattern ^[-\\w\\._]+$") ∧
      (op.Method ≠ "CreateOrUpdate" → op.validation a = none)) ∧
    op.Method ∈ ["CreateOrUpdate", "Delete", "GenerateURI", "Get", "ListByAutomationAccount",
      "Update"] := by
  refine ⟨?_, ?_, ?_, ?_⟩
  · rw [regexp.MatchString_resourceGroupName]
    generalize op.resourceGroupName a = s
    have hne : (!s.toList.isEmpty) = true ↔ s ≠ "" := by
      cases s with
      | mk data =>
        cases data with
        | nil => simp
        | cons c cs =>
          simp only [String.toList, List.isEmpty_cons, Bool.not_false, ne_eq, true_iff]
          intro h
          have := congrArg String.data h
          simp at this
    simp only [Bool.and_eq_true, hne, List.all_eq_true, Bool.or_eq_true, beq_iff_eq,
      regexp.isWord]
    constructor
    · rintro ⟨h1, h2⟩
      refine ⟨h1, fun c hc => ?_⟩
      rcases h2 c hc with h | (h | h) | h | h
      · exact Or.inl h
      · exact Or.inr (Or.inl h)
      · exact Or.inr (Or.inr (Or.inr h))
      · exact Or.inr (Or.inr (Or.inl h))
      · exact Or.inr (Or.inr (Or.inr h))
    · rintro ⟨h1, h2⟩
      refine ⟨h1, fun c hc => ?_⟩
      rcases h2 c hc with h | h | h | h
      · exact Or.inl h
      · exact Or.inr (Or.inl (Or.inl h))
      · exact Or.inr (Or.inr (Or.inl h))
      · exact Or.inr (Or.inr (Or.inr h))
  · intro hm
    simp only [webhookOperations, List.mem_cons, List.mem_singleton, List.not_mem_nil,
      or_false] at hop
    rcases hop with rfl | rfl | rfl | rfl | rfl | rfl <;>
    · dsimp only at hm ⊢
      simp [automation.WebhookClient.CreateOrUpdate, automation.WebhookClient.Delete,
        automation.WebhookClient.GenerateURI, automation.WebhookClient.Get,
        automation.WebhookClient.ListByAutomationAccount, automation.WebhookClient.Update,
        automation.WebhookClient.CreateOrUpdate.validation,
        automation.WebhookClient.Delete.validation,
        automation.WebhookClient.GenerateURI.validation,
        automation.WebhookClient.Get.validation,
        automation.WebhookClient.ListByAutomationAccount.validation,
        automation.WebhookClient.Update.validation,
        validation.Validate, List.findSome?, validation.validateValue_resourceGroupName, hm,
        validation.NewError]
  · intro hm
    simp only [webhookOperations, List.mem_cons, List.mem_singleton, List.not_mem_nil,
      or_false] at hop
    rcases hop with rfl | rfl | rfl | rfl | rfl | rfl
    · dsimp only at hm ⊢
      refine ⟨?_, fun h => absurd rfl h⟩
      intro e he
      simp only [automation.WebhookClient.CreateOrUpdate.validation, validation.Validate,
        List.findSome?, validation.validateValue_resourceGroupName, hm, if_true,
        automation.WebhookCreateOrUpdateParameters.ValueOf] at he
      rcases hn : a.2.2.2.2.Name with _ | n <;> rcases hp : a.2.2.2.2.Properties with _ | p <;>
        simp [hn, hp, validation.validateValue, validation.validateField,
          validation.lastSegment, reflect.ofStringPtr, automation.propertiesValue,
          List.findSome?] at he <;>
        subst he <;> decide
    all_goals
      dsimp only at hm ⊢
      have hv : validation.Validate
          [{ TargetValue := .string a.2.1,
             Constraints := [.mk "resourceGroupName" .Pattern (.string "^[-\\w\\._]+$") []] }] =
          none := by
        simp [validation.Validate, List.findSome?, validation.validateValue_resourceGroupName,
          hm]
      simp only [automation.WebhookClient.Delete.validation,
        automation.WebhookClient.GenerateURI.validation,
        automation.WebhookClient.Get.validation,
        automation.WebhookClient.ListByAutomationAccount.validation,
        automation.WebhookClient.Update.validation, hv]
      exact ⟨fun e he => absurd he (by simp), fun _ => trivial⟩
  · simp only [webhookOperations, List.mem_cons, List.mem_singleton, List.not_mem_nil,
      or_false] at hop
    rcases hop with rfl | rfl | rfl | rfl | rfl | rfl <;> decide

/-- Witness of C22: `WebhookClient.Get` with the empty name and with a name that holds a
slash, `WebhookClient.Delete` with a name the pattern accepts. -/
theorem webhook_operations_check_resourceGroupName_witness :
    (automation.WebhookClient.Get
        (sample.env (.ok sample.request) (.ok (sample.response 200 "")) (.ok none))
        sample.webhookClient "" "account1" "hook1").err =
      some (Error.validation "automation.WebhookClient" "Get"
        (validation.createError "resourceGroupName" .Pattern
          "value doesn't match pattern ^[-\\w\\._]+$").Error) ∧
    (automation.WebhookClient.Get
        (sample.env (.ok sample.request) (.ok (sample.response 200 "")) (.ok none))
        sample.webhookClient "rg/1" "account1" "hook1").sent = [] ∧
    automation.WebhookClient.Delete.validation "rg-1_a.b" "account1" "hook1" = none :=
  ⟨congrArg Prod.fst
      ((webhook_operations_check_resourceGroupName (webhookOperations.get ⟨3, by decide⟩)
        (List.get_mem _ _ _)
        (sample.env (.ok sample.request) (.ok (sample.response 200 "")) (.ok none))
        (sample.webhookClient, "", "account1", "hook1")).2.1 (by decide)),
   congrArg Prod.snd
      ((webhook_operations_check_resourceGroupName (webhookOperations.get ⟨3, by decide⟩)
        (List.get_mem _ _ _)
        (sample.env (.ok sample.request) (.ok (sample.response 200 "")) (.ok none))
        (sample.webhookClient, "rg/1", "account1", "hook1")).2.1 (by decide)),
   ((webhook_operations_check_resourceGroupName (webhookOperations.get ⟨1, by decide⟩)
      (List.get_mem _ _ _)
      (sample.env (.ok sample.request) (.ok (sample.response 200 "")) (.ok none))
      (sample.webhookClient, "rg-1_a.b", "account1", "hook1")).2.2.1 (by decide)).2
      (by decide)⟩

/-- Claim C23: `WebhookClient.CreateOrUpdate` returns a validation error and sends no request
whenever `parameters.Name` or `parameters.WebhookCreateOrUpdateProperties` is nil, and its
validation passes whenever both are non-nil and the resource group name matches its
pattern; with a matching name the error names the first of the two that is nil. -/
theorem webhook_create_requires_name_and_properties (env : autorest.Env)
    (client : automation.WebhookClient)
    (resourceGroupName automationAccountName webhookName : String)
    (parameters : automation.WebhookCreateOrUpdateParameters) :
    (parameters.Name = none ∨ parameters.Properties = none →
      (∃ msg, (automation.WebhookClient.CreateOrUpdate env client resourceGroupName
          automationAccountName webhookName parameters).err =
        some (Error.validation "automation.WebhookClient" "CreateOrUpdate" msg)) ∧
      (automation.WebhookClient.CreateOrUpdate env client resourceGroupName
        automationAccountName webhookName parameters).sent = []) ∧
    (parameters.Name ≠ none → parameters.Properties ≠ none →
      regexp.MatchString "^[-\\w\\._]+$" resourceGroupName = true →
      automation.WebhookClient.CreateOrUpdate.validation resourceGroupName
        automationAccountName webhookName parameters = none) ∧
    (regexp.MatchString "^[-\\w\\._]+$" resourceGroupName = true →
      parameters.Name = none →
      automation.WebhookClient.CreateOrUpdate.validation resourceGroupName
        automationAccountName webhookName parameters =
        some (validation.createError "parameters.Name" .Null
          "value can not be null; required parameter")) ∧
    (regexp.MatchString "^[-\\w\\._]+$" resourceGroupName = true →
      parameters.Name ≠ none → parameters.Properties = none →
      automation.WebhookClient.CreateOrUpdate.validation resourceGroupName
        automationAccountName webhookName parameters =
        some (validation.createError "parameters.WebhookCreateOrUpdateProperties" .Null
          "value can not be null; required parameter")) := by
  have hv : automation.WebhookClient.CreateOrUpdate.validation resourceGroupName
      automationAccountName webhookName parameters =
      if regexp.MatchString "^[-\\w\\._]+$" resourceGroupName then
        (match parameters.Name with
         | none => some (validation.createError "parameters.Name" .Null
            "value can not be null; required parameter")
         | some _ =>
           match parameters.Properties with
           | none => some (validation.createError "parameters.WebhookCreateOrUpdateProperties"
              .Null "value can not be null; required parameter")
           | some _ => none)
      else some (validation.createError "resourceGroupName" .Pattern
        ("value doesn't match pattern " ++ "^[-\\w\\._]+$")) := by
    simp only [automation.WebhookClient.CreateOrUpdate.validation, validation.Validate,
      List.findSome?, validation.validateValue_resourceGroupName,
      automation.WebhookCreateOrUpdateParameters.ValueOf]
    cases regexp.MatchString "^[-\\w\\._]+$" resourceGroupName <;>
      rcases parameters.Name with _ | n <;> rcases parameters.Properties with _ | p <;>
      simp [validation.validateValue, validation.validateField, validation.lastSegment,
        reflect.ofStringPtr, automation.propertiesValue, List.findSome?]
  refine ⟨?_, ?_, ?_, ?_⟩
  · intro h
    have hsome : ∃ e, automation.WebhookClient.CreateOrUpdate.validation resourceGroupName
        automationAccountName webhookName parameters = some e := by
      rw [hv]
      cases regexp.MatchString "^[-\\w\\._]+$" resourceGroupName
      · exact ⟨_, rfl⟩
      · rcases hn : parameters.Name with _ | n
        · exact ⟨_, rfl⟩
        · rcases hp : parameters.Properties with _ | p
          · exact ⟨_, rfl⟩
          · rcases h with h | h
            · rw [hn] at h
              exact absurd h (by simp)
            · rw [hp] at h
              exact absurd h (by simp)
    obtain ⟨e, he⟩ := hsome
    simp only [automation.WebhookClient.CreateOrUpdate, he, validation.NewError]
    exact ⟨⟨_, rfl⟩, trivial⟩
  · intro hn hp hm
    rw [hv, hm]
    rcases hn' : parameters.Name with _ | n
    · exact absurd hn' hn
    · rcases hp' : parameters.Properties with _ | p
      · exact absurd hp' hp
      · rfl
  · intro hm hn
    rw [hv, hm, hn]
    rfl
  · intro hm hn hp
    rw [hv, hm, hp]
    rcases hn' : parameters.Name with _ | n
    · exact absurd hn' hn
    · rfl

/-- Witness of C23: parameters with neither a name nor properties, and parameters with
both. -/
theorem webhook_create_requires_name_and_properties_witness :
    (automation.WebhookClient.CreateOrUpdate
        (sample.env (.ok sample.request) (.ok (sample.response 200 "")) (.ok none))
        sample.webhookClient "rg1" "account1" "hook1" autorest.Model.zero).sent = [] ∧
    automation.WebhookClient.CreateOrUpdate.validation "rg1" "account1" "hook1"
      { autorest.Model.zero with
        Name := some "hook1",
        Properties := some { RecoveryServicesBackupPolicyResourceID := none, Document := "" } } =
      none :=
  ⟨((webhook_create_requires_name_and_properties
      (sample.env (.ok sample.request) (.ok (sample.response 200 "")) (.ok none))
      sample.webhookClient "rg1" "account1" "hook1" autorest.Model.zero).1 (Or.inl rfl)).2,
   (webhook_create_requires_name_and_properties
      (sample.env (.ok sample.request) (.ok (sample.response 200 "")) (.ok none))
      sample.webhookClient "rg1" "account1" "hook1"
      { autorest.Model.zero with
        Name := some "hook1",
        Properties := some { RecoveryServicesBackupPolicyResourceID := none, Document := "" } }).2.1
      (by decide) (by decide) (by decide)⟩

/-- Claim C24: `BackupLongTermRetentionPoliciesClient.CreateOrUpdate` validates
conditionally. When the properties of the policy are nil the validation passes and the
operation goes on to its preparer and, with a request, to its sender. When they are not
nil the validation fails exactly when `RecoveryServicesBackupPolicyResourceID` is nil, and
the operation then returns the validation error and sends nothing. -/
theorem backup_policy_validates_conditionally (env : autorest.Env) (penv : azure.Env)
    (client : sql.BackupLongTermRetentionPoliciesClient)
    (resourceGroupName serverName databaseName : String)
    (parameters : sql.BackupLongTermRetentionPolicy) :
    (parameters.Properties = none →
      sql.BackupLongTermRetentionPoliciesClient.CreateOrUpdate.validation resourceGroupName
        serverName databaseName parameters = none ∧
      (∀ e, client.CreateOrUpdatePreparer env resourceGroupName serverName databaseName
          parameters = .error e →
        (client.CreateOrUpdate env penv resourceGroupName serverName databaseName
          parameters).err =
          some (Error.detailed e "sql.BackupLongTermRetentionPoliciesClient" "CreateOrUpdate"
            none "Failure preparing request")) ∧
      (∀ req, client.CreateOrUpdatePreparer env resourceGroupName serverName databaseName
          parameters = .ok req →
        (client.CreateOrUpdate env penv resourceGroupName serverName databaseName
          parameters).sent = (client.CreateOrUpdateSender env penv req).sent)) ∧
    (∀ p, parameters.Properties = some p →
      (sql.BackupLongTermRetentionPoliciesClient.CreateOrUpdate.validation resourceGroupName
          serverName databaseName parameters ≠ none ↔
        p.RecoveryServicesBackupPolicyResourceID = none) ∧
      (p.RecoveryServicesBackupPolicyResourceID = none →
        (client.CreateOrUpdate env penv resourceGroupName serverName databaseName
          parameters).err =
          some (Error.validation "sql.BackupLongTermRetentionPoliciesClient" "CreateOrUpdate"
            (validation.createError
              "parameters.BackupLongTermRetentionPolicyProperties.RecoveryServicesBackupPolicyResourceID"
              .Null "value can not be null; required parameter").Error) ∧
        (client.CreateOrUpdate env penv resourceGroupName serverName databaseName
          parameters).sent = [])) := by
  have hv : sql.BackupLongTermRetentionPoliciesClient.CreateOrUpdate.validation
      resourceGroupName serverName databaseName parameters =
      match parameters.Properties with
      | none => none
      | some p =>
        match p.RecoveryServicesBackupPolicyResourceID with
        | none => some (validation.createError
            "parameters.BackupLongTermRetentionPolicyProperties.RecoveryServicesBackupPolicyResourceID"
            .Null "value can not be null; required parameter")
        | some _ => none := by
    simp only [sql.BackupLongTermRetentionPoliciesClient.CreateOrUpdate.validation,
      validation.Validate, List.findSome?, sql.BackupLongTermRetentionPolicy.ValueOf]
    rcases parameters.Properties with _ | p
    · simp [validation.validateValue, validation.validateField, validation.lastSegment,
        sql.propertiesValue]
    · rcases hr : p.RecoveryServicesBackupPolicyResourceID with _ | r <;>
        simp [validation.validateValue, validation.validateField, validation.lastSegment,
          sql.propertiesValue, reflect.ofStringPtr, List.findSome?, hr]
  refine ⟨?_, ?_⟩
  · intro hp
    have hnone : sql.BackupLongTermRetentionPoliciesClient.CreateOrUpdate.validation
        resourceGroupName serverName databaseName parameters = none := by
      rw [hv, hp]
    refine ⟨hnone, ?_, ?_⟩
    · intro e he
      simp only [sql.BackupLongTermRetentionPoliciesClient.CreateOrUpdate, hnone, he,
        autorest.NewErrorWithError, Option.map_none']
    · intro req hreq
      simp only [sql.BackupLongTermRetentionPoliciesClient.CreateOrUpdate, hnone, hreq]
      split <;> rfl
  · intro p hp
    refine ⟨?_, ?_⟩
    · rw [hv, hp]
      rcases hr : p.RecoveryServicesBackupPolicyResourceID with _ | r <;> simp [hr]
    · intro hr
      have hsome : sql.BackupLongTermRetentionPoliciesClient.CreateOrUpdate.validation
          resourceGroupName serverName databaseName parameters = some (validation.createError
            "parameters.BackupLongTermRetentionPolicyProperties.RecoveryServicesBackupPolicyResourceID"
            .Null "value can not be null; required parameter") := by
        rw [hv, hp]
        simp only [hr]
      simp only [sql.BackupLongTermRetentionPoliciesClient.CreateOrUpdate, hsome,
        validation.NewError]
      exact ⟨trivial, trivial⟩

/-- Witness of C24: a policy without properties, and a policy whose properties hold no
resource id. -/
theorem backup_policy_validates_conditionally_witness :
    sql.BackupLongTermRetentionPoliciesClient.CreateOrUpdate.validation "rg1" "server1" "db1"
      autorest.Model.zero = none ∧
    (sql.BackupLongTermRetentionPoliciesClient.CreateOrUpdate
        (sample.env (.ok sample.request) (.ok (sample.response 200 "")) (.ok none))
        sample.poller
        { Client := sample.client, BaseURI := "https://management.azure.com",
          SubscriptionID := "sub-1" }
        "rg1" "server1" "db1"
        { autorest.Model.zero with
          Properties := some { RecoveryServicesBackupPolicyResourceID := none,
                               Document := "" } }).sent = [] :=
  ⟨((backup_policy_validates_conditionally
      (sample.env (.ok sample.request) (.ok (sample.response 200 "")) (.ok none))
      sample.poller
      { Client := sample.client, BaseURI := "https://management.azure.com",
        SubscriptionID := "sub-1" }
      "rg1" "server1" "db1" autorest.Model.zero).1 rfl).1,
   (((backup_policy_validates_conditionally
      (sample.env (.ok sample.request) (.ok (sample.response 200 "")) (.ok none))
      sample.poller
      { Client := sample.client, BaseURI := "https://management.azure.com",
        SubscriptionID := "sub-1" }
      "rg1" "server1" "db1"
      { autorest.Model.zero with
        Properties := some { RecoveryServicesBackupPolicyResourceID := none,
                             Document := "" } }).2 _ rfl).2 rfl).2⟩

/-- Claim C25: for each long-running operation the sender and the responder reject the same
statuses: both report the unexpected-status error exactly for a status outside 200, 201,
202 for the CreateOrUpdate operations, outside 200, 202, 204 for Delete, and outside 200,
202 for Update and RefreshMemberSchema; hence the sender returns no error exactly when the
responder does not reject the status of the same response. -/
theorem lro_sender_and_responder_accept_same_codes (c : LroStatusCase)
    (hc : c ∈ lroStatusChecks) (env : autorest.Env) (client : c.Receiver) :
    (∀ resp : http.Response,
      c.respond env client resp = some (Error.unexpectedStatus resp.StatusCode resp.Body) ↔
        resp.StatusCode ∉
          (if c.Method = "CreateOrUpdate" then [200, 201, 202]
           else if c.Method = "Delete" then [200, 202, 204]
           else [200, 202])) ∧
    (∀ (penv : azure.Env) (req : http.Request) (resp : http.Response),
      env.SendWithSender (c.client client) req
        [azure.DoRetryWithRegistration (c.client client)] = .ok resp →
      azure.deriveStatus penv resp ≠ .Failed → azure.deriveStatus penv resp ≠ .Canceled →
      ((c.send env penv client req).err =
          some (Error.unexpectedStatus resp.StatusCode resp.Body) ↔
        resp.StatusCode ∉
          (if c.Method = "CreateOrUpdate" then [200, 201, 202]
           else if c.Method = "Delete" then [200, 202, 204]
           else [200, 202])) ∧
      ((c.send env penv client req).err = none ↔
        c.respond env client resp ≠
          some (Error.unexpectedStatus resp.StatusCode resp.Body))) ∧
    c.Method ∈ ["CreateOrUpdate", "Update", "Delete", "RefreshMemberSchema"] := by
  have hresp : ∀ resp : http.Response,
      c.respond env client resp = some (Error.unexpectedStatus resp.StatusCode resp.Body) ↔
        resp.StatusCode ∉
          (if c.Method = "CreateOrUpdate" then [200, 201, 202]
           else if c.Method = "Delete" then [200, 202, 204]
           else [200, 202]) := by
    intro resp
    simp only [lroStatusChecks, List.mem_cons, List.mem_singleton, List.not_mem_nil,
      or_false] at hc
    rcases hc with rfl | rfl | rfl | rfl | rfl | rfl | rfl <;>
    · simp only [sql.ElasticPoolsClient.CreateOrUpdateResponder,
        sql.ElasticPoolsClient.UpdateResponder,
        sql.BackupLongTermRetentionPoliciesClient.CreateOrUpdateResponder,
        sql.SyncMembersClient.CreateOrUpdateResponder, sql.SyncMembersClient.DeleteResponder,
        sql.SyncMembersClient.RefreshMemberSchemaResponder,
        sql.SyncMembersClient.UpdateResponder, autorest.Respond, List.foldl,
        autorest.RespondDecorator.apply, autorest.Client.ByInspecting,
        azure.WithErrorUnlessStatusCode]
      by_cases h : resp.StatusCode = 200 <;> by_cases h1 : resp.StatusCode = 201 <;>
        by_cases h2 : resp.StatusCode = 202 <;> by_cases h4 : resp.StatusCode = 204 <;>
        simp_all <;> (try split) <;> simp_all
  have hsend : ∀ (penv : azure.Env) (req : http.Request) (resp : http.Response),
      env.SendWithSender (c.client client) req
        [azure.DoRetryWithRegistration (c.client client)] = .ok resp →
      azure.deriveStatus penv resp ≠ .Failed → azure.deriveStatus penv resp ≠ .Canceled →
      ((c.send env penv client req).err =
          some (Error.unexpectedStatus resp.StatusCode resp.Body) ↔
        resp.StatusCode ∉
          (if c.Method = "CreateOrUpdate" then [200, 201, 202]
           else if c.Method = "Delete" then [200, 202, 204]
           else [200, 202])) ∧
      ((c.send env penv client req).err = none ↔
        resp.StatusCode ∈
          (if c.Method = "CreateOrUpdate" then [200, 201, 202]
           else if c.Method = "Delete" then [200, 202, 204]
           else [200, 202])) := by
    clear hresp
    intro penv req resp hs hf hcan
    simp only [lroStatusChecks, List.mem_cons, List.mem_singleton, List.not_mem_nil,
      or_false] at hc
    rcases hc with rfl | rfl | rfl | rfl | rfl | rfl | rfl <;>
    · simp only [sql.ElasticPoolsClient.CreateOrUpdateSender,
        sql.ElasticPoolsClient.UpdateSender,
        sql.BackupLongTermRetentionPoliciesClient.CreateOrUpdateSender,
        sql.SyncMembersClient.CreateOrUpdateSender, sql.SyncMembersClient.DeleteSender,
        sql.SyncMembersClient.RefreshMemberSchemaSender, sql.SyncMembersClient.UpdateSender,
        sql.ElasticPoolsClient.CreateOrUpdateSender.after,
        sql.ElasticPoolsClient.UpdateSender.after,
        sql.BackupLongTermRetentionPoliciesClient.CreateOrUpdateSender.after,
        sql.SyncMembersClient.CreateOrUpdateSender.after,
        sql.SyncMembersClient.DeleteSender.after,
        sql.SyncMembersClient.RefreshMemberSchemaSender.after,
        sql.SyncMembersClient.UpdateSender.after,
        azure.Future.Done, azure.NewFuture, azure.Future.nextRequest,
        autorest.DecorateSender, azure.ProvisioningStatus.isTerminal,
        sql.OperationFuture.Response] at *
      simp only [hs]
      cases hd : azure.deriveStatus penv resp <;>
        simp_all [azure.Future.errorInfo, autorest.Respond, autorest.RespondDecorator.apply,
          azure.WithErrorUnlessStatusCode, azure.ProvisioningStatus.isTerminal,
          sql.OperationFuture.Response, http.StatusOK, http.StatusCreated,
          http.StatusAccepted, http.StatusNoContent] <;>
        (try split) <;> simp_all <;> omega
  refine ⟨hresp, ?_, ?_⟩
  · intro penv req resp hs hf hcan
    obtain ⟨h1, h2⟩ := hsend penv req resp hs hf hcan
    refine ⟨h1, ?_⟩
    rw [h2, Ne, hresp resp, not_not]
  · simp only [lroStatusChecks, List.mem_cons, List.mem_singleton, List.not_mem_nil,
      or_false] at hc
    rcases hc with rfl | rfl | rfl | rfl | rfl | rfl | rfl <;> decide

/-- Witness of C25: status 201 is rejected by the responder and by the sender of
`SyncMembersClient.Delete`. -/
theorem lro_sender_and_responder_accept_same_codes_witness :
    (sql.SyncMembersClient.DeleteResponder
        (sample.env (.ok sample.request) (.ok (sample.response 201 "")) (.ok none))
        sample.syncMembersClient (sample.response 201 "")).2 =
      some (Error.unexpectedStatus 201 "") ∧
    (sql.SyncMembersClient.DeleteSender
        (sample.env (.ok sample.request) (.ok (sample.response 201 "")) (.ok none))
        sample.poller sample.syncMembersClient sample.request).err =
      some (Error.unexpectedStatus 201 "") :=
  ⟨((lro_sender_and_responder_accept_same_codes (lroStatusChecks.get ⟨4, by decide⟩)
      (List.get_mem _ _ _)
      (sample.env (.ok sample.request) (.ok (sample.response 201 "")) (.ok none))
      sample.syncMembersClient).1 (sample.response 201 "")).2 (by decide),
   (((lro_sender_and_responder_accept_same_codes (lroStatusChecks.get ⟨4, by decide⟩)
      (List.get_mem _ _ _)
      (sample.env (.ok sample.request) (.ok (sample.response 201 "")) (.ok none))
      sample.syncMembersClient).2.1 sample.poller sample.request (sample.response 201 "") rfl
      (by decide) (by decide)).1).2 (by decide)⟩

/-- Claim C26: the preparers that address a single resource pass the same path template
with the same path parameters, hence build the same URL path: CreateOrUpdate, Get, Update
and Delete of `WebhookClient`, of `ElasticPoolsClient` and of `SyncMembersClient`, and
CreateOrUpdate and Get of `BackupLongTermRetentionPoliciesClient`, whose policy name is
"Default" whatever the arguments. -/
theorem single_resource_preparers_share_path :
    (∀ (client : automation.WebhookClient) (resourceGroupName automationAccountName
        webhookName : String) (created : automation.WebhookCreateOrUpdateParameters)
        (updated : automation.WebhookUpdateParameters),
      autorest.pathParametersOf (automation.WebhookClient.GetPreparer.preparer client
          resourceGroupName automationAccountName webhookName) =
        [("/subscriptions/{subscriptionId}/resourceGroups/{resourceGroupName}/providers/Microsoft.Automation/automationAccounts/{automationAccountName}/webhooks/{webhookName}",
          [("automationAccountName", autorest.Encode "path" automationAccountName),
           ("resourceGroupName", autorest.Encode "path" resourceGroupName),
           ("subscriptionId", autorest.Encode "path" client.SubscriptionID),
           ("webhookName", autorest.Encode "path" webhookName)])] ∧
      autorest.pathParametersOf (automation.WebhookClient.CreateOrUpdatePreparer.preparer client
          resourceGroupName automationAccountName webhookName created) =
        autorest.pathParametersOf (automation.WebhookClient.GetPreparer.preparer client
          resourceGroupName automationAccountName webhookName) ∧
      autorest.pathParametersOf (automation.WebhookClient.UpdatePreparer.preparer client
          resourceGroupName automationAccountName webhookName updated) =
        autorest.pathParametersOf (automation.WebhookClient.GetPreparer.preparer client
          resourceGroupName automationAccountName webhookName) ∧
      autorest.pathParametersOf (automation.WebhookClient.DeletePreparer.preparer client
          resourceGroupName automationAccountName webhookName) =
        autorest.pathParametersOf (automation.WebhookClient.GetPreparer.preparer client
          resourceGroupName automationAccountName webhookName)) ∧
    (∀ (client : sql.ElasticPoolsClient) (resourceGroupName serverName elasticPoolName : String)
        (created : sql.ElasticPool) (updated : sql.ElasticPoolUpdate),
      autorest.pathParametersOf (sql.ElasticPoolsClient.GetPreparer.preparer client
          resourceGroupName serverName elasticPoolName) =
        [("/subscriptions/{subscriptionId}/resourceGroups/{resourceGroupName}/providers/Microsoft.Sql/servers/{serverName}/elasticPools/{elasticPoolName}",
          [("elasticPoolName", autorest.Encode "path" elasticPoolName),
           ("resourceGroupName", autorest.Encode "path" resourceGroupName),
           ("serverName", autorest.Encode "path" serverName),
           ("subscriptionId", autorest.Encode "path" client.SubscriptionID)])] ∧
      autorest.pathParametersOf (sql.ElasticPoolsClient.CreateOrUpdatePreparer.preparer client
          resourceGroupName serverName elasticPoolName created) =
        autorest.pathParametersOf (sql.ElasticPoolsClient.GetPreparer.preparer client
          resourceGroupName serverName elasticPoolName) ∧
      autorest.pathParametersOf (sql.ElasticPoolsClient.UpdatePreparer.preparer client
          resourceGroupName serverName elasticPoolName updated) =
        autorest.pathParametersOf (sql.ElasticPoolsClient.GetPreparer.preparer client
          resourceGroupName serverName elasticPoolName) ∧
      autorest.pathParametersOf (sql.ElasticPoolsClient.DeletePreparer.preparer client
          resourceGroupName serverName elasticPoolName) =
        autorest.pathParametersOf (sql.ElasticPoolsClient.GetPreparer.preparer client
          resourceGroupName serverName elasticPoolName)) ∧
    (∀ (client : sql.SyncMembersClient) (resourceGroupName serverName databaseName
        syncGroupName syncMemberName : String) (created updated : sql.SyncMember),
      autorest.pathParametersOf (sql.SyncMembersClient.GetPreparer.preparer client
          resourceGroupName serverName databaseName syncGroupName syncMemberName) =
        [("/subscriptions/{subscriptionId}/resourceGroups/{resourceGroupName}/providers/Microsoft.Sql/servers/{serverName}/databases/{databaseName}/syncGroups/{syncGroupName}/syncMembers/{syncMemberName}",
          [("databaseName", autorest.Encode "path" databaseName),
           ("resourceGroupName", autorest.Encode "path" resourceGroupName),
           ("serverName", autorest.Encode "path" serverName),
           ("subscriptionId", autorest.Encode "path" client.SubscriptionID),
           ("syncGroupName", autorest.Encode "path" syncGroupName),
           ("syncMemberName", autorest.Encode "path" syncMemberName)])] ∧
      autorest.pathParametersOf (sql.SyncMembersClient.CreateOrUpdatePreparer.preparer client
          resourceGroupName serverName databaseName syncGroupName syncMemberName created) =
        autorest.pathParametersOf (sql.SyncMembersClient.GetPreparer.preparer client
          resourceGroupName serverName databaseName syncGroupName syncMemberName) ∧
      autorest.pathParametersOf (sql.SyncMembersClient.UpdatePreparer.preparer client
          resourceGroupName serverName databaseName syncGroupName syncMemberName updated) =
        autorest.pathParametersOf (sql.SyncMembersClient.GetPreparer.preparer client
          resourceGroupName serverName databaseName syncGroupName syncMemberName) ∧
      autorest.pathParametersOf (sql.SyncMembersClient.DeletePreparer.preparer client
          resourceGroupName serverName databaseName syncGroupName syncMemberName) =
        autorest.pathParametersOf (sql.SyncMembersClient.GetPreparer.preparer client
          resourceGroupName serverName databaseName syncGroupName syncMemberName)) ∧
    (∀ (client : sql.BackupLongTermRetentionPoliciesClient) (resourceGroupName serverName
        databaseName : String) (created : sql.BackupLongTermRetentionPolicy),
      autorest.pathParametersOf
          (sql.BackupLongTermRetentionPoliciesClient.GetPreparer.preparer client
            resourceGroupName serverName databaseName) =
        [("/subscriptions/{subscriptionId}/resourceGroups/{resourceGroupName}/providers/Microsoft.Sql/servers/{serverName}/databases/{databaseName}/backupLongTermRetentionPolicies/{backupLongTermRetentionPolicyName}",
          [("backupLongTermRetentionPolicyName", "Default"),
           ("databaseName", autorest.Encode "path" databaseName),
           ("resourceGroupName", autorest.Encode "path" resourceGroupName),
           ("serverName", autorest.Encode "path" serverName),
           ("subscriptionId", autorest.Encode "path" client.SubscriptionID)])] ∧
      autorest.pathParametersOf
          (sql.BackupLongTermRetentionPoliciesClient.CreateOrUpdatePreparer.preparer client
            resourceGroupName serverName databaseName created) =
        autorest.pathParametersOf
          (sql.BackupLongTermRetentionPoliciesClient.GetPreparer.preparer client
            resourceGroupName serverName databaseName)) := by
  refine ⟨?_, ?_, ?_, ?_⟩
  · intro client resourceGroupName automationAccountName webhookName created updated
    exact ⟨rfl, rfl, rfl, rfl⟩
  · intro client resourceGroupName serverName elasticPoolName created updated
    exact ⟨rfl, rfl, rfl, rfl⟩
  · intro client resourceGroupName serverName databaseName syncGroupName syncMemberName
      created updated
    exact ⟨rfl, rfl, rfl, rfl⟩
  · intro client resourceGroupName serverName databaseName created
    refine ⟨?_, rfl⟩
    have h : autorest.Encode "path" "Default" = "Default" := by decide
    simp only [sql.BackupLongTermRetentionPoliciesClient.GetPreparer.preparer,
      autorest.CreatePreparer, autorest.pathParametersOf, h]

/-- Claim C7: the next-page function installed by `ObjectsClient.GetObjectsByObjectIds`
returns the zero result with a nil error and sends nothing when OdataNextLink is nil or
empty, and otherwise is the call of `GetObjectsByObjectIdsNext` with exactly that link;
`WebhookClient.listByAutomationAccountNextResults` and
`SyncMembersClient.listBySyncGroupNextResults` return the zero result with a nil error and
send nothing when the preparer of the page yields no request. Each of the three hands
exactly the prepared request to the sender when there is one, and returns what the
responder made of the answer when sending and responding succeed. -/
theorem next_page_fetch_follows_link :
    (∀ (env : autorest.Env) (client : graphrbac.ObjectsClient)
        (lastResult : graphrbac.GetObjectsResult),
      lastResult.OdataNextLink = none ∨ lastResult.OdataNextLink = some "" →
      (graphrbac.ObjectsClient.GetObjectsByObjectIds.fn env client lastResult).result =
          autorest.Model.zero ∧
        (graphrbac.ObjectsClient.GetObjectsByObjectIds.fn env client lastResult).err = none ∧
        (graphrbac.ObjectsClient.GetObjectsByObjectIds.fn env client lastResult).sent = []) ∧
    (∀ (env : autorest.Env) (client : graphrbac.ObjectsClient)
        (lastResult : graphrbac.GetObjectsResult) (link : String),
      lastResult.OdataNextLink = some link → link ≠ "" →
      graphrbac.ObjectsClient.GetObjectsByObjectIds.fn env client lastResult =
        graphrbac.ObjectsClient.GetObjectsByObjectIdsNext env client link) ∧
    (∀ (env : autorest.Env) (client : graphrbac.ObjectsClient)
        (parameters : graphrbac.GetObjectsParameters),
      graphrbac.ObjectsClient.GetObjectsByObjectIds.validation parameters = none →
      (graphrbac.ObjectsClient.GetObjectsByObjectIds env client parameters).result.fn =
        some (graphrbac.ObjectsClient.GetObjectsByObjectIds.fn env client)) ∧
    (∀ (env : autorest.Env) (client : automation.WebhookClient)
        (lastResults : automation.WebhookListResult),
      env.ListResultPreparer lastResults = .ok none →
      (automation.WebhookClient.listByAutomationAccountNextResults env client lastResults).result =
          autorest.Model.zero ∧
        (automation.WebhookClient.listByAutomationAccountNextResults env client lastResults).err =
          none ∧
        (automation.WebhookClient.listByAutomationAccountNextResults env client lastResults).sent =
          []) ∧
    (∀ (env : autorest.Env) (client : sql.SyncMembersClient)
        (lastResults : sql.SyncMemberListResult),
      env.ListResultPreparer lastResults = .ok none →
      (sql.SyncMembersClient.listBySyncGroupNextResults env client lastResults).result =
          autorest.Model.zero ∧
        (sql.SyncMembersClient.listBySyncGroupNextResults env client lastResults).err = none ∧
        (sql.SyncMembersClient.listBySyncGroupNextResults env client lastResults).sent = []) ∧
    (∀ (env : autorest.Env) (client : graphrbac.ObjectsClient)
        (lastResult : graphrbac.GetObjectsResult) (link : String) (req : http.Request),
      lastResult.OdataNextLink = some link → link ≠ "" →
      client.GetObjectsByObjectIdsNextPreparer env link = .ok req →
      (graphrbac.ObjectsClient.GetObjectsByObjectIds.fn env client lastResult).sent = [req] ∧
        ∀ resp, client.GetObjectsByObjectIdsNextSender env req = .ok resp →
          (client.GetObjectsByObjectIdsNextResponder env resp).2 = none →
          (graphrbac.ObjectsClient.GetObjectsByObjectIds.fn env client lastResult).result =
              (client.GetObjectsByObjectIdsNextResponder env resp).1 ∧
            (graphrbac.ObjectsClient.GetObjectsByObjectIds.fn env client lastResult).err =
              none) ∧
    (∀ (env : autorest.Env) (client : automation.WebhookClient)
        (lastResults : automation.WebhookListResult),
      (automation.WebhookClient.listByAutomationAccountNextResults env client lastResults).sent =
          (match env.ListResultPreparer lastResults with
           | .ok (some req) => [req]
           | .ok none => []
           | .error _ => []) ∧
        ∀ req resp, env.ListResultPreparer lastResults = .ok (some req) →
          client.ListByAutomationAccountSender env req = .ok resp →
          (client.ListByAutomationAccountResponder env resp).2 = none →
          (automation.WebhookClient.listByAutomationAccountNextResults env client
              lastResults).result = (client.ListByAutomationAccountResponder env resp).1 ∧
            (automation.WebhookClient.listByAutomationAccountNextResults env client
              lastResults).err = none) ∧
    (∀ (env : autorest.Env) (client : sql.SyncMembersClient)
        (lastResults : sql.SyncMemberListResult),
      (sql.SyncMembersClient.listBySyncGroupNextResults env client lastResults).sent =
          (match env.ListResultPreparer lastResults with
           | .ok (some req) => [req]
           | .ok none => []
           | .error _ => []) ∧
        ∀ req resp, env.ListResultPreparer lastResults = .ok (some req) →
          client.ListBySyncGroupSender env req = .ok resp →
          (client.ListBySyncGroupResponder env resp).2 = none →
          (sql.SyncMembersClient.listBySyncGroupNextResults env client lastResults).result =
              (client.ListBySyncGroupResponder env resp).1 ∧
            (sql.SyncMembersClient.listBySyncGroupNextResults env client lastResults).err =
              none) := by
  refine ⟨?_, ?_, ?_, ?_, ?_, ?_, ?_, ?_⟩
  · intro env client lastResult h
    rcases h with h | h <;>
      simp [graphrbac.ObjectsClient.GetObjectsByObjectIds.fn, h, autorest.to_String]
  · intro env client lastResult link h hne
    have hlen : ¬ link.length < 1 := by
      intro hl
      apply hne
      have h0 : link.length = 0 := by omega
      cases link with
      | mk data =>
        have hd : data = [] := List.length_eq_zero.mp (by simpa [String.length] using h0)
        subst hd
        rfl
    simp [graphrbac.ObjectsClient.GetObjectsByObjectIds.fn, h, autorest.to_String, hlen]
  · intro env client parameters hv
    simp only [graphrbac.ObjectsClient.GetObjectsByObjectIds, hv]
    split
    · rfl
    · split
      · rfl
      · split <;> rfl
  · intro env client lastResults h
    simp [automation.WebhookClient.listByAutomationAccountNextResults, h]
  · intro env client lastResults h
    simp [sql.SyncMembersClient.listBySyncGroupNextResults, h]
  · intro env client lastResult link req h hne hp
    have hlen : ¬ link.length < 1 := by
      intro hl
      apply hne
      have h0 : link.length = 0 := by omega
      cases link with
      | mk data =>
        have hd : data = [] := List.length_eq_zero.mp (by simpa [String.length] using h0)
        subst hd
        rfl
    have hfn : graphrbac.ObjectsClient.GetObjectsByObjectIds.fn env client lastResult =
        graphrbac.ObjectsClient.GetObjectsByObjectIdsNext env client link := by
      simp [graphrbac.ObjectsClient.GetObjectsByObjectIds.fn, h, autorest.to_String, hlen]
    rw [hfn]
    simp only [graphrbac.ObjectsClient.GetObjectsByObjectIdsNext, hp]
    constructor
    · cases client.GetObjectsByObjectIdsNextSender env req with
      | failed resp err => rfl
      | ok resp =>
        simp only
        split <;> rfl
    · intro resp hs hr
      simp only [hs]
      split
      · rename_i result err heq
        rw [heq] at hr
        simp at hr
      · rename_i result heq
        rw [heq]
        exact ⟨rfl, rfl⟩
  · intro env client lastResults
    constructor
    · simp only [automation.WebhookClient.listByAutomationAccountNextResults]
      rcases env.ListResultPreparer lastResults with e | _ | req
      · rfl
      · rfl
      · simp only
        cases client.ListByAutomationAccountSender env req with
        | failed resp err => rfl
        | ok resp =>
          simp only
          split <;> rfl
    · intro req resp hp hs hr
      simp only [automation.WebhookClient.listByAutomationAccountNextResults, hp, hs]
      split
      · rename_i result err heq
        rw [heq] at hr
        simp at hr
      · rename_i result heq
        rw [heq]
        exact ⟨rfl, rfl⟩
  · intro env client lastResults
    constructor
    · simp only [sql.SyncMembersClient.listBySyncGroupNextResults]
      rcases env.ListResultPreparer lastResults with e | _ | req
      · rfl
      · rfl
      · simp only
        cases client.ListBySyncGroupSender env req with
        | failed resp err => rfl
        | ok resp =>
          simp only
          split <;> rfl
    · intro req resp hp hs hr
      simp only [sql.SyncMembersClient.listBySyncGroupNextResults, hp, hs]
      split
      · rename_i result err heq
        rw [heq] at hr
        simp at hr
      · rename_i result heq
        rw [heq]
        exact ⟨rfl, rfl⟩

/-- Witness of C7: a last page without a link, a page whose preparer yields no request,
and a page whose preparer yields the request for the second page, which is the one
request sent and is answered with the second page. -/
theorem next_page_fetch_follows_link_witness :
    (graphrbac.ObjectsClient.GetObjectsByObjectIds.fn
        (sample.env (.ok sample.request) (.ok (sample.response 200 "")) (.ok none))
        sample.objectsClient autorest.Model.zero).sent = [] ∧
    (automation.WebhookClient.listByAutomationAccountNextResults
        (sample.env (.ok sample.request) (.ok (sample.response 200 "")) (.ok none))
        sample.webhookClient autorest.Model.zero).sent = [] ∧
    (sql.SyncMembersClient.listBySyncGroupNextResults sample.pagedEnv sample.syncMembersClient
        { autorest.Model.zero with toPayload := sample.firstPage }).sent =
      [sample.nextRequest] ∧
    (sql.SyncMembersClient.listBySyncGroupNextResults sample.pagedEnv sample.syncMembersClient
        { autorest.Model.zero with toPayload := sample.firstPage }).result.Value =
      some ["c"] :=
  ⟨(next_page_fetch_follows_link.1
      (sample.env (.ok sample.request) (.ok (sample.response 200 "")) (.ok none))
      sample.objectsClient autorest.Model.zero (Or.inl rfl)).2.2,
   (next_page_fetch_follows_link.2.2.2.1
      (sample.env (.ok sample.request) (.ok (sample.response 200 "")) (.ok none))
      sample.webhookClient autorest.Model.zero rfl).2.2,
   (next_page_fetch_follows_link.2.2.2.2.2.2.2 sample.pagedEnv sample.syncMembersClient
      { autorest.Model.zero with toPayload := sample.firstPage }).1.trans (by decide),
   (congrArg (fun m : autorest.Model => m.Value)
      ((next_page_fetch_follows_link.2.2.2.2.2.2.2 sample.pagedEnv sample.syncMembersClient
        { autorest.Model.zero with toPayload := sample.firstPage }).2 sample.nextRequest
        (sample.response 200 "second") rfl rfl rfl).1).trans (by decide)⟩

/-- Counterexample to C9 as stated: for the instance `cache1`, whose response carries an id
and properties, `d.Set("location", ...)` reports an error and the read handler still
returns a nil error, the location left unset. -/
theorem read_swallows_set_error :
    (sample.redisEnv none none none ["location"]).SetError "location" (.string "westus") =
        some (Error.plain "invalid value for location") ∧
    azurerm.dataSourceArmRedisCacheRead (sample.redisEnv none none none ["location"])
        sample.redisData =
      .returned
        (azurerm.dataSourceArmRedisCacheRead (sample.redisEnv none none none ["location"])
          sample.redisData).data none ∧
    (azurerm.dataSourceArmRedisCacheRead (sample.redisEnv none none none ["location"])
        sample.redisData).data.Attributes.lookup "location" = none ∧
    (azurerm.dataSourceArmRedisCacheRead (sample.redisEnv none none none ["location"])
        sample.redisData).data.Attributes.lookup "hostname" =
      some (.stringPtr (some "cache1.redis.cache.windows.net")) := by
  refine ⟨?_, ?_, ?_, ?_⟩ <;> decide

/-- Claim C9, amended: the read handler returns a non-nil error whenever `client.Get`
reports one, and, for a response that carries an id and properties, whenever
`flattenRedisConfiguration`, `d.Set("redis_configuration", ...)` or `client.ListKeys`
reports one. The errors of the other `d.Set` calls are discarded: when those four steps
report no error and both access keys are present, the handler returns a nil error whatever
the other `d.Set` calls report. -/
theorem read_reports_checked_errors (env : azurerm.Env) (d : azurerm.ResourceData)
    (resourceGroup name : String)
    (hrg : d.Get "resource_group_name" = .string resourceGroup)
    (hname : d.Get "name" = .string name) :
    ((env.Get resourceGroup name).2 ≠ none →
      ∃ err, azurerm.dataSourceArmRedisCacheRead env d = .returned d (some err)) ∧
    (∀ id props, (env.Get resourceGroup name).2 = none →
      (env.Get resourceGroup name).1.ID = some id →
      (env.Get resourceGroup name).1.Properties = some props →
      ((env.flattenRedisConfiguration props.RedisConfiguration).2 ≠ none ∨
          env.SetError "redis_configuration"
            (env.flattenRedisConfiguration props.RedisConfiguration).1 ≠ none ∨
          (env.ListKeys resourceGroup name).2 ≠ none →
        ∃ d' err, azurerm.dataSourceArmRedisCacheRead env d = .returned d' (some err)) ∧
      ((env.flattenRedisConfiguration props.RedisConfiguration).2 = none →
        env.SetError "redis_configuration"
          (env.flattenRedisConfiguration props.RedisConfiguration).1 = none →
        (env.ListKeys resourceGroup name).2 = none →
        (env.ListKeys resourceGroup name).1.PrimaryKey ≠ none →
        (env.ListKeys resourceGroup name).1.SecondaryKey ≠ none →
        ∃ d', azurerm.dataSourceArmRedisCacheRead env d = .returned d' none)) := by
  constructor
  · intro hget
    rcases hg : env.Get resourceGroup name with ⟨resp, _ | e⟩
    · rw [hg] at hget
      exact absurd rfl hget
    · simp only [azurerm.dataSourceArmRedisCacheRead, hrg, hname, hg]
      split <;> exact ⟨_, rfl⟩
  · intro id props hget hid hprops
    rcases hg : env.Get resourceGroup name with ⟨resp, ge⟩
    rw [hg] at hget hid hprops
    simp only at hget hid hprops
    subst hget
    simp only [azurerm.dataSourceArmRedisCacheRead, hrg, hname, hg, hid, hprops]
    generalize azurerm.dataSourceArmRedisCacheRead.properties env
      (azurerm.dataSourceArmRedisCacheRead.location env (d.SetId id) resp) props = d1
    rcases hf : env.flattenRedisConfiguration props.RedisConfiguration with ⟨cfg, _ | fe⟩
    · rcases hs : env.SetError "redis_configuration" cfg with _ | se
      · simp only [azurerm.ResourceData.Set, hs]
        rcases hk : env.ListKeys resourceGroup name with ⟨keys, _ | ke⟩
        · refine ⟨fun h => ?_, fun _ _ _ hp hq => ?_⟩
          · simp at h
          · simp only at hp hq
            rcases hpk : keys.PrimaryKey with _ | pk
            · exact absurd hpk hp
            rcases hsk : keys.SecondaryKey with _ | sk
            · exact absurd hsk hq
            simp only [hpk, hsk]
            exact ⟨_, rfl⟩
        · exact ⟨fun _ => ⟨_, _, rfl⟩, fun _ _ h => by simp at h⟩
      · simp only [azurerm.ResourceData.Set, hs]
        exact ⟨fun _ => ⟨_, _, rfl⟩, fun _ h => by simp at h⟩
    · exact ⟨fun _ => ⟨_, _, rfl⟩, fun h => by simp at h⟩

/-- Witness of the amended C9 on the instance `cache1`: `client.ListKeys` fails and the
handler returns an error; `d.Set` rejects the location and the host name, and the handler
returns a nil error. -/
theorem read_reports_checked_errors_witness :
    (∃ d' err, azurerm.dataSourceArmRedisCacheRead
      (sample.redisEnv none none (some (Error.plain "keys denied")) []) sample.redisData =
        .returned d' (some err)) ∧
    ∃ d', azurerm.dataSourceArmRedisCacheRead
      (sample.redisEnv none none none ["location", "hostname"]) sample.redisData =
        .returned d' none :=
  ⟨((read_reports_checked_errors (sample.redisEnv none none (some (Error.plain "keys denied")) [])
      sample.redisData "rg1" "cache1" (by decide) (by decide)).2 _ _ (by decide) rfl rfl).1
      (Or.inr (Or.inr (by decide))),
   ((read_reports_checked_errors (sample.redisEnv none none none ["location", "hostname"])
      sample.redisData "rg1" "cache1" (by decide) (by decide)).2 _ _ (by decide) rfl rfl).2
      (by decide) (by decide) (by decide) (by decide) (by decide)⟩

/-- Counterexample to C10 as stated: when flattening the configuration of the instance
`cache1`, whose response carries an id and properties, fails, the returned error names the
step and not the instance being read. -/
theorem read_flatten_error_omits_resource :
    azurerm.dataSourceArmRedisCacheRead
        (sample.redisEnv none (some (Error.plain "bad configuration")) none [])
        sample.redisData =
      .returned
        (azurerm.dataSourceArmRedisCacheRead
          (sample.redisEnv none (some (Error.plain "bad configuration")) none [])
          sample.redisData).data
        (some (Error.errorfWrap "Error flattening `redis_configuration`: %+v" []
          (Error.plain "bad configuration"))) ∧
    azurerm.namesResource
      (Error.errorfWrap "Error flattening `redis_configuration`: %+v" []
        (Error.plain "bad configuration")) "cache1" = false := by
  constructor <;> decide

/-- Claim C10, amended: every error the read handler returns is one of five: the not-found
and read annotations of a `client.Get` error, which name the Redis instance (and the
resource group when not found); the flattening or setting annotation of
`redis_configuration`, which name the step and no instance; or the error of
`client.ListKeys` as it is. -/
theorem read_error_annotations (env : azurerm.Env) (d d' : azurerm.ResourceData)
    (resourceGroup name : String) (err : Error)
    (hrg : d.Get "resource_group_name" = .string resourceGroup)
    (hname : d.Get "name" = .string name)
    (hread : azurerm.dataSourceArmRedisCacheRead env d = .returned d' (some err)) :
    (err = Error.errorf "Error: Redis instance %q (Resource group %q) was not found"
        [name, resourceGroup] ∧ (env.Get resourceGroup name).2 ≠ none) ∨
    (∃ e, (env.Get resourceGroup name).2 = some e ∧
      err = Error.errorfWrap "Error reading the state of Redis instance %q: %+v" [name] e) ∨
    (∃ props e, (env.Get resourceGroup name).1.Properties = some props ∧
      (env.flattenRedisConfiguration props.RedisConfiguration).2 = some e ∧
      err = Error.errorfWrap "Error flattening `redis_configuration`: %+v" [] e) ∨
    (∃ props e, (env.Get resourceGroup name).1.Properties = some props ∧
      env.SetError "redis_configuration"
        (env.flattenRedisConfiguration props.RedisConfiguration).1 = some e ∧
      err = Error.errorfWrap "Error setting `redis_configuration`: %+v" [] e) ∨
    (env.ListKeys resourceGroup name).2 = some err := by
  rcases hg : env.Get resourceGroup name with ⟨resp, _ | ge⟩
  · simp only [azurerm.dataSourceArmRedisCacheRead, hrg, hname, hg] at hread
    rcases hi : resp.ID with _ | id
    · simp [hi] at hread
    simp only [hi] at hread
    rcases hpr : resp.Properties with _ | props
    · simp [hpr] at hread
    simp only [hpr] at hread
    generalize azurerm.dataSourceArmRedisCacheRead.properties env
      (azurerm.dataSourceArmRedisCacheRead.location env (d.SetId id) resp) props = d1 at hread
    rcases hf : env.flattenRedisConfiguration props.RedisConfiguration with ⟨cfg, _ | fe⟩
    · simp only [hf] at hread
      rcases hs : env.SetError "redis_configuration" cfg with _ | se
      · simp only [azurerm.ResourceData.Set, hs] at hread
        rcases hk : env.ListKeys resourceGroup name with ⟨keys, _ | ke⟩
        · simp only [hk] at hread
          rcases hp : keys.PrimaryKey with _ | pk
          · simp [hp] at hread
          simp only [hp] at hread
          rcases hq : keys.SecondaryKey with _ | sk
          · simp [hq] at hread
          simp [hq] at hread
        · simp only [hk, azurerm.ReadResult.returned.injEq, Option.some.injEq] at hread
          exact Or.inr (Or.inr (Or.inr (Or.inr (by rw [hread.2]))))
      · simp only [azurerm.ResourceData.Set, hs] at hread
        simp only [azurerm.ReadResult.returned.injEq, Option.some.injEq] at hread
        exact Or.inr (Or.inr (Or.inr (Or.inl ⟨props, se, rfl, by rw [hf]; exact hs,
          hread.2.symm⟩)))
    · simp only [hf] at hread
      simp only [azurerm.ReadResult.returned.injEq, Option.some.injEq] at hread
      exact Or.inr (Or.inr (Or.inl ⟨props, fe, rfl, by rw [hf], hread.2.symm⟩))
  · simp only [azurerm.dataSourceArmRedisCacheRead, hrg, hname, hg] at hread
    split at hread
    · simp only [azurerm.ReadResult.returned.injEq, Option.some.injEq] at hread
      exact Or.inl ⟨hread.2.symm, by simp⟩
    · simp only [azurerm.ReadResult.returned.injEq, Option.some.injEq] at hread
      exact Or.inr (Or.inl ⟨ge, rfl, hread.2.symm⟩)

/-- Witness of the amended C10 on the instance `cache1`: flattening the configuration
fails, and the error returned is the third of the five. -/
theorem read_error_annotations_witness :
    (Error.errorfWrap "Error flattening `redis_configuration`: %+v" []
          (Error.plain "bad configuration") =
        Error.errorf "Error: Redis instance %q (Resource group %q) was not found"
          ["cache1", "rg1"] ∧
        ((sample.redisEnv none (some (Error.plain "bad configuration")) none []).Get "rg1"
          "cache1").2 ≠ none) ∨
    (∃ e,
      ((sample.redisEnv none (some (Error.plain "bad configuration")) none []).Get "rg1"
        "cache1").2 = some e ∧
      Error.errorfWrap "Error flattening `redis_configuration`: %+v" []
          (Error.plain "bad configuration") =
        Error.errorfWrap "Error reading the state of Redis instance %q: %+v" ["cache1"] e) ∨
    (∃ props e,
      ((sample.redisEnv none (some (Error.plain "bad configuration")) none []).Get "rg1"
        "cache1").1.Properties = some props ∧
      ((sample.redisEnv none (some (Error.plain "bad configuration")) none
          []).flattenRedisConfiguration props.RedisConfiguration).2 = some e ∧
      Error.errorfWrap "Error flattening `redis_configuration`: %+v" []
          (Error.plain "bad configuration") =
        Error.errorfWrap "Error flattening `redis_configuration`: %+v" [] e) ∨
    (∃ props e,
      ((sample.redisEnv none (some (Error.plain "bad configuration")) none []).Get "rg1"
        "cache1").1.Properties = some props ∧
      (sample.redisEnv none (some (Error.plain "bad configuration")) none []).SetError
        "redis_configuration"
        ((sample.redisEnv none (some (Error.plain "bad configuration")) none
            []).flattenRedisConfiguration props.RedisConfiguration).1 = some e ∧
      Error.errorfWrap "Error flattening `redis_configuration`: %+v" []
          (Error.plain "bad configuration") =
        Error.errorfWrap "Error setting `redis_configuration`: %+v" [] e) ∨
    ((sample.redisEnv none (some (Error.plain "bad configuration")) none []).ListKeys "rg1"
      "cache1").2 =
      some (Error.errorfWrap "Error flattening `redis_configuration`: %+v" []
        (Error.plain "bad configuration")) :=
  read_error_annotations (sample.redisEnv none (some (Error.plain "bad configuration")) none [])
    sample.redisData
    (azurerm.dataSourceArmRedisCacheRead
      (sample.redisEnv none (some (Error.plain "bad configuration")) none [])
      sample.redisData).data
    "rg1" "cache1" _ (by decide) (by decide) (by decide)

/-- Counterexample to C11 as stated: every request of the exchange is answered with status
201, so the initiating call of `ElasticPoolsClient.UpdateSender` succeeds with status 201,
and the sender returns the unexpected-status error. -/
theorem update_sender_rejects_created :
    (sql.ElasticPoolsClient.UpdateSender
        (sample.env (.ok sample.request) (.ok (sample.response 201 "")) (.ok none))
        sample.poller sample.elasticPoolsClient sample.request).err =
      some (Error.unexpectedStatus 201 "") := by
  decide

/-- Claim C11, amended: every long-running-operation sender creates the future for the
request, calls `future.Done` once and judges what the call left: it returns the error of
`Done` when there is one, and otherwise returns a nil error whenever the status of the
response the future holds is in the set the sender itself declares: 200, 201 and 202 for
the CreateOrUpdate senders, 200 and 202 for the Update and RefreshMemberSchema senders,
200, 202 and 204 for the Delete sender. -/
theorem lro_sender_accepts_own_codes (c : LroSenderCase) (hc : c ∈ lroSenders)
    (env : autorest.Env) (penv : azure.Env) (client : c.Receiver) (req : http.Request) :
    c.run env penv client req =
      c.after env { Future := azure.NewFuture req, req := some req }
        ((azure.NewFuture req).Done penv
          (autorest.DecorateSender env (c.client client)
            [azure.DoRetryWithRegistration (c.client client)])) ∧
    (∀ (future : sql.OperationFuture) (polled : azure.Polled) (e : Error),
      polled.err = some e → (c.after env future polled).err = some e) ∧
    (∀ (future : sql.OperationFuture) (polled : azure.Polled) (resp : http.Response),
      polled.err = none → polled.future.Response = some resp → resp.StatusCode ∈ c.codes →
      (c.after env future polled).err = none) ∧
    (c.Name = "CreateOrUpdateSender" → c.codes = [200, 201, 202]) ∧
    (c.Name = "UpdateSender" ∨ c.Name = "RefreshMemberSchemaSender" → c.codes = [200, 202]) ∧
    (c.Name = "DeleteSender" → c.codes = [200, 202, 204]) := by
  simp only [lroSenders, List.mem_cons, List.mem_singleton, List.not_mem_nil, or_false] at hc
  rcases hc with rfl | rfl | rfl | rfl | rfl | rfl | rfl <;>
  · refine ⟨rfl, ?_, ?_, by decide, by decide, by decide⟩
    · intro future polled e he
      simp only [sql.ElasticPoolsClient.CreateOrUpdateSender.after,
        sql.ElasticPoolsClient.UpdateSender.after,
        sql.BackupLongTermRetentionPoliciesClient.CreateOrUpdateSender.after,
        sql.SyncMembersClient.CreateOrUpdateSender.after,
        sql.SyncMembersClient.DeleteSender.after,
        sql.SyncMembersClient.RefreshMemberSchemaSender.after,
        sql.SyncMembersClient.UpdateSender.after, he]
    · intro future polled resp he hr hcode
      simp only [sql.ElasticPoolsClient.CreateOrUpdateSender.after,
        sql.ElasticPoolsClient.UpdateSender.after,
        sql.BackupLongTermRetentionPoliciesClient.CreateOrUpdateSender.after,
        sql.SyncMembersClient.CreateOrUpdateSender.after,
        sql.SyncMembersClient.DeleteSender.after,
        sql.SyncMembersClient.RefreshMemberSchemaSender.after,
        sql.SyncMembersClient.UpdateSender.after, he, sql.OperationFuture.Response, hr,
        autorest.Respond, List.foldl, autorest.RespondDecorator.apply,
        azure.WithErrorUnlessStatusCode]
      simp only at hcode
      simp [hcode]

/-- Witness of the amended C11 on `ElasticPoolsClient.UpdateSender`: every request is
answered with status 200 and the sender returns a nil error; the connection fails and the
sender returns the error of `Done`. -/
theorem lro_sender_accepts_own_codes_witness :
    (sql.ElasticPoolsClient.UpdateSender
        (sample.env (.ok sample.request) (.ok (sample.response 200 "")) (.ok none))
        sample.poller sample.elasticPoolsClient sample.request).err = none ∧
    (sql.ElasticPoolsClient.UpdateSender
        (sample.env (.ok sample.request) (.failed none (Error.plain "connection reset"))
          (.ok none))
        sample.poller sample.elasticPoolsClient sample.request).err =
      some (Error.plain "connection reset") :=
  ⟨(congrArg (fun o : autorest.Outcome sql.OperationFuture => o.err)
      (lro_sender_accepts_own_codes (lroSenders.get ⟨1, by decide⟩) (List.get_mem _ _ _)
        (sample.env (.ok sample.request) (.ok (sample.response 200 "")) (.ok none))
        sample.poller sample.elasticPoolsClient sample.request).1).trans
      ((lro_sender_accepts_own_codes (lroSenders.get ⟨1, by decide⟩) (List.get_mem _ _ _)
        (sample.env (.ok sample.request) (.ok (sample.response 200 "")) (.ok none))
        sample.poller sample.elasticPoolsClient sample.request).2.2.1 _ _
        (sample.response 200 "") (by decide) (by decide) (by decide)),
   (congrArg (fun o : autorest.Outcome sql.OperationFuture => o.err)
      (lro_sender_accepts_own_codes (lroSenders.get ⟨1, by decide⟩) (List.get_mem _ _ _)
        (sample.env (.ok sample.request) (.failed none (Error.plain "connection reset"))
          (.ok none))
        sample.poller sample.elasticPoolsClient sample.request).1).trans
      ((lro_sender_accepts_own_codes (lroSenders.get ⟨1, by decide⟩) (List.get_mem _ _ _)
        (sample.env (.ok sample.request) (.failed none (Error.plain "connection reset"))
          (.ok none))
        sample.poller sample.elasticPoolsClient sample.request).2.1 _ _
        (Error.plain "connection reset") (by decide))⟩

/-- Counterexample to C15 as stated: `ElasticPoolsClient.CreateOrUpdate` returns the error
of an initial response with status 404 and a JSON error body annotated with "Failure
sending request", the annotation it also uses when the request could not be sent. -/
theorem lro_status_error_names_sending :
    (∃ e status,
      (sql.ElasticPoolsClient.CreateOrUpdate
          (sample.env (.ok sample.request)
            (.ok (sample.response 404
              "\x7b\"error\":\x7b\"code\":\"NotFound\",\"message\":\"not found\"\x7d\x7d"))
            (.ok none))
          sample.poller sample.elasticPoolsClient "rg1" "server1" "pool1"
          autorest.Model.zero).err =
        some (Error.detailed e "sql.ElasticPoolsClient" "CreateOrUpdate" status
          "Failure sending request")) ∧
    ∃ e status,
      (sql.ElasticPoolsClient.CreateOrUpdate
          (sample.env (.ok sample.request) (.failed none (Error.plain "connection reset"))
            (.ok none))
          sample.poller sample.elasticPoolsClient "rg1" "server1" "pool1"
          autorest.Model.zero).err =
        some (Error.detailed e "sql.ElasticPoolsClient" "CreateOrUpdate" status
          "Failure sending request") :=
  ⟨⟨_, _, rfl⟩, ⟨_, _, rfl⟩⟩

/-- Claim C15, amended: every long-running operation that passes its own validation hands
the error of its preparer to `autorest.NewErrorWithError` with the client type, the
operation and "Failure preparing request", and every error of its sender with the client
type, the operation, the response the future holds and "Failure sending request"; it
returns a nil error when the sender does. The sender is the call of `future.Done` followed
by the check of the status of the response the future holds, so the error of a status
outside the accepted set is an error of the sender: no error is annotated with a
responding stage. -/
theorem lro_operation_error_stages (op : LroOperation) (hop : op ∈ lroOperations)
    (env : autorest.Env) (penv : azure.Env) (a : op.Args)
    (hvalid : op.validation a = none) :
    (∀ e, op.prepare env a = .error e →
      (op.run env penv a).err =
        some (autorest.NewErrorWithError e op.PackageType op.Method none
          "Failure preparing request") ∧
      (op.run env penv a).sent = []) ∧
    (∀ req, op.prepare env a = .ok req →
      (∀ e, (op.send env penv a req).err = some e →
        (op.run env penv a).err =
          some (autorest.NewErrorWithError e op.PackageType op.Method
            (op.send env penv a req).result.Response "Failure sending request")) ∧
      ((op.send env penv a req).err = none → (op.run env penv a).err = none)) ∧
    (∀ req, op.send env penv a req =
      op.after env { Future := azure.NewFuture req, req := some req }
        ((azure.NewFuture req).Done penv
          (autorest.DecorateSender env (op.client a)
            [azure.DoRetryWithRegistration (op.client a)]))) ∧
    (∀ (future : sql.OperationFuture) (polled : azure.Polled) (resp : http.Response),
      polled.err = none → polled.future.Response = some resp → resp.StatusCode ∉ op.codes →
      (op.after env future polled).err =
        some (Error.unexpectedStatus resp.StatusCode resp.Body)) := by
  simp only [lroOperations, List.mem_cons, List.mem_singleton, List.not_mem_nil, or_false] at hop
  rcases hop with rfl | rfl | rfl | rfl | rfl | rfl | rfl <;>
  · refine ⟨?_, ?_, fun _ => rfl, ?_⟩
    · intro e hp
      simp only [sql.ElasticPoolsClient.CreateOrUpdate, sql.ElasticPoolsClient.Update,
        sql.BackupLongTermRetentionPoliciesClient.CreateOrUpdate,
        sql.SyncMembersClient.CreateOrUpdate, sql.SyncMembersClient.Delete,
        sql.SyncMembersClient.RefreshMemberSchema, sql.SyncMembersClient.Update] at *
      simp_all
    · intro req hp
      simp only [sql.ElasticPoolsClient.CreateOrUpdate, sql.ElasticPoolsClient.Update,
        sql.BackupLongTermRetentionPoliciesClient.CreateOrUpdate,
        sql.SyncMembersClient.CreateOrUpdate, sql.SyncMembersClient.Delete,
        sql.SyncMembersClient.RefreshMemberSchema, sql.SyncMembersClient.Update] at *
      simp only [hp, hvalid]
      constructor
      · intro e he
        simp only [he]
      · intro he
        simp only [he]
    · intro future polled resp he hr hcode
      simp only [sql.ElasticPoolsClient.CreateOrUpdateSender.after,
        sql.ElasticPoolsClient.UpdateSender.after,
        sql.BackupLongTermRetentionPoliciesClient.CreateOrUpdateSender.after,
        sql.SyncMembersClient.CreateOrUpdateSender.after,
        sql.SyncMembersClient.DeleteSender.after,
        sql.SyncMembersClient.RefreshMemberSchemaSender.after,
        sql.SyncMembersClient.UpdateSender.after, he, sql.OperationFuture.Response, hr,
        autorest.Respond, List.foldl, autorest.RespondDecorator.apply,
        azure.WithErrorUnlessStatusCode]
      simp only at hcode
      simp [hcode]

/-- Witness of the amended C15 on `SyncMembersClient.Delete`: a response with status 404
and a JSON error body, and a connection that fails; both errors carry "Failure sending
request". -/
theorem lro_operation_error_stages_witness :
    (∃ e status,
      (sql.SyncMembersClient.Delete
          (sample.env (.ok sample.request)
            (.ok (sample.response 404
              "\x7b\"error\":\x7b\"code\":\"NotFound\",\"message\":\"not found\"\x7d\x7d"))
            (.ok none))
          sample.poller sample.syncMembersClient "rg1" "server1" "db1" "group1"
          "member1").err =
        some (Error.detailed e "sql.SyncMembersClient" "Delete" status
          "Failure sending request")) ∧
    ∃ e status,
      (sql.SyncMembersClient.Delete
          (sample.env (.ok sample.request) (.failed none (Error.plain "connection reset"))
            (.ok none))
          sample.poller sample.syncMembersClient "rg1" "server1" "db1" "group1"
          "member1").err =
        some (Error.detailed e "sql.SyncMembersClient" "Delete" status
          "Failure sending request") :=
  ⟨⟨_, _, ((lro_operation_error_stages (lroOperations.get ⟨4, by decide⟩) (List.get_mem _ _ _)
      (sample.env (.ok sample.request)
        (.ok (sample.response 404
          "\x7b\"error\":\x7b\"code\":\"NotFound\",\"message\":\"not found\"\x7d\x7d"))
        (.ok none))
      sample.poller (sample.syncMembersClient, "rg1", "server1", "db1", "group1", "member1")
      rfl).2.1 sample.request rfl).1
      (Error.unexpectedStatus 404
        "\x7b\"error\":\x7b\"code\":\"NotFound\",\"message\":\"not found\"\x7d\x7d") rfl⟩,
   ⟨_, _, ((lro_operation_error_stages (lroOperations.get ⟨4, by decide⟩) (List.get_mem _ _ _)
      (sample.env (.ok sample.request) (.failed none (Error.plain "connection reset"))
        (.ok none))
      sample.poller (sample.syncMembersClient, "rg1", "server1", "db1", "group1", "member1")
      rfl).2.1 sample.request rfl).1 (Error.plain "connection reset") rfl⟩⟩

/-- Claim C18: the iterator a `...Complete` operation returns is built from the call of its
list operation: it holds the page and the fetch function that call returned, starts at the
first item of the page, and the operation returns the error and the sent requests of the
call; the fetch function is the one of the operation once validation has passed. For every
finite chain of pages linked by next links and ending in a page with no next link,
iterating with enough fetches yields the items of every page, in page order, and then
terminates. -/
theorem complete_iterator_yields_all (c : CompleteCase) (hc : c ∈ completeOperations)
    (env : autorest.Env) (a : c.Args) :
    (c.run env a).result.i = 0 ∧
    ((c.run env a).result.page = (c.list env a).result.2 ∧
      (c.run env a).result.fn = (c.list env a).result.1 ∧
      (c.run env a).err = (c.list env a).err ∧
      (c.run env a).sent = (c.list env a).sent) ∧
    (c.validation a = none → (c.run env a).result.fn = some (c.fetch env a)) ∧
    ∀ (pages : List autorest.Model) (fuel : Nat),
      autorest.linked (c.run env a).result.fn (c.run env a).result.nextLink
        ((c.list env a).result.2 :: pages) = true →
      pages.length ≤ fuel →
      (c.run env a).result.collect fuel =
        { items := autorest.itemsOf ((c.list env a).result.2 :: pages), err := none,
          done := true } := by
  have hi : (c.run env a).result.i = 0 := by
    simp only [completeOperations, List.mem_cons, List.mem_singleton, List.not_mem_nil,
      or_false] at hc
    rcases hc with rfl | rfl | rfl | rfl <;> rfl
  have hlist : (c.run env a).result.page = (c.list env a).result.2 ∧
      (c.run env a).result.fn = (c.list env a).result.1 ∧
      (c.run env a).err = (c.list env a).err ∧
      (c.run env a).sent = (c.list env a).sent := by
    simp only [completeOperations, List.mem_cons, List.mem_singleton, List.not_mem_nil,
      or_false] at hc
    rcases hc with rfl | rfl | rfl | rfl <;> exact ⟨rfl, rfl, rfl, rfl⟩
  refine ⟨hi, hlist, ?_, ?_⟩
  · simp only [completeOperations, List.mem_cons, List.mem_singleton, List.not_mem_nil,
      or_false] at hc
    rcases hc with rfl | rfl | rfl | rfl <;>
    · intro hv
      simp only [automation.WebhookClient.ListByAutomationAccountComplete,
        automation.WebhookClient.ListByAutomationAccount,
        graphrbac.ObjectsClient.GetObjectsByObjectIdsComplete,
        graphrbac.ObjectsClient.GetObjectsByObjectIds,
        sql.SyncMembersClient.ListBySyncGroupComplete, sql.SyncMembersClient.ListBySyncGroup,
        sql.SyncMembersClient.ListMemberSchemasComplete,
        sql.SyncMembersClient.ListMemberSchemas,
        automation.WebhookListResultIterator.Lister, graphrbac.GetObjectsResultIterator.Lister,
        sql.SyncMemberListResultIterator.Lister,
        sql.SyncFullSchemaPropertiesListResultIterator.Lister] at *
      (try simp only [hv])
      repeat' split
      all_goals rfl
  · intro pages fuel hl hf
    rw [← hlist.1] at hl ⊢
    have := autorest.drain_linked _ _ pages _ (c.run env a).result.i fuel hl hf
    rw [hi] at this
    simp only [autorest.Lister.collect, hi, this, List.drop_zero, autorest.itemsOf]

/-- Witness of C18 on `WebhookClient.ListByAutomationAccountComplete`: the list call
returns a first page with two items and a next link, the fetch after it a second page with
one item and no link; the iterator yields the three items and terminates. -/
theorem complete_iterator_yields_all_witness :
    (automation.WebhookClient.ListByAutomationAccountComplete sample.pagedEnv
        sample.webhookClient "rg1" "account1" "").result.Lister.collect 1 =
      { items := ["a", "b", "c"], err := none, done := true } :=
  (complete_iterator_yields_all (completeOperations.get ⟨0, by decide⟩) (List.get_mem _ _ _)
    sample.pagedEnv (sample.webhookClient, "rg1", "account1", "")).2.2.2
    [{ toPayload := sample.secondPage,
       Response := { Response := some { StatusCode := 200, Body := "second", Closed := 1 } } }]
    1 (by rfl) (by decide)

/-- Counterexample to C19 as stated: with `client.RetryAttempts` set to 0,
`ObjectsClient.GetCurrentUserSender` still issues the request once, which is more than
`client.RetryAttempts` attempts, and returns the answer of the wire to that attempt. -/
theorem objects_sender_sends_without_attempts :
    sample.objectsClientNoRetry.Client.RetryAttempts = 0 ∧
    graphrbac.ObjectsClient.GetCurrentUserSender
        { sample.pagedEnv with
          SendWithSender :=
            autorest.SendWithSender sample.retryPolicy 10 (sample.wire [503, 200]) }
        sample.objectsClientNoRetry sample.request = .ok (sample.response 503 "") ∧
    (autorest.sendWithRetry
        (sample.retryPolicy (autorest.DoRetryForStatusCodes 0 30 autorest.StatusCodesForRetry))
        (sample.wire [503, 200]) sample.request 10 0).sent = [sample.request] := by
  refine ⟨?_, ?_, ?_⟩ <;> decide

/-- Claim C19, amended: every sender of `ObjectsClient` passes the retry decorator with
`client.RetryAttempts`, `client.RetryDuration` and the default status codes, which include
429 and the codes 500, 502, 503 and 504. Over a wire, whatever retry policy the decorator
stands for, the sender issues the request at least once, issues nothing but that request,
and, when the policy asks for a retry after each of the first `k` answers and for none
after the next, issues it `k + 1` times and returns the last answer unmodified; the
requests issued depend on the answers only through their status codes. -/
theorem objects_senders_retry_by_policy
    (s : String × (autorest.Env → graphrbac.ObjectsClient → http.Request → autorest.SendResult))
    (hs : s ∈ graphrbac.objectsSenders) (base : autorest.Env)
    (policy : autorest.SendDecorator → autorest.RetryPolicy) (deadline : Nat)
    (transport : Nat → autorest.Sender) (client : graphrbac.ObjectsClient)
    (req : http.Request) :
    (∀ env : autorest.Env, s.2 env client req =
      env.SendWithSender client.Client req
        [autorest.DoRetryForStatusCodes client.Client.RetryAttempts
          client.Client.RetryDuration autorest.StatusCodesForRetry]) ∧
    (∀ code ∈ [429, 500, 502, 503, 504], code ∈ autorest.StatusCodesForRetry) ∧
    s.2 { base with SendWithSender := autorest.SendWithSender policy deadline transport }
        client req =
      (autorest.sendWithRetry
        (policy (autorest.DoRetryForStatusCodes client.Client.RetryAttempts
          client.Client.RetryDuration autorest.StatusCodesForRetry))
        transport req deadline 0).result ∧
    1 ≤ (autorest.sendWithRetry
        (policy (autorest.DoRetryForStatusCodes client.Client.RetryAttempts
          client.Client.RetryDuration autorest.StatusCodesForRetry))
        transport req deadline 0).sent.length ∧
    (∀ q ∈ (autorest.sendWithRetry
        (policy (autorest.DoRetryForStatusCodes client.Client.RetryAttempts
          client.Client.RetryDuration autorest.StatusCodesForRetry))
        transport req deadline 0).sent, q = req) ∧
    (∀ k, k ≤ deadline →
      (∀ j, j < k →
        policy (autorest.DoRetryForStatusCodes client.Client.RetryAttempts
          client.Client.RetryDuration autorest.StatusCodesForRetry)
          (transport j req).status j = true) →
      policy (autorest.DoRetryForStatusCodes client.Client.RetryAttempts
          client.Client.RetryDuration autorest.StatusCodesForRetry)
        (transport k req).status k = false →
      (autorest.sendWithRetry
          (policy (autorest.DoRetryForStatusCodes client.Client.RetryAttempts
            client.Client.RetryDuration autorest.StatusCodesForRetry))
          transport req deadline 0).sent = List.replicate (k + 1) req ∧
        s.2 { base with SendWithSender := autorest.SendWithSender policy deadline transport }
          client req = transport k req) ∧
    (∀ transport' : Nat → autorest.Sender,
      (∀ k, (transport' k req).status = (transport k req).status) →
      (autorest.sendWithRetry
          (policy (autorest.DoRetryForStatusCodes client.Client.RetryAttempts
            client.Client.RetryDuration autorest.StatusCodesForRetry))
          transport' req deadline 0).sent =
        (autorest.sendWithRetry
          (policy (autorest.DoRetryForStatusCodes client.Client.RetryAttempts
            client.Client.RetryDuration autorest.StatusCodesForRetry))
          transport req deadline 0).sent) := by
  have hrun : ∀ env : autorest.Env, s.2 env client req =
      env.SendWithSender client.Client req
        [autorest.DoRetryForStatusCodes client.Client.RetryAttempts
          client.Client.RetryDuration autorest.StatusCodesForRetry] := by
    intro env
    simp only [graphrbac.objectsSenders, List.mem_cons, List.mem_singleton, List.not_mem_nil,
      or_false] at hs
    rcases hs with rfl | rfl | rfl <;> rfl
  have hres : s.2 { base with SendWithSender := autorest.SendWithSender policy deadline transport }
        client req =
      (autorest.sendWithRetry
        (policy (autorest.DoRetryForStatusCodes client.Client.RetryAttempts
          client.Client.RetryDuration autorest.StatusCodesForRetry))
        transport req deadline 0).result := by
    rw [hrun]
    rfl
  refine ⟨hrun, by decide, hres,
    (autorest.sendWithRetry_sent _ transport req deadline 0).1,
    (autorest.sendWithRetry_sent _ transport req deadline 0).2.2, ?_, ?_⟩
  · intro k hk hretry hstop
    have h := autorest.sendWithRetry_stop _ transport req k deadline 0 hk
      (fun j hj => by simpa using hretry j hj) (by simpa using hstop)
    rw [hres, h]
    simp
  · intro transport' h
    exact autorest.sendWithRetry_sent_congr _ transport transport' req h deadline 0

/-- Witness of the amended C19 on `ObjectsClient.GetCurrentUserSender` with three retry
attempts: the wire answers 503 and then 200; the request is issued twice and the second
answer is returned. -/
theorem objects_senders_retry_by_policy_witness :
    (autorest.sendWithRetry
        (sample.retryPolicy (autorest.DoRetryForStatusCodes 3 30 autorest.StatusCodesForRetry))
        (sample.wire [503, 200]) sample.request 10 0).sent =
      [sample.request, sample.request] ∧
    graphrbac.ObjectsClient.GetCurrentUserSender
        { sample.pagedEnv with
          SendWithSender :=
            autorest.SendWithSender sample.retryPolicy 10 (sample.wire [503, 200]) }
        sample.objectsClient sample.request = .ok (sample.response 200 "") :=
  (objects_senders_retry_by_policy (graphrbac.objectsSenders.get ⟨0, by decide⟩)
    (List.get_mem _ _ _) sample.pagedEnv sample.retryPolicy 10 (sample.wire [503, 200])
    sample.objectsClient sample.request).2.2.2.2.2.1 1 (by decide)
    (fun j hj => by
      have h0 : j = 0 := by omega
      subst h0
      decide)
    (by decide)

/-- Claim C27, the divergence: when `client.Get` and `client.ListKeys` return nil errors,
the read handler panics on a nil pointer exactly when `resp.ID` is nil, when the response
holds no properties (the read of `resp.Sku` dereferences them), or when, the Redis
configuration being flattened and set, `keys.PrimaryKey` or `keys.SecondaryKey` is
nil. -/
theorem read_panics_on_absent_pointer (env : azurerm.Env) (d : azurerm.ResourceData)
    (resourceGroup name : String) (resp : azurerm.ResourceType) (keys : azurerm.AccessKeys)
    (hrg : d.Get "resource_group_name" = .string resourceGroup)
    (hname : d.Get "name" = .string name)
    (hget : env.Get resourceGroup name = (resp, none))
    (hkeys : env.ListKeys resourceGroup name = (keys, none)) :
    (resp.ID = none → azurerm.dataSourceArmRedisCacheRead env d = .panicked d) ∧
    ((∃ d', azurerm.dataSourceArmRedisCacheRead env d = .panicked d') ↔
      resp.ID = none ∨ resp.Properties = none ∨
      ∃ props, resp.Properties = some props ∧
        (env.flattenRedisConfiguration props.RedisConfiguration).2 = none ∧
        env.SetError "redis_configuration"
          (env.flattenRedisConfiguration props.RedisConfiguration).1 = none ∧
        (keys.PrimaryKey = none ∨ keys.SecondaryKey = none)) := by
  rcases hi : resp.ID with _ | id
  · have hp : azurerm.dataSourceArmRedisCacheRead env d = .panicked d := by
      simp only [azurerm.dataSourceArmRedisCacheRead, hrg, hname, hget, hi]
    exact ⟨fun _ => hp, ⟨fun _ => Or.inl rfl, fun _ => ⟨d, hp⟩⟩⟩
  · refine ⟨fun h => absurd h (by simp), ?_⟩
    simp only [azurerm.dataSourceArmRedisCacheRead, hrg, hname, hget, hi, hkeys]
    rcases hpr : resp.Properties with _ | props
    · simp
    simp only
    generalize azurerm.dataSourceArmRedisCacheRead.properties env
      (azurerm.dataSourceArmRedisCacheRead.location env (d.SetId id) resp) props = d1
    rcases hf : env.flattenRedisConfiguration props.RedisConfiguration with ⟨cfg, _ | fe⟩
    · rcases hs : env.SetError "redis_configuration" cfg with _ | se
      · simp only [azurerm.ResourceData.Set, hs]
        rcases hp : keys.PrimaryKey with _ | pk
        · simp [hf, hs]
        · rcases hq : keys.SecondaryKey with _ | sk
          · simp [hf, hs]
          · simp
      · simp [azurerm.ResourceData.Set, hf, hs]
    · simp [hf]

/-- Witness of the divergence of C27: a response without an id, and, for the instance
`cache1` with its properties, access keys without the secondary key. -/
theorem read_panics_on_absent_pointer_witness :
    azurerm.dataSourceArmRedisCacheRead
        { sample.redisEnv none none none [] with
          Get := fun _ _ => ({ sample.redisResource with ID := none }, none) }
        sample.redisData = .panicked sample.redisData ∧
    ∃ d', azurerm.dataSourceArmRedisCacheRead
        { sample.redisEnv none none none [] with
          ListKeys := fun _ _ => ({ PrimaryKey := some "key-1", SecondaryKey := none }, none) }
        sample.redisData = .panicked d' :=
  ⟨(read_panics_on_absent_pointer
      { sample.redisEnv none none none [] with
        Get := fun _ _ => ({ sample.redisResource with ID := none }, none) }
      sample.redisData "rg1" "cache1" { sample.redisResource with ID := none }
      sample.redisKeys (by decide) (by decide) rfl rfl).1 rfl,
   (read_panics_on_absent_pointer
      { sample.redisEnv none none none [] with
        ListKeys := fun _ _ => ({ PrimaryKey := some "key-1", SecondaryKey := none }, none) }
      sample.redisData "rg1" "cache1" sample.redisResource
      { PrimaryKey := some "key-1", SecondaryKey := none } (by decide) (by decide) rfl rfl).2.2
      (Or.inr (Or.inr ⟨_, rfl, rfl, rfl, Or.inr rfl⟩))⟩

/-- Claim C28: when `flattenAndSetTags` writes the tags only, the resource data the read
handler leaves, whether it returns or panics, holds the attributes of a group whose source
is nil as they were: "location" without a location, "zones" without zones, the three
attributes of the SKU when the properties hold no SKU, the eight attributes of the
properties without properties, and "shard_count" with properties that hold no shard count.
Without properties the handler stops at the read of `resp.Sku`, so the SKU attributes are
untouched then too. -/
theorem read_writes_only_present_groups (env : azurerm.Env) (d : azurerm.ResourceData)
    (resourceGroup name : String) (resp : azurerm.ResourceType)
    (hrg : d.Get "resource_group_name" = .string resourceGroup)
    (hname : d.Get "name" = .string name)
    (hget : (env.Get resourceGroup name).1 = resp)
    (htags : ∀ (d0 : azurerm.ResourceData) (tags : List (String × String)) (key : String),
      key ≠ "tags" →
        (env.flattenAndSetTags d0 tags).Attributes.lookup key = d0.Attributes.lookup key) :
    (resp.Location = none →
      (azurerm.dataSourceArmRedisCacheRead env d).data.Attributes.lookup "location" =
        d.Attributes.lookup "location") ∧
    (resp.Zones = none →
      (azurerm.dataSourceArmRedisCacheRead env d).data.Attributes.lookup "zones" =
        d.Attributes.lookup "zones") ∧
    ((∀ props, resp.Properties = some props → props.Sku = none) →
      ∀ key ∈ ["capacity", "family", "sku_name"],
        (azurerm.dataSourceArmRedisCacheRead env d).data.Attributes.lookup key =
          d.Attributes.lookup key) ∧
    (resp.Properties = none →
      ∀ key ∈ ["ssl_port", "hostname", "minimum_tls_version", "port", "enable_non_ssl_port",
        "shard_count", "private_static_ip_address", "subnet_id"],
        (azurerm.dataSourceArmRedisCacheRead env d).data.Attributes.lookup key =
          d.Attributes.lookup key) ∧
    (∀ props, resp.Properties = some props → props.ShardCount = none →
      (azurerm.dataSourceArmRedisCacheRead env d).data.Attributes.lookup "shard_count" =
        d.Attributes.lookup "shard_count") := by
  have key_of : ∀ key : String, key ≠ "redis_configuration" → key ≠ "primary_access_key" →
      key ≠ "secondary_access_key" → key ≠ "tags" →
      (resp.Location = none ∨ key ≠ "location") →
      (resp.Zones = none ∨ key ≠ "zones") →
      (∀ p, resp.Properties = some p →
        (p.Sku = none ∨ (key ≠ "capacity" ∧ key ≠ "family" ∧ key ≠ "sku_name")) ∧
        (key ≠ "ssl_port" ∧ key ≠ "hostname" ∧ key ≠ "minimum_tls_version" ∧ key ≠ "port" ∧
          key ≠ "enable_non_ssl_port" ∧ key ≠ "private_static_ip_address" ∧
          key ≠ "subnet_id") ∧
        (p.ShardCount = none ∨ key ≠ "shard_count")) →
      (azurerm.dataSourceArmRedisCacheRead env d).data.Attributes.lookup key =
        d.Attributes.lookup key := by
    intro key h1 h2 h3 h4 hloc hzones hprops
    rw [azurerm.read_data_lookup env d resourceGroup name hrg hname htags key h1 h2 h3 h4,
      hget]
    rcases (env.Get resourceGroup name).2 with _ | ge
    · rcases hi : resp.ID with _ | id
      · rfl
      · rcases hp : resp.Properties with _ | props
        · simp only
          rw [azurerm.location_lookup env _ resp key hloc hzones]
          rfl
        · simp only
          obtain ⟨hsku, hrest, hshard⟩ := hprops props hp
          rw [azurerm.properties_lookup env _ props key hsku hrest hshard,
            azurerm.location_lookup env _ resp key hloc hzones]
          rfl
    · rfl
  refine ⟨?_, ?_, ?_, ?_, ?_⟩
  · intro h
    exact key_of "location" (by decide) (by decide) (by decide) (by decide) (Or.inl h)
      (Or.inr (by decide)) (fun _ _ => ⟨Or.inr (by decide), by decide, Or.inr (by decide)⟩)
  · intro h
    exact key_of "zones" (by decide) (by decide) (by decide) (by decide) (Or.inr (by decide))
      (Or.inl h) (fun _ _ => ⟨Or.inr (by decide), by decide, Or.inr (by decide)⟩)
  · intro h key hkey
    simp only [List.mem_cons, List.mem_singleton, List.not_mem_nil, or_false] at hkey
    rcases hkey with rfl | rfl | rfl <;>
      exact key_of _ (by decide) (by decide) (by decide) (by decide) (Or.inr (by decide))
        (Or.inr (by decide))
        (fun p hp => ⟨Or.inl (h p hp), by decide, Or.inr (by decide)⟩)
  · intro h key hkey
    simp only [List.mem_cons, List.mem_singleton, List.not_mem_nil, or_false] at hkey
    rcases hkey with rfl | rfl | rfl | rfl | rfl | rfl | rfl | rfl <;>
      exact key_of _ (by decide) (by decide) (by decide) (by decide) (Or.inr (by decide))
        (Or.inr (by decide)) (fun p hp => by rw [h] at hp; cases hp)
  · intro props hp hs
    exact key_of "shard_count" (by decide) (by decide) (by decide) (by decide)
      (Or.inr (by decide)) (Or.inr (by decide))
      (fun p hp' => by
        rw [hp] at hp'
        cases hp'
        exact ⟨Or.inr (by decide), by decide, Or.inl hs⟩)

/-- Witness of C28 on the instance `cache1`, whose response holds properties without a
shard count and no zones: the zones and the shard count set before the read are still
there after it. -/
theorem read_writes_only_present_groups_witness :
    (azurerm.dataSourceArmRedisCacheRead (sample.redisEnv none none none [])
        { Id := "",
          Attributes :=
            [("resource_group_name", .string "rg1"), ("name", .string "cache1"),
              ("zones", .stringsPtr (some ["1"])),
              ("shard_count", .int32Ptr (some 2))] }).data.Attributes.lookup "zones" =
      some (.stringsPtr (some ["1"])) ∧
    (azurerm.dataSourceArmRedisCacheRead (sample.redisEnv none none none [])
        { Id := "",
          Attributes :=
            [("resource_group_name", .string "rg1"), ("name", .string "cache1"),
              ("zones", .stringsPtr (some ["1"])),
              ("shard_count", .int32Ptr (some 2))] }).data.Attributes.lookup "shard_count" =
      some (.int32Ptr (some 2)) :=
  ⟨(read_writes_only_present_groups (sample.redisEnv none none none [])
      { Id := "",
        Attributes :=
          [("resource_group_name", .string "rg1"), ("name", .string "cache1"),
            ("zones", .stringsPtr (some ["1"])), ("shard_count", .int32Ptr (some 2))] }
      "rg1" "cache1" sample.redisResource (by decide) (by decide) rfl
      (fun _ _ _ _ => rfl)).2.1 rfl,
   (read_writes_only_present_groups (sample.redisEnv none none none [])
      { Id := "",
        Attributes :=
          [("resource_group_name", .string "rg1"), ("name", .string "cache1"),
            ("zones", .stringsPtr (some ["1"])), ("shard_count", .int32Ptr (some 2))] }
      "rg1" "cache1" sample.redisResource (by decide) (by decide) rfl
      (fun _ _ _ _ => rfl)).2.2.2.2 _ rfl rfl⟩
